import Mathlib

/-!
# DHSVM `InitConstants` : a shallow embedding

Source: `DHSVM3.1.2/sourcecode/InitConstants.c`.

The routine reads 63 key/entry pairs of the configuration into `StrEnv[i].VarStr`
and then, in one linear pass, decodes them into `Options`, `Map`, `SolarGeo`,
`Time` and the process-wide constants.  `ReportError` and `exit` terminate the
process, so the pass is embedded as a function into `Except Failure State`.

Conventions of the embedding

* a C string is the list of its characters before the terminating NUL;
* `float` and `double` are the IEEE 754 formats binary32 and binary64, rounded to
  nearest with ties to even, and an expression is evaluated in the type of its
  operands; a value that a routine parses is the rational number it stands for;
* `int` is 32 bits wide; a conversion to `int` of a value that does not fit is
  left to the platform (`COLLABORATORS.IntOutOfRange`);
* `unsigned char` fields are natural numbers;
* the preprocessor constants of the headers (not part of the translated file) are
  the fields of `SETTINGS`; the library routines the pass calls are the fields of
  `COLLABORATORS`.
-/

namespace DHSVM

/-! ## Constants of the headers -/

/-- Preprocessor constants of `settings.h` and `constants.h` that `InitConstants`
mentions.  The headers are not part of the translated file, so the values are
parameters of the embedding. -/
structure SETTINGS where
  TRUE : Int
  FALSE : Int
  BIN : Int
  NETCDF : Int
  BYTESWAP : Int
  POINT : Int
  BASIN : Int
  TOPOGRAPHY : Int
  WATERTABLE : Int
  NOT_APPLICABLE : Int
  INVDIST : Int
  NEAREST : Int
  VARCRESS : Int
  STATIC : Int
  DYNAMIC : Int
  FIXED : Int
  VARIABLE : Int
  RADAR : Int
  STATION : Int
  MODEL : Int
  CONSTANT : Int
  MAP : Int
  BUFSIZE : Nat
  RADPDEG : ℚ
  SECPHOUR : ℚ
deriving DecidableEq

/-- The constants the pass compares a freshly assigned field against are pairwise
different: the two truth values, the two extents, the interpolation methods and
the lapse-rate modes (with the not-applicable marker). -/
def SETTINGS.Distinct (S : SETTINGS) : Prop :=
  S.TRUE ≠ S.FALSE ∧ S.POINT ≠ S.BASIN ∧
  S.INVDIST ≠ S.VARCRESS ∧ S.NEAREST ≠ S.VARCRESS ∧
  S.VARIABLE ≠ S.CONSTANT ∧ S.MAP ≠ S.CONSTANT ∧ S.NOT_APPLICABLE ≠ S.CONSTANT

instance (S : SETTINGS) : Decidable S.Distinct := by
  unfold SETTINGS.Distinct; infer_instance

/-! ## The key table `StrEnv` -/

/-- One row of `StrEnv` (lines 64-129): section, key and default.  The fourth
member, `VarStr`, is filled by `GetInitString` and is kept in a separate table. -/
structure STRINIENTRY where
  SectionName : String
  KeyName : String
  Default : String
deriving DecidableEq

/-- Lines 64-128: the initialiser of `StrEnv`, without the terminating NULL row. -/
def StrEnv : List STRINIENTRY :=
  [ ⟨"OPTIONS", "FORMAT", ""⟩,
    ⟨"OPTIONS", "EXTENT", ""⟩,
    ⟨"OPTIONS", "GRADIENT", ""⟩,
    ⟨"OPTIONS", "FLOW ROUTING", ""⟩,
    ⟨"OPTIONS", "SENSIBLE HEAT FLUX", ""⟩,
    ⟨"OPTIONS", "SEDIMENT", ""⟩,
    ⟨"OPTIONS", "SEDIMENT INPUT FILE", ""⟩,
    ⟨"OPTIONS", "OVERLAND ROUTING", ""⟩,
    ⟨"OPTIONS", "INFILTRATION", ""⟩,
    ⟨"OPTIONS", "INTERPOLATION", ""⟩,
    ⟨"OPTIONS", "MM5", ""⟩,
    ⟨"OPTIONS", "QPF", ""⟩,
    ⟨"OPTIONS", "PRISM", ""⟩,
    ⟨"OPTIONS", "CANOPY RADIATION ATTENUATION MODE", ""⟩,
    ⟨"OPTIONS", "SHADING", ""⟩,
    ⟨"OPTIONS", "SNOTEL", ""⟩,
    ⟨"OPTIONS", "OUTSIDE", ""⟩,
    ⟨"OPTIONS", "RHOVERRIDE", ""⟩,
    ⟨"OPTIONS", "PRECIPITATION SOURCE", ""⟩,
    ⟨"OPTIONS", "WIND SOURCE", ""⟩,
    ⟨"OPTIONS", "TEMPERATURE LAPSE RATE", ""⟩,
    ⟨"OPTIONS", "PRECIPITATION LAPSE RATE", ""⟩,
    ⟨"OPTIONS", "CRESSMAN RADIUS", ""⟩,
    ⟨"OPTIONS", "CRESSMAN STATIONS", ""⟩,
    ⟨"OPTIONS", "PRISM DATA PATH", ""⟩,
    ⟨"OPTIONS", "PRISM DATA EXTENSION", ""⟩,
    ⟨"OPTIONS", "SHADING DATA PATH", ""⟩,
    ⟨"OPTIONS", "SHADING DATA EXTENSION", ""⟩,
    ⟨"OPTIONS", "SKYVIEW DATA PATH", ""⟩,
    ⟨"OPTIONS", "STREAM TEMPERATURE", ""⟩,
    ⟨"OPTIONS", "CANOPY SHADING", ""⟩,
    ⟨"AREA", "COORDINATE SYSTEM", ""⟩,
    ⟨"AREA", "EXTREME NORTH", ""⟩,
    ⟨"AREA", "EXTREME WEST", ""⟩,
    ⟨"AREA", "CENTER LATITUDE", ""⟩,
    ⟨"AREA", "CENTER LONGITUDE", ""⟩,
    ⟨"AREA", "TIME ZONE MERIDIAN", ""⟩,
    ⟨"AREA", "NUMBER OF ROWS", ""⟩,
    ⟨"AREA", "NUMBER OF COLUMNS", ""⟩,
    ⟨"AREA", "GRID SPACING", ""⟩,
    ⟨"AREA", "POINT NORTH", ""⟩,
    ⟨"AREA", "POINT EAST", ""⟩,
    ⟨"TIME", "TIME STEP", ""⟩,
    ⟨"TIME", "MODEL START", ""⟩,
    ⟨"TIME", "MODEL END", ""⟩,
    ⟨"CONSTANTS", "GROUND ROUGHNESS", ""⟩,
    ⟨"CONSTANTS", "SNOW ROUGHNESS", ""⟩,
    ⟨"CONSTANTS", "RAIN THRESHOLD", ""⟩,
    ⟨"CONSTANTS", "SNOW THRESHOLD", ""⟩,
    ⟨"CONSTANTS", "SNOW WATER CAPACITY", ""⟩,
    ⟨"CONSTANTS", "REFERENCE HEIGHT", ""⟩,
    ⟨"CONSTANTS", "RAIN LAI MULTIPLIER", ""⟩,
    ⟨"CONSTANTS", "SNOW LAI MULTIPLIER", ""⟩,
    ⟨"CONSTANTS", "MIN INTERCEPTED SNOW", ""⟩,
    ⟨"CONSTANTS", "OUTSIDE BASIN VALUE", ""⟩,
    ⟨"CONSTANTS", "TEMPERATURE LAPSE RATE", ""⟩,
    ⟨"CONSTANTS", "PRECIPITATION LAPSE RATE", ""⟩,
    ⟨"CONSTANTS", "PRECIPITATION MULTIPLIER", ""⟩,
    ⟨"CONSTANTS", "TREE HEIGHT", ""⟩,
    ⟨"CONSTANTS", "BUFFER WIDTH", ""⟩,
    ⟨"CONSTANTS", "OVERHANG COEFFICIENT", ""⟩,
    ⟨"CONSTANTS", "MONTHLY EXTINCTION COEFFICIENT", ""⟩,
    ⟨"CONSTANTS", "CANOPY BANK DISTANCE", ""⟩ ]

/-- Indices into `StrEnv`.  The enumeration lives in a header that is not part of
the translated file; the enumerators are the names `InitConstants` uses, in the
order of the rows of `StrEnv` they name (the last five rows are never indexed by
the routine and carry names derived from their keys). -/
inductive KEYS
  | format | extent | gradient | flow_routing | sensible_heat_flux | sediment
  | sed_input_file | routing | infiltration | interpolation | mm5 | qpf | prism
  | canopy_radatt | shading | snotel | outside | rhoverride
  | precipitation_source | wind_source | temp_lapse | precip_lapse
  | cressman_radius | cressman_stations | prism_data_path | prism_data_ext
  | shading_data_path | shading_data_ext | skyview_data_path | stream_temp
  | canopy_shading
  | coordinate_system | extreme_north | extreme_west | center_latitude
  | center_longitude | time_zone_meridian | number_of_rows | number_of_columns
  | grid_spacing | point_north | point_east
  | time_step | model_start | model_end
  | ground_roughness | snow_roughness | rain_threshold | snow_threshold
  | snow_water_capacity | reference_height | rain_lai_multiplier
  | snow_lai_multiplier | min_intercepted_snow | outside_basin | temp_lapse_rate
  | precip_lapse_rate | precip_multiplier
  | tree_height | buffer_width | overhang_coefficient
  | monthly_extinction_coefficient | canopy_bank_distance
deriving DecidableEq, Repr

/-- The row `StrEnv[k]`. -/
def KEYS.entry (k : KEYS) : STRINIENTRY :=
  StrEnv.getD k.toCtorIdx ⟨"", "", ""⟩

/-- The member `StrEnv[k].KeyName`. -/
def KeyName (k : KEYS) : String := k.entry.KeyName

/-- The member `StrEnv[k].SectionName`. -/
def SectionName (k : KEYS) : String := k.entry.SectionName

/-! ## Floating-point arithmetic

The pass computes in the C types `float` and `double`.  A computed value is a
finite number, an infinity or a NaN; the two zeros of the formats are not told
apart (the sign of a zero shows only in the sign of the infinity that a division
by it yields, and such an infinity only ever reaches a conversion to `int`). -/

/-- A computed value of a C floating type. -/
inductive FVAL
  | fin (x : ℚ)
  | inf (negative : Bool)
  | nan
deriving DecidableEq

/-- A binary floating-point format: the number of bits of the significand and
the largest exponent; the smallest exponent of a normal number is `1 - emax`. -/
structure FORMAT where
  prec : Nat
  emax : Int
deriving DecidableEq

/-- The format of `float`. -/
def binary32 : FORMAT := ⟨24, 127⟩

/-- The format of `double`. -/
def binary64 : FORMAT := ⟨53, 1023⟩

/-- The search behind `floorLog2`, with the number of halvings still allowed. -/
def floorLog2Aux : Nat → Nat → Nat
  | 0, _ => 0
  | fuel + 1, n => if n < 2 then 0 else floorLog2Aux fuel (n / 2) + 1

/-- The position of the leading binary digit of a natural number. -/
def floorLog2 (n : Nat) : Nat := floorLog2Aux n n

/-- The exponent of the binade of a non-zero number: `2 ^ e ≤ |x| < 2 ^ (e + 1)`. -/
def ilog2 (x : ℚ) : Int :=
  if (2 : ℚ) ^ ((floorLog2 x.num.natAbs : Int) - (floorLog2 x.den : Int)) ≤ |x| then
    (floorLog2 x.num.natAbs : Int) - (floorLog2 x.den : Int)
  else (floorLog2 x.num.natAbs : Int) - (floorLog2 x.den : Int) - 1

/-- The nearest integer, a tie going to the even one. -/
def roundEven (x : ℚ) : Int :=
  if x - ⌊x⌋ < 1 / 2 then ⌊x⌋
  else if 1 / 2 < x - ⌊x⌋ then ⌊x⌋ + 1
  else if ⌊x⌋ % 2 = 0 then ⌊x⌋ else ⌊x⌋ + 1

/-- The spacing of the numbers of the format around `x` (subnormal below the
smallest normal exponent). -/
def FORMAT.quantum (f : FORMAT) (x : ℚ) : ℚ :=
  (2 : ℚ) ^ (max (ilog2 x) (1 - f.emax) - ((f.prec : Int) - 1))

/-- The number of the format nearest to `x`, were the exponent unbounded above. -/
def FORMAT.roundQ (f : FORMAT) (x : ℚ) : ℚ :=
  (roundEven (x / f.quantum x) : ℚ) * f.quantum x

/-- Rounding to the format: to nearest, ties to even, overflowing to an infinity. -/
def FORMAT.round (f : FORMAT) (x : ℚ) : FVAL :=
  if |f.roundQ x| < (2 : ℚ) ^ (f.emax + 1) then .fin (f.roundQ x)
  else .inf (decide (x < 0))

/-- The opposite of a value. -/
def FVAL.neg : FVAL → FVAL
  | .fin x => .fin (-x)
  | .inf s => .inf (!s)
  | .nan => .nan

/-- The sum of two values of the format. -/
def FORMAT.add (f : FORMAT) : FVAL → FVAL → FVAL
  | .fin x, .fin y => f.round (x + y)
  | .fin _, .inf s => .inf s
  | .inf s, .fin _ => .inf s
  | .inf s, .inf t => if s = t then .inf s else .nan
  | _, _ => .nan

/-- The difference of two values of the format. -/
def FORMAT.sub (f : FORMAT) (a b : FVAL) : FVAL := f.add a b.neg

/-- The product of two values of the format. -/
def FORMAT.mul (f : FORMAT) : FVAL → FVAL → FVAL
  | .fin x, .fin y => f.round (x * y)
  | .fin x, .inf s => if x = 0 then .nan else .inf (xor s (decide (x < 0)))
  | .inf s, .fin y => if y = 0 then .nan else .inf (xor s (decide (y < 0)))
  | .inf s, .inf t => .inf (xor s t)
  | _, _ => .nan

/-- The quotient of two values of the format. -/
def FORMAT.div (f : FORMAT) : FVAL → FVAL → FVAL
  | .fin x, .fin y =>
    if y = 0 then (if x = 0 then .nan else .inf (decide (x < 0))) else f.round (x / y)
  | .fin _, .inf _ => .fin 0
  | .inf s, .fin y => .inf (xor s (decide (y < 0)))
  | _, _ => .nan

/-- The spacing of the numbers of the format around the square root of `x`. -/
def FORMAT.sqrtQuantum (f : FORMAT) (x : ℚ) : ℚ :=
  (2 : ℚ) ^ (max (ilog2 x / 2) (1 - f.emax) - ((f.prec : Int) - 1))

/-- One binary digit of the integer square root: from the root `s` of `n / 4`
to that of `n`. -/
def floorSqrtStep (n s : Nat) : Nat :=
  if (2 * s + 1) * (2 * s + 1) ≤ n then 2 * s + 1 else 2 * s

/-- The search behind `floorSqrt`, with the number of digits still allowed. -/
def floorSqrtAux : Nat → Nat → Nat
  | 0, _ => 0
  | fuel + 1, n => if n = 0 then 0 else floorSqrtStep n (floorSqrtAux fuel (n / 4))

/-- The integer square root of a natural number, rounded down. -/
def floorSqrt (n : Nat) : Nat := floorSqrtAux n n

/-- The square root of `x` in units of the spacing, rounded down. -/
def FORMAT.sqrtFloor (f : FORMAT) (x : ℚ) : Nat :=
  floorSqrt ⌊x / (f.sqrtQuantum x * f.sqrtQuantum x)⌋.toNat

/-- The number of the format nearest to the square root of `x`: the multiple
`n` or `n + 1` of the spacing according to the side of `(n + 1/2) ^ 2` on which
`x`, in units of the squared spacing, lies. -/
def FORMAT.sqrtQ (f : FORMAT) (x : ℚ) : ℚ :=
  if x ≤ 0 then 0
  else if 4 * (x / (f.sqrtQuantum x * f.sqrtQuantum x)) <
      (2 * (f.sqrtFloor x : ℚ) + 1) * (2 * (f.sqrtFloor x : ℚ) + 1) then
    (f.sqrtFloor x : ℚ) * f.sqrtQuantum x
  else if (2 * (f.sqrtFloor x : ℚ) + 1) * (2 * (f.sqrtFloor x : ℚ) + 1) <
      4 * (x / (f.sqrtQuantum x * f.sqrtQuantum x)) then
    ((f.sqrtFloor x : ℚ) + 1) * f.sqrtQuantum x
  else if f.sqrtFloor x % 2 = 0 then (f.sqrtFloor x : ℚ) * f.sqrtQuantum x
  else ((f.sqrtFloor x : ℚ) + 1) * f.sqrtQuantum x

/-- The C library routine `sqrt` of `<math.h>`, correctly rounded as IEEE 754
requires of the square root. -/
def FORMAT.sqrt (f : FORMAT) : FVAL → FVAL
  | .fin x => if x < 0 then .nan else .fin (f.sqrtQ x)
  | .inf false => .inf false
  | _ => .nan

/-- The conversion of a value to the format, as by the cast `(float)`. -/
def FORMAT.convert (f : FORMAT) : FVAL → FVAL
  | .fin x => f.round x
  | v => v

/-- The integer part of a number: truncation toward zero. -/
def truncate (x : ℚ) : Int := if 0 ≤ x then ⌊x⌋ else ⌈x⌉

/-- The number fits an `int`. -/
def FitsInt (n : Int) : Prop := -2 ^ 31 ≤ n ∧ n < 2 ^ 31

instance (n : Int) : Decidable (FitsInt n) := by
  unfold FitsInt; infer_instance

/-! ## Output structures -/

/-- The members of `OPTIONSTRUCT` that `InitConstants` reads or writes. -/
structure OPTIONSTRUCT where
  FileFormat : Int
  Extent : Int
  HasNetwork : Int
  FlowGradient : Int
  Interpolation : Int
  CressRadius : Int
  CressStations : Int
  HeatFlux : Int
  Sediment : Int
  MassWaste : Int
  SurfaceErosion : Int
  ErosionPeriod : Int
  SedFile : List Char
  Routing : Int
  Infiltration : Int
  MM5 : Int
  QPF : Int
  Prism : Int
  CanopyRadAtt : Int
  Shading : Int
  Snotel : Int
  StreamTemp : Int
  CanopyShading : Int
  Outside : Int
  PrismDataPath : List Char
  PrismDataExt : List Char
  ShadingDataPath : List Char
  ShadingDataExt : List Char
  SkyViewDataPath : List Char
  Rhoverride : Int
  PrecipType : Int
  WindSource : Int
  PrecipLapse : Int
  TempLapse : Int
  PointY : Int
  PointX : Int
deriving DecidableEq

/-- The members of `MAPSIZE` that `InitConstants` writes. -/
structure MAPSIZE where
  System : List Char
  Yorig : ℚ
  Xorig : ℚ
  NY : Int
  NX : Int
  DY : ℚ
  DX : ℚ
  DXY : FVAL
  X : Int
  Y : Int
  OffsetX : Int
  OffsetY : Int
  NumCells : Int
deriving DecidableEq

/-- The members of `SOLARGEOMETRY` that `InitConstants` writes. -/
structure SOLARGEOMETRY where
  Latitude : FVAL
  Longitude : FVAL
  StandardMeridian : FVAL
deriving DecidableEq

/-- Modelled from the spec: a calendar date as produced by the external date
parser (`Calendar.h` is not part of the translated file); only its identity
matters to `InitConstants`. -/
structure DATE where
  Year : Int
  Month : Int
  Day : Int
  Hour : Int
deriving DecidableEq

/-- Modelled from the spec: the time window, "start date, end date, timestep in
seconds" (`Calendar.h` is not part of the translated file). -/
structure TIMESTRUCT where
  Start : DATE
  End : DATE
  Dt : Int
deriving DecidableEq

/-- The process-wide constants that `InitConstants` assigns (lines 484-532). -/
structure CONSTANTS where
  Z0_GROUND : ℚ
  Z0_SNOW : ℚ
  MIN_RAIN_TEMP : ℚ
  MAX_SNOW_TEMP : ℚ
  LIQUID_WATER_CAPACITY : ℚ
  Zref : ℚ
  LAI_WATER_MULTIPLIER : ℚ
  LAI_SNOW_MULTIPLIER : ℚ
  MIN_INTERCEPTION_STORAGE : ℚ
  OUTSIDEBASIN : Nat
  TEMPLAPSE : ℚ
  PRECIPLAPSE : ℚ
  PRECIPMULTIPLIER : ℚ
deriving DecidableEq

/-- Everything `InitConstants` may modify: the four structures it receives by
pointer, the global constants, and the text written to standard output. -/
structure State where
  Options : OPTIONSTRUCT
  Map : MAPSIZE
  SolarGeo : SOLARGEOMETRY
  Time : TIMESTRUCT
  Constants : CONSTANTS
  Stdout : List String
deriving DecidableEq

/-- The two ways the pass terminates the process: `ReportError(key, code)` and
the direct `printf` followed by `exit(status)` of lines 316-317. -/
inductive Failure
  | ReportError (ErrorString : String) (ErrorCode : Int)
  | Exit (Message : String) (Status : Int)
deriving DecidableEq

/-! ## Library routines -/

/-- Modelled from the spec: the external parsed-input collection, "a collection of
(section-name, key-name) → value-string pairs" (`getinit.h` is not part of the
translated file). -/
abbrev LISTPTR := List (String × String × List Char)

/-- The routines of other translation units that `InitConstants` calls, and what
the platform makes of a conversion the language leaves undefined.  Each `Copy*`
routine yields the parsed value, or `none` where the C routine returns zero;
`IntOutOfRange` is the result of converting to `int` a value whose integer part
does not fit, an infinity or a NaN. -/
structure COLLABORATORS where
  GetInitString : String → String → String → Nat → LISTPTR → List Char
  CopyInt : List Char → Nat → Option Int
  CopyDouble : List Char → Nat → Option ℚ
  CopyFloat : List Char → Nat → Option ℚ
  CopyUChar : List Char → Nat → Option Nat
  SScanDate : List Char → Option DATE
  IntOutOfRange : FVAL → Int

/-- The C library routine `strncmp`: compare at most `n` characters, stopping at
the first difference or at a terminating NUL. -/
def strncmp : List Char → List Char → Nat → Int
  | _, _, 0 => 0
  | s1, s2, n + 1 =>
    let c1 := s1.headD (Char.ofNat 0)
    let c2 := s2.headD (Char.ofNat 0)
    if c1 ≠ c2 then (c1.toNat : Int) - (c2.toNat : Int)
    else if c1 = Char.ofNat 0 then 0
    else strncmp s1.tail s2.tail n

/-- Modelled from the spec: `IsEmptyStr` (not part of the translated file) tells
whether a resolved string is empty. -/
def IsEmptyStr (s : List Char) : Bool := s.isEmpty

/-- The nearest integer, a tie going away from zero. -/
def roundAway (x : ℚ) : Int := if 0 ≤ x then ⌊x + 1 / 2⌋ else ⌈x - 1 / 2⌉

/-- Modelled from the spec: `Round` (not part of the translated file) is "nearest
integer, ties away from zero", as an `int`. -/
def Round (E : COLLABORATORS) : FVAL → Int
  | .fin x => if FitsInt (roundAway x) then roundAway x else E.IntOutOfRange (.fin x)
  | v => E.IntOutOfRange v

/-- The C conversion `(int) x` of a floating value: truncation toward zero where
the integer part fits. -/
def castInt (E : COLLABORATORS) : FVAL → Int
  | .fin x => if FitsInt (truncate x) then truncate x else E.IntOutOfRange (.fin x)
  | v => E.IntOutOfRange v

/-- Modelled from the spec: `InitTime` (not part of the translated file) stores
start, end and timestep in the time window. -/
def InitTime (_Time : TIMESTRUCT) (Start End : DATE) (_StartRadar _StartMM5 : Option DATE)
    (Dt : Int) : TIMESTRUCT :=
  { Start := Start, End := End, Dt := Dt }

/-- Lines 131-134: the loop over `StrEnv` that fills every `VarStr`. -/
def ReadEntries (E : COLLABORATORS) (S : SETTINGS) (Input : LISTPTR) : List (List Char) :=
  StrEnv.map fun e => E.GetInitString e.SectionName e.KeyName e.Default S.BUFSIZE Input

/-- The member `StrEnv[k].VarStr` after the loop of lines 131-134. -/
def VarStr (E : COLLABORATORS) (S : SETTINGS) (Input : LISTPTR) (k : KEYS) : List Char :=
  (ReadEntries E S Input).getD k.toCtorIdx []

/-! ## The pass, block by block

Every block takes the table `V` of resolved strings (`V k` is `StrEnv[k].VarStr`)
and the current state.  `ReportError` ends the pass with `Failure.ReportError`. -/

/-- Lines 138-146: determine file format to be used. -/
def DetermineFileFormat (S : SETTINGS) (V : KEYS → List Char) (st : State) :
    Except Failure State :=
  if strncmp (V .format) "BIN".toList 3 = 0 then
    .ok { st with Options.FileFormat := S.BIN }
  else if strncmp (V .format) "NETCDF".toList 3 = 0 then
    .ok { st with Options.FileFormat := S.NETCDF }
  else if strncmp (V .format) "BYTESWAP".toList 3 = 0 then
    .ok { st with Options.FileFormat := S.BYTESWAP }
  else
    .error (.ReportError (KeyName .format) 51)

/-- Lines 148-158: POINT mode or BASIN mode. -/
def DetermineExtent (S : SETTINGS) (V : KEYS → List Char) (st : State) :
    Except Failure State :=
  if strncmp (V .extent) "POINT".toList 5 = 0 then
    .ok { st with Options.Extent := S.POINT, Options.HasNetwork := S.FALSE }
  else if strncmp (V .extent) "BASIN".toList 5 = 0 then
    .ok { st with Options.Extent := S.BASIN }
  else
    .error (.ReportError (KeyName .extent) 51)

/-- Lines 160-170: how the flow gradient should be calculated. -/
def DetermineFlowGradient (S : SETTINGS) (V : KEYS → List Char) (st : State) :
    Except Failure State :=
  if st.Options.Extent ≠ S.POINT then
    if strncmp (V .gradient) "TOPO".toList 4 = 0 then
      .ok { st with Options.FlowGradient := S.TOPOGRAPHY }
    else if strncmp (V .gradient) "WATER".toList 5 = 0 then
      .ok { st with Options.FlowGradient := S.WATERTABLE }
    else
      .error (.ReportError (KeyName .gradient) 51)
  else
    .ok { st with Options.FlowGradient := S.NOT_APPLICABLE }

/-- Lines 172-181: what meteorological interpolation to use. -/
def DetermineInterpolation (S : SETTINGS) (V : KEYS → List Char) (st : State) :
    Except Failure State :=
  if strncmp (V .interpolation) "INVDIST".toList 7 = 0 then
    .ok { st with Options.Interpolation := S.INVDIST }
  else if strncmp (V .interpolation) "NEAREST".toList 7 = 0 then
    .ok { st with Options.Interpolation := S.NEAREST }
  else if strncmp (V .interpolation) "VARCRESS".toList 8 = 0 then
    .ok { st with Options.Interpolation := S.VARCRESS }
  else
    .error (.ReportError (KeyName .interpolation) 51)

/-- Lines 183-190: the parameters of the variable Cressman interpolation. -/
def DetermineCressman (E : COLLABORATORS) (S : SETTINGS) (V : KEYS → List Char)
    (st : State) : Except Failure State :=
  if st.Options.Interpolation = S.VARCRESS then
    match E.CopyInt (V .cressman_radius) 1 with
    | none => .error (.ReportError (KeyName .cressman_radius) 51)
    | some r =>
      match E.CopyInt (V .cressman_stations) 1 with
      | none => .error (.ReportError (KeyName .cressman_stations) 51)
      | some n => .ok { st with Options.CressRadius := r, Options.CressStations := n }
  else
    .ok st

/-- Lines 192-202: whether a road/network is imposed on the model area. -/
def DetermineHasNetwork (S : SETTINGS) (V : KEYS → List Char) (st : State) :
    Except Failure State :=
  if st.Options.Extent ≠ S.POINT then
    if strncmp (V .flow_routing) "NETWORK".toList 7 = 0 then
      .ok { st with Options.HasNetwork := S.TRUE }
    else if strncmp (V .flow_routing) "UNIT".toList 4 = 0 then
      .ok { st with Options.HasNetwork := S.FALSE }
    else
      .error (.ReportError (KeyName .flow_routing) 51)
  else
    .ok { st with Options.HasNetwork := S.FALSE }

/-- Lines 204-210: whether a sensible heat flux should be calculated. -/
def DetermineHeatFlux (S : SETTINGS) (V : KEYS → List Char) (st : State) :
    Except Failure State :=
  if strncmp (V .sensible_heat_flux) "TRUE".toList 4 = 0 then
    .ok { st with Options.HeatFlux := S.TRUE }
  else if strncmp (V .sensible_heat_flux) "FALSE".toList 5 = 0 then
    .ok { st with Options.HeatFlux := S.FALSE }
  else
    .error (.ReportError (KeyName .sensible_heat_flux) 51)

/-- Lines 212-224: whether the sediment model should be run. -/
def DetermineSediment (S : SETTINGS) (V : KEYS → List Char) (st : State) :
    Except Failure State :=
  if strncmp (V .sediment) "TRUE".toList 4 = 0 then
    .ok { st with Options.Sediment := S.TRUE }
  else if strncmp (V .sediment) "FALSE".toList 5 = 0 then
    .ok { st with
      Stdout := st.Stdout ++
        ["WARNING: Sediment option has not been chosen. All erosion\n",
         "options are being turned off.\n\n"],
      Options.Sediment := S.FALSE,
      Options.MassWaste := S.FALSE,
      Options.SurfaceErosion := S.FALSE,
      Options.ErosionPeriod := S.FALSE }
  else
    .error (.ReportError (KeyName .sediment) 51)

/-- Lines 226-230: the sediment input file, required when the sediment model runs. -/
def DetermineSedFile (S : SETTINGS) (V : KEYS → List Char) (st : State) :
    Except Failure State :=
  if st.Options.Sediment = S.TRUE then
    if IsEmptyStr (V .sed_input_file) then
      .error (.ReportError (KeyName .sed_input_file) 51)
    else
      .ok { st with Options.SedFile := V .sed_input_file }
  else
    .ok st

/-- Lines 232-238: overland flow routing method. -/
def DetermineRouting (S : SETTINGS) (V : KEYS → List Char) (st : State) :
    Except Failure State :=
  if strncmp (V .routing) "KINEMATIC".toList 9 = 0 then
    .ok { st with Options.Routing := S.TRUE }
  else if strncmp (V .routing) "CONVENTIONAL".toList 12 = 0 then
    .ok { st with Options.Routing := S.FALSE }
  else
    .error (.ReportError (KeyName .routing) 51)

/-- Lines 241-251: static or dynamic maximum infiltration rate. -/
def DetermineInfiltration (S : SETTINGS) (V : KEYS → List Char) (st : State) :
    Except Failure State :=
  if strncmp (V .infiltration) "STATIC".toList 6 = 0 then
    .ok { st with Options.Infiltration := S.STATIC }
  else if strncmp (V .infiltration) "DYNAMIC".toList 7 = 0 then
    .ok { st with
      Options.Infiltration := S.DYNAMIC,
      Stdout := st.Stdout ++
        ["WARNING: Dynamic maximum infiltration capacity has\n",
         "not been fully tested. It is a work in progress.\n\n"] }
  else
    .error (.ReportError (KeyName .infiltration) 51)

/-- Lines 253-259: whether the MM5 interface should be used. -/
def DetermineMM5 (S : SETTINGS) (V : KEYS → List Char) (st : State) :
    Except Failure State :=
  if strncmp (V .mm5) "TRUE".toList 4 = 0 then
    .ok { st with Options.MM5 := S.TRUE }
  else if strncmp (V .mm5) "FALSE".toList 5 = 0 then
    .ok { st with Options.MM5 := S.FALSE }
  else
    .error (.ReportError (KeyName .mm5) 51)

/-- Lines 261-267: whether the QPF override should be used on the MM5 fields. -/
def DetermineQPF (S : SETTINGS) (V : KEYS → List Char) (st : State) :
    Except Failure State :=
  if strncmp (V .qpf) "TRUE".toList 4 = 0 then
    .ok { st with Options.QPF := S.TRUE }
  else if strncmp (V .qpf) "FALSE".toList 5 = 0 then
    .ok { st with Options.QPF := S.FALSE }
  else
    .error (.ReportError (KeyName .qpf) 51)

/-- Lines 269-275: whether PRISM maps will be used to interpolate precipitation. -/
def DeterminePrism (S : SETTINGS) (V : KEYS → List Char) (st : State) :
    Except Failure State :=
  if strncmp (V .prism) "TRUE".toList 4 = 0 then
    .ok { st with Options.Prism := S.TRUE }
  else if strncmp (V .prism) "FALSE".toList 5 = 0 then
    .ok { st with Options.Prism := S.FALSE }
  else
    .error (.ReportError (KeyName .prism) 51)

/-- Lines 277-283: the kind of canopy radiation attenuation. -/
def DetermineCanopyRadAtt (S : SETTINGS) (V : KEYS → List Char) (st : State) :
    Except Failure State :=
  if strncmp (V .canopy_radatt) "FIXED".toList 3 = 0 then
    .ok { st with Options.CanopyRadAtt := S.FIXED }
  else if strncmp (V .canopy_radatt) "VARIABLE".toList 3 = 0 then
    .ok { st with Options.CanopyRadAtt := S.VARIABLE }
  else
    .error (.ReportError (KeyName .canopy_radatt) 51)

/-- Lines 285-291: whether solar shading maps will be used. -/
def DetermineShading (S : SETTINGS) (V : KEYS → List Char) (st : State) :
    Except Failure State :=
  if strncmp (V .shading) "TRUE".toList 4 = 0 then
    .ok { st with Options.Shading := S.TRUE }
  else if strncmp (V .shading) "FALSE".toList 5 = 0 then
    .ok { st with Options.Shading := S.FALSE }
  else
    .error (.ReportError (KeyName .shading) 51)

/-- Lines 293-294: MM5 with PRISM but without QPF is reported under the PRISM key. -/
def CheckMM5Prism (S : SETTINGS) (st : State) : Except Failure State :=
  if st.Options.MM5 = S.TRUE ∧ st.Options.Prism = S.TRUE ∧ st.Options.QPF = S.FALSE then
    .error (.ReportError (KeyName .prism) 51)
  else
    .ok st

/-- Lines 296-302: whether the Snotel test is called for. -/
def DetermineSnotel (S : SETTINGS) (V : KEYS → List Char) (st : State) :
    Except Failure State :=
  if strncmp (V .snotel) "TRUE".toList 4 = 0 then
    .ok { st with Options.Snotel := S.TRUE }
  else if strncmp (V .snotel) "FALSE".toList 5 = 0 then
    .ok { st with Options.Snotel := S.FALSE }
  else
    .error (.ReportError (KeyName .snotel) 51)

/-- Lines 304-310: whether the stream temperature module is called for. -/
def DetermineStreamTemp (S : SETTINGS) (V : KEYS → List Char) (st : State) :
    Except Failure State :=
  if strncmp (V .stream_temp) "TRUE".toList 4 = 0 then
    .ok { st with Options.StreamTemp := S.TRUE }
  else if strncmp (V .stream_temp) "FALSE".toList 5 = 0 then
    .ok { st with Options.StreamTemp := S.FALSE }
  else
    .error (.ReportError (KeyName .stream_temp) 51)

/-- The text printed at line 316. -/
def CanopyShadingMessage : String :=
  "Stream temp module must be turned on to allow canopy shading options\n"

/-- Lines 312-323: whether canopy shading is called for; with the stream
temperature module off the process prints a message and exits with status -1. -/
def DetermineCanopyShading (S : SETTINGS) (V : KEYS → List Char) (st : State) :
    Except Failure State :=
  if strncmp (V .canopy_shading) "TRUE".toList 4 = 0 then
    if st.Options.StreamTemp = S.FALSE then
      .error (.Exit CanopyShadingMessage (-1))
    else
      .ok { st with Options.CanopyShading := S.TRUE }
  else if strncmp (V .canopy_shading) "FALSE".toList 5 = 0 then
    .ok { st with Options.CanopyShading := S.FALSE }
  else
    .error (.ReportError (KeyName .canopy_shading) 51)

/-- Lines 325-331: whether met stations outside the bounding box are used. -/
def DetermineOutside (S : SETTINGS) (V : KEYS → List Char) (st : State) :
    Except Failure State :=
  if strncmp (V .outside) "TRUE".toList 4 = 0 then
    .ok { st with Options.Outside := S.TRUE }
  else if strncmp (V .outside) "FALSE".toList 5 = 0 then
    .ok { st with Options.Outside := S.FALSE }
  else
    .error (.ReportError (KeyName .outside) 51)

/-- Lines 333-340: the PRISM data path and extension, required with PRISM. -/
def DeterminePrismData (S : SETTINGS) (V : KEYS → List Char) (st : State) :
    Except Failure State :=
  if st.Options.Prism = S.TRUE then
    if IsEmptyStr (V .prism_data_path) then
      .error (.ReportError (KeyName .prism_data_path) 51)
    else if IsEmptyStr (V .prism_data_ext) then
      .error (.ReportError (KeyName .prism_data_ext) 51)
    else
      .ok { st with
        Options.PrismDataPath := V .prism_data_path,
        Options.PrismDataExt := V .prism_data_ext }
  else
    .ok st

/-- Lines 342-352: the shading and sky view data, required with shading. -/
def DetermineShadingData (S : SETTINGS) (V : KEYS → List Char) (st : State) :
    Except Failure State :=
  if st.Options.Shading = S.TRUE then
    if IsEmptyStr (V .shading_data_path) then
      .error (.ReportError (KeyName .shading_data_path) 51)
    else if IsEmptyStr (V .shading_data_ext) then
      .error (.ReportError (KeyName .shading_data_ext) 51)
    else if IsEmptyStr (V .skyview_data_path) then
      .error (.ReportError (KeyName .skyview_data_path) 51)
    else
      .ok { st with
        Options.ShadingDataPath := V .shading_data_path,
        Options.ShadingDataExt := V .shading_data_ext,
        Options.SkyViewDataPath := V .skyview_data_path }
  else
    .ok st

/-- Lines 354-360: whether the relative humidity override is used. -/
def DetermineRhoverride (S : SETTINGS) (V : KEYS → List Char) (st : State) :
    Except Failure State :=
  if strncmp (V .rhoverride) "TRUE".toList 4 = 0 then
    .ok { st with Options.Rhoverride := S.TRUE }
  else if strncmp (V .rhoverride) "FALSE".toList 5 = 0 then
    .ok { st with Options.Rhoverride := S.FALSE }
  else
    .error (.ReportError (KeyName .rhoverride) 51)

/-- Lines 375-381: the type of precipitation data that the model will use. -/
def DeterminePrecipType (S : SETTINGS) (V : KEYS → List Char) (st : State) :
    Except Failure State :=
  if strncmp (V .precipitation_source) "RADAR".toList 5 = 0 then
    .ok { st with Options.PrecipType := S.RADAR }
  else if strncmp (V .precipitation_source) "STATION".toList 7 = 0 then
    .ok { st with Options.PrecipType := S.STATION }
  else
    .error (.ReportError (KeyName .precipitation_source) 51)

/-- Lines 383-389: the type of wind data that the model will use. -/
def DetermineWindSource (S : SETTINGS) (V : KEYS → List Char) (st : State) :
    Except Failure State :=
  if strncmp (V .wind_source) "MODEL".toList 5 = 0 then
    .ok { st with Options.WindSource := S.MODEL }
  else if strncmp (V .wind_source) "STATION".toList 7 = 0 then
    .ok { st with Options.WindSource := S.STATION }
  else
    .error (.ReportError (KeyName .wind_source) 51)

/-- Lines 391-397: the type of temperature lapse rate. -/
def DetermineTempLapse (S : SETTINGS) (V : KEYS → List Char) (st : State) :
    Except Failure State :=
  if strncmp (V .temp_lapse) "CONSTANT".toList 8 = 0 then
    .ok { st with Options.TempLapse := S.CONSTANT }
  else if strncmp (V .temp_lapse) "VARIABLE".toList 8 = 0 then
    .ok { st with Options.TempLapse := S.VARIABLE }
  else
    .error (.ReportError (KeyName .temp_lapse) 51)

/-- Lines 399-407: the type of precipitation lapse rate. -/
def DeterminePrecipLapse (S : SETTINGS) (V : KEYS → List Char) (st : State) :
    Except Failure State :=
  if strncmp (V .precip_lapse) "CONSTANT".toList 8 = 0 then
    .ok { st with Options.PrecipLapse := S.CONSTANT }
  else if strncmp (V .precip_lapse) "MAP".toList 3 = 0 then
    .ok { st with Options.PrecipLapse := S.MAP }
  else if strncmp (V .precip_lapse) "VARIABLE".toList 8 = 0 then
    .ok { st with Options.PrecipLapse := S.VARIABLE }
  else
    .error (.ReportError (KeyName .precip_lapse) 51)

/-- Lines 364-373: with MM5 the met options are not applicable, except for the
precipitation type and lapse rate that the QPF override forces. -/
def ForceMetOptions (S : SETTINGS) (st : State) : State :=
  let st1 : State := { st with
    Options.PrecipType := S.NOT_APPLICABLE,
    Options.WindSource := S.NOT_APPLICABLE,
    Options.PrecipLapse := S.NOT_APPLICABLE,
    Options.TempLapse := S.NOT_APPLICABLE }
  let st2 : State :=
    if st1.Options.QPF = S.TRUE then { st1 with Options.PrecipType := S.STATION } else st1
  if st2.Options.QPF = S.TRUE ∧ st2.Options.Prism = S.FALSE then
    { st2 with Options.PrecipLapse := S.CONSTANT }
  else st2

/-- Lines 362-408: the other met options, only of importance if MM5 is FALSE. -/
def DetermineMetOptions (S : SETTINGS) (V : KEYS → List Char) (st : State) :
    Except Failure State :=
  if st.Options.MM5 = S.TRUE then
    .ok (ForceMetOptions S st)
  else do
    let st ← DeterminePrecipType S V st
    let st ← DetermineWindSource S V st
    let st ← DetermineTempLapse S V st
    DeterminePrecipLapse S V st

/-- Lines 136-408: determine model options. -/
def DetermineModelOptions (E : COLLABORATORS) (S : SETTINGS) (V : KEYS → List Char)
    (st : State) : Except Failure State := do
  let st ← DetermineFileFormat S V st
  let st ← DetermineExtent S V st
  let st ← DetermineFlowGradient S V st
  let st ← DetermineInterpolation S V st
  let st ← DetermineCressman E S V st
  let st ← DetermineHasNetwork S V st
  let st ← DetermineHeatFlux S V st
  let st ← DetermineSediment S V st
  let st ← DetermineSedFile S V st
  let st ← DetermineRouting S V st
  let st ← DetermineInfiltration S V st
  let st ← DetermineMM5 S V st
  let st ← DetermineQPF S V st
  let st ← DeterminePrism S V st
  let st ← DetermineCanopyRadAtt S V st
  let st ← DetermineShading S V st
  let st ← CheckMM5Prism S st
  let st ← DetermineSnotel S V st
  let st ← DetermineStreamTemp S V st
  let st ← DetermineCanopyShading S V st
  let st ← DetermineOutside S V st
  let st ← DeterminePrismData S V st
  let st ← DetermineShadingData S V st
  let st ← DetermineRhoverride S V st
  DetermineMetOptions S V st

/-- Lines 410-450: determine areal extent.  The three angles are multiplied in
`float` by `(float) RADPDEG`; the squares of the spacings and their sum are
formed in `float`, the square root is taken in `double` and cast to `float`. -/
def DetermineArealExtent (E : COLLABORATORS) (S : SETTINGS) (V : KEYS → List Char)
    (st : State) : Except Failure State :=
  if IsEmptyStr (V .coordinate_system) then
    .error (.ReportError (KeyName .coordinate_system) 51)
  else
    match E.CopyDouble (V .extreme_north) 1 with
    | none => .error (.ReportError (KeyName .extreme_north) 51)
    | some Yorig =>
    match E.CopyDouble (V .extreme_west) 1 with
    | none => .error (.ReportError (KeyName .extreme_west) 51)
    | some Xorig =>
    match E.CopyFloat (V .center_latitude) 1 with
    | none => .error (.ReportError (KeyName .center_latitude) 51)
    | some Latitude =>
    match E.CopyFloat (V .center_longitude) 1 with
    | none => .error (.ReportError (KeyName .center_longitude) 51)
    | some Longitude =>
    match E.CopyFloat (V .time_zone_meridian) 1 with
    | none => .error (.ReportError (KeyName .time_zone_meridian) 51)
    | some StandardMeridian =>
    match E.CopyInt (V .number_of_rows) 1 with
    | none => .error (.ReportError (KeyName .number_of_rows) 51)
    | some NY =>
    match E.CopyInt (V .number_of_columns) 1 with
    | none => .error (.ReportError (KeyName .number_of_columns) 51)
    | some NX =>
    match E.CopyFloat (V .grid_spacing) 1 with
    | none => .error (.ReportError (KeyName .grid_spacing) 51)
    | some DY =>
      let DX := DY
      .ok { st with
        Map.System := V .coordinate_system,
        Map.Yorig := Yorig,
        Map.Xorig := Xorig,
        SolarGeo.Latitude := binary32.mul (.fin Latitude) (binary32.round S.RADPDEG),
        SolarGeo.Longitude := binary32.mul (.fin Longitude) (binary32.round S.RADPDEG),
        SolarGeo.StandardMeridian :=
          binary32.mul (.fin StandardMeridian) (binary32.round S.RADPDEG),
        Map.NY := NY,
        Map.NX := NX,
        Map.DY := DY,
        Map.DX := DX,
        Map.DXY := binary32.convert (binary64.sqrt
          (binary32.add (binary32.mul (.fin DX) (.fin DX))
            (binary32.mul (.fin DY) (.fin DY)))),
        Map.X := 0,
        Map.Y := 0,
        Map.OffsetX := 0,
        Map.OffsetY := 0,
        Map.NumCells := 0 }

/-- Lines 452-468: in POINT mode, which pixel to model.  The operands are
`double` or promoted to it, so every operation is one of `double`. -/
def DeterminePoint (E : COLLABORATORS) (S : SETTINGS) (V : KEYS → List Char)
    (st : State) : Except Failure State :=
  if st.Options.Extent = S.POINT then
    match E.CopyDouble (V .point_north) 1 with
    | none => .error (.ReportError (KeyName .point_north) 51)
    | some PointModelY =>
    match E.CopyDouble (V .point_east) 1 with
    | none => .error (.ReportError (KeyName .point_east) 51)
    | some PointModelX =>
      .ok { st with
        Options.PointY :=
          Round E (binary64.div
            (binary64.sub
              (binary64.sub (.fin st.Map.Yorig) (binary64.mul (.fin (1 / 2)) (.fin st.Map.DY)))
              (.fin PointModelY))
            (.fin st.Map.DY)),
        Options.PointX :=
          Round E (binary64.div
            (binary64.sub (.fin PointModelX)
              (binary64.add (.fin st.Map.Xorig)
                (binary64.mul (.fin (1 / 2)) (.fin st.Map.DX))))
            (.fin st.Map.DX)) }
  else
    .ok { st with Options.PointY := 0, Options.PointX := 0 }

/-- Lines 470-482: determine model period.  `TimeStep *= SECPHOUR` leaves in the
`float` `TimeStep` the product rounded to `float` (`SECPHOUR` is taken to be a
constant that a `float` holds exactly, as 3600 is, so that the product formed in
`float` and the product formed in `double` and then stored agree). -/
def DetermineModelPeriod (E : COLLABORATORS) (S : SETTINGS) (V : KEYS → List Char)
    (st : State) : Except Failure State :=
  match E.CopyFloat (V .time_step) 1 with
  | none => .error (.ReportError (KeyName .time_step) 51)
  | some TimeStep0 =>
    let TimeStep := binary32.mul (.fin TimeStep0) (.fin S.SECPHOUR)
    match E.SScanDate (V .model_start) with
    | none => .error (.ReportError (KeyName .model_start) 51)
    | some Start =>
    match E.SScanDate (V .model_end) with
    | none => .error (.ReportError (KeyName .model_end) 51)
    | some End =>
      .ok { st with Time := InitTime st.Time Start End none none (castInt E TimeStep) }

/-- Lines 517-522: the temperature lapse rate. -/
def DetermineTEMPLAPSE (E : COLLABORATORS) (S : SETTINGS) (V : KEYS → List Char)
    (st : State) : Except Failure State :=
  if st.Options.TempLapse = S.CONSTANT then
    match E.CopyFloat (V .temp_lapse_rate) 1 with
    | none => .error (.ReportError (KeyName .temp_lapse_rate) 51)
    | some x => .ok { st with Constants.TEMPLAPSE := x }
  else
    .ok { st with Constants.TEMPLAPSE := (S.NOT_APPLICABLE : ℚ) }

/-- Lines 524-529: the precipitation lapse rate. -/
def DeterminePRECIPLAPSE (E : COLLABORATORS) (S : SETTINGS) (V : KEYS → List Char)
    (st : State) : Except Failure State :=
  if st.Options.PrecipLapse = S.CONSTANT then
    match E.CopyFloat (V .precip_lapse_rate) 1 with
    | none => .error (.ReportError (KeyName .precip_lapse_rate) 51)
    | some x => .ok { st with Constants.PRECIPLAPSE := x }
  else
    .ok { st with Constants.PRECIPLAPSE := (S.NOT_APPLICABLE : ℚ) }

/-- Lines 486-515: the constants that are always read. -/
def DetermineFixedConstants (E : COLLABORATORS) (V : KEYS → List Char) (st : State) :
    Except Failure State :=
  match E.CopyFloat (V .ground_roughness) 1 with
  | none => .error (.ReportError (KeyName .ground_roughness) 51)
  | some z0g =>
  match E.CopyFloat (V .snow_roughness) 1 with
  | none => .error (.ReportError (KeyName .snow_roughness) 51)
  | some z0s =>
  match E.CopyFloat (V .rain_threshold) 1 with
  | none => .error (.ReportError (KeyName .rain_threshold) 51)
  | some minRain =>
  match E.CopyFloat (V .snow_threshold) 1 with
  | none => .error (.ReportError (KeyName .snow_threshold) 51)
  | some maxSnow =>
  match E.CopyFloat (V .snow_water_capacity) 1 with
  | none => .error (.ReportError (KeyName .snow_water_capacity) 51)
  | some lwc =>
  match E.CopyFloat (V .reference_height) 1 with
  | none => .error (.ReportError (KeyName .reference_height) 51)
  | some zref =>
  match E.CopyFloat (V .rain_lai_multiplier) 1 with
  | none => .error (.ReportError (KeyName .rain_lai_multiplier) 51)
  | some laiWater =>
  match E.CopyFloat (V .snow_lai_multiplier) 1 with
  | none => .error (.ReportError (KeyName .snow_lai_multiplier) 51)
  | some laiSnow =>
  match E.CopyFloat (V .min_intercepted_snow) 1 with
  | none => .error (.ReportError (KeyName .min_intercepted_snow) 51)
  | some minInt =>
  match E.CopyUChar (V .outside_basin) 1 with
  | none => .error (.ReportError (KeyName .outside_basin) 51)
  | some outside =>
    .ok { st with
      Constants.Z0_GROUND := z0g,
      Constants.Z0_SNOW := z0s,
      Constants.MIN_RAIN_TEMP := minRain,
      Constants.MAX_SNOW_TEMP := maxSnow,
      Constants.LIQUID_WATER_CAPACITY := lwc,
      Constants.Zref := zref,
      Constants.LAI_WATER_MULTIPLIER := laiWater,
      Constants.LAI_SNOW_MULTIPLIER := laiSnow,
      Constants.MIN_INTERCEPTION_STORAGE := minInt,
      Constants.OUTSIDEBASIN := outside }

/-- Lines 531-532: the precipitation multiplier. -/
def DeterminePRECIPMULTIPLIER (E : COLLABORATORS) (V : KEYS → List Char) (st : State) :
    Except Failure State :=
  match E.CopyFloat (V .precip_multiplier) 1 with
  | none => .error (.ReportError (KeyName .precip_multiplier) 51)
  | some x => .ok { st with Constants.PRECIPMULTIPLIER := x }

/-- Lines 484-532: determine model constants. -/
def DetermineModelConstants (E : COLLABORATORS) (S : SETTINGS) (V : KEYS → List Char)
    (st : State) : Except Failure State := do
  let st ← DetermineFixedConstants E V st
  let st ← DetermineTEMPLAPSE E S V st
  let st ← DeterminePRECIPLAPSE E S V st
  DeterminePRECIPMULTIPLIER E V st

/-- Lines 136-532: the pass over the table `V` of resolved strings. -/
def Decode (E : COLLABORATORS) (S : SETTINGS) (V : KEYS → List Char) (st : State) :
    Except Failure State := do
  let st ← DetermineModelOptions E S V st
  let st ← DetermineArealExtent E S V st
  let st ← DeterminePoint E S V st
  let st ← DetermineModelPeriod E S V st
  DetermineModelConstants E S V st

/-- The routine `InitConstants` (lines 54-533): read the key/entry pairs, then
decode them. -/
def InitConstants (E : COLLABORATORS) (S : SETTINGS) (Input : LISTPTR) (st : State) :
    Except Failure State :=
  Decode E S (VarStr E S Input) st

/-! ## A concrete configuration

Concrete constants, library routines and input, on which the embedding can be
run. -/

/-- Concrete values for the constants of the headers. -/
def sampleSettings : SETTINGS :=
  { TRUE := 1, FALSE := 0, BIN := 1, NETCDF := 2, BYTESWAP := 3,
    POINT := 1, BASIN := 2, TOPOGRAPHY := 1, WATERTABLE := 2,
    NOT_APPLICABLE := -9999, INVDIST := 1, NEAREST := 2, VARCRESS := 3,
    STATIC := 1, DYNAMIC := 2, FIXED := 1, VARIABLE := 2,
    RADAR := 1, STATION := 2, MODEL := 3, CONSTANT := 1, MAP := 3,
    BUFSIZE := 255, RADPDEG := 355 / 20340, SECPHOUR := 3600 }

/-- The value of an unsigned decimal numeral, `none` for any other string. -/
def parseDecimal (s : List Char) : Option Nat :=
  if s ≠ [] ∧ s.all Char.isDigit = true then
    some (s.foldl (fun n c => 10 * n + (c.toNat - 48)) 0)
  else none

/-- First value stored under a section and key, or the default. -/
def lookupString (Section Key Default : String) (_n : Nat) : LISTPTR → List Char
  | [] => Default.toList
  | (sec, key, val) :: rest =>
    if sec = Section ∧ key = Key then val else lookupString Section Key Default _n rest

/-- Concrete library routines: numbers are unsigned decimal numerals, a date is a
numeral `YYYYMMDDHH`, and a conversion to `int` that is out of range yields the
smallest `int`. -/
def sampleCollaborators : COLLABORATORS :=
  { GetInitString := lookupString
    CopyInt := fun s _ => (parseDecimal s).map Int.ofNat
    CopyDouble := fun s _ => (parseDecimal s).map fun n => (n : ℚ)
    CopyFloat := fun s _ => (parseDecimal s).map fun n => (n : ℚ)
    CopyUChar := fun s _ => parseDecimal s
    SScanDate := fun s => (parseDecimal s).map fun n =>
      { Year := n / 1000000, Month := n / 10000 % 100, Day := n / 100 % 100,
        Hour := n % 100 }
    IntOutOfRange := fun _ => -2 ^ 31 }

/-- A state in which every field is zero or empty. -/
def zeroState : State :=
  { Options :=
      { FileFormat := 0, Extent := 0, HasNetwork := 0, FlowGradient := 0,
        Interpolation := 0, CressRadius := 0, CressStations := 0, HeatFlux := 0,
        Sediment := 0, MassWaste := 0, SurfaceErosion := 0, ErosionPeriod := 0,
        SedFile := [], Routing := 0, Infiltration := 0, MM5 := 0, QPF := 0,
        Prism := 0, CanopyRadAtt := 0, Shading := 0, Snotel := 0, StreamTemp := 0,
        CanopyShading := 0, Outside := 0, PrismDataPath := [], PrismDataExt := [],
        ShadingDataPath := [], ShadingDataExt := [], SkyViewDataPath := [],
        Rhoverride := 0, PrecipType := 0, WindSource := 0, PrecipLapse := 0,
        TempLapse := 0, PointY := 0, PointX := 0 }
    Map :=
      { System := [], Yorig := 0, Xorig := 0, NY := 0, NX := 0, DY := 0, DX := 0,
        DXY := .fin 0, X := 0, Y := 0, OffsetX := 0, OffsetY := 0, NumCells := 0 }
    SolarGeo := { Latitude := .fin 0, Longitude := .fin 0, StandardMeridian := .fin 0 }
    Time := { Start := ⟨0, 0, 0, 0⟩, End := ⟨0, 0, 0, 0⟩, Dt := 0 }
    Constants :=
      { Z0_GROUND := 0, Z0_SNOW := 0, MIN_RAIN_TEMP := 0, MAX_SNOW_TEMP := 0,
        LIQUID_WATER_CAPACITY := 0, Zref := 0, LAI_WATER_MULTIPLIER := 0,
        LAI_SNOW_MULTIPLIER := 0, MIN_INTERCEPTION_STORAGE := 0, OUTSIDEBASIN := 0,
        TEMPLAPSE := 0, PRECIPLAPSE := 0, PRECIPMULTIPLIER := 0 }
    Stdout := [] }

/-- The keys of the AREA, TIME and CONSTANTS sections of a valid configuration. -/
def sampleNumbers : LISTPTR :=
  [ ("AREA", "COORDINATE SYSTEM", "UTM".toList),
    ("AREA", "EXTREME NORTH", "1000".toList),
    ("AREA", "EXTREME WEST", "0".toList),
    ("AREA", "CENTER LATITUDE", "47".toList),
    ("AREA", "CENTER LONGITUDE", "121".toList),
    ("AREA", "TIME ZONE MERIDIAN", "120".toList),
    ("AREA", "NUMBER OF ROWS", "100".toList),
    ("AREA", "NUMBER OF COLUMNS", "100".toList),
    ("AREA", "GRID SPACING", "10".toList),
    ("AREA", "POINT NORTH", "100".toList),
    ("AREA", "POINT EAST", "50".toList),
    ("TIME", "TIME STEP", "3".toList),
    ("TIME", "MODEL START", "1996100100".toList),
    ("TIME", "MODEL END", "1997100100".toList),
    ("CONSTANTS", "GROUND ROUGHNESS", "1".toList),
    ("CONSTANTS", "SNOW ROUGHNESS", "1".toList),
    ("CONSTANTS", "RAIN THRESHOLD", "0".toList),
    ("CONSTANTS", "SNOW THRESHOLD", "1".toList),
    ("CONSTANTS", "SNOW WATER CAPACITY", "1".toList),
    ("CONSTANTS", "REFERENCE HEIGHT", "90".toList),
    ("CONSTANTS", "RAIN LAI MULTIPLIER", "1".toList),
    ("CONSTANTS", "SNOW LAI MULTIPLIER", "1".toList),
    ("CONSTANTS", "MIN INTERCEPTED SNOW", "1".toList),
    ("CONSTANTS", "OUTSIDE BASIN VALUE", "0".toList),
    ("CONSTANTS", "TEMPERATURE LAPSE RATE", "6".toList),
    ("CONSTANTS", "PRECIPITATION LAPSE RATE", "1".toList),
    ("CONSTANTS", "PRECIPITATION MULTIPLIER", "1".toList) ]

/-- The OPTIONS section of a valid basin configuration without MM5. -/
def sampleOptions : LISTPTR :=
  [ ("OPTIONS", "FORMAT", "BIN".toList),
    ("OPTIONS", "EXTENT", "BASIN".toList),
    ("OPTIONS", "GRADIENT", "WATERTABLE".toList),
    ("OPTIONS", "FLOW ROUTING", "NETWORK".toList),
    ("OPTIONS", "SENSIBLE HEAT FLUX", "FALSE".toList),
    ("OPTIONS", "SEDIMENT", "FALSE".toList),
    ("OPTIONS", "OVERLAND ROUTING", "CONVENTIONAL".toList),
    ("OPTIONS", "INFILTRATION", "STATIC".toList),
    ("OPTIONS", "INTERPOLATION", "INVDIST".toList),
    ("OPTIONS", "MM5", "FALSE".toList),
    ("OPTIONS", "QPF", "FALSE".toList),
    ("OPTIONS", "PRISM", "FALSE".toList),
    ("OPTIONS", "CANOPY RADIATION ATTENUATION MODE", "FIXED".toList),
    ("OPTIONS", "SHADING", "FALSE".toList),
    ("OPTIONS", "SNOTEL", "FALSE".toList),
    ("OPTIONS", "OUTSIDE", "FALSE".toList),
    ("OPTIONS", "RHOVERRIDE", "FALSE".toList),
    ("OPTIONS", "PRECIPITATION SOURCE", "STATION".toList),
    ("OPTIONS", "WIND SOURCE", "STATION".toList),
    ("OPTIONS", "TEMPERATURE LAPSE RATE", "CONSTANT".toList),
    ("OPTIONS", "PRECIPITATION LAPSE RATE", "CONSTANT".toList),
    ("OPTIONS", "STREAM TEMPERATURE", "FALSE".toList),
    ("OPTIONS", "CANOPY SHADING", "FALSE".toList) ]

/-- A valid basin configuration.  Entries placed in front of it take precedence. -/
def sampleInput : LISTPTR := sampleOptions ++ sampleNumbers

/-! ## Vocabulary of the claims -/

/-- The string `s` begins with the characters `p`. -/
def Begins (p s : List Char) : Prop := s.take p.length = p

instance (p s : List Char) : Decidable (Begins p s) := by
  unfold Begins; infer_instance

/-- A literal `lit` compared over `n` characters is a sound test for the prefix
`p`: the `n` characters exist, they are `p`, and none of them is NUL. -/
def comparesPrefix (lit p : List Char) (n : Nat) : Bool :=
  decide (n ≤ lit.length ∧ lit.take n = p ∧ ∀ c ∈ p, c ≠ Char.ofNat 0)

/-- Two tables of resolved strings agree outside a list of keys. -/
def AgreeOutside (ks : List KEYS) (V W : KEYS → List Char) : Prop :=
  ∀ k, k ∉ ks → V k = W k

/-- The literal vocabulary of the enum- and boolean-valued keys: the accepted
literal, the characters of it that the pass compares, and the documented value.
The keys that the tables of the specification do not list carry the literals of
the comparisons at lines 233-251 and 376-407. -/
def Vocabulary : KEYS → List (String × String × (SETTINGS → Int))
  | .format => [("BIN", "BIN", (·.BIN)), ("NETCDF", "NET", (·.NETCDF)),
      ("BYTESWAP", "BYT", (·.BYTESWAP))]
  | .extent => [("POINT", "POINT", (·.POINT)), ("BASIN", "BASIN", (·.BASIN))]
  | .gradient => [("TOPO", "TOPO", (·.TOPOGRAPHY)), ("WATER", "WATER", (·.WATERTABLE))]
  | .flow_routing => [("NETWORK", "NETWORK", (·.TRUE)), ("UNIT", "UNIT", (·.FALSE))]
  | .interpolation => [("INVDIST", "INVDIST", (·.INVDIST)), ("NEAREST", "NEAREST", (·.NEAREST)),
      ("VARCRESS", "VARCRESS", (·.VARCRESS))]
  | .canopy_radatt => [("FIXED", "FIX", (·.FIXED)), ("VARIABLE", "VAR", (·.VARIABLE))]
  | .routing => [("KINEMATIC", "KINEMATIC", (·.TRUE)),
      ("CONVENTIONAL", "CONVENTIONAL", (·.FALSE))]
  | .infiltration => [("STATIC", "STATIC", (·.STATIC)), ("DYNAMIC", "DYNAMIC", (·.DYNAMIC))]
  | .precipitation_source => [("RADAR", "RADAR", (·.RADAR)), ("STATION", "STATION", (·.STATION))]
  | .wind_source => [("MODEL", "MODEL", (·.MODEL)), ("STATION", "STATION", (·.STATION))]
  | .temp_lapse => [("CONSTANT", "CONSTANT", (·.CONSTANT)),
      ("VARIABLE", "VARIABLE", (·.VARIABLE))]
  | .precip_lapse => [("CONSTANT", "CONSTANT", (·.CONSTANT)), ("MAP", "MAP", (·.MAP)),
      ("VARIABLE", "VARIABLE", (·.VARIABLE))]
  | .sensible_heat_flux | .sediment | .mm5 | .qpf | .prism | .shading | .snotel
  | .stream_temp | .canopy_shading | .outside | .rhoverride =>
      [("TRUE", "TRUE", (·.TRUE)), ("FALSE", "FALSE", (·.FALSE))]
  | _ => []

/-- The part of the pass that decodes one key: the block that compares the
resolved string, the member it assigns, and the condition on the state under
which the pass compares the string at all. -/
structure DECODER where
  block : SETTINGS → (KEYS → List Char) → State → Except Failure State
  member : State → Int
  compared : SETTINGS → State → Prop

/-- The decoding block of each enum- or boolean-valued key. -/
def KEYS.decoder : KEYS → Option DECODER
  | .format => some ⟨DetermineFileFormat, (·.Options.FileFormat), fun _ _ => True⟩
  | .extent => some ⟨DetermineExtent, (·.Options.Extent), fun _ _ => True⟩
  | .gradient => some ⟨DetermineFlowGradient, (·.Options.FlowGradient),
      fun S st => st.Options.Extent ≠ S.POINT⟩
  | .flow_routing => some ⟨DetermineHasNetwork, (·.Options.HasNetwork),
      fun S st => st.Options.Extent ≠ S.POINT⟩
  | .interpolation => some ⟨DetermineInterpolation, (·.Options.Interpolation), fun _ _ => True⟩
  | .sensible_heat_flux => some ⟨DetermineHeatFlux, (·.Options.HeatFlux), fun _ _ => True⟩
  | .sediment => some ⟨DetermineSediment, (·.Options.Sediment), fun _ _ => True⟩
  | .routing => some ⟨DetermineRouting, (·.Options.Routing), fun _ _ => True⟩
  | .infiltration => some ⟨DetermineInfiltration, (·.Options.Infiltration), fun _ _ => True⟩
  | .mm5 => some ⟨DetermineMM5, (·.Options.MM5), fun _ _ => True⟩
  | .qpf => some ⟨DetermineQPF, (·.Options.QPF), fun _ _ => True⟩
  | .prism => some ⟨DeterminePrism, (·.Options.Prism), fun _ _ => True⟩
  | .canopy_radatt => some ⟨DetermineCanopyRadAtt, (·.Options.CanopyRadAtt), fun _ _ => True⟩
  | .shading => some ⟨DetermineShading, (·.Options.Shading), fun _ _ => True⟩
  | .snotel => some ⟨DetermineSnotel, (·.Options.Snotel), fun _ _ => True⟩
  | .stream_temp => some ⟨DetermineStreamTemp, (·.Options.StreamTemp), fun _ _ => True⟩
  | .canopy_shading => some ⟨DetermineCanopyShading, (·.Options.CanopyShading),
      fun _ _ => True⟩
  | .outside => some ⟨DetermineOutside, (·.Options.Outside), fun _ _ => True⟩
  | .rhoverride => some ⟨DetermineRhoverride, (·.Options.Rhoverride), fun _ _ => True⟩
  | .precipitation_source => some ⟨DeterminePrecipType, (·.Options.PrecipType),
      fun S st => st.Options.MM5 ≠ S.TRUE⟩
  | .wind_source => some ⟨DetermineWindSource, (·.Options.WindSource),
      fun S st => st.Options.MM5 ≠ S.TRUE⟩
  | .temp_lapse => some ⟨DetermineTempLapse, (·.Options.TempLapse),
      fun S st => st.Options.MM5 ≠ S.TRUE⟩
  | .precip_lapse => some ⟨DeterminePrecipLapse, (·.Options.PrecipLapse),
      fun S st => st.Options.MM5 ≠ S.TRUE⟩
  | _ => none

/-- A string begins with none of the compared prefixes of a key. -/
def MatchesNoLiteral (k : KEYS) (s : List Char) : Prop :=
  ∀ e ∈ Vocabulary k, ¬ Begins e.2.1.toList s

instance (k : KEYS) (s : List Char) : Decidable (MatchesNoLiteral k s) := by
  unfold MatchesNoLiteral; infer_instance

/-- The outcome of a family of loads, indexed by the value `s` of one key, at the
value `b`: either the load fails with `e`, or the value of the key does not
matter to the outcome at all. -/
def FailsOrIgnores (F : List Char → Except Failure State) (b : List Char) (e : Failure) :
    Prop :=
  F b = .error e ∨ ∀ s, F s = F b

/-- A valid configuration with MM5 and the QPF override. -/
def sampleMM5Input : LISTPTR :=
  ("OPTIONS", "MM5", "TRUE".toList) :: ("OPTIONS", "QPF", "TRUE".toList) :: sampleInput

/-- A valid configuration in POINT mode. -/
def samplePointInput : LISTPTR :=
  ("OPTIONS", "EXTENT", "POINT".toList) :: sampleInput

/-- A valid configuration with the sediment model and its input file. -/
def sampleSedimentInput : LISTPTR :=
  ("OPTIONS", "SEDIMENT", "TRUE".toList) ::
    ("OPTIONS", "SEDIMENT INPUT FILE", "sed.txt".toList) :: sampleInput

/-- The value of an unsigned decimal numeral with an optional fraction part, such
as `0.0005`; `none` for any other string. -/
def parseFraction (s : List Char) : Option ℚ :=
  let whole := s.takeWhile (· ≠ '.')
  let frac := (s.dropWhile (· ≠ '.')).drop 1
  match parseDecimal whole with
  | none => none
  | some n =>
    if frac = [] then some (n : ℚ)
    else (parseDecimal frac).map fun m => (n : ℚ) + (m : ℚ) / 10 ^ frac.length

/-- The value of an optionally signed decimal numeral with an optional fraction
part, such as `-59.9`; `none` for any other string. -/
def parseSigned (s : List Char) : Option ℚ :=
  match s with
  | '-' :: t => (parseFraction t).map fun x => -x
  | _ => parseFraction s

/-- Concrete library routines that read decimal fractions as `strtod` does:
`CopyDouble` yields the `double` nearest to the numeral and `CopyFloat` that
`double` converted to `float`. -/
def ieeeCollaborators : COLLABORATORS :=
  { sampleCollaborators with
    CopyDouble := fun s _ => (parseSigned s).map binary64.roundQ
    CopyFloat := fun s _ => (parseSigned s).map fun x => binary32.roundQ (binary64.roundQ x) }

/-- The valid basin configuration with another grid spacing. -/
def sampleSpacingInput (spacing : String) : LISTPTR :=
  ("AREA", "GRID SPACING", spacing.toList) :: sampleInput

/-- A point configuration on a grid of spacing 30 whose northern edge is at 0.1,
with the point at -59.9 north. -/
def sampleEdgeInput : LISTPTR :=
  [ ("AREA", "EXTREME NORTH", "0.1".toList), ("AREA", "GRID SPACING", "30".toList),
    ("AREA", "POINT NORTH", "-59.9".toList) ] ++ samplePointInput

/-- The library routines reject the empty string. -/
def COLLABORATORS.RejectEmpty (E : COLLABORATORS) : Prop :=
  E.CopyInt [] 1 = none ∧ E.CopyDouble [] 1 = none ∧ E.CopyFloat [] 1 = none ∧
    E.CopyUChar [] 1 = none ∧ E.SScanDate [] = none

instance (E : COLLABORATORS) : Decidable E.RejectEmpty := by
  unfold COLLABORATORS.RejectEmpty; infer_instance

/-- The keys that the pass examines whatever the other keys are: the decoded
options outside the conditionals of lines 161, 184, 193, 226, 333, 342 and 364,
the keys of the areal extent (not those of line 452) and of the model period, and
the constants outside the conditionals of lines 517 and 524. -/
def AlwaysExamined : List KEYS :=
  [ .format, .extent, .interpolation, .sensible_heat_flux, .sediment, .routing,
    .infiltration, .mm5, .qpf, .prism, .canopy_radatt, .shading, .snotel, .stream_temp,
    .canopy_shading, .outside, .rhoverride,
    .coordinate_system, .extreme_north, .extreme_west, .center_latitude,
    .center_longitude, .time_zone_meridian, .number_of_rows, .number_of_columns,
    .grid_spacing, .time_step, .model_start, .model_end,
    .ground_roughness, .snow_roughness, .rain_threshold, .snow_threshold,
    .snow_water_capacity, .reference_height, .rain_lai_multiplier, .snow_lai_multiplier,
    .min_intercepted_snow, .outside_basin, .precip_multiplier ]

/-- A valid configuration in POINT mode with MM5 in which every key that the
conditionals skip is empty. -/
def sampleSparseInput : LISTPTR :=
  [ ("OPTIONS", "EXTENT", "POINT".toList), ("OPTIONS", "MM5", "TRUE".toList),
    ("OPTIONS", "GRADIENT", []), ("OPTIONS", "FLOW ROUTING", []),
    ("OPTIONS", "PRECIPITATION SOURCE", []), ("OPTIONS", "WIND SOURCE", []),
    ("OPTIONS", "TEMPERATURE LAPSE RATE", []),
    ("OPTIONS", "PRECIPITATION LAPSE RATE", []),
    ("CONSTANTS", "TEMPERATURE LAPSE RATE", []),
    ("CONSTANTS", "PRECIPITATION LAPSE RATE", []) ] ++ sampleInput

/-- A valid basin configuration without the coordinates of a point. -/
def sampleNoPointInput : LISTPTR :=
  ("AREA", "POINT NORTH", []) :: ("AREA", "POINT EAST", []) :: sampleInput

/-! ## The pass as an ordered list of checks -/

/-- A check of the pass: the keys it concerns and the block that performs it. -/
structure CHECK where
  keys : List KEYS
  run : COLLABORATORS → SETTINGS → (KEYS → List Char) → State → Except Failure State

/-- The checks of lines 138-532 in the order of the source. -/
def Pass : List CHECK :=
  [ ⟨[.format], fun _ S V => DetermineFileFormat S V⟩,
    ⟨[.extent], fun _ S V => DetermineExtent S V⟩,
    ⟨[.gradient], fun _ S V => DetermineFlowGradient S V⟩,
    ⟨[.interpolation], fun _ S V => DetermineInterpolation S V⟩,
    ⟨[.cressman_radius, .cressman_stations], fun E S V => DetermineCressman E S V⟩,
    ⟨[.flow_routing], fun _ S V => DetermineHasNetwork S V⟩,
    ⟨[.sensible_heat_flux], fun _ S V => DetermineHeatFlux S V⟩,
    ⟨[.sediment], fun _ S V => DetermineSediment S V⟩,
    ⟨[.sed_input_file], fun _ S V => DetermineSedFile S V⟩,
    ⟨[.routing], fun _ S V => DetermineRouting S V⟩,
    ⟨[.infiltration], fun _ S V => DetermineInfiltration S V⟩,
    ⟨[.mm5], fun _ S V => DetermineMM5 S V⟩,
    ⟨[.qpf], fun _ S V => DetermineQPF S V⟩,
    ⟨[.prism], fun _ S V => DeterminePrism S V⟩,
    ⟨[.canopy_radatt], fun _ S V => DetermineCanopyRadAtt S V⟩,
    ⟨[.shading], fun _ S V => DetermineShading S V⟩,
    ⟨[.prism], fun _ S _ => CheckMM5Prism S⟩,
    ⟨[.snotel], fun _ S V => DetermineSnotel S V⟩,
    ⟨[.stream_temp], fun _ S V => DetermineStreamTemp S V⟩,
    ⟨[.canopy_shading], fun _ S V => DetermineCanopyShading S V⟩,
    ⟨[.outside], fun _ S V => DetermineOutside S V⟩,
    ⟨[.prism_data_path, .prism_data_ext], fun _ S V => DeterminePrismData S V⟩,
    ⟨[.shading_data_path, .shading_data_ext, .skyview_data_path],
      fun _ S V => DetermineShadingData S V⟩,
    ⟨[.rhoverride], fun _ S V => DetermineRhoverride S V⟩,
    ⟨[.precipitation_source, .wind_source, .temp_lapse, .precip_lapse],
      fun _ S V => DetermineMetOptions S V⟩,
    ⟨[.coordinate_system, .extreme_north, .extreme_west, .center_latitude,
      .center_longitude, .time_zone_meridian, .number_of_rows, .number_of_columns,
      .grid_spacing], fun E S V => DetermineArealExtent E S V⟩,
    ⟨[.point_north, .point_east], fun E S V => DeterminePoint E S V⟩,
    ⟨[.time_step, .model_start, .model_end], fun E S V => DetermineModelPeriod E S V⟩,
    ⟨[.ground_roughness, .snow_roughness, .rain_threshold, .snow_threshold,
      .snow_water_capacity, .reference_height, .rain_lai_multiplier,
      .snow_lai_multiplier, .min_intercepted_snow, .outside_basin, .temp_lapse_rate,
      .precip_lapse_rate, .precip_multiplier],
      fun E S V => DetermineModelConstants E S V⟩ ]

/-- Run a list of checks in order, stopping at the first that fails. -/
def runChecks (E : COLLABORATORS) (S : SETTINGS) (V : KEYS → List Char) :
    List CHECK → State → Except Failure State
  | [], st => .ok st
  | c :: cs, st => c.run E S V st >>= runChecks E S V cs

/-- A check reads no other key than its own. -/
def CHECK.Local (c : CHECK) : Prop :=
  ∀ (E : COLLABORATORS) (S : SETTINGS) (V V' : KEYS → List Char),
    (∀ k ∈ c.keys, V' k = V k) → c.run E S V' = c.run E S V

/-- The failure of an outcome, if it is one. -/
def failureOf (r : Except Failure State) : Option Failure :=
  match r with
  | .error e => some e
  | .ok _ => none

/-- The enumerators of `KEYS`, in the order of the table. -/
def allKeys : List KEYS := (List.range 63).map KEYS.ofNat

/-! ## The validation steps

The failures of the pass, described without the pass: an ordered list of
validation steps over the table of resolved strings. -/

/-- One validation step: the key it reports; whether the resolved strings of the
keys before it make the pass examine the key (`applies`); whether the resolved
string of the key is rejected (`violated`); and the failure reported then. -/
structure RULE where
  key : KEYS
  applies : Bool
  violated : Bool
  failure : Failure

/-- Whether the resolved string of a key begins with a literal. -/
def KeyBegins (V : KEYS → List Char) (k : KEYS) (lit : String) : Bool :=
  decide (Begins lit.toList (V k))

/-- The step of a key with a literal vocabulary: a string that begins with none
of the compared prefixes is rejected, with `ReportError` on the key. -/
def RULE.literal (V : KEYS → List Char) (k : KEYS) (applies : Bool) : RULE :=
  ⟨k, applies, decide (MatchesNoLiteral k (V k)), .ReportError (KeyName k) 51⟩

/-- The step of a key that must not be empty. -/
def RULE.required (V : KEYS → List Char) (k : KEYS) (applies : Bool) : RULE :=
  ⟨k, applies, IsEmptyStr (V k), .ReportError (KeyName k) 51⟩

/-- The step of a key that a library routine must parse: `value` is what the
routine makes of the resolved string. -/
def RULE.parsed {α : Type} (k : KEYS) (applies : Bool) (value : Option α) : RULE :=
  ⟨k, applies, value.isNone, .ReportError (KeyName k) 51⟩

/-- The step of the illegal combination of MM5 and PRISM without QPF, reported
under the key PRISM. -/
def RULE.combination (V : KEYS → List Char) : RULE :=
  ⟨.prism, true,
    KeyBegins V .mm5 "TRUE" && KeyBegins V .prism "TRUE" && KeyBegins V .qpf "FALSE",
    .ReportError (KeyName .prism) 51⟩

/-- The step of canopy shading without the stream temperature module, which exits
with the status -1. -/
def RULE.canopy (V : KEYS → List Char) : RULE :=
  ⟨.canopy_shading, true,
    KeyBegins V .canopy_shading "TRUE" && KeyBegins V .stream_temp "FALSE",
    .Exit CanopyShadingMessage (-1)⟩

/-- The validation steps in the order of the checks of lines 138-532: every key
that the pass can report, with the condition on the keys before it under which
it is examined. -/
def Rules (E : COLLABORATORS) (V : KEYS → List Char) : List RULE :=
  [ .literal V .format true,
    .literal V .extent true,
    .literal V .gradient (!KeyBegins V .extent "POINT"),
    .literal V .interpolation true,
    .parsed .cressman_radius (KeyBegins V .interpolation "VARCRESS")
      (E.CopyInt (V .cressman_radius) 1),
    .parsed .cressman_stations (KeyBegins V .interpolation "VARCRESS")
      (E.CopyInt (V .cressman_stations) 1),
    .literal V .flow_routing (!KeyBegins V .extent "POINT"),
    .literal V .sensible_heat_flux true,
    .literal V .sediment true,
    .required V .sed_input_file (KeyBegins V .sediment "TRUE"),
    .literal V .routing true,
    .literal V .infiltration true,
    .literal V .mm5 true,
    .literal V .qpf true,
    .literal V .prism true,
    .literal V .canopy_radatt true,
    .literal V .shading true,
    .combination V,
    .literal V .snotel true,
    .literal V .stream_temp true,
    .literal V .canopy_shading true,
    .canopy V,
    .literal V .outside true,
    .required V .prism_data_path (KeyBegins V .prism "TRUE"),
    .required V .prism_data_ext (KeyBegins V .prism "TRUE"),
    .required V .shading_data_path (KeyBegins V .shading "TRUE"),
    .required V .shading_data_ext (KeyBegins V .shading "TRUE"),
    .required V .skyview_data_path (KeyBegins V .shading "TRUE"),
    .literal V .rhoverride true,
    .literal V .precipitation_source (!KeyBegins V .mm5 "TRUE"),
    .literal V .wind_source (!KeyBegins V .mm5 "TRUE"),
    .literal V .temp_lapse (!KeyBegins V .mm5 "TRUE"),
    .literal V .precip_lapse (!KeyBegins V .mm5 "TRUE"),
    .required V .coordinate_system true,
    .parsed .extreme_north true (E.CopyDouble (V .extreme_north) 1),
    .parsed .extreme_west true (E.CopyDouble (V .extreme_west) 1),
    .parsed .center_latitude true (E.CopyFloat (V .center_latitude) 1),
    .parsed .center_longitude true (E.CopyFloat (V .center_longitude) 1),
    .parsed .time_zone_meridian true (E.CopyFloat (V .time_zone_meridian) 1),
    .parsed .number_of_rows true (E.CopyInt (V .number_of_rows) 1),
    .parsed .number_of_columns true (E.CopyInt (V .number_of_columns) 1),
    .parsed .grid_spacing true (E.CopyFloat (V .grid_spacing) 1),
    .parsed .point_north (KeyBegins V .extent "POINT") (E.CopyDouble (V .point_north) 1),
    .parsed .point_east (KeyBegins V .extent "POINT") (E.CopyDouble (V .point_east) 1),
    .parsed .time_step true (E.CopyFloat (V .time_step) 1),
    .parsed .model_start true (E.SScanDate (V .model_start)),
    .parsed .model_end true (E.SScanDate (V .model_end)),
    .parsed .ground_roughness true (E.CopyFloat (V .ground_roughness) 1),
    .parsed .snow_roughness true (E.CopyFloat (V .snow_roughness) 1),
    .parsed .rain_threshold true (E.CopyFloat (V .rain_threshold) 1),
    .parsed .snow_threshold true (E.CopyFloat (V .snow_threshold) 1),
    .parsed .snow_water_capacity true (E.CopyFloat (V .snow_water_capacity) 1),
    .parsed .reference_height true (E.CopyFloat (V .reference_height) 1),
    .parsed .rain_lai_multiplier true (E.CopyFloat (V .rain_lai_multiplier) 1),
    .parsed .snow_lai_multiplier true (E.CopyFloat (V .snow_lai_multiplier) 1),
    .parsed .min_intercepted_snow true (E.CopyFloat (V .min_intercepted_snow) 1),
    .parsed .outside_basin true (E.CopyUChar (V .outside_basin) 1),
    .parsed .temp_lapse_rate
      (!KeyBegins V .mm5 "TRUE" && KeyBegins V .temp_lapse "CONSTANT")
      (E.CopyFloat (V .temp_lapse_rate) 1),
    .parsed .precip_lapse_rate
      (if KeyBegins V .mm5 "TRUE" then KeyBegins V .qpf "TRUE" && KeyBegins V .prism "FALSE"
        else KeyBegins V .precip_lapse "CONSTANT")
      (E.CopyFloat (V .precip_lapse_rate) 1),
    .parsed .precip_multiplier true (E.CopyFloat (V .precip_multiplier) 1) ]

/-- The first step of a list that applies and is violated. -/
def firstViolated (rs : List RULE) : Option RULE :=
  rs.find? fun r => r.applies && r.violated

/-- The failure that the validation steps make of a table of resolved strings:
that of the first step that applies and is violated, none if there is no such
step. -/
def firstFailure (E : COLLABORATORS) (V : KEYS → List Char) : Option Failure :=
  (firstViolated (Rules E V)).map RULE.failure

/-- An outcome `x` of a part of the pass agrees with what a list of steps makes of
the table: it is the failure of the first violated step `o`, or, without such a
step, a state of which `Q` holds. -/
def Refines (o : Option RULE) (x : Except Failure State) (Q : State → Prop) : Prop :=
  match o with
  | some r => x = .error r.failure
  | none => ∃ st', x = .ok st' ∧ Q st'

/-! # Theorems -/

/-! ## Sequencing of fallible steps -/

theorem bind_ok_eq {α β : Type} (a : α) (f : α → Except Failure β) :
    ((Except.ok a : Except Failure α) >>= f) = f a := rfl

theorem bind_error_eq {α β : Type} (e : Failure) (f : α → Except Failure β) :
    ((Except.error e : Except Failure α) >>= f) = .error e := rfl

/-- A sequence of two steps succeeds only if the first step succeeds and the
second succeeds on its result. -/
theorem bind_eq_ok {α β : Type} {x : Except Failure α} {f : α → Except Failure β} {b : β}
    (h : (x >>= f) = .ok b) : ∃ a, x = .ok a ∧ f a = .ok b :=
  match x, h with
  | .ok a, h => ⟨a, rfl, h⟩

theorem bind_congr_ok {α β : Type} {x : Except Failure α} {f g : α → Except Failure β}
    (h : ∀ a, x = .ok a → f a = g a) : (x >>= f) = (x >>= g) := by
  cases x with
  | error e => rfl
  | ok a => exact h a rfl

theorem fails_bind {α β : Type} {x : Except Failure α} {f : α → Except Failure β}
    (h : ∀ a, x = .ok a → ∃ e, f a = .error e) : ∃ e, (x >>= f) = .error e := by
  cases x with
  | error e => exact ⟨e, rfl⟩
  | ok a => exact h a rfl

theorem update_of_not_mem {V : KEYS → List Char} {k : KEYS} {s : List Char} {ks : List KEYS}
    (hk : k ∉ ks) {j : KEYS} (hj : j ∈ ks) : Function.update V k s j = V j := by
  apply Function.update_noteq
  rintro rfl
  exact hk hj

/-! ## `strncmp` against a literal is a prefix test -/

theorem toNat_sub_ne_zero {a b : Char} (h : a ≠ b) : (a.toNat : Int) - (b.toNat : Int) ≠ 0 := by
  intro h0
  apply h
  have h1 : a.toNat = b.toNat := by omega
  rw [← Char.ofNat_toNat a, ← Char.ofNat_toNat b, h1]

/-- Where the first `n` characters of the literal exist and none is NUL, `strncmp`
yields zero exactly when the string begins with these `n` characters. -/
theorem strncmp_eq_zero_iff (n : Nat) : ∀ (s lit : List Char), n ≤ lit.length →
    (∀ c ∈ lit.take n, c ≠ Char.ofNat 0) →
    (strncmp s lit n = 0 ↔ s.take n = lit.take n) := by
  induction n with
  | zero => intro s lit _ _; simp [strncmp]
  | succ n ih =>
    intro s lit hlen hnul
    cases lit with
    | nil => simp at hlen
    | cons b bs =>
      have hb : b ≠ Char.ofNat 0 := hnul b (by simp)
      have hbs : ∀ c ∈ bs.take n, c ≠ Char.ofNat 0 := fun c hc => hnul c (by simp [hc])
      have hlen' : n ≤ bs.length := by simpa using hlen
      cases s with
      | nil =>
        simp only [strncmp, List.headD_nil, List.headD_cons, List.take_nil, List.take_succ_cons]
        rw [if_pos (Ne.symm hb)]
        constructor
        · intro h
          exact absurd h (toNat_sub_ne_zero (Ne.symm hb))
        · intro h
          cases h
      | cons a as =>
        simp only [strncmp, List.headD_cons, List.tail_cons, List.take_succ_cons]
        by_cases hab : a = b
        · subst hab
          simp [hb, ih as bs hlen' hbs]
        · rw [if_pos hab]
          constructor
          · intro h
            exact absurd h (toNat_sub_ne_zero hab)
          · intro h
            exact absurd (List.cons.inj h).1 hab

theorem strncmp_begins {lit p : List Char} {n : Nat} (h : comparesPrefix lit p n = true)
    (s : List Char) : strncmp s lit n = 0 ↔ Begins p s := by
  simp only [comparesPrefix, decide_eq_true_eq] at h
  obtain ⟨hlen, hp, hnul⟩ := h
  have hl : p.length = n := by rw [← hp, List.length_take]; omega
  rw [strncmp_eq_zero_iff n s lit hlen (by rw [hp]; exact hnul), hp, Begins, hl]

/-- A string begins with at most one of two prefixes that differ on their common
length. -/
theorem Begins.agree {p q s : List Char} (hp : Begins p s) (hq : Begins q s) :
    p.take q.length = q.take p.length := by
  unfold Begins at hp hq
  rw [← hp, ← hq]
  simp only [List.take_take, List.length_take]
  congr 1
  omega

theorem Begins.excludes {p q s : List Char} (hp : Begins p s)
    (hpq : p.take q.length ≠ q.take p.length) : ¬ Begins q s :=
  fun hq => hpq (hp.agree hq)

theorem eq_ok_of_isSome {x : Except Failure State} (h : x.toOption.isSome = true)
    (d : State) : x = .ok (x.toOption.getD d) := by
  cases x with
  | error e => cases h
  | ok a => rfl

/-! ## The comparisons of the pass -/

@[simp] theorem strncmp_BIN_3 (s : List Char) :
    strncmp s "BIN".toList 3 = 0 ↔ Begins "BIN".toList s :=
  strncmp_begins (by decide) s

@[simp] theorem strncmp_NETCDF_3 (s : List Char) :
    strncmp s "NETCDF".toList 3 = 0 ↔ Begins "NET".toList s :=
  strncmp_begins (by decide) s

@[simp] theorem strncmp_BYTESWAP_3 (s : List Char) :
    strncmp s "BYTESWAP".toList 3 = 0 ↔ Begins "BYT".toList s :=
  strncmp_begins (by decide) s

@[simp] theorem strncmp_POINT_5 (s : List Char) :
    strncmp s "POINT".toList 5 = 0 ↔ Begins "POINT".toList s :=
  strncmp_begins (by decide) s

@[simp] theorem strncmp_BASIN_5 (s : List Char) :
    strncmp s "BASIN".toList 5 = 0 ↔ Begins "BASIN".toList s :=
  strncmp_begins (by decide) s

@[simp] theorem strncmp_TOPO_4 (s : List Char) :
    strncmp s "TOPO".toList 4 = 0 ↔ Begins "TOPO".toList s :=
  strncmp_begins (by decide) s

@[simp] theorem strncmp_WATER_5 (s : List Char) :
    strncmp s "WATER".toList 5 = 0 ↔ Begins "WATER".toList s :=
  strncmp_begins (by decide) s

@[simp] theorem strncmp_INVDIST_7 (s : List Char) :
    strncmp s "INVDIST".toList 7 = 0 ↔ Begins "INVDIST".toList s :=
  strncmp_begins (by decide) s

@[simp] theorem strncmp_NEAREST_7 (s : List Char) :
    strncmp s "NEAREST".toList 7 = 0 ↔ Begins "NEAREST".toList s :=
  strncmp_begins (by decide) s

@[simp] theorem strncmp_VARCRESS_8 (s : List Char) :
    strncmp s "VARCRESS".toList 8 = 0 ↔ Begins "VARCRESS".toList s :=
  strncmp_begins (by decide) s

@[simp] theorem strncmp_NETWORK_7 (s : List Char) :
    strncmp s "NETWORK".toList 7 = 0 ↔ Begins "NETWORK".toList s :=
  strncmp_begins (by decide) s

@[simp] theorem strncmp_UNIT_4 (s : List Char) :
    strncmp s "UNIT".toList 4 = 0 ↔ Begins "UNIT".toList s :=
  strncmp_begins (by decide) s

@[simp] theorem strncmp_TRUE_4 (s : List Char) :
    strncmp s "TRUE".toList 4 = 0 ↔ Begins "TRUE".toList s :=
  strncmp_begins (by decide) s

@[simp] theorem strncmp_FALSE_5 (s : List Char) :
    strncmp s "FALSE".toList 5 = 0 ↔ Begins "FALSE".toList s :=
  strncmp_begins (by decide) s

@[simp] theorem strncmp_KINEMATIC_9 (s : List Char) :
    strncmp s "KINEMATIC".toList 9 = 0 ↔ Begins "KINEMATIC".toList s :=
  strncmp_begins (by decide) s

@[simp] theorem strncmp_CONVENTIONAL_12 (s : List Char) :
    strncmp s "CONVENTIONAL".toList 12 = 0 ↔ Begins "CONVENTIONAL".toList s :=
  strncmp_begins (by decide) s

@[simp] theorem strncmp_STATIC_6 (s : List Char) :
    strncmp s "STATIC".toList 6 = 0 ↔ Begins "STATIC".toList s :=
  strncmp_begins (by decide) s

@[simp] theorem strncmp_DYNAMIC_7 (s : List Char) :
    strncmp s "DYNAMIC".toList 7 = 0 ↔ Begins "DYNAMIC".toList s :=
  strncmp_begins (by decide) s

@[simp] theorem strncmp_FIXED_3 (s : List Char) :
    strncmp s "FIXED".toList 3 = 0 ↔ Begins "FIX".toList s :=
  strncmp_begins (by decide) s

@[simp] theorem strncmp_VARIABLE_3 (s : List Char) :
    strncmp s "VARIABLE".toList 3 = 0 ↔ Begins "VAR".toList s :=
  strncmp_begins (by decide) s

@[simp] theorem strncmp_RADAR_5 (s : List Char) :
    strncmp s "RADAR".toList 5 = 0 ↔ Begins "RADAR".toList s :=
  strncmp_begins (by decide) s

@[simp] theorem strncmp_STATION_7 (s : List Char) :
    strncmp s "STATION".toList 7 = 0 ↔ Begins "STATION".toList s :=
  strncmp_begins (by decide) s

@[simp] theorem strncmp_MODEL_5 (s : List Char) :
    strncmp s "MODEL".toList 5 = 0 ↔ Begins "MODEL".toList s :=
  strncmp_begins (by decide) s

@[simp] theorem strncmp_CONSTANT_8 (s : List Char) :
    strncmp s "CONSTANT".toList 8 = 0 ↔ Begins "CONSTANT".toList s :=
  strncmp_begins (by decide) s

@[simp] theorem strncmp_VARIABLE_8 (s : List Char) :
    strncmp s "VARIABLE".toList 8 = 0 ↔ Begins "VARIABLE".toList s :=
  strncmp_begins (by decide) s

@[simp] theorem strncmp_MAP_3 (s : List Char) :
    strncmp s "MAP".toList 3 = 0 ↔ Begins "MAP".toList s :=
  strncmp_begins (by decide) s

/-! ## Each block reads only its own keys -/

theorem DetermineFileFormat_update {S : SETTINGS} {V : KEYS → List Char} {k : KEYS}
    (s : List Char) (hk : k ∉ [.format]) :
    DetermineFileFormat S (Function.update V k s) = DetermineFileFormat S V := by
  funext st
  simp [DetermineFileFormat, update_of_not_mem hk]

theorem DetermineExtent_update {S : SETTINGS} {V : KEYS → List Char} {k : KEYS}
    (s : List Char) (hk : k ∉ [.extent]) :
    DetermineExtent S (Function.update V k s) = DetermineExtent S V := by
  funext st
  simp [DetermineExtent, update_of_not_mem hk]

theorem DetermineFlowGradient_update {S : SETTINGS} {V : KEYS → List Char} {k : KEYS}
    (s : List Char) (hk : k ∉ [.gradient]) :
    DetermineFlowGradient S (Function.update V k s) = DetermineFlowGradient S V := by
  funext st
  simp [DetermineFlowGradient, update_of_not_mem hk]

theorem DetermineInterpolation_update {S : SETTINGS} {V : KEYS → List Char} {k : KEYS}
    (s : List Char) (hk : k ∉ [.interpolation]) :
    DetermineInterpolation S (Function.update V k s) = DetermineInterpolation S V := by
  funext st
  simp [DetermineInterpolation, update_of_not_mem hk]

theorem DetermineCressman_update {E : COLLABORATORS} {S : SETTINGS} {V : KEYS → List Char} {k : KEYS}
    (s : List Char) (hk : k ∉ [.cressman_radius, .cressman_stations]) :
    DetermineCressman E S (Function.update V k s) = DetermineCressman E S V := by
  funext st
  simp [DetermineCressman, update_of_not_mem hk]

theorem DetermineHasNetwork_update {S : SETTINGS} {V : KEYS → List Char} {k : KEYS}
    (s : List Char) (hk : k ∉ [.flow_routing]) :
    DetermineHasNetwork S (Function.update V k s) = DetermineHasNetwork S V := by
  funext st
  simp [DetermineHasNetwork, update_of_not_mem hk]

theorem DetermineHeatFlux_update {S : SETTINGS} {V : KEYS → List Char} {k : KEYS}
    (s : List Char) (hk : k ∉ [.sensible_heat_flux]) :
    DetermineHeatFlux S (Function.update V k s) = DetermineHeatFlux S V := by
  funext st
  simp [DetermineHeatFlux, update_of_not_mem hk]

theorem DetermineSediment_update {S : SETTINGS} {V : KEYS → List Char} {k : KEYS}
    (s : List Char) (hk : k ∉ [.sediment]) :
    DetermineSediment S (Function.update V k s) = DetermineSediment S V := by
  funext st
  simp [DetermineSediment, update_of_not_mem hk]

theorem DetermineSedFile_update {S : SETTINGS} {V : KEYS → List Char} {k : KEYS}
    (s : List Char) (hk : k ∉ [.sed_input_file]) :
    DetermineSedFile S (Function.update V k s) = DetermineSedFile S V := by
  funext st
  simp [DetermineSedFile, update_of_not_mem hk]

theorem DetermineRouting_update {S : SETTINGS} {V : KEYS → List Char} {k : KEYS}
    (s : List Char) (hk : k ∉ [.routing]) :
    DetermineRouting S (Function.update V k s) = DetermineRouting S V := by
  funext st
  simp [DetermineRouting, update_of_not_mem hk]

theorem DetermineInfiltration_update {S : SETTINGS} {V : KEYS → List Char} {k : KEYS}
    (s : List Char) (hk : k ∉ [.infiltration]) :
    DetermineInfiltration S (Function.update V k s) = DetermineInfiltration S V := by
  funext st
  simp [DetermineInfiltration, update_of_not_mem hk]

theorem DetermineMM5_update {S : SETTINGS} {V : KEYS → List Char} {k : KEYS}
    (s : List Char) (hk : k ∉ [.mm5]) :
    DetermineMM5 S (Function.update V k s) = DetermineMM5 S V := by
  funext st
  simp [DetermineMM5, update_of_not_mem hk]

theorem DetermineQPF_update {S : SETTINGS} {V : KEYS → List Char} {k : KEYS}
    (s : List Char) (hk : k ∉ [.qpf]) :
    DetermineQPF S (Function.update V k s) = DetermineQPF S V := by
  funext st
  simp [DetermineQPF, update_of_not_mem hk]

theorem DeterminePrism_update {S : SETTINGS} {V : KEYS → List Char} {k : KEYS}
    (s : List Char) (hk : k ∉ [.prism]) :
    DeterminePrism S (Function.update V k s) = DeterminePrism S V := by
  funext st
  simp [DeterminePrism, update_of_not_mem hk]

theorem DetermineCanopyRadAtt_update {S : SETTINGS} {V : KEYS → List Char} {k : KEYS}
    (s : List Char) (hk : k ∉ [.canopy_radatt]) :
    DetermineCanopyRadAtt S (Function.update V k s) = DetermineCanopyRadAtt S V := by
  funext st
  simp [DetermineCanopyRadAtt, update_of_not_mem hk]

theorem DetermineShading_update {S : SETTINGS} {V : KEYS → List Char} {k : KEYS}
    (s : List Char) (hk : k ∉ [.shading]) :
    DetermineShading S (Function.update V k s) = DetermineShading S V := by
  funext st
  simp [DetermineShading, update_of_not_mem hk]

theorem DetermineSnotel_update {S : SETTINGS} {V : KEYS → List Char} {k : KEYS}
    (s : List Char) (hk : k ∉ [.snotel]) :
    DetermineSnotel S (Function.update V k s) = DetermineSnotel S V := by
  funext st
  simp [DetermineSnotel, update_of_not_mem hk]

theorem DetermineStreamTemp_update {S : SETTINGS} {V : KEYS → List Char} {k : KEYS}
    (s : List Char) (hk : k ∉ [.stream_temp]) :
    DetermineStreamTemp S (Function.update V k s) = DetermineStreamTemp S V := by
  funext st
  simp [DetermineStreamTemp, update_of_not_mem hk]

theorem DetermineCanopyShading_update {S : SETTINGS} {V : KEYS → List Char} {k : KEYS}
    (s : List Char) (hk : k ∉ [.canopy_shading]) :
    DetermineCanopyShading S (Function.update V k s) = DetermineCanopyShading S V := by
  funext st
  simp [DetermineCanopyShading, update_of_not_mem hk]

theorem DetermineOutside_update {S : SETTINGS} {V : KEYS → List Char} {k : KEYS}
    (s : List Char) (hk : k ∉ [.outside]) :
    DetermineOutside S (Function.update V k s) = DetermineOutside S V := by
  funext st
  simp [DetermineOutside, update_of_not_mem hk]

theorem DeterminePrismData_update {S : SETTINGS} {V : KEYS → List Char} {k : KEYS}
    (s : List Char) (hk : k ∉ [.prism_data_path, .prism_data_ext]) :
    DeterminePrismData S (Function.update V k s) = DeterminePrismData S V := by
  funext st
  simp [DeterminePrismData, update_of_not_mem hk]

theorem DetermineShadingData_update {S : SETTINGS} {V : KEYS → List Char} {k : KEYS}
    (s : List Char) (hk : k ∉ [.shading_data_path, .shading_data_ext, .skyview_data_path]) :
    DetermineShadingData S (Function.update V k s) = DetermineShadingData S V := by
  funext st
  simp [DetermineShadingData, update_of_not_mem hk]

theorem DetermineRhoverride_update {S : SETTINGS} {V : KEYS → List Char} {k : KEYS}
    (s : List Char) (hk : k ∉ [.rhoverride]) :
    DetermineRhoverride S (Function.update V k s) = DetermineRhoverride S V := by
  funext st
  simp [DetermineRhoverride, update_of_not_mem hk]

theorem DeterminePrecipType_update {S : SETTINGS} {V : KEYS → List Char} {k : KEYS}
    (s : List Char) (hk : k ∉ [.precipitation_source]) :
    DeterminePrecipType S (Function.update V k s) = DeterminePrecipType S V := by
  funext st
  simp [DeterminePrecipType, update_of_not_mem hk]

theorem DetermineWindSource_update {S : SETTINGS} {V : KEYS → List Char} {k : KEYS}
    (s : List Char) (hk : k ∉ [.wind_source]) :
    DetermineWindSource S (Function.update V k s) = DetermineWindSource S V := by
  funext st
  simp [DetermineWindSource, update_of_not_mem hk]

theorem DetermineTempLapse_update {S : SETTINGS} {V : KEYS → List Char} {k : KEYS}
    (s : List Char) (hk : k ∉ [.temp_lapse]) :
    DetermineTempLapse S (Function.update V k s) = DetermineTempLapse S V := by
  funext st
  simp [DetermineTempLapse, update_of_not_mem hk]

theorem DeterminePrecipLapse_update {S : SETTINGS} {V : KEYS → List Char} {k : KEYS}
    (s : List Char) (hk : k ∉ [.precip_lapse]) :
    DeterminePrecipLapse S (Function.update V k s) = DeterminePrecipLapse S V := by
  funext st
  simp [DeterminePrecipLapse, update_of_not_mem hk]

theorem DetermineArealExtent_update {E : COLLABORATORS} {S : SETTINGS} {V : KEYS → List Char} {k : KEYS}
    (s : List Char) (hk : k ∉ [.coordinate_system, .extreme_north, .extreme_west, .center_latitude, .center_longitude, .time_zone_meridian, .number_of_rows, .number_of_columns, .grid_spacing]) :
    DetermineArealExtent E S (Function.update V k s) = DetermineArealExtent E S V := by
  funext st
  simp [DetermineArealExtent, update_of_not_mem hk]

theorem DeterminePoint_update {E : COLLABORATORS} {S : SETTINGS} {V : KEYS → List Char} {k : KEYS}
    (s : List Char) (hk : k ∉ [.point_north, .point_east]) :
    DeterminePoint E S (Function.update V k s) = DeterminePoint E S V := by
  funext st
  simp [DeterminePoint, update_of_not_mem hk]

theorem DetermineModelPeriod_update {E : COLLABORATORS} {S : SETTINGS} {V : KEYS → List Char} {k : KEYS}
    (s : List Char) (hk : k ∉ [.time_step, .model_start, .model_end]) :
    DetermineModelPeriod E S (Function.update V k s) = DetermineModelPeriod E S V := by
  funext st
  simp [DetermineModelPeriod, update_of_not_mem hk]

theorem DetermineFixedConstants_update {E : COLLABORATORS} {V : KEYS → List Char} {k : KEYS}
    (s : List Char) (hk : k ∉ [.ground_roughness, .snow_roughness, .rain_threshold, .snow_threshold, .snow_water_capacity, .reference_height, .rain_lai_multiplier, .snow_lai_multiplier, .min_intercepted_snow, .outside_basin]) :
    DetermineFixedConstants E (Function.update V k s) = DetermineFixedConstants E V := by
  funext st
  simp [DetermineFixedConstants, update_of_not_mem hk]

theorem DetermineTEMPLAPSE_update {E : COLLABORATORS} {S : SETTINGS} {V : KEYS → List Char} {k : KEYS}
    (s : List Char) (hk : k ∉ [.temp_lapse_rate]) :
    DetermineTEMPLAPSE E S (Function.update V k s) = DetermineTEMPLAPSE E S V := by
  funext st
  simp [DetermineTEMPLAPSE, update_of_not_mem hk]

theorem DeterminePRECIPLAPSE_update {E : COLLABORATORS} {S : SETTINGS} {V : KEYS → List Char} {k : KEYS}
    (s : List Char) (hk : k ∉ [.precip_lapse_rate]) :
    DeterminePRECIPLAPSE E S (Function.update V k s) = DeterminePRECIPLAPSE E S V := by
  funext st
  simp [DeterminePRECIPLAPSE, update_of_not_mem hk]

theorem DeterminePRECIPMULTIPLIER_update {E : COLLABORATORS} {V : KEYS → List Char} {k : KEYS}
    (s : List Char) (hk : k ∉ [.precip_multiplier]) :
    DeterminePRECIPMULTIPLIER E (Function.update V k s) = DeterminePRECIPMULTIPLIER E V := by
  funext st
  simp [DeterminePRECIPMULTIPLIER, update_of_not_mem hk]

/-! ## Each block writes only its own fields -/

theorem DetermineFileFormat_inv {S : SETTINGS} {V : KEYS → List Char} {st st' : State}
    (h : DetermineFileFormat S V st = .ok st') :
    ∃ v1, st' = { st with Options.FileFormat := v1 } := by
  unfold DetermineFileFormat at h
  repeat' split at h
  all_goals first | exact ⟨_, (Except.ok.inj h).symm⟩ | cases h

theorem DetermineExtent_inv {S : SETTINGS} {V : KEYS → List Char} {st st' : State}
    (h : DetermineExtent S V st = .ok st') :
    ∃ v1 v2, st' = { st with Options.Extent := v1, Options.HasNetwork := v2 } := by
  unfold DetermineExtent at h
  repeat' split at h
  all_goals first | exact ⟨_, _, (Except.ok.inj h).symm⟩ | cases h

theorem DetermineFlowGradient_inv {S : SETTINGS} {V : KEYS → List Char} {st st' : State}
    (h : DetermineFlowGradient S V st = .ok st') :
    ∃ v1, st' = { st with Options.FlowGradient := v1 } := by
  unfold DetermineFlowGradient at h
  repeat' split at h
  all_goals first | exact ⟨_, (Except.ok.inj h).symm⟩ | cases h

theorem DetermineInterpolation_inv {S : SETTINGS} {V : KEYS → List Char} {st st' : State}
    (h : DetermineInterpolation S V st = .ok st') :
    ∃ v1, st' = { st with Options.Interpolation := v1 } := by
  unfold DetermineInterpolation at h
  repeat' split at h
  all_goals first | exact ⟨_, (Except.ok.inj h).symm⟩ | cases h

theorem DetermineCressman_inv {E : COLLABORATORS} {S : SETTINGS} {V : KEYS → List Char} {st st' : State}
    (h : DetermineCressman E S V st = .ok st') :
    ∃ v1 v2, st' = { st with Options.CressRadius := v1, Options.CressStations := v2 } := by
  unfold DetermineCressman at h
  repeat' split at h
  all_goals first | exact ⟨_, _, (Except.ok.inj h).symm⟩ | cases h

theorem DetermineHasNetwork_inv {S : SETTINGS} {V : KEYS → List Char} {st st' : State}
    (h : DetermineHasNetwork S V st = .ok st') :
    ∃ v1, st' = { st with Options.HasNetwork := v1 } := by
  unfold DetermineHasNetwork at h
  repeat' split at h
  all_goals first | exact ⟨_, (Except.ok.inj h).symm⟩ | cases h

theorem DetermineHeatFlux_inv {S : SETTINGS} {V : KEYS → List Char} {st st' : State}
    (h : DetermineHeatFlux S V st = .ok st') :
    ∃ v1, st' = { st with Options.HeatFlux := v1 } := by
  unfold DetermineHeatFlux at h
  repeat' split at h
  all_goals first | exact ⟨_, (Except.ok.inj h).symm⟩ | cases h

theorem DetermineSediment_inv {S : SETTINGS} {V : KEYS → List Char} {st st' : State}
    (h : DetermineSediment S V st = .ok st') :
    ∃ v1 v2 v3 v4 v5, st' = { st with Stdout := v1, Options.Sediment := v2, Options.MassWaste := v3, Options.SurfaceErosion := v4, Options.ErosionPeriod := v5 } := by
  unfold DetermineSediment at h
  repeat' split at h
  all_goals first | exact ⟨_, _, _, _, _, (Except.ok.inj h).symm⟩ | cases h

theorem DetermineSedFile_inv {S : SETTINGS} {V : KEYS → List Char} {st st' : State}
    (h : DetermineSedFile S V st = .ok st') :
    ∃ v1, st' = { st with Options.SedFile := v1 } := by
  unfold DetermineSedFile at h
  repeat' split at h
  all_goals first | exact ⟨_, (Except.ok.inj h).symm⟩ | cases h

theorem DetermineRouting_inv {S : SETTINGS} {V : KEYS → List Char} {st st' : State}
    (h : DetermineRouting S V st = .ok st') :
    ∃ v1, st' = { st with Options.Routing := v1 } := by
  unfold DetermineRouting at h
  repeat' split at h
  all_goals first | exact ⟨_, (Except.ok.inj h).symm⟩ | cases h

theorem DetermineInfiltration_inv {S : SETTINGS} {V : KEYS → List Char} {st st' : State}
    (h : DetermineInfiltration S V st = .ok st') :
    ∃ v1 v2, st' = { st with Options.Infiltration := v1, Stdout := v2 } := by
  unfold DetermineInfiltration at h
  repeat' split at h
  all_goals first | exact ⟨_, _, (Except.ok.inj h).symm⟩ | cases h

theorem DetermineMM5_inv {S : SETTINGS} {V : KEYS → List Char} {st st' : State}
    (h : DetermineMM5 S V st = .ok st') :
    ∃ v1, st' = { st with Options.MM5 := v1 } := by
  unfold DetermineMM5 at h
  repeat' split at h
  all_goals first | exact ⟨_, (Except.ok.inj h).symm⟩ | cases h

theorem DetermineQPF_inv {S : SETTINGS} {V : KEYS → List Char} {st st' : State}
    (h : DetermineQPF S V st = .ok st') :
    ∃ v1, st' = { st with Options.QPF := v1 } := by
  unfold DetermineQPF at h
  repeat' split at h
  all_goals first | exact ⟨_, (Except.ok.inj h).symm⟩ | cases h

theorem DeterminePrism_inv {S : SETTINGS} {V : KEYS → List Char} {st st' : State}
    (h : DeterminePrism S V st = .ok st') :
    ∃ v1, st' = { st with Options.Prism := v1 } := by
  unfold DeterminePrism at h
  repeat' split at h
  all_goals first | exact ⟨_, (Except.ok.inj h).symm⟩ | cases h

theorem DetermineCanopyRadAtt_inv {S : SETTINGS} {V : KEYS → List Char} {st st' : State}
    (h : DetermineCanopyRadAtt S V st = .ok st') :
    ∃ v1, st' = { st with Options.CanopyRadAtt := v1 } := by
  unfold DetermineCanopyRadAtt at h
  repeat' split at h
  all_goals first | exact ⟨_, (Except.ok.inj h).symm⟩ | cases h

theorem DetermineShading_inv {S : SETTINGS} {V : KEYS → List Char} {st st' : State}
    (h : DetermineShading S V st = .ok st') :
    ∃ v1, st' = { st with Options.Shading := v1 } := by
  unfold DetermineShading at h
  repeat' split at h
  all_goals first | exact ⟨_, (Except.ok.inj h).symm⟩ | cases h

theorem DetermineSnotel_inv {S : SETTINGS} {V : KEYS → List Char} {st st' : State}
    (h : DetermineSnotel S V st = .ok st') :
    ∃ v1, st' = { st with Options.Snotel := v1 } := by
  unfold DetermineSnotel at h
  repeat' split at h
  all_goals first | exact ⟨_, (Except.ok.inj h).symm⟩ | cases h

theorem DetermineStreamTemp_inv {S : SETTINGS} {V : KEYS → List Char} {st st' : State}
    (h : DetermineStreamTemp S V st = .ok st') :
    ∃ v1, st' = { st with Options.StreamTemp := v1 } := by
  unfold DetermineStreamTemp at h
  repeat' split at h
  all_goals first | exact ⟨_, (Except.ok.inj h).symm⟩ | cases h

theorem DetermineCanopyShading_inv {S : SETTINGS} {V : KEYS → List Char} {st st' : State}
    (h : DetermineCanopyShading S V st = .ok st') :
    ∃ v1, st' = { st with Options.CanopyShading := v1 } := by
  unfold DetermineCanopyShading at h
  repeat' split at h
  all_goals first | exact ⟨_, (Except.ok.inj h).symm⟩ | cases h

theorem DetermineOutside_inv {S : SETTINGS} {V : KEYS → List Char} {st st' : State}
    (h : DetermineOutside S V st = .ok st') :
    ∃ v1, st' = { st with Options.Outside := v1 } := by
  unfold DetermineOutside at h
  repeat' split at h
  all_goals first | exact ⟨_, (Except.ok.inj h).symm⟩ | cases h

theorem DeterminePrismData_inv {S : SETTINGS} {V : KEYS → List Char} {st st' : State}
    (h : DeterminePrismData S V st = .ok st') :
    ∃ v1 v2, st' = { st with Options.PrismDataPath := v1, Options.PrismDataExt := v2 } := by
  unfold DeterminePrismData at h
  repeat' split at h
  all_goals first | exact ⟨_, _, (Except.ok.inj h).symm⟩ | cases h

theorem DetermineShadingData_inv {S : SETTINGS} {V : KEYS → List Char} {st st' : State}
    (h : DetermineShadingData S V st = .ok st') :
    ∃ v1 v2 v3, st' = { st with Options.ShadingDataPath := v1, Options.ShadingDataExt := v2, Options.SkyViewDataPath := v3 } := by
  unfold DetermineShadingData at h
  repeat' split at h
  all_goals first | exact ⟨_, _, _, (Except.ok.inj h).symm⟩ | cases h

theorem DetermineRhoverride_inv {S : SETTINGS} {V : KEYS → List Char} {st st' : State}
    (h : DetermineRhoverride S V st = .ok st') :
    ∃ v1, st' = { st with Options.Rhoverride := v1 } := by
  unfold DetermineRhoverride at h
  repeat' split at h
  all_goals first | exact ⟨_, (Except.ok.inj h).symm⟩ | cases h

theorem DeterminePrecipType_inv {S : SETTINGS} {V : KEYS → List Char} {st st' : State}
    (h : DeterminePrecipType S V st = .ok st') :
    ∃ v1, st' = { st with Options.PrecipType := v1 } := by
  unfold DeterminePrecipType at h
  repeat' split at h
  all_goals first | exact ⟨_, (Except.ok.inj h).symm⟩ | cases h

theorem DetermineWindSource_inv {S : SETTINGS} {V : KEYS → List Char} {st st' : State}
    (h : DetermineWindSource S V st = .ok st') :
    ∃ v1, st' = { st with Options.WindSource := v1 } := by
  unfold DetermineWindSource at h
  repeat' split at h
  all_goals first | exact ⟨_, (Except.ok.inj h).symm⟩ | cases h

theorem DetermineTempLapse_inv {S : SETTINGS} {V : KEYS → List Char} {st st' : State}
    (h : DetermineTempLapse S V st = .ok st') :
    ∃ v1, st' = { st with Options.TempLapse := v1 } := by
  unfold DetermineTempLapse at h
  repeat' split at h
  all_goals first | exact ⟨_, (Except.ok.inj h).symm⟩ | cases h

theorem DeterminePrecipLapse_inv {S : SETTINGS} {V : KEYS → List Char} {st st' : State}
    (h : DeterminePrecipLapse S V st = .ok st') :
    ∃ v1, st' = { st with Options.PrecipLapse := v1 } := by
  unfold DeterminePrecipLapse at h
  repeat' split at h
  all_goals first | exact ⟨_, (Except.ok.inj h).symm⟩ | cases h

theorem DetermineArealExtent_inv {E : COLLABORATORS} {S : SETTINGS} {V : KEYS → List Char} {st st' : State}
    (h : DetermineArealExtent E S V st = .ok st') :
    ∃ v1 v2, st' = { st with Map := v1, SolarGeo := v2 } := by
  unfold DetermineArealExtent at h
  repeat' split at h
  all_goals first | exact ⟨_, _, (Except.ok.inj h).symm⟩ | cases h

theorem DeterminePoint_inv {E : COLLABORATORS} {S : SETTINGS} {V : KEYS → List Char} {st st' : State}
    (h : DeterminePoint E S V st = .ok st') :
    ∃ v1 v2, st' = { st with Options.PointY := v1, Options.PointX := v2 } := by
  unfold DeterminePoint at h
  repeat' split at h
  all_goals first | exact ⟨_, _, (Except.ok.inj h).symm⟩ | cases h

theorem DetermineModelPeriod_inv {E : COLLABORATORS} {S : SETTINGS} {V : KEYS → List Char} {st st' : State}
    (h : DetermineModelPeriod E S V st = .ok st') :
    ∃ v1, st' = { st with Time := v1 } := by
  unfold DetermineModelPeriod at h
  repeat' split at h
  all_goals first | exact ⟨_, (Except.ok.inj h).symm⟩ | cases h

theorem DetermineFixedConstants_inv {E : COLLABORATORS} {V : KEYS → List Char} {st st' : State}
    (h : DetermineFixedConstants E V st = .ok st') :
    ∃ v1, st' = { st with Constants := v1 } := by
  unfold DetermineFixedConstants at h
  repeat' split at h
  all_goals first | exact ⟨_, (Except.ok.inj h).symm⟩ | cases h

theorem DetermineTEMPLAPSE_inv {E : COLLABORATORS} {S : SETTINGS} {V : KEYS → List Char} {st st' : State}
    (h : DetermineTEMPLAPSE E S V st = .ok st') :
    ∃ v1, st' = { st with Constants.TEMPLAPSE := v1 } := by
  unfold DetermineTEMPLAPSE at h
  repeat' split at h
  all_goals first | exact ⟨_, (Except.ok.inj h).symm⟩ | cases h

theorem DeterminePRECIPLAPSE_inv {E : COLLABORATORS} {S : SETTINGS} {V : KEYS → List Char} {st st' : State}
    (h : DeterminePRECIPLAPSE E S V st = .ok st') :
    ∃ v1, st' = { st with Constants.PRECIPLAPSE := v1 } := by
  unfold DeterminePRECIPLAPSE at h
  repeat' split at h
  all_goals first | exact ⟨_, (Except.ok.inj h).symm⟩ | cases h

theorem DeterminePRECIPMULTIPLIER_inv {E : COLLABORATORS} {V : KEYS → List Char} {st st' : State}
    (h : DeterminePRECIPMULTIPLIER E V st = .ok st') :
    ∃ v1, st' = { st with Constants.PRECIPMULTIPLIER := v1 } := by
  unfold DeterminePRECIPMULTIPLIER at h
  repeat' split at h
  all_goals first | exact ⟨_, (Except.ok.inj h).symm⟩ | cases h

/-! ## Compound blocks -/

theorem CheckMM5Prism_inv {S : SETTINGS} {st st' : State}
    (h : CheckMM5Prism S st = .ok st') : st' = st := by
  unfold CheckMM5Prism at h
  split at h
  · cases h
  · exact (Except.ok.inj h).symm

theorem ForceMetOptions_eq (S : SETTINGS) (st : State) :
    ∃ v1 v2, ForceMetOptions S st =
      { st with Options.PrecipType := v1, Options.WindSource := S.NOT_APPLICABLE,
                Options.PrecipLapse := v2, Options.TempLapse := S.NOT_APPLICABLE } := by
  unfold ForceMetOptions
  dsimp only
  split_ifs <;> exact ⟨_, _, rfl⟩

theorem DetermineMetOptions_update {S : SETTINGS} {V : KEYS → List Char} {k : KEYS}
    (s : List Char)
    (hk : k ∉ [.precipitation_source, .wind_source, .temp_lapse, .precip_lapse]) :
    DetermineMetOptions S (Function.update V k s) = DetermineMetOptions S V := by
  funext st
  have h1 : k ∉ [KEYS.precipitation_source] := fun h => hk (by simp_all)
  have h2 : k ∉ [KEYS.wind_source] := fun h => hk (by simp_all)
  have h3 : k ∉ [KEYS.temp_lapse] := fun h => hk (by simp_all)
  have h4 : k ∉ [KEYS.precip_lapse] := fun h => hk (by simp_all)
  simp only [DetermineMetOptions, DeterminePrecipType_update s h1,
    DetermineWindSource_update s h2, DetermineTempLapse_update s h3,
    DeterminePrecipLapse_update s h4]

theorem DetermineMetOptions_inv {S : SETTINGS} {V : KEYS → List Char} {st st' : State}
    (h : DetermineMetOptions S V st = .ok st') :
    ∃ v1 v2 v3 v4, st' =
      { st with Options.PrecipType := v1, Options.WindSource := v2,
                Options.PrecipLapse := v3, Options.TempLapse := v4 } := by
  unfold DetermineMetOptions at h
  split at h
  · obtain ⟨v1, v2, hv⟩ := ForceMetOptions_eq S st
    rw [hv] at h
    exact ⟨_, _, _, _, (Except.ok.inj h).symm⟩
  · obtain ⟨s1, h1, h⟩ := bind_eq_ok h
    obtain ⟨s2, h2, h⟩ := bind_eq_ok h
    obtain ⟨s3, h3, h⟩ := bind_eq_ok h
    obtain ⟨a, rfl⟩ := DeterminePrecipType_inv h1
    obtain ⟨b, rfl⟩ := DetermineWindSource_inv h2
    obtain ⟨c, rfl⟩ := DetermineTempLapse_inv h3
    obtain ⟨d, rfl⟩ := DeterminePrecipLapse_inv h
    exact ⟨a, b, d, c, rfl⟩

theorem DetermineModelConstants_update {E : COLLABORATORS} {S : SETTINGS}
    {V : KEYS → List Char} {k : KEYS} (s : List Char)
    (hk : k ∉ [.ground_roughness, .snow_roughness, .rain_threshold, .snow_threshold,
      .snow_water_capacity, .reference_height, .rain_lai_multiplier, .snow_lai_multiplier,
      .min_intercepted_snow, .outside_basin, .temp_lapse_rate, .precip_lapse_rate,
      .precip_multiplier]) :
    DetermineModelConstants E S (Function.update V k s) = DetermineModelConstants E S V := by
  funext st
  have h1 : k ∉ [KEYS.ground_roughness, .snow_roughness, .rain_threshold, .snow_threshold,
      .snow_water_capacity, .reference_height, .rain_lai_multiplier, .snow_lai_multiplier,
      .min_intercepted_snow, .outside_basin] := fun h => hk (by simp_all)
  have h2 : k ∉ [KEYS.temp_lapse_rate] := fun h => hk (by simp_all)
  have h3 : k ∉ [KEYS.precip_lapse_rate] := fun h => hk (by simp_all)
  have h4 : k ∉ [KEYS.precip_multiplier] := fun h => hk (by simp_all)
  simp only [DetermineModelConstants, DetermineFixedConstants_update s h1,
    DetermineTEMPLAPSE_update s h2, DeterminePRECIPLAPSE_update s h3,
    DeterminePRECIPMULTIPLIER_update s h4]

theorem DetermineModelConstants_inv {E : COLLABORATORS} {S : SETTINGS}
    {V : KEYS → List Char} {st st' : State}
    (h : DetermineModelConstants E S V st = .ok st') :
    ∃ c, st' = { st with Constants := c } := by
  unfold DetermineModelConstants at h
  obtain ⟨s1, h1, h⟩ := bind_eq_ok h
  obtain ⟨s2, h2, h⟩ := bind_eq_ok h
  obtain ⟨s3, h3, h⟩ := bind_eq_ok h
  obtain ⟨a, rfl⟩ := DetermineFixedConstants_inv h1
  obtain ⟨b, rfl⟩ := DetermineTEMPLAPSE_inv h2
  obtain ⟨c, rfl⟩ := DeterminePRECIPLAPSE_inv h3
  obtain ⟨d, rfl⟩ := DeterminePRECIPMULTIPLIER_inv h
  exact ⟨_, rfl⟩


/-! ## The decoding blocks, literal by literal -/

theorem DetermineFileFormat_BIN {S : SETTINGS} {V : KEYS → List Char}
    (h : Begins "BIN".toList (V .format)) (st : State) :
    DetermineFileFormat S V st = .ok
      { st with Options.FileFormat := S.BIN } := by
  unfold DetermineFileFormat
  rw [if_pos ((strncmp_BIN_3 _).2 h)]

theorem DetermineFileFormat_NETCDF {S : SETTINGS} {V : KEYS → List Char}
    (h : Begins "NET".toList (V .format)) (st : State) :
    DetermineFileFormat S V st = .ok
      { st with Options.FileFormat := S.NETCDF } := by
  unfold DetermineFileFormat
  rw [if_neg (fun h1 => h.excludes (by decide) ((strncmp_BIN_3 _).1 h1)), if_pos ((strncmp_NETCDF_3 _).2 h)]

theorem DetermineFileFormat_BYTESWAP {S : SETTINGS} {V : KEYS → List Char}
    (h : Begins "BYT".toList (V .format)) (st : State) :
    DetermineFileFormat S V st = .ok
      { st with Options.FileFormat := S.BYTESWAP } := by
  unfold DetermineFileFormat
  rw [if_neg (fun h1 => h.excludes (by decide) ((strncmp_BIN_3 _).1 h1)), if_neg (fun h1 => h.excludes (by decide) ((strncmp_NETCDF_3 _).1 h1)), if_pos ((strncmp_BYTESWAP_3 _).2 h)]

theorem DetermineFileFormat_error {S : SETTINGS} {V : KEYS → List Char}
    (h1 : ¬ Begins "BIN".toList (V .format)) (h2 : ¬ Begins "NET".toList (V .format)) (h3 : ¬ Begins "BYT".toList (V .format))
    (st : State) :
    DetermineFileFormat S V st = .error (.ReportError (KeyName .format) 51) := by
  unfold DetermineFileFormat
  rw [if_neg (fun h => h1 ((strncmp_BIN_3 _).1 h)), if_neg (fun h => h2 ((strncmp_NETCDF_3 _).1 h)), if_neg (fun h => h3 ((strncmp_BYTESWAP_3 _).1 h))]

theorem DetermineExtent_POINT {S : SETTINGS} {V : KEYS → List Char}
    (h : Begins "POINT".toList (V .extent)) (st : State) :
    DetermineExtent S V st = .ok
      { st with Options.Extent := S.POINT, Options.HasNetwork := S.FALSE } := by
  unfold DetermineExtent
  rw [if_pos ((strncmp_POINT_5 _).2 h)]

theorem DetermineExtent_BASIN {S : SETTINGS} {V : KEYS → List Char}
    (h : Begins "BASIN".toList (V .extent)) (st : State) :
    DetermineExtent S V st = .ok
      { st with Options.Extent := S.BASIN } := by
  unfold DetermineExtent
  rw [if_neg (fun h1 => h.excludes (by decide) ((strncmp_POINT_5 _).1 h1)), if_pos ((strncmp_BASIN_5 _).2 h)]

theorem DetermineExtent_error {S : SETTINGS} {V : KEYS → List Char}
    (h1 : ¬ Begins "POINT".toList (V .extent)) (h2 : ¬ Begins "BASIN".toList (V .extent))
    (st : State) :
    DetermineExtent S V st = .error (.ReportError (KeyName .extent) 51) := by
  unfold DetermineExtent
  rw [if_neg (fun h => h1 ((strncmp_POINT_5 _).1 h)), if_neg (fun h => h2 ((strncmp_BASIN_5 _).1 h))]

theorem DetermineFlowGradient_TOPO {S : SETTINGS} {V : KEYS → List Char}
    (h : Begins "TOPO".toList (V .gradient)) (st : State)
    (hg : st.Options.Extent ≠ S.POINT) :
    DetermineFlowGradient S V st = .ok
      { st with Options.FlowGradient := S.TOPOGRAPHY } := by
  unfold DetermineFlowGradient
  rw [if_pos hg]
  rw [if_pos ((strncmp_TOPO_4 _).2 h)]

theorem DetermineFlowGradient_WATER {S : SETTINGS} {V : KEYS → List Char}
    (h : Begins "WATER".toList (V .gradient)) (st : State)
    (hg : st.Options.Extent ≠ S.POINT) :
    DetermineFlowGradient S V st = .ok
      { st with Options.FlowGradient := S.WATERTABLE } := by
  unfold DetermineFlowGradient
  rw [if_pos hg]
  rw [if_neg (fun h1 => h.excludes (by decide) ((strncmp_TOPO_4 _).1 h1)), if_pos ((strncmp_WATER_5 _).2 h)]

theorem DetermineFlowGradient_error {S : SETTINGS} {V : KEYS → List Char}
    (h1 : ¬ Begins "TOPO".toList (V .gradient)) (h2 : ¬ Begins "WATER".toList (V .gradient))
    (st : State)
    (hg : st.Options.Extent ≠ S.POINT) :
    DetermineFlowGradient S V st = .error (.ReportError (KeyName .gradient) 51) := by
  unfold DetermineFlowGradient
  rw [if_pos hg]
  rw [if_neg (fun h => h1 ((strncmp_TOPO_4 _).1 h)), if_neg (fun h => h2 ((strncmp_WATER_5 _).1 h))]

theorem DetermineInterpolation_INVDIST {S : SETTINGS} {V : KEYS → List Char}
    (h : Begins "INVDIST".toList (V .interpolation)) (st : State) :
    DetermineInterpolation S V st = .ok
      { st with Options.Interpolation := S.INVDIST } := by
  unfold DetermineInterpolation
  rw [if_pos ((strncmp_INVDIST_7 _).2 h)]

theorem DetermineInterpolation_NEAREST {S : SETTINGS} {V : KEYS → List Char}
    (h : Begins "NEAREST".toList (V .interpolation)) (st : State) :
    DetermineInterpolation S V st = .ok
      { st with Options.Interpolation := S.NEAREST } := by
  unfold DetermineInterpolation
  rw [if_neg (fun h1 => h.excludes (by decide) ((strncmp_INVDIST_7 _).1 h1)), if_pos ((strncmp_NEAREST_7 _).2 h)]

theorem DetermineInterpolation_VARCRESS {S : SETTINGS} {V : KEYS → List Char}
    (h : Begins "VARCRESS".toList (V .interpolation)) (st : State) :
    DetermineInterpolation S V st = .ok
      { st with Options.Interpolation := S.VARCRESS } := by
  unfold DetermineInterpolation
  rw [if_neg (fun h1 => h.excludes (by decide) ((strncmp_INVDIST_7 _).1 h1)), if_neg (fun h1 => h.excludes (by decide) ((strncmp_NEAREST_7 _).1 h1)), if_pos ((strncmp_VARCRESS_8 _).2 h)]

theorem DetermineInterpolation_error {S : SETTINGS} {V : KEYS → List Char}
    (h1 : ¬ Begins "INVDIST".toList (V .interpolation)) (h2 : ¬ Begins "NEAREST".toList (V .interpolation)) (h3 : ¬ Begins "VARCRESS".toList (V .interpolation))
    (st : State) :
    DetermineInterpolation S V st = .error (.ReportError (KeyName .interpolation) 51) := by
  unfold DetermineInterpolation
  rw [if_neg (fun h => h1 ((strncmp_INVDIST_7 _).1 h)), if_neg (fun h => h2 ((strncmp_NEAREST_7 _).1 h)), if_neg (fun h => h3 ((strncmp_VARCRESS_8 _).1 h))]

theorem DetermineHasNetwork_NETWORK {S : SETTINGS} {V : KEYS → List Char}
    (h : Begins "NETWORK".toList (V .flow_routing)) (st : State)
    (hg : st.Options.Extent ≠ S.POINT) :
    DetermineHasNetwork S V st = .ok
      { st with Options.HasNetwork := S.TRUE } := by
  unfold DetermineHasNetwork
  rw [if_pos hg]
  rw [if_pos ((strncmp_NETWORK_7 _).2 h)]

theorem DetermineHasNetwork_UNIT {S : SETTINGS} {V : KEYS → List Char}
    (h : Begins "UNIT".toList (V .flow_routing)) (st : State)
    (hg : st.Options.Extent ≠ S.POINT) :
    DetermineHasNetwork S V st = .ok
      { st with Options.HasNetwork := S.FALSE } := by
  unfold DetermineHasNetwork
  rw [if_pos hg]
  rw [if_neg (fun h1 => h.excludes (by decide) ((strncmp_NETWORK_7 _).1 h1)), if_pos ((strncmp_UNIT_4 _).2 h)]

theorem DetermineHasNetwork_error {S : SETTINGS} {V : KEYS → List Char}
    (h1 : ¬ Begins "NETWORK".toList (V .flow_routing)) (h2 : ¬ Begins "UNIT".toList (V .flow_routing))
    (st : State)
    (hg : st.Options.Extent ≠ S.POINT) :
    DetermineHasNetwork S V st = .error (.ReportError (KeyName .flow_routing) 51) := by
  unfold DetermineHasNetwork
  rw [if_pos hg]
  rw [if_neg (fun h => h1 ((strncmp_NETWORK_7 _).1 h)), if_neg (fun h => h2 ((strncmp_UNIT_4 _).1 h))]

theorem DetermineHeatFlux_TRUE {S : SETTINGS} {V : KEYS → List Char}
    (h : Begins "TRUE".toList (V .sensible_heat_flux)) (st : State) :
    DetermineHeatFlux S V st = .ok
      { st with Options.HeatFlux := S.TRUE } := by
  unfold DetermineHeatFlux
  rw [if_pos ((strncmp_TRUE_4 _).2 h)]

theorem DetermineHeatFlux_FALSE {S : SETTINGS} {V : KEYS → List Char}
    (h : Begins "FALSE".toList (V .sensible_heat_flux)) (st : State) :
    DetermineHeatFlux S V st = .ok
      { st with Options.HeatFlux := S.FALSE } := by
  unfold DetermineHeatFlux
  rw [if_neg (fun h1 => h.excludes (by decide) ((strncmp_TRUE_4 _).1 h1)), if_pos ((strncmp_FALSE_5 _).2 h)]

theorem DetermineHeatFlux_error {S : SETTINGS} {V : KEYS → List Char}
    (h1 : ¬ Begins "TRUE".toList (V .sensible_heat_flux)) (h2 : ¬ Begins "FALSE".toList (V .sensible_heat_flux))
    (st : State) :
    DetermineHeatFlux S V st = .error (.ReportError (KeyName .sensible_heat_flux) 51) := by
  unfold DetermineHeatFlux
  rw [if_neg (fun h => h1 ((strncmp_TRUE_4 _).1 h)), if_neg (fun h => h2 ((strncmp_FALSE_5 _).1 h))]

theorem DetermineSediment_TRUE {S : SETTINGS} {V : KEYS → List Char}
    (h : Begins "TRUE".toList (V .sediment)) (st : State) :
    DetermineSediment S V st = .ok
      { st with Options.Sediment := S.TRUE } := by
  unfold DetermineSediment
  rw [if_pos ((strncmp_TRUE_4 _).2 h)]

theorem DetermineSediment_FALSE {S : SETTINGS} {V : KEYS → List Char}
    (h : Begins "FALSE".toList (V .sediment)) (st : State) :
    DetermineSediment S V st = .ok
      { st with
        Stdout := st.Stdout ++
          ["WARNING: Sediment option has not been chosen. All erosion\n",
           "options are being turned off.\n\n"],
        Options.Sediment := S.FALSE,
        Options.MassWaste := S.FALSE,
        Options.SurfaceErosion := S.FALSE,
        Options.ErosionPeriod := S.FALSE } := by
  unfold DetermineSediment
  rw [if_neg (fun h1 => h.excludes (by decide) ((strncmp_TRUE_4 _).1 h1)), if_pos ((strncmp_FALSE_5 _).2 h)]

theorem DetermineSediment_error {S : SETTINGS} {V : KEYS → List Char}
    (h1 : ¬ Begins "TRUE".toList (V .sediment)) (h2 : ¬ Begins "FALSE".toList (V .sediment))
    (st : State) :
    DetermineSediment S V st = .error (.ReportError (KeyName .sediment) 51) := by
  unfold DetermineSediment
  rw [if_neg (fun h => h1 ((strncmp_TRUE_4 _).1 h)), if_neg (fun h => h2 ((strncmp_FALSE_5 _).1 h))]

theorem DetermineRouting_KINEMATIC {S : SETTINGS} {V : KEYS → List Char}
    (h : Begins "KINEMATIC".toList (V .routing)) (st : State) :
    DetermineRouting S V st = .ok
      { st with Options.Routing := S.TRUE } := by
  unfold DetermineRouting
  rw [if_pos ((strncmp_KINEMATIC_9 _).2 h)]

theorem DetermineRouting_CONVENTIONAL {S : SETTINGS} {V : KEYS → List Char}
    (h : Begins "CONVENTIONAL".toList (V .routing)) (st : State) :
    DetermineRouting S V st = .ok
      { st with Options.Routing := S.FALSE } := by
  unfold DetermineRouting
  rw [if_neg (fun h1 => h.excludes (by decide) ((strncmp_KINEMATIC_9 _).1 h1)), if_pos ((strncmp_CONVENTIONAL_12 _).2 h)]

theorem DetermineRouting_error {S : SETTINGS} {V : KEYS → List Char}
    (h1 : ¬ Begins "KINEMATIC".toList (V .routing)) (h2 : ¬ Begins "CONVENTIONAL".toList (V .routing))
    (st : State) :
    DetermineRouting S V st = .error (.ReportError (KeyName .routing) 51) := by
  unfold DetermineRouting
  rw [if_neg (fun h => h1 ((strncmp_KINEMATIC_9 _).1 h)), if_neg (fun h => h2 ((strncmp_CONVENTIONAL_12 _).1 h))]

theorem DetermineInfiltration_STATIC {S : SETTINGS} {V : KEYS → List Char}
    (h : Begins "STATIC".toList (V .infiltration)) (st : State) :
    DetermineInfiltration S V st = .ok
      { st with Options.Infiltration := S.STATIC } := by
  unfold DetermineInfiltration
  rw [if_pos ((strncmp_STATIC_6 _).2 h)]

theorem DetermineInfiltration_DYNAMIC {S : SETTINGS} {V : KEYS → List Char}
    (h : Begins "DYNAMIC".toList (V .infiltration)) (st : State) :
    DetermineInfiltration S V st = .ok
      { st with
        Options.Infiltration := S.DYNAMIC,
        Stdout := st.Stdout ++
          ["WARNING: Dynamic maximum infiltration capacity has\n",
           "not been fully tested. It is a work in progress.\n\n"] } := by
  unfold DetermineInfiltration
  rw [if_neg (fun h1 => h.excludes (by decide) ((strncmp_STATIC_6 _).1 h1)), if_pos ((strncmp_DYNAMIC_7 _).2 h)]

theorem DetermineInfiltration_error {S : SETTINGS} {V : KEYS → List Char}
    (h1 : ¬ Begins "STATIC".toList (V .infiltration)) (h2 : ¬ Begins "DYNAMIC".toList (V .infiltration))
    (st : State) :
    DetermineInfiltration S V st = .error (.ReportError (KeyName .infiltration) 51) := by
  unfold DetermineInfiltration
  rw [if_neg (fun h => h1 ((strncmp_STATIC_6 _).1 h)), if_neg (fun h => h2 ((strncmp_DYNAMIC_7 _).1 h))]

theorem DetermineMM5_TRUE {S : SETTINGS} {V : KEYS → List Char}
    (h : Begins "TRUE".toList (V .mm5)) (st : State) :
    DetermineMM5 S V st = .ok
      { st with Options.MM5 := S.TRUE } := by
  unfold DetermineMM5
  rw [if_pos ((strncmp_TRUE_4 _).2 h)]

theorem DetermineMM5_FALSE {S : SETTINGS} {V : KEYS → List Char}
    (h : Begins "FALSE".toList (V .mm5)) (st : State) :
    DetermineMM5 S V st = .ok
      { st with Options.MM5 := S.FALSE } := by
  unfold DetermineMM5
  rw [if_neg (fun h1 => h.excludes (by decide) ((strncmp_TRUE_4 _).1 h1)), if_pos ((strncmp_FALSE_5 _).2 h)]

theorem DetermineMM5_error {S : SETTINGS} {V : KEYS → List Char}
    (h1 : ¬ Begins "TRUE".toList (V .mm5)) (h2 : ¬ Begins "FALSE".toList (V .mm5))
    (st : State) :
    DetermineMM5 S V st = .error (.ReportError (KeyName .mm5) 51) := by
  unfold DetermineMM5
  rw [if_neg (fun h => h1 ((strncmp_TRUE_4 _).1 h)), if_neg (fun h => h2 ((strncmp_FALSE_5 _).1 h))]

theorem DetermineQPF_TRUE {S : SETTINGS} {V : KEYS → List Char}
    (h : Begins "TRUE".toList (V .qpf)) (st : State) :
    DetermineQPF S V st = .ok
      { st with Options.QPF := S.TRUE } := by
  unfold DetermineQPF
  rw [if_pos ((strncmp_TRUE_4 _).2 h)]

theorem DetermineQPF_FALSE {S : SETTINGS} {V : KEYS → List Char}
    (h : Begins "FALSE".toList (V .qpf)) (st : State) :
    DetermineQPF S V st = .ok
      { st with Options.QPF := S.FALSE } := by
  unfold DetermineQPF
  rw [if_neg (fun h1 => h.excludes (by decide) ((strncmp_TRUE_4 _).1 h1)), if_pos ((strncmp_FALSE_5 _).2 h)]

theorem DetermineQPF_error {S : SETTINGS} {V : KEYS → List Char}
    (h1 : ¬ Begins "TRUE".toList (V .qpf)) (h2 : ¬ Begins "FALSE".toList (V .qpf))
    (st : State) :
    DetermineQPF S V st = .error (.ReportError (KeyName .qpf) 51) := by
  unfold DetermineQPF
  rw [if_neg (fun h => h1 ((strncmp_TRUE_4 _).1 h)), if_neg (fun h => h2 ((strncmp_FALSE_5 _).1 h))]

theorem DeterminePrism_TRUE {S : SETTINGS} {V : KEYS → List Char}
    (h : Begins "TRUE".toList (V .prism)) (st : State) :
    DeterminePrism S V st = .ok
      { st with Options.Prism := S.TRUE } := by
  unfold DeterminePrism
  rw [if_pos ((strncmp_TRUE_4 _).2 h)]

theorem DeterminePrism_FALSE {S : SETTINGS} {V : KEYS → List Char}
    (h : Begins "FALSE".toList (V .prism)) (st : State) :
    DeterminePrism S V st = .ok
      { st with Options.Prism := S.FALSE } := by
  unfold DeterminePrism
  rw [if_neg (fun h1 => h.excludes (by decide) ((strncmp_TRUE_4 _).1 h1)), if_pos ((strncmp_FALSE_5 _).2 h)]

theorem DeterminePrism_error {S : SETTINGS} {V : KEYS → List Char}
    (h1 : ¬ Begins "TRUE".toList (V .prism)) (h2 : ¬ Begins "FALSE".toList (V .prism))
    (st : State) :
    DeterminePrism S V st = .error (.ReportError (KeyName .prism) 51) := by
  unfold DeterminePrism
  rw [if_neg (fun h => h1 ((strncmp_TRUE_4 _).1 h)), if_neg (fun h => h2 ((strncmp_FALSE_5 _).1 h))]

theorem DetermineCanopyRadAtt_FIXED {S : SETTINGS} {V : KEYS → List Char}
    (h : Begins "FIX".toList (V .canopy_radatt)) (st : State) :
    DetermineCanopyRadAtt S V st = .ok
      { st with Options.CanopyRadAtt := S.FIXED } := by
  unfold DetermineCanopyRadAtt
  rw [if_pos ((strncmp_FIXED_3 _).2 h)]

theorem DetermineCanopyRadAtt_VARIABLE {S : SETTINGS} {V : KEYS → List Char}
    (h : Begins "VAR".toList (V .canopy_radatt)) (st : State) :
    DetermineCanopyRadAtt S V st = .ok
      { st with Options.CanopyRadAtt := S.VARIABLE } := by
  unfold DetermineCanopyRadAtt
  rw [if_neg (fun h1 => h.excludes (by decide) ((strncmp_FIXED_3 _).1 h1)), if_pos ((strncmp_VARIABLE_3 _).2 h)]

theorem DetermineCanopyRadAtt_error {S : SETTINGS} {V : KEYS → List Char}
    (h1 : ¬ Begins "FIX".toList (V .canopy_radatt)) (h2 : ¬ Begins "VAR".toList (V .canopy_radatt))
    (st : State) :
    DetermineCanopyRadAtt S V st = .error (.ReportError (KeyName .canopy_radatt) 51) := by
  unfold DetermineCanopyRadAtt
  rw [if_neg (fun h => h1 ((strncmp_FIXED_3 _).1 h)), if_neg (fun h => h2 ((strncmp_VARIABLE_3 _).1 h))]

theorem DetermineShading_TRUE {S : SETTINGS} {V : KEYS → List Char}
    (h : Begins "TRUE".toList (V .shading)) (st : State) :
    DetermineShading S V st = .ok
      { st with Options.Shading := S.TRUE } := by
  unfold DetermineShading
  rw [if_pos ((strncmp_TRUE_4 _).2 h)]

theorem DetermineShading_FALSE {S : SETTINGS} {V : KEYS → List Char}
    (h : Begins "FALSE".toList (V .shading)) (st : State) :
    DetermineShading S V st = .ok
      { st with Options.Shading := S.FALSE } := by
  unfold DetermineShading
  rw [if_neg (fun h1 => h.excludes (by decide) ((strncmp_TRUE_4 _).1 h1)), if_pos ((strncmp_FALSE_5 _).2 h)]

theorem DetermineShading_error {S : SETTINGS} {V : KEYS → List Char}
    (h1 : ¬ Begins "TRUE".toList (V .shading)) (h2 : ¬ Begins "FALSE".toList (V .shading))
    (st : State) :
    DetermineShading S V st = .error (.ReportError (KeyName .shading) 51) := by
  unfold DetermineShading
  rw [if_neg (fun h => h1 ((strncmp_TRUE_4 _).1 h)), if_neg (fun h => h2 ((strncmp_FALSE_5 _).1 h))]

theorem DetermineSnotel_TRUE {S : SETTINGS} {V : KEYS → List Char}
    (h : Begins "TRUE".toList (V .snotel)) (st : State) :
    DetermineSnotel S V st = .ok
      { st with Options.Snotel := S.TRUE } := by
  unfold DetermineSnotel
  rw [if_pos ((strncmp_TRUE_4 _).2 h)]

theorem DetermineSnotel_FALSE {S : SETTINGS} {V : KEYS → List Char}
    (h : Begins "FALSE".toList (V .snotel)) (st : State) :
    DetermineSnotel S V st = .ok
      { st with Options.Snotel := S.FALSE } := by
  unfold DetermineSnotel
  rw [if_neg (fun h1 => h.excludes (by decide) ((strncmp_TRUE_4 _).1 h1)), if_pos ((strncmp_FALSE_5 _).2 h)]

theorem DetermineSnotel_error {S : SETTINGS} {V : KEYS → List Char}
    (h1 : ¬ Begins "TRUE".toList (V .snotel)) (h2 : ¬ Begins "FALSE".toList (V .snotel))
    (st : State) :
    DetermineSnotel S V st = .error (.ReportError (KeyName .snotel) 51) := by
  unfold DetermineSnotel
  rw [if_neg (fun h => h1 ((strncmp_TRUE_4 _).1 h)), if_neg (fun h => h2 ((strncmp_FALSE_5 _).1 h))]

theorem DetermineStreamTemp_TRUE {S : SETTINGS} {V : KEYS → List Char}
    (h : Begins "TRUE".toList (V .stream_temp)) (st : State) :
    DetermineStreamTemp S V st = .ok
      { st with Options.StreamTemp := S.TRUE } := by
  unfold DetermineStreamTemp
  rw [if_pos ((strncmp_TRUE_4 _).2 h)]

theorem DetermineStreamTemp_FALSE {S : SETTINGS} {V : KEYS → List Char}
    (h : Begins "FALSE".toList (V .stream_temp)) (st : State) :
    DetermineStreamTemp S V st = .ok
      { st with Options.StreamTemp := S.FALSE } := by
  unfold DetermineStreamTemp
  rw [if_neg (fun h1 => h.excludes (by decide) ((strncmp_TRUE_4 _).1 h1)), if_pos ((strncmp_FALSE_5 _).2 h)]

theorem DetermineStreamTemp_error {S : SETTINGS} {V : KEYS → List Char}
    (h1 : ¬ Begins "TRUE".toList (V .stream_temp)) (h2 : ¬ Begins "FALSE".toList (V .stream_temp))
    (st : State) :
    DetermineStreamTemp S V st = .error (.ReportError (KeyName .stream_temp) 51) := by
  unfold DetermineStreamTemp
  rw [if_neg (fun h => h1 ((strncmp_TRUE_4 _).1 h)), if_neg (fun h => h2 ((strncmp_FALSE_5 _).1 h))]

theorem DetermineOutside_TRUE {S : SETTINGS} {V : KEYS → List Char}
    (h : Begins "TRUE".toList (V .outside)) (st : State) :
    DetermineOutside S V st = .ok
      { st with Options.Outside := S.TRUE } := by
  unfold DetermineOutside
  rw [if_pos ((strncmp_TRUE_4 _).2 h)]

theorem DetermineOutside_FALSE {S : SETTINGS} {V : KEYS → List Char}
    (h : Begins "FALSE".toList (V .outside)) (st : State) :
    DetermineOutside S V st = .ok
      { st with Options.Outside := S.FALSE } := by
  unfold DetermineOutside
  rw [if_neg (fun h1 => h.excludes (by decide) ((strncmp_TRUE_4 _).1 h1)), if_pos ((strncmp_FALSE_5 _).2 h)]

theorem DetermineOutside_error {S : SETTINGS} {V : KEYS → List Char}
    (h1 : ¬ Begins "TRUE".toList (V .outside)) (h2 : ¬ Begins "FALSE".toList (V .outside))
    (st : State) :
    DetermineOutside S V st = .error (.ReportError (KeyName .outside) 51) := by
  unfold DetermineOutside
  rw [if_neg (fun h => h1 ((strncmp_TRUE_4 _).1 h)), if_neg (fun h => h2 ((strncmp_FALSE_5 _).1 h))]

theorem DetermineRhoverride_TRUE {S : SETTINGS} {V : KEYS → List Char}
    (h : Begins "TRUE".toList (V .rhoverride)) (st : State) :
    DetermineRhoverride S V st = .ok
      { st with Options.Rhoverride := S.TRUE } := by
  unfold DetermineRhoverride
  rw [if_pos ((strncmp_TRUE_4 _).2 h)]

theorem DetermineRhoverride_FALSE {S : SETTINGS} {V : KEYS → List Char}
    (h : Begins "FALSE".toList (V .rhoverride)) (st : State) :
    DetermineRhoverride S V st = .ok
      { st with Options.Rhoverride := S.FALSE } := by
  unfold DetermineRhoverride
  rw [if_neg (fun h1 => h.excludes (by decide) ((strncmp_TRUE_4 _).1 h1)), if_pos ((strncmp_FALSE_5 _).2 h)]

theorem DetermineRhoverride_error {S : SETTINGS} {V : KEYS → List Char}
    (h1 : ¬ Begins "TRUE".toList (V .rhoverride)) (h2 : ¬ Begins "FALSE".toList (V .rhoverride))
    (st : State) :
    DetermineRhoverride S V st = .error (.ReportError (KeyName .rhoverride) 51) := by
  unfold DetermineRhoverride
  rw [if_neg (fun h => h1 ((strncmp_TRUE_4 _).1 h)), if_neg (fun h => h2 ((strncmp_FALSE_5 _).1 h))]

theorem DeterminePrecipType_RADAR {S : SETTINGS} {V : KEYS → List Char}
    (h : Begins "RADAR".toList (V .precipitation_source)) (st : State) :
    DeterminePrecipType S V st = .ok
      { st with Options.PrecipType := S.RADAR } := by
  unfold DeterminePrecipType
  rw [if_pos ((strncmp_RADAR_5 _).2 h)]

theorem DeterminePrecipType_STATION {S : SETTINGS} {V : KEYS → List Char}
    (h : Begins "STATION".toList (V .precipitation_source)) (st : State) :
    DeterminePrecipType S V st = .ok
      { st with Options.PrecipType := S.STATION } := by
  unfold DeterminePrecipType
  rw [if_neg (fun h1 => h.excludes (by decide) ((strncmp_RADAR_5 _).1 h1)), if_pos ((strncmp_STATION_7 _).2 h)]

theorem DeterminePrecipType_error {S : SETTINGS} {V : KEYS → List Char}
    (h1 : ¬ Begins "RADAR".toList (V .precipitation_source)) (h2 : ¬ Begins "STATION".toList (V .precipitation_source))
    (st : State) :
    DeterminePrecipType S V st = .error (.ReportError (KeyName .precipitation_source) 51) := by
  unfold DeterminePrecipType
  rw [if_neg (fun h => h1 ((strncmp_RADAR_5 _).1 h)), if_neg (fun h => h2 ((strncmp_STATION_7 _).1 h))]

theorem DetermineWindSource_MODEL {S : SETTINGS} {V : KEYS → List Char}
    (h : Begins "MODEL".toList (V .wind_source)) (st : State) :
    DetermineWindSource S V st = .ok
      { st with Options.WindSource := S.MODEL } := by
  unfold DetermineWindSource
  rw [if_pos ((strncmp_MODEL_5 _).2 h)]

theorem DetermineWindSource_STATION {S : SETTINGS} {V : KEYS → List Char}
    (h : Begins "STATION".toList (V .wind_source)) (st : State) :
    DetermineWindSource S V st = .ok
      { st with Options.WindSource := S.STATION } := by
  unfold DetermineWindSource
  rw [if_neg (fun h1 => h.excludes (by decide) ((strncmp_MODEL_5 _).1 h1)), if_pos ((strncmp_STATION_7 _).2 h)]

theorem DetermineWindSource_error {S : SETTINGS} {V : KEYS → List Char}
    (h1 : ¬ Begins "MODEL".toList (V .wind_source)) (h2 : ¬ Begins "STATION".toList (V .wind_source))
    (st : State) :
    DetermineWindSource S V st = .error (.ReportError (KeyName .wind_source) 51) := by
  unfold DetermineWindSource
  rw [if_neg (fun h => h1 ((strncmp_MODEL_5 _).1 h)), if_neg (fun h => h2 ((strncmp_STATION_7 _).1 h))]

theorem DetermineTempLapse_CONSTANT {S : SETTINGS} {V : KEYS → List Char}
    (h : Begins "CONSTANT".toList (V .temp_lapse)) (st : State) :
    DetermineTempLapse S V st = .ok
      { st with Options.TempLapse := S.CONSTANT } := by
  unfold DetermineTempLapse
  rw [if_pos ((strncmp_CONSTANT_8 _).2 h)]

theorem DetermineTempLapse_VARIABLE {S : SETTINGS} {V : KEYS → List Char}
    (h : Begins "VARIABLE".toList (V .temp_lapse)) (st : State) :
    DetermineTempLapse S V st = .ok
      { st with Options.TempLapse := S.VARIABLE } := by
  unfold DetermineTempLapse
  rw [if_neg (fun h1 => h.excludes (by decide) ((strncmp_CONSTANT_8 _).1 h1)), if_pos ((strncmp_VARIABLE_8 _).2 h)]

theorem DetermineTempLapse_error {S : SETTINGS} {V : KEYS → List Char}
    (h1 : ¬ Begins "CONSTANT".toList (V .temp_lapse)) (h2 : ¬ Begins "VARIABLE".toList (V .temp_lapse))
    (st : State) :
    DetermineTempLapse S V st = .error (.ReportError (KeyName .temp_lapse) 51) := by
  unfold DetermineTempLapse
  rw [if_neg (fun h => h1 ((strncmp_CONSTANT_8 _).1 h)), if_neg (fun h => h2 ((strncmp_VARIABLE_8 _).1 h))]

theorem DeterminePrecipLapse_CONSTANT {S : SETTINGS} {V : KEYS → List Char}
    (h : Begins "CONSTANT".toList (V .precip_lapse)) (st : State) :
    DeterminePrecipLapse S V st = .ok
      { st with Options.PrecipLapse := S.CONSTANT } := by
  unfold DeterminePrecipLapse
  rw [if_pos ((strncmp_CONSTANT_8 _).2 h)]

theorem DeterminePrecipLapse_MAP {S : SETTINGS} {V : KEYS → List Char}
    (h : Begins "MAP".toList (V .precip_lapse)) (st : State) :
    DeterminePrecipLapse S V st = .ok
      { st with Options.PrecipLapse := S.MAP } := by
  unfold DeterminePrecipLapse
  rw [if_neg (fun h1 => h.excludes (by decide) ((strncmp_CONSTANT_8 _).1 h1)), if_pos ((strncmp_MAP_3 _).2 h)]

theorem DeterminePrecipLapse_VARIABLE {S : SETTINGS} {V : KEYS → List Char}
    (h : Begins "VARIABLE".toList (V .precip_lapse)) (st : State) :
    DeterminePrecipLapse S V st = .ok
      { st with Options.PrecipLapse := S.VARIABLE } := by
  unfold DeterminePrecipLapse
  rw [if_neg (fun h1 => h.excludes (by decide) ((strncmp_CONSTANT_8 _).1 h1)), if_neg (fun h1 => h.excludes (by decide) ((strncmp_MAP_3 _).1 h1)), if_pos ((strncmp_VARIABLE_8 _).2 h)]

theorem DeterminePrecipLapse_error {S : SETTINGS} {V : KEYS → List Char}
    (h1 : ¬ Begins "CONSTANT".toList (V .precip_lapse)) (h2 : ¬ Begins "MAP".toList (V .precip_lapse)) (h3 : ¬ Begins "VARIABLE".toList (V .precip_lapse))
    (st : State) :
    DeterminePrecipLapse S V st = .error (.ReportError (KeyName .precip_lapse) 51) := by
  unfold DeterminePrecipLapse
  rw [if_neg (fun h => h1 ((strncmp_CONSTANT_8 _).1 h)), if_neg (fun h => h2 ((strncmp_MAP_3 _).1 h)), if_neg (fun h => h3 ((strncmp_VARIABLE_8 _).1 h))]

theorem DetermineFlowGradient_POINT {S : SETTINGS} (V : KEYS → List Char) {st : State}
    (hg : st.Options.Extent = S.POINT) :
    DetermineFlowGradient S V st = .ok { st with Options.FlowGradient := S.NOT_APPLICABLE } := by
  unfold DetermineFlowGradient
  rw [if_neg (fun h => h hg)]

theorem DetermineHasNetwork_POINT {S : SETTINGS} (V : KEYS → List Char) {st : State}
    (hg : st.Options.Extent = S.POINT) :
    DetermineHasNetwork S V st = .ok { st with Options.HasNetwork := S.FALSE } := by
  unfold DetermineHasNetwork
  rw [if_neg (fun h => h hg)]

theorem DetermineCanopyShading_TRUE {S : SETTINGS} {V : KEYS → List Char}
    (h : Begins "TRUE".toList (V .canopy_shading)) {st : State}
    (hs : st.Options.StreamTemp ≠ S.FALSE) :
    DetermineCanopyShading S V st = .ok { st with Options.CanopyShading := S.TRUE } := by
  unfold DetermineCanopyShading
  rw [if_pos ((strncmp_TRUE_4 _).2 h), if_neg hs]

theorem DetermineCanopyShading_exit {S : SETTINGS} {V : KEYS → List Char}
    (h : Begins "TRUE".toList (V .canopy_shading)) {st : State}
    (hs : st.Options.StreamTemp = S.FALSE) :
    DetermineCanopyShading S V st = .error (.Exit CanopyShadingMessage (-1)) := by
  unfold DetermineCanopyShading
  rw [if_pos ((strncmp_TRUE_4 _).2 h), if_pos hs]

theorem DetermineCanopyShading_FALSE {S : SETTINGS} {V : KEYS → List Char}
    (h : Begins "FALSE".toList (V .canopy_shading)) (st : State) :
    DetermineCanopyShading S V st = .ok { st with Options.CanopyShading := S.FALSE } := by
  unfold DetermineCanopyShading
  rw [if_neg (fun h1 => h.excludes (by decide) ((strncmp_TRUE_4 _).1 h1)),
    if_pos ((strncmp_FALSE_5 _).2 h)]

theorem DetermineCanopyShading_error {S : SETTINGS} {V : KEYS → List Char}
    (h1 : ¬ Begins "TRUE".toList (V .canopy_shading))
    (h2 : ¬ Begins "FALSE".toList (V .canopy_shading)) (st : State) :
    DetermineCanopyShading S V st = .error (.ReportError (KeyName .canopy_shading) 51) := by
  unfold DetermineCanopyShading
  rw [if_neg (fun h => h1 ((strncmp_TRUE_4 _).1 h)),
    if_neg (fun h => h2 ((strncmp_FALSE_5 _).1 h))]

/-! ## Each block depends on the table through its own keys only -/

theorem DetermineFileFormat_congr {S : SETTINGS} {V V' : KEYS → List Char}
    (h : ∀ k ∈ [.format], V' k = V k) :
    DetermineFileFormat S V' = DetermineFileFormat S V := by
  have e0 : V' .format = V .format := h _ (by decide)
  funext st
  simp only [DetermineFileFormat, e0]

theorem DetermineExtent_congr {S : SETTINGS} {V V' : KEYS → List Char}
    (h : ∀ k ∈ [.extent], V' k = V k) :
    DetermineExtent S V' = DetermineExtent S V := by
  have e0 : V' .extent = V .extent := h _ (by decide)
  funext st
  simp only [DetermineExtent, e0]

theorem DetermineFlowGradient_congr {S : SETTINGS} {V V' : KEYS → List Char}
    (h : ∀ k ∈ [.gradient], V' k = V k) :
    DetermineFlowGradient S V' = DetermineFlowGradient S V := by
  have e0 : V' .gradient = V .gradient := h _ (by decide)
  funext st
  simp only [DetermineFlowGradient, e0]

theorem DetermineInterpolation_congr {S : SETTINGS} {V V' : KEYS → List Char}
    (h : ∀ k ∈ [.interpolation], V' k = V k) :
    DetermineInterpolation S V' = DetermineInterpolation S V := by
  have e0 : V' .interpolation = V .interpolation := h _ (by decide)
  funext st
  simp only [DetermineInterpolation, e0]

theorem DetermineCressman_congr {E : COLLABORATORS} {S : SETTINGS} {V V' : KEYS → List Char}
    (h : ∀ k ∈ [.cressman_radius, .cressman_stations], V' k = V k) :
    DetermineCressman E S V' = DetermineCressman E S V := by
  have e0 : V' .cressman_radius = V .cressman_radius := h _ (by decide)
  have e1 : V' .cressman_stations = V .cressman_stations := h _ (by decide)
  funext st
  simp only [DetermineCressman, e0, e1]

theorem DetermineHasNetwork_congr {S : SETTINGS} {V V' : KEYS → List Char}
    (h : ∀ k ∈ [.flow_routing], V' k = V k) :
    DetermineHasNetwork S V' = DetermineHasNetwork S V := by
  have e0 : V' .flow_routing = V .flow_routing := h _ (by decide)
  funext st
  simp only [DetermineHasNetwork, e0]

theorem DetermineHeatFlux_congr {S : SETTINGS} {V V' : KEYS → List Char}
    (h : ∀ k ∈ [.sensible_heat_flux], V' k = V k) :
    DetermineHeatFlux S V' = DetermineHeatFlux S V := by
  have e0 : V' .sensible_heat_flux = V .sensible_heat_flux := h _ (by decide)
  funext st
  simp only [DetermineHeatFlux, e0]

theorem DetermineSediment_congr {S : SETTINGS} {V V' : KEYS → List Char}
    (h : ∀ k ∈ [.sediment], V' k = V k) :
    DetermineSediment S V' = DetermineSediment S V := by
  have e0 : V' .sediment = V .sediment := h _ (by decide)
  funext st
  simp only [DetermineSediment, e0]

theorem DetermineSedFile_congr {S : SETTINGS} {V V' : KEYS → List Char}
    (h : ∀ k ∈ [.sed_input_file], V' k = V k) :
    DetermineSedFile S V' = DetermineSedFile S V := by
  have e0 : V' .sed_input_file = V .sed_input_file := h _ (by decide)
  funext st
  simp only [DetermineSedFile, e0]

theorem DetermineRouting_congr {S : SETTINGS} {V V' : KEYS → List Char}
    (h : ∀ k ∈ [.routing], V' k = V k) :
    DetermineRouting S V' = DetermineRouting S V := by
  have e0 : V' .routing = V .routing := h _ (by decide)
  funext st
  simp only [DetermineRouting, e0]

theorem DetermineInfiltration_congr {S : SETTINGS} {V V' : KEYS → List Char}
    (h : ∀ k ∈ [.infiltration], V' k = V k) :
    DetermineInfiltration S V' = DetermineInfiltration S V := by
  have e0 : V' .infiltration = V .infiltration := h _ (by decide)
  funext st
  simp only [DetermineInfiltration, e0]

theorem DetermineMM5_congr {S : SETTINGS} {V V' : KEYS → List Char}
    (h : ∀ k ∈ [.mm5], V' k = V k) :
    DetermineMM5 S V' = DetermineMM5 S V := by
  have e0 : V' .mm5 = V .mm5 := h _ (by decide)
  funext st
  simp only [DetermineMM5, e0]

theorem DetermineQPF_congr {S : SETTINGS} {V V' : KEYS → List Char}
    (h : ∀ k ∈ [.qpf], V' k = V k) :
    DetermineQPF S V' = DetermineQPF S V := by
  have e0 : V' .qpf = V .qpf := h _ (by decide)
  funext st
  simp only [DetermineQPF, e0]

theorem DeterminePrism_congr {S : SETTINGS} {V V' : KEYS → List Char}
    (h : ∀ k ∈ [.prism], V' k = V k) :
    DeterminePrism S V' = DeterminePrism S V := by
  have e0 : V' .prism = V .prism := h _ (by decide)
  funext st
  simp only [DeterminePrism, e0]

theorem DetermineCanopyRadAtt_congr {S : SETTINGS} {V V' : KEYS → List Char}
    (h : ∀ k ∈ [.canopy_radatt], V' k = V k) :
    DetermineCanopyRadAtt S V' = DetermineCanopyRadAtt S V := by
  have e0 : V' .canopy_radatt = V .canopy_radatt := h _ (by decide)
  funext st
  simp only [DetermineCanopyRadAtt, e0]

theorem DetermineShading_congr {S : SETTINGS} {V V' : KEYS → List Char}
    (h : ∀ k ∈ [.shading], V' k = V k) :
    DetermineShading S V' = DetermineShading S V := by
  have e0 : V' .shading = V .shading := h _ (by decide)
  funext st
  simp only [DetermineShading, e0]

theorem DetermineSnotel_congr {S : SETTINGS} {V V' : KEYS → List Char}
    (h : ∀ k ∈ [.snotel], V' k = V k) :
    DetermineSnotel S V' = DetermineSnotel S V := by
  have e0 : V' .snotel = V .snotel := h _ (by decide)
  funext st
  simp only [DetermineSnotel, e0]

theorem DetermineStreamTemp_congr {S : SETTINGS} {V V' : KEYS → List Char}
    (h : ∀ k ∈ [.stream_temp], V' k = V k) :
    DetermineStreamTemp S V' = DetermineStreamTemp S V := by
  have e0 : V' .stream_temp = V .stream_temp := h _ (by decide)
  funext st
  simp only [DetermineStreamTemp, e0]

theorem DetermineCanopyShading_congr {S : SETTINGS} {V V' : KEYS → List Char}
    (h : ∀ k ∈ [.canopy_shading], V' k = V k) :
    DetermineCanopyShading S V' = DetermineCanopyShading S V := by
  have e0 : V' .canopy_shading = V .canopy_shading := h _ (by decide)
  funext st
  simp only [DetermineCanopyShading, e0]

theorem DetermineOutside_congr {S : SETTINGS} {V V' : KEYS → List Char}
    (h : ∀ k ∈ [.outside], V' k = V k) :
    DetermineOutside S V' = DetermineOutside S V := by
  have e0 : V' .outside = V .outside := h _ (by decide)
  funext st
  simp only [DetermineOutside, e0]

theorem DeterminePrismData_congr {S : SETTINGS} {V V' : KEYS → List Char}
    (h : ∀ k ∈ [.prism_data_path, .prism_data_ext], V' k = V k) :
    DeterminePrismData S V' = DeterminePrismData S V := by
  have e0 : V' .prism_data_path = V .prism_data_path := h _ (by decide)
  have e1 : V' .prism_data_ext = V .prism_data_ext := h _ (by decide)
  funext st
  simp only [DeterminePrismData, e0, e1]

theorem DetermineShadingData_congr {S : SETTINGS} {V V' : KEYS → List Char}
    (h : ∀ k ∈ [.shading_data_path, .shading_data_ext, .skyview_data_path], V' k = V k) :
    DetermineShadingData S V' = DetermineShadingData S V := by
  have e0 : V' .shading_data_path = V .shading_data_path := h _ (by decide)
  have e1 : V' .shading_data_ext = V .shading_data_ext := h _ (by decide)
  have e2 : V' .skyview_data_path = V .skyview_data_path := h _ (by decide)
  funext st
  simp only [DetermineShadingData, e0, e1, e2]

theorem DetermineRhoverride_congr {S : SETTINGS} {V V' : KEYS → List Char}
    (h : ∀ k ∈ [.rhoverride], V' k = V k) :
    DetermineRhoverride S V' = DetermineRhoverride S V := by
  have e0 : V' .rhoverride = V .rhoverride := h _ (by decide)
  funext st
  simp only [DetermineRhoverride, e0]

theorem DeterminePrecipType_congr {S : SETTINGS} {V V' : KEYS → List Char}
    (h : ∀ k ∈ [.precipitation_source], V' k = V k) :
    DeterminePrecipType S V' = DeterminePrecipType S V := by
  have e0 : V' .precipitation_source = V .precipitation_source := h _ (by decide)
  funext st
  simp only [DeterminePrecipType, e0]

theorem DetermineWindSource_congr {S : SETTINGS} {V V' : KEYS → List Char}
    (h : ∀ k ∈ [.wind_source], V' k = V k) :
    DetermineWindSource S V' = DetermineWindSource S V := by
  have e0 : V' .wind_source = V .wind_source := h _ (by decide)
  funext st
  simp only [DetermineWindSource, e0]

theorem DetermineTempLapse_congr {S : SETTINGS} {V V' : KEYS → List Char}
    (h : ∀ k ∈ [.temp_lapse], V' k = V k) :
    DetermineTempLapse S V' = DetermineTempLapse S V := by
  have e0 : V' .temp_lapse = V .temp_lapse := h _ (by decide)
  funext st
  simp only [DetermineTempLapse, e0]

theorem DeterminePrecipLapse_congr {S : SETTINGS} {V V' : KEYS → List Char}
    (h : ∀ k ∈ [.precip_lapse], V' k = V k) :
    DeterminePrecipLapse S V' = DeterminePrecipLapse S V := by
  have e0 : V' .precip_lapse = V .precip_lapse := h _ (by decide)
  funext st
  simp only [DeterminePrecipLapse, e0]

theorem DetermineArealExtent_congr {E : COLLABORATORS} {S : SETTINGS} {V V' : KEYS → List Char}
    (h : ∀ k ∈ [.coordinate_system, .extreme_north, .extreme_west, .center_latitude, .center_longitude, .time_zone_meridian, .number_of_rows, .number_of_columns, .grid_spacing], V' k = V k) :
    DetermineArealExtent E S V' = DetermineArealExtent E S V := by
  have e0 : V' .coordinate_system = V .coordinate_system := h _ (by decide)
  have e1 : V' .extreme_north = V .extreme_north := h _ (by decide)
  have e2 : V' .extreme_west = V .extreme_west := h _ (by decide)
  have e3 : V' .center_latitude = V .center_latitude := h _ (by decide)
  have e4 : V' .center_longitude = V .center_longitude := h _ (by decide)
  have e5 : V' .time_zone_meridian = V .time_zone_meridian := h _ (by decide)
  have e6 : V' .number_of_rows = V .number_of_rows := h _ (by decide)
  have e7 : V' .number_of_columns = V .number_of_columns := h _ (by decide)
  have e8 : V' .grid_spacing = V .grid_spacing := h _ (by decide)
  funext st
  simp only [DetermineArealExtent, e0, e1, e2, e3, e4, e5, e6, e7, e8]

theorem DeterminePoint_congr {E : COLLABORATORS} {S : SETTINGS} {V V' : KEYS → List Char}
    (h : ∀ k ∈ [.point_north, .point_east], V' k = V k) :
    DeterminePoint E S V' = DeterminePoint E S V := by
  have e0 : V' .point_north = V .point_north := h _ (by decide)
  have e1 : V' .point_east = V .point_east := h _ (by decide)
  funext st
  simp only [DeterminePoint, e0, e1]

theorem DetermineModelPeriod_congr {E : COLLABORATORS} {S : SETTINGS} {V V' : KEYS → List Char}
    (h : ∀ k ∈ [.time_step, .model_start, .model_end], V' k = V k) :
    DetermineModelPeriod E S V' = DetermineModelPeriod E S V := by
  have e0 : V' .time_step = V .time_step := h _ (by decide)
  have e1 : V' .model_start = V .model_start := h _ (by decide)
  have e2 : V' .model_end = V .model_end := h _ (by decide)
  funext st
  simp only [DetermineModelPeriod, e0, e1, e2]

theorem DetermineFixedConstants_congr {E : COLLABORATORS} {V V' : KEYS → List Char}
    (h : ∀ k ∈ [.ground_roughness, .snow_roughness, .rain_threshold, .snow_threshold, .snow_water_capacity, .reference_height, .rain_lai_multiplier, .snow_lai_multiplier, .min_intercepted_snow, .outside_basin], V' k = V k) :
    DetermineFixedConstants E V' = DetermineFixedConstants E V := by
  have e0 : V' .ground_roughness = V .ground_roughness := h _ (by decide)
  have e1 : V' .snow_roughness = V .snow_roughness := h _ (by decide)
  have e2 : V' .rain_threshold = V .rain_threshold := h _ (by decide)
  have e3 : V' .snow_threshold = V .snow_threshold := h _ (by decide)
  have e4 : V' .snow_water_capacity = V .snow_water_capacity := h _ (by decide)
  have e5 : V' .reference_height = V .reference_height := h _ (by decide)
  have e6 : V' .rain_lai_multiplier = V .rain_lai_multiplier := h _ (by decide)
  have e7 : V' .snow_lai_multiplier = V .snow_lai_multiplier := h _ (by decide)
  have e8 : V' .min_intercepted_snow = V .min_intercepted_snow := h _ (by decide)
  have e9 : V' .outside_basin = V .outside_basin := h _ (by decide)
  funext st
  simp only [DetermineFixedConstants, e0, e1, e2, e3, e4, e5, e6, e7, e8, e9]

theorem DetermineTEMPLAPSE_congr {E : COLLABORATORS} {S : SETTINGS} {V V' : KEYS → List Char}
    (h : ∀ k ∈ [.temp_lapse_rate], V' k = V k) :
    DetermineTEMPLAPSE E S V' = DetermineTEMPLAPSE E S V := by
  have e0 : V' .temp_lapse_rate = V .temp_lapse_rate := h _ (by decide)
  funext st
  simp only [DetermineTEMPLAPSE, e0]

theorem DeterminePRECIPLAPSE_congr {E : COLLABORATORS} {S : SETTINGS} {V V' : KEYS → List Char}
    (h : ∀ k ∈ [.precip_lapse_rate], V' k = V k) :
    DeterminePRECIPLAPSE E S V' = DeterminePRECIPLAPSE E S V := by
  have e0 : V' .precip_lapse_rate = V .precip_lapse_rate := h _ (by decide)
  funext st
  simp only [DeterminePRECIPLAPSE, e0]

theorem DeterminePRECIPMULTIPLIER_congr {E : COLLABORATORS} {V V' : KEYS → List Char}
    (h : ∀ k ∈ [.precip_multiplier], V' k = V k) :
    DeterminePRECIPMULTIPLIER E V' = DeterminePRECIPMULTIPLIER E V := by
  have e0 : V' .precip_multiplier = V .precip_multiplier := h _ (by decide)
  funext st
  simp only [DeterminePRECIPMULTIPLIER, e0]


/-! ## Each block that fails reports one of its own keys -/

theorem bind_eq_error {α β : Type} {x : Except Failure α} {f : α → Except Failure β}
    {e : Failure} (h : (x >>= f) = .error e) :
    x = .error e ∨ ∃ a, x = .ok a ∧ f a = .error e := by
  cases x with
  | error e' =>
    have h' : (Except.error e' : Except Failure β) = .error e := h
    cases h'
    exact Or.inl rfl
  | ok a => exact Or.inr ⟨a, rfl, h⟩

theorem DetermineFileFormat_fails {S : SETTINGS} {V : KEYS → List Char} {st : State} {e : Failure}
    (h : DetermineFileFormat S V st = .error e) :
    ∃ k ∈ [.format], e = .ReportError (KeyName k) 51 := by
  unfold DetermineFileFormat at h
  repeat' split at h
  all_goals first
    | (cases h; done)
    | (cases h; refine ⟨_, ?_, rfl⟩; decide)

theorem DetermineExtent_fails {S : SETTINGS} {V : KEYS → List Char} {st : State} {e : Failure}
    (h : DetermineExtent S V st = .error e) :
    ∃ k ∈ [.extent], e = .ReportError (KeyName k) 51 := by
  unfold DetermineExtent at h
  repeat' split at h
  all_goals first
    | (cases h; done)
    | (cases h; refine ⟨_, ?_, rfl⟩; decide)

theorem DetermineFlowGradient_fails {S : SETTINGS} {V : KEYS → List Char} {st : State} {e : Failure}
    (h : DetermineFlowGradient S V st = .error e) :
    ∃ k ∈ [.gradient], e = .ReportError (KeyName k) 51 := by
  unfold DetermineFlowGradient at h
  repeat' split at h
  all_goals first
    | (cases h; done)
    | (cases h; refine ⟨_, ?_, rfl⟩; decide)

theorem DetermineInterpolation_fails {S : SETTINGS} {V : KEYS → List Char} {st : State} {e : Failure}
    (h : DetermineInterpolation S V st = .error e) :
    ∃ k ∈ [.interpolation], e = .ReportError (KeyName k) 51 := by
  unfold DetermineInterpolation at h
  repeat' split at h
  all_goals first
    | (cases h; done)
    | (cases h; refine ⟨_, ?_, rfl⟩; decide)

theorem DetermineCressman_fails {E : COLLABORATORS} {S : SETTINGS} {V : KEYS → List Char} {st : State} {e : Failure}
    (h : DetermineCressman E S V st = .error e) :
    ∃ k ∈ [.cressman_radius, .cressman_stations], e = .ReportError (KeyName k) 51 := by
  unfold DetermineCressman at h
  repeat' split at h
  all_goals first
    | (cases h; done)
    | (cases h; refine ⟨_, ?_, rfl⟩; decide)

theorem DetermineHasNetwork_fails {S : SETTINGS} {V : KEYS → List Char} {st : State} {e : Failure}
    (h : DetermineHasNetwork S V st = .error e) :
    ∃ k ∈ [.flow_routing], e = .ReportError (KeyName k) 51 := by
  unfold DetermineHasNetwork at h
  repeat' split at h
  all_goals first
    | (cases h; done)
    | (cases h; refine ⟨_, ?_, rfl⟩; decide)

theorem DetermineHeatFlux_fails {S : SETTINGS} {V : KEYS → List Char} {st : State} {e : Failure}
    (h : DetermineHeatFlux S V st = .error e) :
    ∃ k ∈ [.sensible_heat_flux], e = .ReportError (KeyName k) 51 := by
  unfold DetermineHeatFlux at h
  repeat' split at h
  all_goals first
    | (cases h; done)
    | (cases h; refine ⟨_, ?_, rfl⟩; decide)

theorem DetermineSediment_fails {S : SETTINGS} {V : KEYS → List Char} {st : State} {e : Failure}
    (h : DetermineSediment S V st = .error e) :
    ∃ k ∈ [.sediment], e = .ReportError (KeyName k) 51 := by
  unfold DetermineSediment at h
  repeat' split at h
  all_goals first
    | (cases h; done)
    | (cases h; refine ⟨_, ?_, rfl⟩; decide)

theorem DetermineSedFile_fails {S : SETTINGS} {V : KEYS → List Char} {st : State} {e : Failure}
    (h : DetermineSedFile S V st = .error e) :
    ∃ k ∈ [.sed_input_file], e = .ReportError (KeyName k) 51 := by
  unfold DetermineSedFile at h
  repeat' split at h
  all_goals first
    | (cases h; done)
    | (cases h; refine ⟨_, ?_, rfl⟩; decide)

theorem DetermineRouting_fails {S : SETTINGS} {V : KEYS → List Char} {st : State} {e : Failure}
    (h : DetermineRouting S V st = .error e) :
    ∃ k ∈ [.routing], e = .ReportError (KeyName k) 51 := by
  unfold DetermineRouting at h
  repeat' split at h
  all_goals first
    | (cases h; done)
    | (cases h; refine ⟨_, ?_, rfl⟩; decide)

theorem DetermineInfiltration_fails {S : SETTINGS} {V : KEYS → List Char} {st : State} {e : Failure}
    (h : DetermineInfiltration S V st = .error e) :
    ∃ k ∈ [.infiltration], e = .ReportError (KeyName k) 51 := by
  unfold DetermineInfiltration at h
  repeat' split at h
  all_goals first
    | (cases h; done)
    | (cases h; refine ⟨_, ?_, rfl⟩; decide)

theorem DetermineMM5_fails {S : SETTINGS} {V : KEYS → List Char} {st : State} {e : Failure}
    (h : DetermineMM5 S V st = .error e) :
    ∃ k ∈ [.mm5], e = .ReportError (KeyName k) 51 := by
  unfold DetermineMM5 at h
  repeat' split at h
  all_goals first
    | (cases h; done)
    | (cases h; refine ⟨_, ?_, rfl⟩; decide)

theorem DetermineQPF_fails {S : SETTINGS} {V : KEYS → List Char} {st : State} {e : Failure}
    (h : DetermineQPF S V st = .error e) :
    ∃ k ∈ [.qpf], e = .ReportError (KeyName k) 51 := by
  unfold DetermineQPF at h
  repeat' split at h
  all_goals first
    | (cases h; done)
    | (cases h; refine ⟨_, ?_, rfl⟩; decide)

theorem DeterminePrism_fails {S : SETTINGS} {V : KEYS → List Char} {st : State} {e : Failure}
    (h : DeterminePrism S V st = .error e) :
    ∃ k ∈ [.prism], e = .ReportError (KeyName k) 51 := by
  unfold DeterminePrism at h
  repeat' split at h
  all_goals first
    | (cases h; done)
    | (cases h; refine ⟨_, ?_, rfl⟩; decide)

theorem DetermineCanopyRadAtt_fails {S : SETTINGS} {V : KEYS → List Char} {st : State} {e : Failure}
    (h : DetermineCanopyRadAtt S V st = .error e) :
    ∃ k ∈ [.canopy_radatt], e = .ReportError (KeyName k) 51 := by
  unfold DetermineCanopyRadAtt at h
  repeat' split at h
  all_goals first
    | (cases h; done)
    | (cases h; refine ⟨_, ?_, rfl⟩; decide)

theorem DetermineShading_fails {S : SETTINGS} {V : KEYS → List Char} {st : State} {e : Failure}
    (h : DetermineShading S V st = .error e) :
    ∃ k ∈ [.shading], e = .ReportError (KeyName k) 51 := by
  unfold DetermineShading at h
  repeat' split at h
  all_goals first
    | (cases h; done)
    | (cases h; refine ⟨_, ?_, rfl⟩; decide)

theorem DetermineSnotel_fails {S : SETTINGS} {V : KEYS → List Char} {st : State} {e : Failure}
    (h : DetermineSnotel S V st = .error e) :
    ∃ k ∈ [.snotel], e = .ReportError (KeyName k) 51 := by
  unfold DetermineSnotel at h
  repeat' split at h
  all_goals first
    | (cases h; done)
    | (cases h; refine ⟨_, ?_, rfl⟩; decide)

theorem DetermineStreamTemp_fails {S : SETTINGS} {V : KEYS → List Char} {st : State} {e : Failure}
    (h : DetermineStreamTemp S V st = .error e) :
    ∃ k ∈ [.stream_temp], e = .ReportError (KeyName k) 51 := by
  unfold DetermineStreamTemp at h
  repeat' split at h
  all_goals first
    | (cases h; done)
    | (cases h; refine ⟨_, ?_, rfl⟩; decide)

theorem DetermineCanopyShading_fails {S : SETTINGS} {V : KEYS → List Char} {st : State} {e : Failure}
    (h : DetermineCanopyShading S V st = .error e) :
    e = .ReportError (KeyName .canopy_shading) 51 ∨ e = .Exit CanopyShadingMessage (-1) := by
  unfold DetermineCanopyShading at h
  repeat' split at h
  all_goals first
    | (cases h; done)
    | (cases h; exact Or.inl rfl)
    | (cases h; exact Or.inr rfl)

theorem DetermineOutside_fails {S : SETTINGS} {V : KEYS → List Char} {st : State} {e : Failure}
    (h : DetermineOutside S V st = .error e) :
    ∃ k ∈ [.outside], e = .ReportError (KeyName k) 51 := by
  unfold DetermineOutside at h
  repeat' split at h
  all_goals first
    | (cases h; done)
    | (cases h; refine ⟨_, ?_, rfl⟩; decide)

theorem DeterminePrismData_fails {S : SETTINGS} {V : KEYS → List Char} {st : State} {e : Failure}
    (h : DeterminePrismData S V st = .error e) :
    ∃ k ∈ [.prism_data_path, .prism_data_ext], e = .ReportError (KeyName k) 51 := by
  unfold DeterminePrismData at h
  repeat' split at h
  all_goals first
    | (cases h; done)
    | (cases h; refine ⟨_, ?_, rfl⟩; decide)

theorem DetermineShadingData_fails {S : SETTINGS} {V : KEYS → List Char} {st : State} {e : Failure}
    (h : DetermineShadingData S V st = .error e) :
    ∃ k ∈ [.shading_data_path, .shading_data_ext, .skyview_data_path], e = .ReportError (KeyName k) 51 := by
  unfold DetermineShadingData at h
  repeat' split at h
  all_goals first
    | (cases h; done)
    | (cases h; refine ⟨_, ?_, rfl⟩; decide)

theorem DetermineRhoverride_fails {S : SETTINGS} {V : KEYS → List Char} {st : State} {e : Failure}
    (h : DetermineRhoverride S V st = .error e) :
    ∃ k ∈ [.rhoverride], e = .ReportError (KeyName k) 51 := by
  unfold DetermineRhoverride at h
  repeat' split at h
  all_goals first
    | (cases h; done)
    | (cases h; refine ⟨_, ?_, rfl⟩; decide)

theorem DeterminePrecipType_fails {S : SETTINGS} {V : KEYS → List Char} {st : State} {e : Failure}
    (h : DeterminePrecipType S V st = .error e) :
    ∃ k ∈ [.precipitation_source], e = .ReportError (KeyName k) 51 := by
  unfold DeterminePrecipType at h
  repeat' split at h
  all_goals first
    | (cases h; done)
    | (cases h; refine ⟨_, ?_, rfl⟩; decide)

theorem DetermineWindSource_fails {S : SETTINGS} {V : KEYS → List Char} {st : State} {e : Failure}
    (h : DetermineWindSource S V st = .error e) :
    ∃ k ∈ [.wind_source], e = .ReportError (KeyName k) 51 := by
  unfold DetermineWindSource at h
  repeat' split at h
  all_goals first
    | (cases h; done)
    | (cases h; refine ⟨_, ?_, rfl⟩; decide)

theorem DetermineTempLapse_fails {S : SETTINGS} {V : KEYS → List Char} {st : State} {e : Failure}
    (h : DetermineTempLapse S V st = .error e) :
    ∃ k ∈ [.temp_lapse], e = .ReportError (KeyName k) 51 := by
  unfold DetermineTempLapse at h
  repeat' split at h
  all_goals first
    | (cases h; done)
    | (cases h; refine ⟨_, ?_, rfl⟩; decide)

theorem DeterminePrecipLapse_fails {S : SETTINGS} {V : KEYS → List Char} {st : State} {e : Failure}
    (h : DeterminePrecipLapse S V st = .error e) :
    ∃ k ∈ [.precip_lapse], e = .ReportError (KeyName k) 51 := by
  unfold DeterminePrecipLapse at h
  repeat' split at h
  all_goals first
    | (cases h; done)
    | (cases h; refine ⟨_, ?_, rfl⟩; decide)

theorem DetermineArealExtent_fails {E : COLLABORATORS} {S : SETTINGS} {V : KEYS → List Char} {st : State} {e : Failure}
    (h : DetermineArealExtent E S V st = .error e) :
    ∃ k ∈ [.coordinate_system, .extreme_north, .extreme_west, .center_latitude, .center_longitude, .time_zone_meridian, .number_of_rows, .number_of_columns, .grid_spacing], e = .ReportError (KeyName k) 51 := by
  unfold DetermineArealExtent at h
  repeat' split at h
  all_goals first
    | (cases h; done)
    | (cases h; refine ⟨_, ?_, rfl⟩; decide)

theorem DeterminePoint_fails {E : COLLABORATORS} {S : SETTINGS} {V : KEYS → List Char} {st : State} {e : Failure}
    (h : DeterminePoint E S V st = .error e) :
    ∃ k ∈ [.point_north, .point_east], e = .ReportError (KeyName k) 51 := by
  unfold DeterminePoint at h
  repeat' split at h
  all_goals first
    | (cases h; done)
    | (cases h; refine ⟨_, ?_, rfl⟩; decide)

theorem DetermineModelPeriod_fails {E : COLLABORATORS} {S : SETTINGS} {V : KEYS → List Char} {st : State} {e : Failure}
    (h : DetermineModelPeriod E S V st = .error e) :
    ∃ k ∈ [.time_step, .model_start, .model_end], e = .ReportError (KeyName k) 51 := by
  unfold DetermineModelPeriod at h
  repeat' split at h
  all_goals first
    | (cases h; done)
    | (cases h; refine ⟨_, ?_, rfl⟩; decide)

theorem DetermineFixedConstants_fails {E : COLLABORATORS} {V : KEYS → List Char} {st : State} {e : Failure}
    (h : DetermineFixedConstants E V st = .error e) :
    ∃ k ∈ [.ground_roughness, .snow_roughness, .rain_threshold, .snow_threshold, .snow_water_capacity, .reference_height, .rain_lai_multiplier, .snow_lai_multiplier, .min_intercepted_snow, .outside_basin], e = .ReportError (KeyName k) 51 := by
  unfold DetermineFixedConstants at h
  repeat' split at h
  all_goals first
    | (cases h; done)
    | (cases h; refine ⟨_, ?_, rfl⟩; decide)

theorem DetermineTEMPLAPSE_fails {E : COLLABORATORS} {S : SETTINGS} {V : KEYS → List Char} {st : State} {e : Failure}
    (h : DetermineTEMPLAPSE E S V st = .error e) :
    ∃ k ∈ [.temp_lapse_rate], e = .ReportError (KeyName k) 51 := by
  unfold DetermineTEMPLAPSE at h
  repeat' split at h
  all_goals first
    | (cases h; done)
    | (cases h; refine ⟨_, ?_, rfl⟩; decide)

theorem DeterminePRECIPLAPSE_fails {E : COLLABORATORS} {S : SETTINGS} {V : KEYS → List Char} {st : State} {e : Failure}
    (h : DeterminePRECIPLAPSE E S V st = .error e) :
    ∃ k ∈ [.precip_lapse_rate], e = .ReportError (KeyName k) 51 := by
  unfold DeterminePRECIPLAPSE at h
  repeat' split at h
  all_goals first
    | (cases h; done)
    | (cases h; refine ⟨_, ?_, rfl⟩; decide)

theorem DeterminePRECIPMULTIPLIER_fails {E : COLLABORATORS} {V : KEYS → List Char} {st : State} {e : Failure}
    (h : DeterminePRECIPMULTIPLIER E V st = .error e) :
    ∃ k ∈ [.precip_multiplier], e = .ReportError (KeyName k) 51 := by
  unfold DeterminePRECIPMULTIPLIER at h
  repeat' split at h
  all_goals first
    | (cases h; done)
    | (cases h; refine ⟨_, ?_, rfl⟩; decide)

/-! ## The composite blocks -/

theorem DetermineMetOptions_congr {S : SETTINGS} {V V' : KEYS → List Char}
    (h : ∀ k ∈ [.precipitation_source, .wind_source, .temp_lapse, .precip_lapse],
      V' k = V k) :
    DetermineMetOptions S V' = DetermineMetOptions S V := by
  funext st
  unfold DetermineMetOptions
  rw [DeterminePrecipType_congr fun k hk => h k (by revert hk; cases k <;> decide),
    DetermineWindSource_congr fun k hk => h k (by revert hk; cases k <;> decide),
    DetermineTempLapse_congr fun k hk => h k (by revert hk; cases k <;> decide),
    DeterminePrecipLapse_congr fun k hk => h k (by revert hk; cases k <;> decide)]

theorem DetermineModelConstants_congr {E : COLLABORATORS} {S : SETTINGS}
    {V V' : KEYS → List Char}
    (h : ∀ k ∈ [.ground_roughness, .snow_roughness, .rain_threshold, .snow_threshold,
      .snow_water_capacity, .reference_height, .rain_lai_multiplier,
      .snow_lai_multiplier, .min_intercepted_snow, .outside_basin, .temp_lapse_rate,
      .precip_lapse_rate, .precip_multiplier], V' k = V k) :
    DetermineModelConstants E S V' = DetermineModelConstants E S V := by
  funext st
  unfold DetermineModelConstants
  rw [DetermineFixedConstants_congr fun k hk => h k (by revert hk; cases k <;> decide),
    DetermineTEMPLAPSE_congr fun k hk => h k (by revert hk; cases k <;> decide),
    DeterminePRECIPLAPSE_congr fun k hk => h k (by revert hk; cases k <;> decide),
    DeterminePRECIPMULTIPLIER_congr fun k hk => h k (by revert hk; cases k <;> decide)]

theorem mem_of_mem_sub {ks ks' : List KEYS} {P : KEYS → Prop}
    (h : ∃ k ∈ ks, P k) (hs : ∀ k ∈ ks, k ∈ ks') : ∃ k ∈ ks', P k := by
  obtain ⟨k, hk, hp⟩ := h
  exact ⟨k, hs k hk, hp⟩

theorem DetermineMetOptions_fails {S : SETTINGS} {V : KEYS → List Char} {st : State}
    {e : Failure} (h : DetermineMetOptions S V st = .error e) :
    ∃ k ∈ [.precipitation_source, .wind_source, .temp_lapse, .precip_lapse],
      e = .ReportError (KeyName k) 51 := by
  unfold DetermineMetOptions at h
  split at h
  · cases h
  · rcases bind_eq_error h with h1 | ⟨_, _, h⟩
    · exact mem_of_mem_sub (DeterminePrecipType_fails h1) (by decide)
    rcases bind_eq_error h with h1 | ⟨_, _, h⟩
    · exact mem_of_mem_sub (DetermineWindSource_fails h1) (by decide)
    rcases bind_eq_error h with h1 | ⟨_, _, h⟩
    · exact mem_of_mem_sub (DetermineTempLapse_fails h1) (by decide)
    exact mem_of_mem_sub (DeterminePrecipLapse_fails h) (by decide)

theorem DetermineModelConstants_fails {E : COLLABORATORS} {S : SETTINGS}
    {V : KEYS → List Char} {st : State} {e : Failure}
    (h : DetermineModelConstants E S V st = .error e) :
    ∃ k ∈ [.ground_roughness, .snow_roughness, .rain_threshold, .snow_threshold,
      .snow_water_capacity, .reference_height, .rain_lai_multiplier,
      .snow_lai_multiplier, .min_intercepted_snow, .outside_basin, .temp_lapse_rate,
      .precip_lapse_rate, .precip_multiplier], e = .ReportError (KeyName k) 51 := by
  unfold DetermineModelConstants at h
  rcases bind_eq_error h with h1 | ⟨_, _, h⟩
  · exact mem_of_mem_sub (DetermineFixedConstants_fails h1) (by decide)
  rcases bind_eq_error h with h1 | ⟨_, _, h⟩
  · exact mem_of_mem_sub (DetermineTEMPLAPSE_fails h1) (by decide)
  rcases bind_eq_error h with h1 | ⟨_, _, h⟩
  · exact mem_of_mem_sub (DeterminePRECIPLAPSE_fails h1) (by decide)
  exact mem_of_mem_sub (DeterminePRECIPMULTIPLIER_fails h) (by decide)

theorem CheckMM5Prism_fails {S : SETTINGS} {st : State} {e : Failure}
    (h : CheckMM5Prism S st = .error e) : e = .ReportError (KeyName .prism) 51 := by
  unfold CheckMM5Prism at h
  split at h
  · cases h
    rfl
  · cases h

/-! ## The pass as a list of checks -/

theorem bind_ok_right {α : Type} (x : Except Failure α) : (x >>= Except.ok) = x := by
  cases x <;> rfl

/-- The pass of the source is the list `Pass` run in order. -/
theorem Decode_eq_runChecks (E : COLLABORATORS) (S : SETTINGS) (V : KEYS → List Char)
    (st : State) : Decode E S V st = runChecks E S V Pass st := by
  unfold Decode DetermineModelOptions
  simp only [bind_assoc, Pass, runChecks]
  iterate 28 refine bind_congr_ok fun _ _ => ?_
  exact (bind_ok_right _).symm

theorem Pass_local : ∀ c ∈ Pass, c.Local := by
  intro c hc
  simp only [Pass, List.mem_cons, List.mem_singleton, List.not_mem_nil, or_false] at hc
  rcases hc with rfl | rfl | rfl | rfl | rfl | rfl | rfl | rfl | rfl | rfl | rfl | rfl |
    rfl | rfl | rfl | rfl | rfl | rfl | rfl | rfl | rfl | rfl | rfl | rfl | rfl | rfl |
    rfl | rfl | rfl
  all_goals intro E S V V' h
  · exact DetermineFileFormat_congr h
  · exact DetermineExtent_congr h
  · exact DetermineFlowGradient_congr h
  · exact DetermineInterpolation_congr h
  · exact DetermineCressman_congr h
  · exact DetermineHasNetwork_congr h
  · exact DetermineHeatFlux_congr h
  · exact DetermineSediment_congr h
  · exact DetermineSedFile_congr h
  · exact DetermineRouting_congr h
  · exact DetermineInfiltration_congr h
  · exact DetermineMM5_congr h
  · exact DetermineQPF_congr h
  · exact DeterminePrism_congr h
  · exact DetermineCanopyRadAtt_congr h
  · exact DetermineShading_congr h
  · rfl
  · exact DetermineSnotel_congr h
  · exact DetermineStreamTemp_congr h
  · exact DetermineCanopyShading_congr h
  · exact DetermineOutside_congr h
  · exact DeterminePrismData_congr h
  · exact DetermineShadingData_congr h
  · exact DetermineRhoverride_congr h
  · exact DetermineMetOptions_congr h
  · exact DetermineArealExtent_congr h
  · exact DeterminePoint_congr h
  · exact DetermineModelPeriod_congr h
  · exact DetermineModelConstants_congr h

/-- A check of the pass that fails reports one of its own keys with code 51, or
is the exit of the canopy shading block. -/
theorem Pass_fails : ∀ c ∈ Pass, ∀ (E : COLLABORATORS) (S : SETTINGS)
    (V : KEYS → List Char) (a : State) (e : Failure), c.run E S V a = .error e →
    (∃ k ∈ c.keys, e = .ReportError (KeyName k) 51) ∨
      e = .Exit CanopyShadingMessage (-1) := by
  intro c hc
  simp only [Pass, List.mem_cons, List.mem_singleton, List.not_mem_nil, or_false] at hc
  rcases hc with rfl | rfl | rfl | rfl | rfl | rfl | rfl | rfl | rfl | rfl | rfl | rfl |
    rfl | rfl | rfl | rfl | rfl | rfl | rfl | rfl | rfl | rfl | rfl | rfl | rfl | rfl |
    rfl | rfl | rfl
  all_goals intro E S V a e h
  · exact Or.inl (DetermineFileFormat_fails h)
  · exact Or.inl (DetermineExtent_fails h)
  · exact Or.inl (DetermineFlowGradient_fails h)
  · exact Or.inl (DetermineInterpolation_fails h)
  · exact Or.inl (DetermineCressman_fails h)
  · exact Or.inl (DetermineHasNetwork_fails h)
  · exact Or.inl (DetermineHeatFlux_fails h)
  · exact Or.inl (DetermineSediment_fails h)
  · exact Or.inl (DetermineSedFile_fails h)
  · exact Or.inl (DetermineRouting_fails h)
  · exact Or.inl (DetermineInfiltration_fails h)
  · exact Or.inl (DetermineMM5_fails h)
  · exact Or.inl (DetermineQPF_fails h)
  · exact Or.inl (DeterminePrism_fails h)
  · exact Or.inl (DetermineCanopyRadAtt_fails h)
  · exact Or.inl (DetermineShading_fails h)
  · exact Or.inl ⟨.prism, by decide, CheckMM5Prism_fails h⟩
  · exact Or.inl (DetermineSnotel_fails h)
  · exact Or.inl (DetermineStreamTemp_fails h)
  · rcases DetermineCanopyShading_fails h with h1 | h1
    · exact Or.inl ⟨.canopy_shading, by decide, h1⟩
    · exact Or.inr h1
  · exact Or.inl (DetermineOutside_fails h)
  · exact Or.inl (DeterminePrismData_fails h)
  · exact Or.inl (DetermineShadingData_fails h)
  · exact Or.inl (DetermineRhoverride_fails h)
  · exact Or.inl (DetermineMetOptions_fails h)
  · exact Or.inl (DetermineArealExtent_fails h)
  · exact Or.inl (DeterminePoint_fails h)
  · exact Or.inl (DetermineModelPeriod_fails h)
  · exact Or.inl (DetermineModelConstants_fails h)

/-- A run that fails has a first failing check: the checks before it succeed. -/
theorem runChecks_error (E : COLLABORATORS) (S : SETTINGS) (V : KEYS → List Char) :
    ∀ (cs : List CHECK) (st : State) (e : Failure), runChecks E S V cs st = .error e →
    ∃ i c a, cs[i]? = some c ∧ runChecks E S V (cs.take i) st = .ok a ∧
      c.run E S V a = .error e := by
  intro cs
  induction cs with
  | nil => intro st e h; cases h
  | cons c cs ih =>
    intro st e h
    rcases bind_eq_error h with h1 | ⟨a, h1, h2⟩
    · exact ⟨0, c, st, List.getElem?_cons_zero, rfl, h1⟩
    · obtain ⟨i, c', a', hi, hrun, hfail⟩ := ih a e h2
      refine ⟨i + 1, c', a', by rw [List.getElem?_cons_succ]; exact hi, ?_, hfail⟩
      show (c.run E S V st >>= runChecks E S V (cs.take i)) = .ok a'
      rw [h1]
      exact hrun

/-- The first failing check decides the outcome of the run. -/
theorem runChecks_first (E : COLLABORATORS) (S : SETTINGS) (V : KEYS → List Char) :
    ∀ (cs : List CHECK) (i : Nat) (c : CHECK) (st a : State) (e : Failure),
    cs[i]? = some c → runChecks E S V (cs.take i) st = .ok a →
    c.run E S V a = .error e → runChecks E S V cs st = .error e := by
  intro cs
  induction cs with
  | nil => intro i c st a e hi; simp at hi
  | cons c0 cs ih =>
    intro i c st a e hi hrun hfail
    cases i with
    | zero =>
      simp only [List.getElem?_cons_zero, Option.some.injEq] at hi
      subst hi
      cases hrun
      show (c0.run E S V st >>= runChecks E S V cs) = .error e
      rw [hfail]
      rfl
    | succ i =>
      simp only [List.getElem?_cons_succ] at hi
      obtain ⟨b, hb, hrest⟩ := bind_eq_ok
        (show (c0.run E S V st >>= runChecks E S V (cs.take i)) = .ok a from hrun)
      show (c0.run E S V st >>= runChecks E S V cs) = .error e
      rw [hb]
      exact ih i c b a e hi hrest hfail

/-- A run of local checks depends on the table through the keys of these checks
only. -/
theorem runChecks_congr (E : COLLABORATORS) (S : SETTINGS) {V V' : KEYS → List Char} :
    ∀ (cs : List CHECK), (∀ c ∈ cs, c.Local) → (∀ c ∈ cs, ∀ k ∈ c.keys, V' k = V k) →
    ∀ st, runChecks E S V' cs st = runChecks E S V cs st := by
  intro cs
  induction cs with
  | nil => intro _ _ st; rfl
  | cons c cs ih =>
    intro hl hk st
    show (c.run E S V' st >>= runChecks E S V' cs) = (c.run E S V st >>= runChecks E S V cs)
    rw [hl c (List.mem_cons_self _ _) E S V V' (hk c (List.mem_cons_self _ _))]
    refine bind_congr_ok fun a _ => ?_
    exact ih (fun c' hc' => hl c' (List.mem_cons_of_mem _ hc'))
      (fun c' hc' => hk c' (List.mem_cons_of_mem _ hc')) a

theorem failureOf_eq {r : Except Failure State} {e : Failure}
    (h : failureOf r = some e) : r = .error e := by
  cases r with
  | error e' =>
    simp only [failureOf, Option.some.injEq] at h
    rw [h]
  | ok a => simp [failureOf] at h

/-! ## Rounding to a floating-point format -/

theorem roundEven_near (x : ℚ) : |(roundEven x : ℚ) - x| ≤ 1 / 2 := by
  have h1 := Int.floor_le x
  have h2 := Int.lt_floor_add_one x
  unfold roundEven
  split_ifs <;> push_cast <;> rw [abs_le] <;> constructor <;> linarith

theorem roundEven_nonneg {x : ℚ} (hx : 0 ≤ x) : 0 ≤ roundEven x := by
  have h0 : 0 ≤ ⌊x⌋ := Int.floor_nonneg.2 hx
  unfold roundEven
  split_ifs <;> omega

theorem two_zpow_pos (k : Int) : (0 : ℚ) < 2 ^ k := zpow_pos (by norm_num) k

theorem two_zpow_le {a b : Int} (h : a ≤ b) : (2 : ℚ) ^ a ≤ 2 ^ b :=
  zpow_le_zpow_right₀ (by norm_num) h

theorem two_zpow_lt_iff {a b : Int} : (2 : ℚ) ^ a < 2 ^ b ↔ a < b :=
  zpow_lt_zpow_iff_right₀ (by norm_num)

theorem floorLog2Aux_eq (fuel n : Nat) (h : n ≤ fuel) : floorLog2Aux fuel n = Nat.log2 n := by
  induction fuel generalizing n with
  | zero =>
    have : n = 0 := by omega
    subst this
    rw [Nat.log2]; rfl
  | succ k ih =>
    rw [Nat.log2]
    show (if n < 2 then 0 else floorLog2Aux k (n / 2) + 1) = _
    by_cases c : n < 2
    · rw [if_pos c, if_neg (by omega)]
    · rw [if_neg c, if_pos (by omega), ih _ (by omega)]

theorem floorLog2_eq (n : Nat) : floorLog2 n = Nat.log2 n := floorLog2Aux_eq n n (le_refl _)

/-- The exponent `ilog2 x` is that of the binade of `x`. -/
theorem ilog2_spec {x : ℚ} (hx : x ≠ 0) :
    (2 : ℚ) ^ ilog2 x ≤ |x| ∧ |x| < (2 : ℚ) ^ (ilog2 x + 1) := by
  have ha : x.num.natAbs ≠ 0 := by
    rw [Ne, Int.natAbs_eq_zero, Rat.num_eq_zero]
    exact hx
  have hb : x.den ≠ 0 := x.den_nz
  have hb0 : (0 : ℚ) < x.den := by exact_mod_cast Nat.pos_of_ne_zero hb
  have habs : |x| = (x.num.natAbs : ℚ) / x.den := by
    conv_lhs => rw [← Rat.num_div_den x]
    rw [abs_div, abs_of_pos hb0, Nat.cast_natAbs]
    push_cast
    rfl
  have a1 : ((2 : ℚ) ^ (Nat.log2 x.num.natAbs : Int)) ≤ x.num.natAbs := by
    rw [zpow_natCast]
    exact_mod_cast Nat.log2_self_le ha
  have a2 : (x.num.natAbs : ℚ) < (2 : ℚ) ^ ((Nat.log2 x.num.natAbs : Int) + 1) := by
    have := @Nat.lt_log2_self x.num.natAbs
    rw [show ((Nat.log2 x.num.natAbs : Int) + 1) = ((Nat.log2 x.num.natAbs + 1 : Nat) : Int) by
      push_cast; rfl, zpow_natCast]
    exact_mod_cast this
  have b1 : ((2 : ℚ) ^ (Nat.log2 x.den : Int)) ≤ x.den := by
    rw [zpow_natCast]
    exact_mod_cast Nat.log2_self_le hb
  have b2 : (x.den : ℚ) < (2 : ℚ) ^ ((Nat.log2 x.den : Int) + 1) := by
    have := @Nat.lt_log2_self x.den
    rw [show ((Nat.log2 x.den : Int) + 1) = ((Nat.log2 x.den + 1 : Nat) : Int) by
      push_cast; rfl, zpow_natCast]
    exact_mod_cast this
  have hup : |x| < (2 : ℚ) ^ ((Nat.log2 x.num.natAbs : Int) - (Nat.log2 x.den : Int) + 1) := by
    rw [habs, div_lt_iff₀ hb0]
    calc (x.num.natAbs : ℚ) < (2 : ℚ) ^ ((Nat.log2 x.num.natAbs : Int) + 1) := a2
      _ = (2 : ℚ) ^ ((Nat.log2 x.num.natAbs : Int) - (Nat.log2 x.den : Int) + 1) *
            (2 : ℚ) ^ (Nat.log2 x.den : Int) := by
          rw [← zpow_add₀ (by norm_num : (2 : ℚ) ≠ 0)]
          congr 1
          ring
      _ ≤ _ := mul_le_mul_of_nonneg_left b1 (two_zpow_pos _).le
  have hlo : (2 : ℚ) ^ ((Nat.log2 x.num.natAbs : Int) - (Nat.log2 x.den : Int) - 1) ≤ |x| := by
    rw [habs, le_div_iff₀ hb0]
    calc (2 : ℚ) ^ ((Nat.log2 x.num.natAbs : Int) - (Nat.log2 x.den : Int) - 1) * x.den
        ≤ (2 : ℚ) ^ ((Nat.log2 x.num.natAbs : Int) - (Nat.log2 x.den : Int) - 1) *
            (2 : ℚ) ^ ((Nat.log2 x.den : Int) + 1) :=
          mul_le_mul_of_nonneg_left b2.le (two_zpow_pos _).le
      _ = (2 : ℚ) ^ (Nat.log2 x.num.natAbs : Int) := by
          rw [← zpow_add₀ (by norm_num : (2 : ℚ) ≠ 0)]
          congr 1
          ring
      _ ≤ _ := a1
  unfold ilog2
  rw [floorLog2_eq, floorLog2_eq]
  split_ifs with h
  · exact ⟨h, hup⟩
  · refine ⟨hlo, ?_⟩
    rw [sub_add_cancel]
    exact not_le.1 h

theorem ilog2_ge {x : ℚ} {k : Int} (h : (2 : ℚ) ^ k ≤ |x|) : k ≤ ilog2 x := by
  have hx : x ≠ 0 := by
    rintro rfl
    rw [abs_zero] at h
    exact absurd (two_zpow_pos k) (not_lt.2 h)
  have := (ilog2_spec hx).2
  have h2 : (2 : ℚ) ^ k < 2 ^ (ilog2 x + 1) := lt_of_le_of_lt h this
  have := two_zpow_lt_iff.1 h2
  omega

theorem FORMAT.quantum_pos (f : FORMAT) (x : ℚ) : 0 < f.quantum x := two_zpow_pos _

/-- The rounded number is within half a spacing of the number. -/
theorem FORMAT.roundQ_near (f : FORMAT) (x : ℚ) :
    |f.roundQ x - x| ≤ f.quantum x / 2 := by
  have hq := f.quantum_pos x
  have h := roundEven_near (x / f.quantum x)
  unfold FORMAT.roundQ
  have e : (roundEven (x / f.quantum x) : ℚ) * f.quantum x - x =
      ((roundEven (x / f.quantum x) : ℚ) - x / f.quantum x) * f.quantum x := by
    field_simp
  rw [e, abs_mul, abs_of_pos hq]
  calc |(roundEven (x / f.quantum x) : ℚ) - x / f.quantum x| * f.quantum x
      ≤ 1 / 2 * f.quantum x := mul_le_mul_of_nonneg_right h hq.le
    _ = f.quantum x / 2 := by ring

theorem FORMAT.roundQ_nonneg (f : FORMAT) {x : ℚ} (hx : 0 ≤ x) : 0 ≤ f.roundQ x := by
  unfold FORMAT.roundQ
  have h : 0 ≤ roundEven (x / f.quantum x) :=
    roundEven_nonneg (div_nonneg hx (f.quantum_pos x).le)
  exact mul_nonneg (by exact_mod_cast h) (f.quantum_pos x).le


theorem FORMAT.round_of_lt (f : FORMAT) {x : ℚ} (h : |f.roundQ x| < (2 : ℚ) ^ (f.emax + 1)) :
    f.round x = .fin (f.roundQ x) := by
  unfold FORMAT.round
  rw [if_pos h]

/-- What rounding yields is a non-negative number or the positive infinity, for a
non-negative number. -/
theorem FORMAT.round_nonneg (f : FORMAT) {x : ℚ} (hx : 0 ≤ x) :
    (∃ y, f.round x = .fin y ∧ 0 ≤ y) ∨ f.round x = .inf false := by
  unfold FORMAT.round
  split_ifs
  · exact Or.inl ⟨_, rfl, f.roundQ_nonneg hx⟩
  · right
    rw [decide_eq_false (not_lt.2 hx)]

/-! ## Conversions to an integer -/

theorem roundAway_near (x : ℚ) : |(roundAway x : ℚ) - x| ≤ 1 / 2 := by
  unfold roundAway
  split
  · have h1 := Int.floor_le (x + 1 / 2)
    have h2 := Int.lt_floor_add_one (x + 1 / 2)
    rw [abs_le]; constructor <;> linarith
  · have h1 := Int.le_ceil (x - 1 / 2)
    have h2 := Int.ceil_lt_add_one (x - 1 / 2)
    rw [abs_le]; constructor <;> linarith

theorem floorSqrtAux_spec (fuel n : Nat) (h : n ≤ fuel) :
    floorSqrtAux fuel n * floorSqrtAux fuel n ≤ n ∧
    n < (floorSqrtAux fuel n + 1) * (floorSqrtAux fuel n + 1) := by
  induction fuel generalizing n with
  | zero =>
    have : n = 0 := by omega
    subst this
    exact ⟨le_refl _, by decide⟩
  | succ k ih =>
    show (if n = 0 then 0 else floorSqrtStep n (floorSqrtAux k (n / 4))) *
        (if n = 0 then 0 else floorSqrtStep n (floorSqrtAux k (n / 4))) ≤ n ∧
      n < ((if n = 0 then 0 else floorSqrtStep n (floorSqrtAux k (n / 4))) + 1) *
        ((if n = 0 then 0 else floorSqrtStep n (floorSqrtAux k (n / 4))) + 1)
    by_cases c : n = 0
    · subst c
      simp
    · rw [if_neg c]
      obtain ⟨h1, h2⟩ := ih (n / 4) (by omega)
      generalize floorSqrtAux k (n / 4) = s at h1 h2
      have h3 : 4 * (s * s) ≤ n := by omega
      have h4 : n < 4 * ((s + 1) * (s + 1)) := by omega
      unfold floorSqrtStep
      split_ifs with c2
      · refine ⟨c2, ?_⟩
        calc n < 4 * ((s + 1) * (s + 1)) := h4
          _ = (2 * s + 1 + 1) * (2 * s + 1 + 1) := by ring
      · refine ⟨?_, not_le.1 c2⟩
        calc 2 * s * (2 * s) = 4 * (s * s) := by ring
          _ ≤ n := h3

theorem floorSqrt_spec (n : Nat) :
    floorSqrt n * floorSqrt n ≤ n ∧ n < (floorSqrt n + 1) * (floorSqrt n + 1) :=
  floorSqrtAux_spec n n (le_refl _)
theorem FORMAT.sqrtQuantum_pos (f : FORMAT) (x : ℚ) : 0 < f.sqrtQuantum x := two_zpow_pos _

theorem FORMAT.sqrtFloor_spec (f : FORMAT) {x : ℚ} (hx : 0 ≤ x) :
    (f.sqrtFloor x : ℚ) * (f.sqrtFloor x : ℚ) ≤ x / (f.sqrtQuantum x * f.sqrtQuantum x) ∧
    x / (f.sqrtQuantum x * f.sqrtQuantum x) <
      ((f.sqrtFloor x : ℚ) + 1) * ((f.sqrtFloor x : ℚ) + 1) := by
  have hy : 0 ≤ x / (f.sqrtQuantum x * f.sqrtQuantum x) :=
    div_nonneg hx (mul_pos (f.sqrtQuantum_pos x) (f.sqrtQuantum_pos x)).le
  have hfl : 0 ≤ ⌊x / (f.sqrtQuantum x * f.sqrtQuantum x)⌋ := Int.floor_nonneg.mpr hy
  have hcast : ((⌊x / (f.sqrtQuantum x * f.sqrtQuantum x)⌋.toNat : Int)) =
      ⌊x / (f.sqrtQuantum x * f.sqrtQuantum x)⌋ := Int.toNat_of_nonneg hfl
  have h1 : f.sqrtFloor x * f.sqrtFloor x ≤ ⌊x / (f.sqrtQuantum x * f.sqrtQuantum x)⌋.toNat :=
    (floorSqrt_spec _).1
  have h2 : ⌊x / (f.sqrtQuantum x * f.sqrtQuantum x)⌋.toNat <
      (f.sqrtFloor x + 1) * (f.sqrtFloor x + 1) := (floorSqrt_spec _).2
  have h1' : ((f.sqrtFloor x * f.sqrtFloor x : Nat) : Int) ≤
      ⌊x / (f.sqrtQuantum x * f.sqrtQuantum x)⌋ := by
    rw [← hcast]; exact_mod_cast h1
  have h2' : ⌊x / (f.sqrtQuantum x * f.sqrtQuantum x)⌋ + 1 ≤
      (((f.sqrtFloor x + 1) * (f.sqrtFloor x + 1) : Nat) : Int) := by
    rw [← hcast]; exact_mod_cast h2
  have h1q : (((f.sqrtFloor x * f.sqrtFloor x : Nat) : Int) : ℚ) ≤
      (⌊x / (f.sqrtQuantum x * f.sqrtQuantum x)⌋ : ℚ) := by exact_mod_cast h1'
  have h2q : (⌊x / (f.sqrtQuantum x * f.sqrtQuantum x)⌋ : ℚ) + 1 ≤
      ((((f.sqrtFloor x + 1) * (f.sqrtFloor x + 1) : Nat) : Int) : ℚ) := by exact_mod_cast h2'
  push_cast at h1q h2q
  have h3 := Int.floor_le (x / (f.sqrtQuantum x * f.sqrtQuantum x))
  have h4 := Int.lt_floor_add_one (x / (f.sqrtQuantum x * f.sqrtQuantum x))
  constructor <;> linarith

/-- The square root is a multiple `m` of the spacing, at least the multiple
rounded down, with the argument between the squares of `m - 1/2` and
`m + 1/2` in units of the squared spacing. -/
theorem FORMAT.sqrtQ_cases (f : FORMAT) {x : ℚ} (hx : 0 < x) (h1 : 1 ≤ f.sqrtFloor x) :
    ∃ m : ℚ, f.sqrtQ x = m * f.sqrtQuantum x ∧ (f.sqrtFloor x : ℚ) ≤ m ∧
      (m - 1 / 2) * (m - 1 / 2) ≤ x / (f.sqrtQuantum x * f.sqrtQuantum x) ∧
      x / (f.sqrtQuantum x * f.sqrtQuantum x) ≤ (m + 1 / 2) * (m + 1 / 2) := by
  obtain ⟨ha, hb⟩ := f.sqrtFloor_spec hx.le
  have hn : (1 : ℚ) ≤ (f.sqrtFloor x : ℚ) := by exact_mod_cast h1
  have low : ((f.sqrtFloor x : ℚ) - 1 / 2) * ((f.sqrtFloor x : ℚ) - 1 / 2) ≤
      x / (f.sqrtQuantum x * f.sqrtQuantum x) := by nlinarith
  have high : x / (f.sqrtQuantum x * f.sqrtQuantum x) ≤
      ((f.sqrtFloor x : ℚ) + 1 + 1 / 2) * ((f.sqrtFloor x : ℚ) + 1 + 1 / 2) := by nlinarith
  unfold FORMAT.sqrtQ
  rw [if_neg (not_le.2 hx)]
  split_ifs with c1 c2 c3
  · exact ⟨_, rfl, le_refl _, low, by nlinarith⟩
  · exact ⟨_, rfl, by linarith, by nlinarith, high⟩
  · exact ⟨_, rfl, le_refl _, low, by nlinarith [not_lt.1 c1, not_lt.1 c2]⟩
  · exact ⟨_, rfl, by linarith, by nlinarith [not_lt.1 c1, not_lt.1 c2], high⟩

/-- With the argument in the normal range the multiple rounded down has a full
significand. -/
theorem FORMAT.sqrtFloor_ge (f : FORMAT) {x : ℚ} (hx : 0 < x)
    (hn : 1 - f.emax ≤ ilog2 x / 2) (hp : 1 ≤ f.prec) : 2 ^ (f.prec - 1) ≤ f.sqrtFloor x := by
  suffices hs : 2 ^ (f.prec - 1) * 2 ^ (f.prec - 1) ≤
      ⌊x / (f.sqrtQuantum x * f.sqrtQuantum x)⌋.toNat by
    have h2 : ⌊x / (f.sqrtQuantum x * f.sqrtQuantum x)⌋.toNat <
        (f.sqrtFloor x + 1) * (f.sqrtFloor x + 1) := (floorSqrt_spec _).2
    by_contra hc
    have hc' : f.sqrtFloor x + 1 ≤ 2 ^ (f.prec - 1) := by omega
    have := Nat.mul_le_mul hc' hc'
    omega
  have hu : f.sqrtQuantum x * f.sqrtQuantum x =
      (2 : ℚ) ^ (2 * (ilog2 x / 2) - 2 * ((f.prec : Int) - 1)) := by
    unfold FORMAT.sqrtQuantum
    rw [max_eq_left hn, ← zpow_add₀ (by norm_num : (2 : ℚ) ≠ 0)]
    congr 1
    ring
  have h2 : 2 * (ilog2 x / 2) ≤ ilog2 x := by
    have := Int.ediv_mul_le (ilog2 x) (by norm_num : (2 : Int) ≠ 0)
    omega
  have hxl : (2 : ℚ) ^ (2 * (ilog2 x / 2)) ≤ x := by
    have := (ilog2_spec hx.ne').1
    rw [abs_of_pos hx] at this
    exact le_trans (two_zpow_le h2) this
  have hy : (((2 ^ (f.prec - 1) * 2 ^ (f.prec - 1) : Nat) : Int) : ℚ) ≤
      x / (f.sqrtQuantum x * f.sqrtQuantum x) := by
    rw [hu, le_div_iff₀ (two_zpow_pos _)]
    push_cast
    have e : ((2 : ℚ) ^ (f.prec - 1) * (2 : ℚ) ^ (f.prec - 1)) *
        (2 : ℚ) ^ (2 * (ilog2 x / 2) - 2 * ((f.prec : Int) - 1)) ≤
        (2 : ℚ) ^ (2 * (ilog2 x / 2)) := by
      rw [← zpow_natCast, ← zpow_add₀ (by norm_num : (2 : ℚ) ≠ 0),
        ← zpow_add₀ (by norm_num : (2 : ℚ) ≠ 0)]
      apply two_zpow_le
      omega
    exact le_trans e hxl
  have hfl := Int.le_floor.mpr hy
  have := Int.toNat_le_toNat hfl
  rwa [Int.toNat_natCast] at this

/-- The square root in the normal range: positive, and within the relative error
`2 ^ (-prec)` of the real square root, stated on the squares. -/
theorem FORMAT.sqrtQ_spec (f : FORMAT) {x : ℚ} (hx : 0 < x)
    (hn : 1 - f.emax ≤ ilog2 x / 2) (hp : 1 ≤ f.prec) :
    0 < f.sqrtQ x ∧
    (f.sqrtQ x * (1 - (2 : ℚ) ^ (-(f.prec : Int)))) ^ 2 ≤ x ∧
    x ≤ (f.sqrtQ x * (1 + (2 : ℚ) ^ (-(f.prec : Int)))) ^ 2 := by
  have hN := f.sqrtFloor_ge hx hn hp
  have hN1 : 1 ≤ f.sqrtFloor x := le_trans Nat.one_le_two_pow hN
  obtain ⟨m, hq, hm, hlo, hhi⟩ := f.sqrtQ_cases hx hN1
  have hu := f.sqrtQuantum_pos x
  have hNq : ((2 : ℚ) ^ (f.prec - 1)) ≤ (f.sqrtFloor x : ℚ) := by exact_mod_cast hN
  have hη : (2 : ℚ) ^ (f.prec - 1) * (2 : ℚ) ^ (-(f.prec : Int)) = 1 / 2 := by
    rw [← zpow_natCast, ← zpow_add₀ (by norm_num : (2 : ℚ) ≠ 0)]
    have : ((f.prec - 1 : Nat) : Int) + -(f.prec : Int) = -1 := by omega
    rw [this]
    norm_num
  have hηpos := two_zpow_pos (-(f.prec : Int))
  have hη1 : (2 : ℚ) ^ (-(f.prec : Int)) ≤ 1 / 2 := by
    have : (2 : ℚ) ^ (-(f.prec : Int)) ≤ (2 : ℚ) ^ (-1 : Int) := two_zpow_le (by omega)
    simpa using this
  have hmη : 1 / 2 ≤ m * (2 : ℚ) ^ (-(f.prec : Int)) := by
    rw [← hη]
    exact mul_le_mul_of_nonneg_right (le_trans hNq hm) hηpos.le
  have hm1 : (1 : ℚ) ≤ m := le_trans (by exact_mod_cast hN1) hm
  have hxe : x = x / (f.sqrtQuantum x * f.sqrtQuantum x) * (f.sqrtQuantum x * f.sqrtQuantum x) :=
    (div_mul_cancel₀ _ (mul_pos hu hu).ne').symm
  refine ⟨by rw [hq]; exact mul_pos (by linarith) hu, ?_, ?_⟩
  · have a1 : m * (1 - (2 : ℚ) ^ (-(f.prec : Int))) ≤ m - 1 / 2 := by linarith
    have a0 : 0 ≤ m * (1 - (2 : ℚ) ^ (-(f.prec : Int))) :=
      mul_nonneg (by linarith) (by linarith)
    have a2 : (m * (1 - (2 : ℚ) ^ (-(f.prec : Int)))) * (m * (1 - (2 : ℚ) ^ (-(f.prec : Int)))) ≤
        (m - 1 / 2) * (m - 1 / 2) := mul_le_mul a1 a1 a0 (le_trans a0 a1)
    have a3 := mul_le_mul_of_nonneg_right (le_trans a2 hlo) (mul_pos hu hu).le
    rw [← hxe] at a3
    rw [hq]
    calc (m * f.sqrtQuantum x * (1 - (2 : ℚ) ^ (-(f.prec : Int)))) ^ 2
        = (m * (1 - (2 : ℚ) ^ (-(f.prec : Int)))) * (m * (1 - (2 : ℚ) ^ (-(f.prec : Int)))) *
            (f.sqrtQuantum x * f.sqrtQuantum x) := by ring
      _ ≤ x := a3
  · have a1 : m + 1 / 2 ≤ m * (1 + (2 : ℚ) ^ (-(f.prec : Int))) := by linarith
    have a0 : 0 ≤ m + 1 / 2 := by linarith
    have a2 : (m + 1 / 2) * (m + 1 / 2) ≤
        (m * (1 + (2 : ℚ) ^ (-(f.prec : Int)))) * (m * (1 + (2 : ℚ) ^ (-(f.prec : Int)))) :=
      mul_le_mul a1 a1 a0 (le_trans a0 a1)
    have a3 := mul_le_mul_of_nonneg_right (le_trans hhi a2) (mul_pos hu hu).le
    rw [← hxe] at a3
    rw [hq]
    calc x ≤ (m * (1 + (2 : ℚ) ^ (-(f.prec : Int)))) * (m * (1 + (2 : ℚ) ^ (-(f.prec : Int)))) *
            (f.sqrtQuantum x * f.sqrtQuantum x) := a3
      _ = (m * f.sqrtQuantum x * (1 + (2 : ℚ) ^ (-(f.prec : Int)))) ^ 2 := by ring

theorem FORMAT.sqrtQ_nonneg (f : FORMAT) (x : ℚ) : 0 ≤ f.sqrtQ x := by
  unfold FORMAT.sqrtQ
  have hu := (f.sqrtQuantum_pos x).le
  have hn : (0 : ℚ) ≤ (f.sqrtFloor x : ℚ) := Nat.cast_nonneg _
  split_ifs
  · exact le_refl _
  · exact mul_nonneg hn hu
  · exact mul_nonneg (by linarith) hu
  · exact mul_nonneg hn hu
  · exact mul_nonneg (by linarith) hu

theorem FORMAT.sqrtQ_zero (f : FORMAT) : f.sqrtQ 0 = 0 := by
  unfold FORMAT.sqrtQ
  rw [if_pos (le_refl _)]

/-! ## The two formats of the program -/

/-- The error of rounding a number of the normal range, relative to the number. -/
theorem FORMAT.roundQ_error_normal (f : FORMAT) {x : ℚ}
    (hx : (2 : ℚ) ^ (1 - f.emax) ≤ |x|) :
    |f.roundQ x - x| ≤ |x| * (2 : ℚ) ^ (-(f.prec : Int)) := by
  have hx0 : x ≠ 0 := by
    rintro rfl
    rw [abs_zero] at hx
    exact absurd (two_zpow_pos _) (not_lt.2 hx)
  have h1 := f.roundQ_near x
  have hq : f.quantum x = (2 : ℚ) ^ ilog2 x * (2 * (2 : ℚ) ^ (-(f.prec : Int))) := by
    unfold FORMAT.quantum
    rw [max_eq_left (ilog2_ge hx), ← zpow_one_add₀ (by norm_num : (2 : ℚ) ≠ 0),
      ← zpow_add₀ (by norm_num : (2 : ℚ) ≠ 0)]
    congr 1
    ring
  have h2 := mul_le_mul_of_nonneg_right (ilog2_spec hx0).1
    (two_zpow_pos (-(f.prec : Int))).le
  rw [hq] at h1
  linarith

theorem binary32_roundQ_normal {x : ℚ} (hx : 1 / 2 ^ 126 ≤ |x|) :
    |binary32.roundQ x - x| ≤ |x| / 2 ^ 24 := by
  have h := binary32.roundQ_error_normal (x := x) (by
    show (2 : ℚ) ^ (1 - (127 : Int)) ≤ |x|
    have e : (2 : ℚ) ^ (1 - (127 : Int)) = 1 / 2 ^ 126 := by norm_num
    rw [e]
    exact hx)
  have e1 : (2 : ℚ) ^ (-((binary32.prec : Nat) : Int)) = 1 / 2 ^ 24 := by
    show (2 : ℚ) ^ (-((24 : Nat) : Int)) = 1 / 2 ^ 24
    norm_num
  rw [e1] at h
  linarith

theorem binary64_roundQ_normal {x : ℚ} (hx : 1 / 2 ^ 1022 ≤ |x|) :
    |binary64.roundQ x - x| ≤ |x| / 2 ^ 53 := by
  have h := binary64.roundQ_error_normal (x := x) (by
    show (2 : ℚ) ^ (1 - (1023 : Int)) ≤ |x|
    have e : (2 : ℚ) ^ (1 - (1023 : Int)) = 1 / 2 ^ 1022 := by norm_num
    rw [e]
    exact hx)
  have e1 : (2 : ℚ) ^ (-((binary64.prec : Nat) : Int)) = 1 / 2 ^ 53 := by
    show (2 : ℚ) ^ (-((53 : Nat) : Int)) = 1 / 2 ^ 53
    norm_num
  rw [e1] at h
  linarith

theorem binary32_round_fin {x : ℚ} (h : |binary32.roundQ x| < 2 ^ 128) :
    binary32.round x = .fin (binary32.roundQ x) :=
  binary32.round_of_lt (by
    show |binary32.roundQ x| < (2 : ℚ) ^ ((127 : Int) + 1)
    have e : (2 : ℚ) ^ ((127 : Int) + 1) = 2 ^ 128 := by norm_num
    rw [e]
    exact h)

/-- The square root in `double` of a number of at least `2 ^ -2040`: positive, and
within the relative error `2 ^ -53` of the real square root, stated on the
squares. -/
theorem binary64_sqrtQ_spec {x : ℚ} (hx : 1 / 2 ^ 2040 ≤ x) :
    0 < binary64.sqrtQ x ∧
    (binary64.sqrtQ x * (1 - 1 / 2 ^ 53)) ^ 2 ≤ x ∧
    x ≤ (binary64.sqrtQ x * (1 + 1 / 2 ^ 53)) ^ 2 := by
  have hx0 : 0 < x := lt_of_lt_of_le (by positivity) hx
  have hl : (-2040 : Int) ≤ ilog2 x := by
    apply ilog2_ge
    rw [abs_of_pos hx0]
    have e : (2 : ℚ) ^ (-2040 : Int) = 1 / 2 ^ 2040 := by
      rw [zpow_neg, one_div]
      norm_cast
    rw [e]
    exact hx
  have h := binary64.sqrtQ_spec hx0 (by
    show 1 - (1023 : Int) ≤ ilog2 x / 2
    omega) (by decide)
  have e1 : (2 : ℚ) ^ (-((binary64.prec : Nat) : Int)) = 1 / 2 ^ 53 := by
    show (2 : ℚ) ^ (-((53 : Nat) : Int)) = 1 / 2 ^ 53
    norm_num
  rw [e1] at h
  exact h

theorem RULE.fires {r : RULE} (ha : r.applies = true) (hv : r.violated = true) :
    (r.applies && r.violated) = true := by
  rw [ha, hv]
  rfl

theorem RULE.passes_of_applies {r : RULE} (ha : r.applies = false) :
    (r.applies && r.violated) = false := by
  rw [ha]
  rfl

theorem RULE.passes_of_violated {r : RULE} (hv : r.violated = false) :
    (r.applies && r.violated) = false := by
  rw [hv]
  exact Bool.and_false _

theorem KeyBegins_eq_true {V : KEYS → List Char} {k : KEYS} {lit : String}
    (h : Begins lit.toList (V k)) : KeyBegins V k lit = true :=
  decide_eq_true h

theorem KeyBegins_eq_false {V : KEYS → List Char} {k : KEYS} {lit : String}
    (h : ¬ Begins lit.toList (V k)) : KeyBegins V k lit = false :=
  decide_eq_false h

theorem not_KeyBegins_eq_true {V : KEYS → List Char} {k : KEYS} {lit : String}
    (h : ¬ Begins lit.toList (V k)) : (!KeyBegins V k lit) = true := by
  rw [KeyBegins_eq_false h]
  rfl

theorem not_KeyBegins_eq_false {V : KEYS → List Char} {k : KEYS} {lit : String}
    (h : Begins lit.toList (V k)) : (!KeyBegins V k lit) = false := by
  rw [KeyBegins_eq_true h]
  rfl

theorem literal_violated {V : KEYS → List Char} {k : KEYS} {a : Bool}
    (h : MatchesNoLiteral k (V k)) : (RULE.literal V k a).violated = true :=
  decide_eq_true h

theorem literal_kept {V : KEYS → List Char} {k : KEYS} {a : Bool}
    {e : String × String × (SETTINGS → Int)} (he : e ∈ Vocabulary k)
    (hb : Begins e.2.1.toList (V k)) : (RULE.literal V k a).violated = false :=
  decide_eq_false fun hn => hn e he hb

theorem and3_eq_true {a b c : Prop} [Decidable a] [Decidable b] [Decidable c]
    (h : a ∧ b ∧ c) : (decide a && decide b && decide c) = true := by
  simp [h.1, h.2.1, h.2.2]

theorem and3_eq_false {a b c : Prop} [Decidable a] [Decidable b] [Decidable c]
    (h : ¬ (a ∧ b ∧ c)) : (decide a && decide b && decide c) = false := by
  by_cases ha : a <;> by_cases hb : b <;> by_cases hc : c <;> simp_all

theorem and2_eq_true {a b : Prop} [Decidable a] [Decidable b]
    (h : a ∧ b) : (decide a && decide b) = true := by
  simp [h.1, h.2]

theorem and2_eq_false {a b : Prop} [Decidable a] [Decidable b]
    (h : ¬ (a ∧ b)) : (decide a && decide b) = false := by
  by_cases ha : a <;> by_cases hb : b <;> simp_all

theorem notand_eq_true {a b : Prop} [Decidable a] [Decidable b]
    (h : ¬ a ∧ b) : (!decide a && decide b) = true := by
  simp [h.1, h.2]

theorem notand_eq_false {a b : Prop} [Decidable a] [Decidable b]
    (h : ¬ (¬ a ∧ b)) : (!decide a && decide b) = false := by
  by_cases ha : a <;> by_cases hb : b <;> simp_all

theorem ite_eq_true {a b c d : Prop} [Decidable a] [Decidable b] [Decidable c] [Decidable d]
    (h : (a ∧ b ∧ c) ∨ (¬ a ∧ d)) :
    (if decide a = true then decide b && decide c else decide d) = true := by
  by_cases ha : a <;> by_cases hb : b <;> by_cases hc : c <;> by_cases hd : d <;> simp_all

theorem ite_eq_false {a b c d : Prop} [Decidable a] [Decidable b] [Decidable c] [Decidable d]
    (h : ¬ ((a ∧ b ∧ c) ∨ (¬ a ∧ d))) :
    (if decide a = true then decide b && decide c else decide d) = false := by
  by_cases ha : a <;> by_cases hb : b <;> by_cases hc : c <;> by_cases hd : d <;> simp_all

theorem Refines.hit {r : RULE} {rs : List RULE} {x : Except Failure State}
    {Q : State → Prop} (h : (r.applies && r.violated) = true) (hx : x = .error r.failure) :
    Refines (firstViolated (r :: rs)) x Q := by
  unfold firstViolated
  rw [List.find?_cons, h]
  exact hx

theorem Refines.skip {r : RULE} {rs : List RULE} {x : Except Failure State}
    {Q : State → Prop} (h : (r.applies && r.violated) = false)
    (hrest : Refines (firstViolated rs) x Q) : Refines (firstViolated (r :: rs)) x Q := by
  unfold firstViolated at hrest ⊢
  rw [List.find?_cons, h]
  exact hrest

theorem Refines.done {x : Except Failure State} {Q : State → Prop} {st' : State}
    (hx : x = .ok st') (hq : Q st') : Refines (firstViolated []) x Q :=
  ⟨st', hx, hq⟩

theorem Refines.mono {o : Option RULE} {x : Except Failure State} {Q Q' : State → Prop}
    (h : Refines o x Q) (hQ : ∀ st', Q st' → Q' st') : Refines o x Q' := by
  cases o with
  | some r => exact h
  | none =>
    obtain ⟨st', hx, hq⟩ := h
    exact ⟨st', hx, hQ st' hq⟩

theorem Refines.seq {R rest : List RULE} {x : Except Failure State}
    {k : State → Except Failure State} {Q Q' : State → Prop}
    (h1 : Refines (firstViolated R) x Q)
    (h2 : ∀ st', Q st' → Refines (firstViolated rest) (k st') Q') :
    Refines (firstViolated (R ++ rest)) (x >>= k) Q' := by
  unfold firstViolated at h1 h2 ⊢
  rw [List.find?_append]
  cases hf : List.find? (fun r => r.applies && r.violated) R with
  | some r =>
    rw [hf] at h1
    have h1' : x = .error r.failure := h1
    rw [h1']
    exact (rfl : (Except.error r.failure >>= k) = .error r.failure)
  | none =>
    rw [hf] at h1
    obtain ⟨st', hx, hq⟩ := h1
    rw [hx]
    exact h2 st' hq

theorem Refines.final {o : Option RULE} {x : Except Failure State} {Q : State → Prop}
    (h : Refines o x Q) : failureOf x = o.map RULE.failure := by
  cases o with
  | some r =>
    have h' : x = .error r.failure := h
    rw [h']
    rfl
  | none =>
    obtain ⟨st', hx, -⟩ := h
    rw [hx]
    rfl


theorem DetermineFileFormat_refines (S : SETTINGS) (V : KEYS → List Char) (st : State)
    (a : Bool) (ha : a = true) :
    Refines (firstViolated [RULE.literal V .format a]) (DetermineFileFormat S V st)
      (fun st' => (∃ v1, st' = { st with Options.FileFormat := v1 })) := by
  by_cases h1 : Begins "BIN".toList (V .format)
  · have hx := DetermineFileFormat_BIN (S := S) h1 st
    exact Refines.skip (RULE.passes_of_violated (literal_kept (List.Mem.head _) h1))
      (Refines.done hx (DetermineFileFormat_inv hx))
  by_cases h2 : Begins "NET".toList (V .format)
  · have hx := DetermineFileFormat_NETCDF (S := S) h2 st
    exact Refines.skip (RULE.passes_of_violated (literal_kept (List.Mem.tail _
        (List.Mem.head _)) h2))
      (Refines.done hx (DetermineFileFormat_inv hx))
  by_cases h3 : Begins "BYT".toList (V .format)
  · have hx := DetermineFileFormat_BYTESWAP (S := S) h3 st
    exact Refines.skip (RULE.passes_of_violated (literal_kept (List.Mem.tail _ (List.Mem.tail _
        (List.Mem.head _))) h3))
      (Refines.done hx (DetermineFileFormat_inv hx))
  have hn : MatchesNoLiteral .format (V .format) := by
    intro e he
    simp only [Vocabulary, List.mem_cons, List.mem_singleton, List.not_mem_nil,
      or_false] at he
    rcases he with rfl | rfl | rfl
    exacts [h1, h2, h3]
  exact Refines.hit (RULE.fires ha (literal_violated hn)) (DetermineFileFormat_error
      (S := S) h1 h2 h3 st)


theorem DetermineExtent_refines (S : SETTINGS) (hD : S.Distinct) (V : KEYS → List Char)
    (st : State) (a : Bool) (ha : a = true) :
    Refines (firstViolated [RULE.literal V .extent a]) (DetermineExtent S V st)
      (fun st' => (∃ v1 v2, st' = { st with Options.Extent := v1, Options.HasNetwork := v2 }) ∧
        (st'.Options.Extent = S.POINT ↔ Begins "POINT".toList (V .extent))) := by
  obtain ⟨d1, d2, d3, d4, d5, d6, d7⟩ := hD
  by_cases h1 : Begins "POINT".toList (V .extent)
  · have hx := DetermineExtent_POINT (S := S) h1 st
    exact Refines.skip (RULE.passes_of_violated (literal_kept (List.Mem.head _) h1))
      (Refines.done hx ⟨DetermineExtent_inv hx,
        ⟨fun _ => h1, fun _ => rfl⟩⟩)
  by_cases h2 : Begins "BASIN".toList (V .extent)
  · have hx := DetermineExtent_BASIN (S := S) h2 st
    exact Refines.skip (RULE.passes_of_violated (literal_kept (List.Mem.tail _
        (List.Mem.head _)) h2))
      (Refines.done hx ⟨DetermineExtent_inv hx,
        ⟨fun h => absurd h (Ne.symm d2), fun h => absurd h h1⟩⟩)
  have hn : MatchesNoLiteral .extent (V .extent) := by
    intro e he
    simp only [Vocabulary, List.mem_cons, List.mem_singleton, List.not_mem_nil,
      or_false] at he
    rcases he with rfl | rfl
    exacts [h1, h2]
  exact Refines.hit (RULE.fires ha (literal_violated hn)) (DetermineExtent_error (S := S) h1 h2 st)


theorem DetermineFlowGradient_refines (S : SETTINGS) (V : KEYS → List Char) (st : State)
    (hE : st.Options.Extent = S.POINT ↔ Begins "POINT".toList (V .extent)) :
    Refines (firstViolated [RULE.literal V .gradient (!KeyBegins V .extent "POINT")])
        (DetermineFlowGradient S V st)
      (fun st' => (∃ v1, st' = { st with Options.FlowGradient := v1 })) := by
  by_cases hp : Begins "POINT".toList (V .extent)
  · have hx := DetermineFlowGradient_POINT (S := S) V (hE.2 hp)
    exact Refines.skip (RULE.passes_of_applies (not_KeyBegins_eq_false hp))
      (Refines.done hx (DetermineFlowGradient_inv hx))
  have hg : st.Options.Extent ≠ S.POINT := fun h => hp (hE.1 h)
  have ha : (!KeyBegins V .extent "POINT") = true := not_KeyBegins_eq_true hp
  by_cases h1 : Begins "TOPO".toList (V .gradient)
  · have hx := DetermineFlowGradient_TOPO (S := S) h1 st hg
    exact Refines.skip (RULE.passes_of_violated (literal_kept (List.Mem.head _) h1))
      (Refines.done hx (DetermineFlowGradient_inv hx))
  by_cases h2 : Begins "WATER".toList (V .gradient)
  · have hx := DetermineFlowGradient_WATER (S := S) h2 st hg
    exact Refines.skip (RULE.passes_of_violated (literal_kept (List.Mem.tail _
        (List.Mem.head _)) h2))
      (Refines.done hx (DetermineFlowGradient_inv hx))
  have hn : MatchesNoLiteral .gradient (V .gradient) := by
    intro e he
    simp only [Vocabulary, List.mem_cons, List.mem_singleton, List.not_mem_nil,
      or_false] at he
    rcases he with rfl | rfl
    exacts [h1, h2]
  exact Refines.hit (RULE.fires ha (literal_violated hn)) (DetermineFlowGradient_error
      (S := S) h1 h2 st hg)


theorem DetermineInterpolation_refines (S : SETTINGS) (hD : S.Distinct) (V : KEYS → List Char)
    (st : State) (a : Bool) (ha : a = true) :
    Refines (firstViolated [RULE.literal V .interpolation a]) (DetermineInterpolation S V st)
      (fun st' => (∃ v1, st' = { st with Options.Interpolation := v1 }) ∧
        (st'.Options.Interpolation = S.VARCRESS ↔ Begins "VARCRESS".toList
            (V .interpolation))) := by
  obtain ⟨d1, d2, d3, d4, d5, d6, d7⟩ := hD
  by_cases h1 : Begins "INVDIST".toList (V .interpolation)
  · have hx := DetermineInterpolation_INVDIST (S := S) h1 st
    exact Refines.skip (RULE.passes_of_violated (literal_kept (List.Mem.head _) h1))
      (Refines.done hx ⟨DetermineInterpolation_inv hx,
        ⟨fun h => absurd h d3, fun h => absurd h (h1.excludes (by decide))⟩⟩)
  by_cases h2 : Begins "NEAREST".toList (V .interpolation)
  · have hx := DetermineInterpolation_NEAREST (S := S) h2 st
    exact Refines.skip (RULE.passes_of_violated (literal_kept (List.Mem.tail _
        (List.Mem.head _)) h2))
      (Refines.done hx ⟨DetermineInterpolation_inv hx,
        ⟨fun h => absurd h d4, fun h => absurd h (h2.excludes (by decide))⟩⟩)
  by_cases h3 : Begins "VARCRESS".toList (V .interpolation)
  · have hx := DetermineInterpolation_VARCRESS (S := S) h3 st
    exact Refines.skip (RULE.passes_of_violated (literal_kept (List.Mem.tail _ (List.Mem.tail _
        (List.Mem.head _))) h3))
      (Refines.done hx ⟨DetermineInterpolation_inv hx,
        ⟨fun _ => h3, fun _ => rfl⟩⟩)
  have hn : MatchesNoLiteral .interpolation (V .interpolation) := by
    intro e he
    simp only [Vocabulary, List.mem_cons, List.mem_singleton, List.not_mem_nil,
      or_false] at he
    rcases he with rfl | rfl | rfl
    exacts [h1, h2, h3]
  exact Refines.hit (RULE.fires ha (literal_violated hn)) (DetermineInterpolation_error
      (S := S) h1 h2 h3 st)


theorem DetermineHasNetwork_refines (S : SETTINGS) (V : KEYS → List Char) (st : State)
    (hE : st.Options.Extent = S.POINT ↔ Begins "POINT".toList (V .extent)) :
    Refines (firstViolated [RULE.literal V .flow_routing (!KeyBegins V .extent "POINT")])
        (DetermineHasNetwork S V st)
      (fun st' => (∃ v1, st' = { st with Options.HasNetwork := v1 })) := by
  by_cases hp : Begins "POINT".toList (V .extent)
  · have hx := DetermineHasNetwork_POINT (S := S) V (hE.2 hp)
    exact Refines.skip (RULE.passes_of_applies (not_KeyBegins_eq_false hp))
      (Refines.done hx (DetermineHasNetwork_inv hx))
  have hg : st.Options.Extent ≠ S.POINT := fun h => hp (hE.1 h)
  have ha : (!KeyBegins V .extent "POINT") = true := not_KeyBegins_eq_true hp
  by_cases h1 : Begins "NETWORK".toList (V .flow_routing)
  · have hx := DetermineHasNetwork_NETWORK (S := S) h1 st hg
    exact Refines.skip (RULE.passes_of_violated (literal_kept (List.Mem.head _) h1))
      (Refines.done hx (DetermineHasNetwork_inv hx))
  by_cases h2 : Begins "UNIT".toList (V .flow_routing)
  · have hx := DetermineHasNetwork_UNIT (S := S) h2 st hg
    exact Refines.skip (RULE.passes_of_violated (literal_kept (List.Mem.tail _
        (List.Mem.head _)) h2))
      (Refines.done hx (DetermineHasNetwork_inv hx))
  have hn : MatchesNoLiteral .flow_routing (V .flow_routing) := by
    intro e he
    simp only [Vocabulary, List.mem_cons, List.mem_singleton, List.not_mem_nil,
      or_false] at he
    rcases he with rfl | rfl
    exacts [h1, h2]
  exact Refines.hit (RULE.fires ha (literal_violated hn)) (DetermineHasNetwork_error
      (S := S) h1 h2 st hg)


theorem DetermineHeatFlux_refines (S : SETTINGS) (V : KEYS → List Char) (st : State) (a : Bool)
    (ha : a = true) :
    Refines (firstViolated [RULE.literal V .sensible_heat_flux a]) (DetermineHeatFlux S V st)
      (fun st' => (∃ v1, st' = { st with Options.HeatFlux := v1 })) := by
  by_cases h1 : Begins "TRUE".toList (V .sensible_heat_flux)
  · have hx := DetermineHeatFlux_TRUE (S := S) h1 st
    exact Refines.skip (RULE.passes_of_violated (literal_kept (List.Mem.head _) h1))
      (Refines.done hx (DetermineHeatFlux_inv hx))
  by_cases h2 : Begins "FALSE".toList (V .sensible_heat_flux)
  · have hx := DetermineHeatFlux_FALSE (S := S) h2 st
    exact Refines.skip (RULE.passes_of_violated (literal_kept (List.Mem.tail _
        (List.Mem.head _)) h2))
      (Refines.done hx (DetermineHeatFlux_inv hx))
  have hn : MatchesNoLiteral .sensible_heat_flux (V .sensible_heat_flux) := by
    intro e he
    simp only [Vocabulary, List.mem_cons, List.mem_singleton, List.not_mem_nil,
      or_false] at he
    rcases he with rfl | rfl
    exacts [h1, h2]
  exact Refines.hit (RULE.fires ha (literal_violated hn)) (DetermineHeatFlux_error
      (S := S) h1 h2 st)


theorem DetermineSediment_refines (S : SETTINGS) (hD : S.Distinct) (V : KEYS → List Char)
    (st : State) (a : Bool) (ha : a = true) :
    Refines (firstViolated [RULE.literal V .sediment a]) (DetermineSediment S V st)
      (fun st' => (∃ v1 v2 v3 v4 v5, st' = { st with Stdout := v1, Options.Sediment := v2,
                                                     Options.MassWaste := v3,
                                                         Options.SurfaceErosion := v4,
                                                             Options.ErosionPeriod := v5 }) ∧
        (st'.Options.Sediment = S.TRUE ↔ Begins "TRUE".toList (V .sediment))) := by
  obtain ⟨d1, d2, d3, d4, d5, d6, d7⟩ := hD
  by_cases h1 : Begins "TRUE".toList (V .sediment)
  · have hx := DetermineSediment_TRUE (S := S) h1 st
    exact Refines.skip (RULE.passes_of_violated (literal_kept (List.Mem.head _) h1))
      (Refines.done hx ⟨DetermineSediment_inv hx,
        ⟨fun _ => h1, fun _ => rfl⟩⟩)
  by_cases h2 : Begins "FALSE".toList (V .sediment)
  · have hx := DetermineSediment_FALSE (S := S) h2 st
    exact Refines.skip (RULE.passes_of_violated (literal_kept (List.Mem.tail _
        (List.Mem.head _)) h2))
      (Refines.done hx ⟨DetermineSediment_inv hx,
        ⟨fun h => absurd h (Ne.symm d1), fun h => absurd h h1⟩⟩)
  have hn : MatchesNoLiteral .sediment (V .sediment) := by
    intro e he
    simp only [Vocabulary, List.mem_cons, List.mem_singleton, List.not_mem_nil,
      or_false] at he
    rcases he with rfl | rfl
    exacts [h1, h2]
  exact Refines.hit (RULE.fires ha (literal_violated hn)) (DetermineSediment_error
      (S := S) h1 h2 st)


theorem DetermineRouting_refines (S : SETTINGS) (V : KEYS → List Char) (st : State) (a : Bool)
    (ha : a = true) :
    Refines (firstViolated [RULE.literal V .routing a]) (DetermineRouting S V st)
      (fun st' => (∃ v1, st' = { st with Options.Routing := v1 })) := by
  by_cases h1 : Begins "KINEMATIC".toList (V .routing)
  · have hx := DetermineRouting_KINEMATIC (S := S) h1 st
    exact Refines.skip (RULE.passes_of_violated (literal_kept (List.Mem.head _) h1))
      (Refines.done hx (DetermineRouting_inv hx))
  by_cases h2 : Begins "CONVENTIONAL".toList (V .routing)
  · have hx := DetermineRouting_CONVENTIONAL (S := S) h2 st
    exact Refines.skip (RULE.passes_of_violated (literal_kept (List.Mem.tail _
        (List.Mem.head _)) h2))
      (Refines.done hx (DetermineRouting_inv hx))
  have hn : MatchesNoLiteral .routing (V .routing) := by
    intro e he
    simp only [Vocabulary, List.mem_cons, List.mem_singleton, List.not_mem_nil,
      or_false] at he
    rcases he with rfl | rfl
    exacts [h1, h2]
  exact Refines.hit (RULE.fires ha (literal_violated hn)) (DetermineRouting_error (S := S) h1 h2 st)


theorem DetermineInfiltration_refines (S : SETTINGS) (V : KEYS → List Char) (st : State)
    (a : Bool) (ha : a = true) :
    Refines (firstViolated [RULE.literal V .infiltration a]) (DetermineInfiltration S V st)
      (fun st' => (∃ v1 v2, st' = { st with Options.Infiltration := v1, Stdout := v2 })) := by
  by_cases h1 : Begins "STATIC".toList (V .infiltration)
  · have hx := DetermineInfiltration_STATIC (S := S) h1 st
    exact Refines.skip (RULE.passes_of_violated (literal_kept (List.Mem.head _) h1))
      (Refines.done hx (DetermineInfiltration_inv hx))
  by_cases h2 : Begins "DYNAMIC".toList (V .infiltration)
  · have hx := DetermineInfiltration_DYNAMIC (S := S) h2 st
    exact Refines.skip (RULE.passes_of_violated (literal_kept (List.Mem.tail _
        (List.Mem.head _)) h2))
      (Refines.done hx (DetermineInfiltration_inv hx))
  have hn : MatchesNoLiteral .infiltration (V .infiltration) := by
    intro e he
    simp only [Vocabulary, List.mem_cons, List.mem_singleton, List.not_mem_nil,
      or_false] at he
    rcases he with rfl | rfl
    exacts [h1, h2]
  exact Refines.hit (RULE.fires ha (literal_violated hn)) (DetermineInfiltration_error
      (S := S) h1 h2 st)


theorem DetermineMM5_refines (S : SETTINGS) (hD : S.Distinct) (V : KEYS → List Char)
    (st : State) (a : Bool) (ha : a = true) :
    Refines (firstViolated [RULE.literal V .mm5 a]) (DetermineMM5 S V st)
      (fun st' => (∃ v1, st' = { st with Options.MM5 := v1 }) ∧
        (st'.Options.MM5 = S.TRUE ↔ Begins "TRUE".toList (V .mm5))) := by
  obtain ⟨d1, d2, d3, d4, d5, d6, d7⟩ := hD
  by_cases h1 : Begins "TRUE".toList (V .mm5)
  · have hx := DetermineMM5_TRUE (S := S) h1 st
    exact Refines.skip (RULE.passes_of_violated (literal_kept (List.Mem.head _) h1))
      (Refines.done hx ⟨DetermineMM5_inv hx,
        ⟨fun _ => h1, fun _ => rfl⟩⟩)
  by_cases h2 : Begins "FALSE".toList (V .mm5)
  · have hx := DetermineMM5_FALSE (S := S) h2 st
    exact Refines.skip (RULE.passes_of_violated (literal_kept (List.Mem.tail _
        (List.Mem.head _)) h2))
      (Refines.done hx ⟨DetermineMM5_inv hx,
        ⟨fun h => absurd h (Ne.symm d1), fun h => absurd h h1⟩⟩)
  have hn : MatchesNoLiteral .mm5 (V .mm5) := by
    intro e he
    simp only [Vocabulary, List.mem_cons, List.mem_singleton, List.not_mem_nil,
      or_false] at he
    rcases he with rfl | rfl
    exacts [h1, h2]
  exact Refines.hit (RULE.fires ha (literal_violated hn)) (DetermineMM5_error (S := S) h1 h2 st)


theorem DetermineQPF_refines (S : SETTINGS) (hD : S.Distinct) (V : KEYS → List Char)
    (st : State) (a : Bool) (ha : a = true) :
    Refines (firstViolated [RULE.literal V .qpf a]) (DetermineQPF S V st)
      (fun st' => (∃ v1, st' = { st with Options.QPF := v1 }) ∧
        (st'.Options.QPF = S.TRUE ↔ Begins "TRUE".toList (V .qpf)) ∧
        (st'.Options.QPF = S.FALSE ↔ Begins "FALSE".toList (V .qpf))) := by
  obtain ⟨d1, d2, d3, d4, d5, d6, d7⟩ := hD
  by_cases h1 : Begins "TRUE".toList (V .qpf)
  · have hx := DetermineQPF_TRUE (S := S) h1 st
    exact Refines.skip (RULE.passes_of_violated (literal_kept (List.Mem.head _) h1))
      (Refines.done hx ⟨DetermineQPF_inv hx,
        ⟨fun _ => h1, fun _ => rfl⟩,
        ⟨fun h => absurd h d1, fun h => absurd h (h1.excludes (by decide))⟩⟩)
  by_cases h2 : Begins "FALSE".toList (V .qpf)
  · have hx := DetermineQPF_FALSE (S := S) h2 st
    exact Refines.skip (RULE.passes_of_violated (literal_kept (List.Mem.tail _
        (List.Mem.head _)) h2))
      (Refines.done hx ⟨DetermineQPF_inv hx,
        ⟨fun h => absurd h (Ne.symm d1), fun h => absurd h h1⟩,
        ⟨fun _ => h2, fun _ => rfl⟩⟩)
  have hn : MatchesNoLiteral .qpf (V .qpf) := by
    intro e he
    simp only [Vocabulary, List.mem_cons, List.mem_singleton, List.not_mem_nil,
      or_false] at he
    rcases he with rfl | rfl
    exacts [h1, h2]
  exact Refines.hit (RULE.fires ha (literal_violated hn)) (DetermineQPF_error (S := S) h1 h2 st)


theorem DeterminePrism_refines (S : SETTINGS) (hD : S.Distinct) (V : KEYS → List Char)
    (st : State) (a : Bool) (ha : a = true) :
    Refines (firstViolated [RULE.literal V .prism a]) (DeterminePrism S V st)
      (fun st' => (∃ v1, st' = { st with Options.Prism := v1 }) ∧
        (st'.Options.Prism = S.TRUE ↔ Begins "TRUE".toList (V .prism)) ∧
        (st'.Options.Prism = S.FALSE ↔ Begins "FALSE".toList (V .prism))) := by
  obtain ⟨d1, d2, d3, d4, d5, d6, d7⟩ := hD
  by_cases h1 : Begins "TRUE".toList (V .prism)
  · have hx := DeterminePrism_TRUE (S := S) h1 st
    exact Refines.skip (RULE.passes_of_violated (literal_kept (List.Mem.head _) h1))
      (Refines.done hx ⟨DeterminePrism_inv hx,
        ⟨fun _ => h1, fun _ => rfl⟩,
        ⟨fun h => absurd h d1, fun h => absurd h (h1.excludes (by decide))⟩⟩)
  by_cases h2 : Begins "FALSE".toList (V .prism)
  · have hx := DeterminePrism_FALSE (S := S) h2 st
    exact Refines.skip (RULE.passes_of_violated (literal_kept (List.Mem.tail _
        (List.Mem.head _)) h2))
      (Refines.done hx ⟨DeterminePrism_inv hx,
        ⟨fun h => absurd h (Ne.symm d1), fun h => absurd h h1⟩,
        ⟨fun _ => h2, fun _ => rfl⟩⟩)
  have hn : MatchesNoLiteral .prism (V .prism) := by
    intro e he
    simp only [Vocabulary, List.mem_cons, List.mem_singleton, List.not_mem_nil,
      or_false] at he
    rcases he with rfl | rfl
    exacts [h1, h2]
  exact Refines.hit (RULE.fires ha (literal_violated hn)) (DeterminePrism_error (S := S) h1 h2 st)


theorem DetermineCanopyRadAtt_refines (S : SETTINGS) (V : KEYS → List Char) (st : State)
    (a : Bool) (ha : a = true) :
    Refines (firstViolated [RULE.literal V .canopy_radatt a]) (DetermineCanopyRadAtt S V st)
      (fun st' => (∃ v1, st' = { st with Options.CanopyRadAtt := v1 })) := by
  by_cases h1 : Begins "FIX".toList (V .canopy_radatt)
  · have hx := DetermineCanopyRadAtt_FIXED (S := S) h1 st
    exact Refines.skip (RULE.passes_of_violated (literal_kept (List.Mem.head _) h1))
      (Refines.done hx (DetermineCanopyRadAtt_inv hx))
  by_cases h2 : Begins "VAR".toList (V .canopy_radatt)
  · have hx := DetermineCanopyRadAtt_VARIABLE (S := S) h2 st
    exact Refines.skip (RULE.passes_of_violated (literal_kept (List.Mem.tail _
        (List.Mem.head _)) h2))
      (Refines.done hx (DetermineCanopyRadAtt_inv hx))
  have hn : MatchesNoLiteral .canopy_radatt (V .canopy_radatt) := by
    intro e he
    simp only [Vocabulary, List.mem_cons, List.mem_singleton, List.not_mem_nil,
      or_false] at he
    rcases he with rfl | rfl
    exacts [h1, h2]
  exact Refines.hit (RULE.fires ha (literal_violated hn)) (DetermineCanopyRadAtt_error
      (S := S) h1 h2 st)


theorem DetermineShading_refines (S : SETTINGS) (hD : S.Distinct) (V : KEYS → List Char)
    (st : State) (a : Bool) (ha : a = true) :
    Refines (firstViolated [RULE.literal V .shading a]) (DetermineShading S V st)
      (fun st' => (∃ v1, st' = { st with Options.Shading := v1 }) ∧
        (st'.Options.Shading = S.TRUE ↔ Begins "TRUE".toList (V .shading))) := by
  obtain ⟨d1, d2, d3, d4, d5, d6, d7⟩ := hD
  by_cases h1 : Begins "TRUE".toList (V .shading)
  · have hx := DetermineShading_TRUE (S := S) h1 st
    exact Refines.skip (RULE.passes_of_violated (literal_kept (List.Mem.head _) h1))
      (Refines.done hx ⟨DetermineShading_inv hx,
        ⟨fun _ => h1, fun _ => rfl⟩⟩)
  by_cases h2 : Begins "FALSE".toList (V .shading)
  · have hx := DetermineShading_FALSE (S := S) h2 st
    exact Refines.skip (RULE.passes_of_violated (literal_kept (List.Mem.tail _
        (List.Mem.head _)) h2))
      (Refines.done hx ⟨DetermineShading_inv hx,
        ⟨fun h => absurd h (Ne.symm d1), fun h => absurd h h1⟩⟩)
  have hn : MatchesNoLiteral .shading (V .shading) := by
    intro e he
    simp only [Vocabulary, List.mem_cons, List.mem_singleton, List.not_mem_nil,
      or_false] at he
    rcases he with rfl | rfl
    exacts [h1, h2]
  exact Refines.hit (RULE.fires ha (literal_violated hn)) (DetermineShading_error (S := S) h1 h2 st)


theorem DetermineSnotel_refines (S : SETTINGS) (V : KEYS → List Char) (st : State) (a : Bool)
    (ha : a = true) :
    Refines (firstViolated [RULE.literal V .snotel a]) (DetermineSnotel S V st)
      (fun st' => (∃ v1, st' = { st with Options.Snotel := v1 })) := by
  by_cases h1 : Begins "TRUE".toList (V .snotel)
  · have hx := DetermineSnotel_TRUE (S := S) h1 st
    exact Refines.skip (RULE.passes_of_violated (literal_kept (List.Mem.head _) h1))
      (Refines.done hx (DetermineSnotel_inv hx))
  by_cases h2 : Begins "FALSE".toList (V .snotel)
  · have hx := DetermineSnotel_FALSE (S := S) h2 st
    exact Refines.skip (RULE.passes_of_violated (literal_kept (List.Mem.tail _
        (List.Mem.head _)) h2))
      (Refines.done hx (DetermineSnotel_inv hx))
  have hn : MatchesNoLiteral .snotel (V .snotel) := by
    intro e he
    simp only [Vocabulary, List.mem_cons, List.mem_singleton, List.not_mem_nil,
      or_false] at he
    rcases he with rfl | rfl
    exacts [h1, h2]
  exact Refines.hit (RULE.fires ha (literal_violated hn)) (DetermineSnotel_error (S := S) h1 h2 st)


theorem DetermineStreamTemp_refines (S : SETTINGS) (hD : S.Distinct) (V : KEYS → List Char)
    (st : State) (a : Bool) (ha : a = true) :
    Refines (firstViolated [RULE.literal V .stream_temp a]) (DetermineStreamTemp S V st)
      (fun st' => (∃ v1, st' = { st with Options.StreamTemp := v1 }) ∧
        (st'.Options.StreamTemp = S.FALSE ↔ Begins "FALSE".toList (V .stream_temp))) := by
  obtain ⟨d1, d2, d3, d4, d5, d6, d7⟩ := hD
  by_cases h1 : Begins "TRUE".toList (V .stream_temp)
  · have hx := DetermineStreamTemp_TRUE (S := S) h1 st
    exact Refines.skip (RULE.passes_of_violated (literal_kept (List.Mem.head _) h1))
      (Refines.done hx ⟨DetermineStreamTemp_inv hx,
        ⟨fun h => absurd h d1, fun h => absurd h (h1.excludes (by decide))⟩⟩)
  by_cases h2 : Begins "FALSE".toList (V .stream_temp)
  · have hx := DetermineStreamTemp_FALSE (S := S) h2 st
    exact Refines.skip (RULE.passes_of_violated (literal_kept (List.Mem.tail _
        (List.Mem.head _)) h2))
      (Refines.done hx ⟨DetermineStreamTemp_inv hx,
        ⟨fun _ => h2, fun _ => rfl⟩⟩)
  have hn : MatchesNoLiteral .stream_temp (V .stream_temp) := by
    intro e he
    simp only [Vocabulary, List.mem_cons, List.mem_singleton, List.not_mem_nil,
      or_false] at he
    rcases he with rfl | rfl
    exacts [h1, h2]
  exact Refines.hit (RULE.fires ha (literal_violated hn)) (DetermineStreamTemp_error
      (S := S) h1 h2 st)


theorem DetermineOutside_refines (S : SETTINGS) (V : KEYS → List Char) (st : State) (a : Bool)
    (ha : a = true) :
    Refines (firstViolated [RULE.literal V .outside a]) (DetermineOutside S V st)
      (fun st' => (∃ v1, st' = { st with Options.Outside := v1 })) := by
  by_cases h1 : Begins "TRUE".toList (V .outside)
  · have hx := DetermineOutside_TRUE (S := S) h1 st
    exact Refines.skip (RULE.passes_of_violated (literal_kept (List.Mem.head _) h1))
      (Refines.done hx (DetermineOutside_inv hx))
  by_cases h2 : Begins "FALSE".toList (V .outside)
  · have hx := DetermineOutside_FALSE (S := S) h2 st
    exact Refines.skip (RULE.passes_of_violated (literal_kept (List.Mem.tail _
        (List.Mem.head _)) h2))
      (Refines.done hx (DetermineOutside_inv hx))
  have hn : MatchesNoLiteral .outside (V .outside) := by
    intro e he
    simp only [Vocabulary, List.mem_cons, List.mem_singleton, List.not_mem_nil,
      or_false] at he
    rcases he with rfl | rfl
    exacts [h1, h2]
  exact Refines.hit (RULE.fires ha (literal_violated hn)) (DetermineOutside_error (S := S) h1 h2 st)


theorem DetermineRhoverride_refines (S : SETTINGS) (V : KEYS → List Char) (st : State)
    (a : Bool) (ha : a = true) :
    Refines (firstViolated [RULE.literal V .rhoverride a]) (DetermineRhoverride S V st)
      (fun st' => (∃ v1, st' = { st with Options.Rhoverride := v1 })) := by
  by_cases h1 : Begins "TRUE".toList (V .rhoverride)
  · have hx := DetermineRhoverride_TRUE (S := S) h1 st
    exact Refines.skip (RULE.passes_of_violated (literal_kept (List.Mem.head _) h1))
      (Refines.done hx (DetermineRhoverride_inv hx))
  by_cases h2 : Begins "FALSE".toList (V .rhoverride)
  · have hx := DetermineRhoverride_FALSE (S := S) h2 st
    exact Refines.skip (RULE.passes_of_violated (literal_kept (List.Mem.tail _
        (List.Mem.head _)) h2))
      (Refines.done hx (DetermineRhoverride_inv hx))
  have hn : MatchesNoLiteral .rhoverride (V .rhoverride) := by
    intro e he
    simp only [Vocabulary, List.mem_cons, List.mem_singleton, List.not_mem_nil,
      or_false] at he
    rcases he with rfl | rfl
    exacts [h1, h2]
  exact Refines.hit (RULE.fires ha (literal_violated hn)) (DetermineRhoverride_error
      (S := S) h1 h2 st)


theorem DeterminePrecipType_refines (S : SETTINGS) (V : KEYS → List Char) (st : State)
    (a : Bool) (ha : a = true) :
    Refines (firstViolated [RULE.literal V .precipitation_source a]) (DeterminePrecipType S V st)
      (fun st' => (∃ v1, st' = { st with Options.PrecipType := v1 })) := by
  by_cases h1 : Begins "RADAR".toList (V .precipitation_source)
  · have hx := DeterminePrecipType_RADAR (S := S) h1 st
    exact Refines.skip (RULE.passes_of_violated (literal_kept (List.Mem.head _) h1))
      (Refines.done hx (DeterminePrecipType_inv hx))
  by_cases h2 : Begins "STATION".toList (V .precipitation_source)
  · have hx := DeterminePrecipType_STATION (S := S) h2 st
    exact Refines.skip (RULE.passes_of_violated (literal_kept (List.Mem.tail _
        (List.Mem.head _)) h2))
      (Refines.done hx (DeterminePrecipType_inv hx))
  have hn : MatchesNoLiteral .precipitation_source (V .precipitation_source) := by
    intro e he
    simp only [Vocabulary, List.mem_cons, List.mem_singleton, List.not_mem_nil,
      or_false] at he
    rcases he with rfl | rfl
    exacts [h1, h2]
  exact Refines.hit (RULE.fires ha (literal_violated hn)) (DeterminePrecipType_error
      (S := S) h1 h2 st)


theorem DetermineWindSource_refines (S : SETTINGS) (V : KEYS → List Char) (st : State)
    (a : Bool) (ha : a = true) :
    Refines (firstViolated [RULE.literal V .wind_source a]) (DetermineWindSource S V st)
      (fun st' => (∃ v1, st' = { st with Options.WindSource := v1 })) := by
  by_cases h1 : Begins "MODEL".toList (V .wind_source)
  · have hx := DetermineWindSource_MODEL (S := S) h1 st
    exact Refines.skip (RULE.passes_of_violated (literal_kept (List.Mem.head _) h1))
      (Refines.done hx (DetermineWindSource_inv hx))
  by_cases h2 : Begins "STATION".toList (V .wind_source)
  · have hx := DetermineWindSource_STATION (S := S) h2 st
    exact Refines.skip (RULE.passes_of_violated (literal_kept (List.Mem.tail _
        (List.Mem.head _)) h2))
      (Refines.done hx (DetermineWindSource_inv hx))
  have hn : MatchesNoLiteral .wind_source (V .wind_source) := by
    intro e he
    simp only [Vocabulary, List.mem_cons, List.mem_singleton, List.not_mem_nil,
      or_false] at he
    rcases he with rfl | rfl
    exacts [h1, h2]
  exact Refines.hit (RULE.fires ha (literal_violated hn)) (DetermineWindSource_error
      (S := S) h1 h2 st)


theorem DetermineTempLapse_refines (S : SETTINGS) (hD : S.Distinct) (V : KEYS → List Char)
    (st : State) (a : Bool) (ha : a = true) :
    Refines (firstViolated [RULE.literal V .temp_lapse a]) (DetermineTempLapse S V st)
      (fun st' => (∃ v1, st' = { st with Options.TempLapse := v1 }) ∧
        (st'.Options.TempLapse = S.CONSTANT ↔ Begins "CONSTANT".toList (V .temp_lapse))) := by
  obtain ⟨d1, d2, d3, d4, d5, d6, d7⟩ := hD
  by_cases h1 : Begins "CONSTANT".toList (V .temp_lapse)
  · have hx := DetermineTempLapse_CONSTANT (S := S) h1 st
    exact Refines.skip (RULE.passes_of_violated (literal_kept (List.Mem.head _) h1))
      (Refines.done hx ⟨DetermineTempLapse_inv hx,
        ⟨fun _ => h1, fun _ => rfl⟩⟩)
  by_cases h2 : Begins "VARIABLE".toList (V .temp_lapse)
  · have hx := DetermineTempLapse_VARIABLE (S := S) h2 st
    exact Refines.skip (RULE.passes_of_violated (literal_kept (List.Mem.tail _
        (List.Mem.head _)) h2))
      (Refines.done hx ⟨DetermineTempLapse_inv hx,
        ⟨fun h => absurd h d5, fun h => absurd h h1⟩⟩)
  have hn : MatchesNoLiteral .temp_lapse (V .temp_lapse) := by
    intro e he
    simp only [Vocabulary, List.mem_cons, List.mem_singleton, List.not_mem_nil,
      or_false] at he
    rcases he with rfl | rfl
    exacts [h1, h2]
  exact Refines.hit (RULE.fires ha (literal_violated hn)) (DetermineTempLapse_error
      (S := S) h1 h2 st)


theorem DeterminePrecipLapse_refines (S : SETTINGS) (hD : S.Distinct) (V : KEYS → List Char)
    (st : State) (a : Bool) (ha : a = true) :
    Refines (firstViolated [RULE.literal V .precip_lapse a]) (DeterminePrecipLapse S V st)
      (fun st' => (∃ v1, st' = { st with Options.PrecipLapse := v1 }) ∧
        (st'.Options.PrecipLapse = S.CONSTANT ↔ Begins "CONSTANT".toList (V .precip_lapse))) := by
  obtain ⟨d1, d2, d3, d4, d5, d6, d7⟩ := hD
  by_cases h1 : Begins "CONSTANT".toList (V .precip_lapse)
  · have hx := DeterminePrecipLapse_CONSTANT (S := S) h1 st
    exact Refines.skip (RULE.passes_of_violated (literal_kept (List.Mem.head _) h1))
      (Refines.done hx ⟨DeterminePrecipLapse_inv hx,
        ⟨fun _ => h1, fun _ => rfl⟩⟩)
  by_cases h2 : Begins "MAP".toList (V .precip_lapse)
  · have hx := DeterminePrecipLapse_MAP (S := S) h2 st
    exact Refines.skip (RULE.passes_of_violated (literal_kept (List.Mem.tail _
        (List.Mem.head _)) h2))
      (Refines.done hx ⟨DeterminePrecipLapse_inv hx,
        ⟨fun h => absurd h d6, fun h => absurd h h1⟩⟩)
  by_cases h3 : Begins "VARIABLE".toList (V .precip_lapse)
  · have hx := DeterminePrecipLapse_VARIABLE (S := S) h3 st
    exact Refines.skip (RULE.passes_of_violated (literal_kept (List.Mem.tail _ (List.Mem.tail _
        (List.Mem.head _))) h3))
      (Refines.done hx ⟨DeterminePrecipLapse_inv hx,
        ⟨fun h => absurd h d5, fun h => absurd h h1⟩⟩)
  have hn : MatchesNoLiteral .precip_lapse (V .precip_lapse) := by
    intro e he
    simp only [Vocabulary, List.mem_cons, List.mem_singleton, List.not_mem_nil,
      or_false] at he
    rcases he with rfl | rfl | rfl
    exacts [h1, h2, h3]
  exact Refines.hit (RULE.fires ha (literal_violated hn)) (DeterminePrecipLapse_error
      (S := S) h1 h2 h3 st)


theorem DetermineCressman_refines (E : COLLABORATORS) (S : SETTINGS) (V : KEYS → List Char)
    (st : State)
    (h : st.Options.Interpolation = S.VARCRESS ↔ Begins "VARCRESS".toList (V .interpolation)) :
    Refines (firstViolated
      [RULE.parsed .cressman_radius (KeyBegins V .interpolation "VARCRESS")
        (E.CopyInt (V .cressman_radius) 1),
      RULE.parsed .cressman_stations (KeyBegins V .interpolation "VARCRESS")
        (E.CopyInt (V .cressman_stations) 1)])
      (DetermineCressman E S V st)
      (fun st' => (∃ v1 v2, st' = { st with Options.CressRadius := v1,
                                            Options.CressStations := v2 })) := by
  unfold DetermineCressman
  by_cases hc : Begins "VARCRESS".toList (V .interpolation)
  swap
  · rw [if_neg (fun hh => hc (h.1 hh))]
    exact Refines.skip (RULE.passes_of_applies (KeyBegins_eq_false hc))
      (Refines.skip (RULE.passes_of_applies (KeyBegins_eq_false hc))
      (Refines.done rfl ⟨_, _, rfl⟩))
  rw [if_pos (h.2 hc)]
  have ha : (KeyBegins V .interpolation "VARCRESS") = true := KeyBegins_eq_true hc
  cases h1 : E.CopyInt (V .cressman_radius) 1 with
  | none => exact Refines.hit (RULE.fires ha rfl) rfl
  | some x1 =>
    refine Refines.skip (RULE.passes_of_violated rfl) ?_
    cases h2 : E.CopyInt (V .cressman_stations) 1 with
    | none => exact Refines.hit (RULE.fires ha rfl) rfl
    | some x2 =>
      refine Refines.skip (RULE.passes_of_violated rfl) ?_
      exact Refines.done rfl ⟨_, _, rfl⟩


theorem DetermineSedFile_refines (S : SETTINGS) (V : KEYS → List Char) (st : State)
    (h : st.Options.Sediment = S.TRUE ↔ Begins "TRUE".toList (V .sediment)) :
    Refines (firstViolated
      [RULE.required V .sed_input_file (KeyBegins V .sediment "TRUE")])
      (DetermineSedFile S V st)
      (fun st' => (∃ v1, st' = { st with Options.SedFile := v1 })) := by
  unfold DetermineSedFile
  by_cases hc : Begins "TRUE".toList (V .sediment)
  swap
  · rw [if_neg (fun hh => hc (h.1 hh))]
    exact Refines.skip (RULE.passes_of_applies (KeyBegins_eq_false hc))
      (Refines.done rfl ⟨_, rfl⟩)
  rw [if_pos (h.2 hc)]
  have ha : (KeyBegins V .sediment "TRUE") = true := KeyBegins_eq_true hc
  cases h1 : IsEmptyStr (V .sed_input_file) with
  | true => exact Refines.hit (RULE.fires ha h1) rfl
  | false =>
    refine Refines.skip (RULE.passes_of_violated h1) ?_
    exact Refines.done rfl ⟨_, rfl⟩


theorem DeterminePrismData_refines (S : SETTINGS) (V : KEYS → List Char) (st : State)
    (h : st.Options.Prism = S.TRUE ↔ Begins "TRUE".toList (V .prism)) :
    Refines (firstViolated
      [RULE.required V .prism_data_path (KeyBegins V .prism "TRUE"),
      RULE.required V .prism_data_ext (KeyBegins V .prism "TRUE")])
      (DeterminePrismData S V st)
      (fun st' => (∃ v1 v2, st' = { st with Options.PrismDataPath := v1,
                                            Options.PrismDataExt := v2 })) := by
  unfold DeterminePrismData
  by_cases hc : Begins "TRUE".toList (V .prism)
  swap
  · rw [if_neg (fun hh => hc (h.1 hh))]
    exact Refines.skip (RULE.passes_of_applies (KeyBegins_eq_false hc))
      (Refines.skip (RULE.passes_of_applies (KeyBegins_eq_false hc))
      (Refines.done rfl ⟨_, _, rfl⟩))
  rw [if_pos (h.2 hc)]
  have ha : (KeyBegins V .prism "TRUE") = true := KeyBegins_eq_true hc
  cases h1 : IsEmptyStr (V .prism_data_path) with
  | true => exact Refines.hit (RULE.fires ha h1) rfl
  | false =>
    refine Refines.skip (RULE.passes_of_violated h1) ?_
    cases h2 : IsEmptyStr (V .prism_data_ext) with
    | true => exact Refines.hit (RULE.fires ha h2) rfl
    | false =>
      refine Refines.skip (RULE.passes_of_violated h2) ?_
      exact Refines.done rfl ⟨_, _, rfl⟩


theorem DetermineShadingData_refines (S : SETTINGS) (V : KEYS → List Char) (st : State)
    (h : st.Options.Shading = S.TRUE ↔ Begins "TRUE".toList (V .shading)) :
    Refines (firstViolated
      [RULE.required V .shading_data_path (KeyBegins V .shading "TRUE"),
      RULE.required V .shading_data_ext (KeyBegins V .shading "TRUE"),
      RULE.required V .skyview_data_path (KeyBegins V .shading "TRUE")])
      (DetermineShadingData S V st)
      (fun st' => (∃ v1 v2 v3, st' = { st with Options.ShadingDataPath := v1,
                                               Options.ShadingDataExt := v2,
                                                   Options.SkyViewDataPath := v3 })) := by
  unfold DetermineShadingData
  by_cases hc : Begins "TRUE".toList (V .shading)
  swap
  · rw [if_neg (fun hh => hc (h.1 hh))]
    exact Refines.skip (RULE.passes_of_applies (KeyBegins_eq_false hc))
      (Refines.skip (RULE.passes_of_applies (KeyBegins_eq_false hc))
      (Refines.skip (RULE.passes_of_applies (KeyBegins_eq_false hc))
      (Refines.done rfl ⟨_, _, _, rfl⟩)))
  rw [if_pos (h.2 hc)]
  have ha : (KeyBegins V .shading "TRUE") = true := KeyBegins_eq_true hc
  cases h1 : IsEmptyStr (V .shading_data_path) with
  | true => exact Refines.hit (RULE.fires ha h1) rfl
  | false =>
    refine Refines.skip (RULE.passes_of_violated h1) ?_
    cases h2 : IsEmptyStr (V .shading_data_ext) with
    | true => exact Refines.hit (RULE.fires ha h2) rfl
    | false =>
      refine Refines.skip (RULE.passes_of_violated h2) ?_
      cases h3 : IsEmptyStr (V .skyview_data_path) with
      | true => exact Refines.hit (RULE.fires ha h3) rfl
      | false =>
        refine Refines.skip (RULE.passes_of_violated h3) ?_
        exact Refines.done rfl ⟨_, _, _, rfl⟩


theorem DetermineArealExtent_refines (E : COLLABORATORS) (S : SETTINGS) (V : KEYS → List Char)
    (st : State) :
    Refines (firstViolated
      [RULE.required V .coordinate_system true,
      RULE.parsed .extreme_north true
        (E.CopyDouble (V .extreme_north) 1),
      RULE.parsed .extreme_west true
        (E.CopyDouble (V .extreme_west) 1),
      RULE.parsed .center_latitude true
        (E.CopyFloat (V .center_latitude) 1),
      RULE.parsed .center_longitude true
        (E.CopyFloat (V .center_longitude) 1),
      RULE.parsed .time_zone_meridian true
        (E.CopyFloat (V .time_zone_meridian) 1),
      RULE.parsed .number_of_rows true
        (E.CopyInt (V .number_of_rows) 1),
      RULE.parsed .number_of_columns true
        (E.CopyInt (V .number_of_columns) 1),
      RULE.parsed .grid_spacing true
        (E.CopyFloat (V .grid_spacing) 1)])
      (DetermineArealExtent E S V st)
      (fun st' => (∃ v1 v2, st' = { st with Map := v1, SolarGeo := v2 })) := by
  unfold DetermineArealExtent
  cases h1 : IsEmptyStr (V .coordinate_system) with
  | true => exact Refines.hit (RULE.fires rfl h1) rfl
  | false =>
    refine Refines.skip (RULE.passes_of_violated h1) ?_
    cases h2 : E.CopyDouble (V .extreme_north) 1 with
    | none => exact Refines.hit (RULE.fires rfl rfl) rfl
    | some x2 =>
      refine Refines.skip (RULE.passes_of_violated rfl) ?_
      cases h3 : E.CopyDouble (V .extreme_west) 1 with
      | none => exact Refines.hit (RULE.fires rfl rfl) rfl
      | some x3 =>
        refine Refines.skip (RULE.passes_of_violated rfl) ?_
        cases h4 : E.CopyFloat (V .center_latitude) 1 with
        | none => exact Refines.hit (RULE.fires rfl rfl) rfl
        | some x4 =>
          refine Refines.skip (RULE.passes_of_violated rfl) ?_
          cases h5 : E.CopyFloat (V .center_longitude) 1 with
          | none => exact Refines.hit (RULE.fires rfl rfl) rfl
          | some x5 =>
            refine Refines.skip (RULE.passes_of_violated rfl) ?_
            cases h6 : E.CopyFloat (V .time_zone_meridian) 1 with
            | none => exact Refines.hit (RULE.fires rfl rfl) rfl
            | some x6 =>
              refine Refines.skip (RULE.passes_of_violated rfl) ?_
              cases h7 : E.CopyInt (V .number_of_rows) 1 with
              | none => exact Refines.hit (RULE.fires rfl rfl) rfl
              | some x7 =>
                refine Refines.skip (RULE.passes_of_violated rfl) ?_
                cases h8 : E.CopyInt (V .number_of_columns) 1 with
                | none => exact Refines.hit (RULE.fires rfl rfl) rfl
                | some x8 =>
                  refine Refines.skip (RULE.passes_of_violated rfl) ?_
                  cases h9 : E.CopyFloat (V .grid_spacing) 1 with
                  | none => exact Refines.hit (RULE.fires rfl rfl) rfl
                  | some x9 =>
                    refine Refines.skip (RULE.passes_of_violated rfl) ?_
                    exact Refines.done rfl ⟨_, _, rfl⟩


theorem DeterminePoint_refines (E : COLLABORATORS) (S : SETTINGS) (V : KEYS → List Char)
    (st : State)
    (h : st.Options.Extent = S.POINT ↔ Begins "POINT".toList (V .extent)) :
    Refines (firstViolated
      [RULE.parsed .point_north (KeyBegins V .extent "POINT")
        (E.CopyDouble (V .point_north) 1),
      RULE.parsed .point_east (KeyBegins V .extent "POINT")
        (E.CopyDouble (V .point_east) 1)])
      (DeterminePoint E S V st)
      (fun st' => (∃ v1 v2, st' = { st with Options.PointY := v1, Options.PointX := v2 })) := by
  unfold DeterminePoint
  by_cases hc : Begins "POINT".toList (V .extent)
  swap
  · rw [if_neg (fun hh => hc (h.1 hh))]
    exact Refines.skip (RULE.passes_of_applies (KeyBegins_eq_false hc))
      (Refines.skip (RULE.passes_of_applies (KeyBegins_eq_false hc))
      (Refines.done rfl ⟨_, _, rfl⟩))
  rw [if_pos (h.2 hc)]
  have ha : (KeyBegins V .extent "POINT") = true := KeyBegins_eq_true hc
  cases h1 : E.CopyDouble (V .point_north) 1 with
  | none => exact Refines.hit (RULE.fires ha rfl) rfl
  | some x1 =>
    refine Refines.skip (RULE.passes_of_violated rfl) ?_
    cases h2 : E.CopyDouble (V .point_east) 1 with
    | none => exact Refines.hit (RULE.fires ha rfl) rfl
    | some x2 =>
      refine Refines.skip (RULE.passes_of_violated rfl) ?_
      exact Refines.done rfl ⟨_, _, rfl⟩


theorem DetermineModelPeriod_refines (E : COLLABORATORS) (S : SETTINGS) (V : KEYS → List Char)
    (st : State) :
    Refines (firstViolated
      [RULE.parsed .time_step true
        (E.CopyFloat (V .time_step) 1),
      RULE.parsed .model_start true
        (E.SScanDate (V .model_start)),
      RULE.parsed .model_end true
        (E.SScanDate (V .model_end))])
      (DetermineModelPeriod E S V st)
      (fun st' => (∃ v1, st' = { st with Time := v1 })) := by
  unfold DetermineModelPeriod
  cases h1 : E.CopyFloat (V .time_step) 1 with
  | none => exact Refines.hit (RULE.fires rfl rfl) rfl
  | some x1 =>
    refine Refines.skip (RULE.passes_of_violated rfl) ?_
    cases h2 : E.SScanDate (V .model_start) with
    | none => exact Refines.hit (RULE.fires rfl rfl) rfl
    | some x2 =>
      refine Refines.skip (RULE.passes_of_violated rfl) ?_
      cases h3 : E.SScanDate (V .model_end) with
      | none => exact Refines.hit (RULE.fires rfl rfl) rfl
      | some x3 =>
        refine Refines.skip (RULE.passes_of_violated rfl) ?_
        exact Refines.done rfl ⟨_, rfl⟩


theorem DetermineFixedConstants_refines (E : COLLABORATORS) (V : KEYS → List Char) (st : State) :
    Refines (firstViolated
      [RULE.parsed .ground_roughness true
        (E.CopyFloat (V .ground_roughness) 1),
      RULE.parsed .snow_roughness true
        (E.CopyFloat (V .snow_roughness) 1),
      RULE.parsed .rain_threshold true
        (E.CopyFloat (V .rain_threshold) 1),
      RULE.parsed .snow_threshold true
        (E.CopyFloat (V .snow_threshold) 1),
      RULE.parsed .snow_water_capacity true
        (E.CopyFloat (V .snow_water_capacity) 1),
      RULE.parsed .reference_height true
        (E.CopyFloat (V .reference_height) 1),
      RULE.parsed .rain_lai_multiplier true
        (E.CopyFloat (V .rain_lai_multiplier) 1),
      RULE.parsed .snow_lai_multiplier true
        (E.CopyFloat (V .snow_lai_multiplier) 1),
      RULE.parsed .min_intercepted_snow true
        (E.CopyFloat (V .min_intercepted_snow) 1),
      RULE.parsed .outside_basin true
        (E.CopyUChar (V .outside_basin) 1)])
      (DetermineFixedConstants E V st)
      (fun st' => (∃ v1, st' = { st with Constants := v1 })) := by
  unfold DetermineFixedConstants
  cases h1 : E.CopyFloat (V .ground_roughness) 1 with
  | none => exact Refines.hit (RULE.fires rfl rfl) rfl
  | some x1 =>
    refine Refines.skip (RULE.passes_of_violated rfl) ?_
    cases h2 : E.CopyFloat (V .snow_roughness) 1 with
    | none => exact Refines.hit (RULE.fires rfl rfl) rfl
    | some x2 =>
      refine Refines.skip (RULE.passes_of_violated rfl) ?_
      cases h3 : E.CopyFloat (V .rain_threshold) 1 with
      | none => exact Refines.hit (RULE.fires rfl rfl) rfl
      | some x3 =>
        refine Refines.skip (RULE.passes_of_violated rfl) ?_
        cases h4 : E.CopyFloat (V .snow_threshold) 1 with
        | none => exact Refines.hit (RULE.fires rfl rfl) rfl
        | some x4 =>
          refine Refines.skip (RULE.passes_of_violated rfl) ?_
          cases h5 : E.CopyFloat (V .snow_water_capacity) 1 with
          | none => exact Refines.hit (RULE.fires rfl rfl) rfl
          | some x5 =>
            refine Refines.skip (RULE.passes_of_violated rfl) ?_
            cases h6 : E.CopyFloat (V .reference_height) 1 with
            | none => exact Refines.hit (RULE.fires rfl rfl) rfl
            | some x6 =>
              refine Refines.skip (RULE.passes_of_violated rfl) ?_
              cases h7 : E.CopyFloat (V .rain_lai_multiplier) 1 with
              | none => exact Refines.hit (RULE.fires rfl rfl) rfl
              | some x7 =>
                refine Refines.skip (RULE.passes_of_violated rfl) ?_
                cases h8 : E.CopyFloat (V .snow_lai_multiplier) 1 with
                | none => exact Refines.hit (RULE.fires rfl rfl) rfl
                | some x8 =>
                  refine Refines.skip (RULE.passes_of_violated rfl) ?_
                  cases h9 : E.CopyFloat (V .min_intercepted_snow) 1 with
                  | none => exact Refines.hit (RULE.fires rfl rfl) rfl
                  | some x9 =>
                    refine Refines.skip (RULE.passes_of_violated rfl) ?_
                    cases h10 : E.CopyUChar (V .outside_basin) 1 with
                    | none => exact Refines.hit (RULE.fires rfl rfl) rfl
                    | some x10 =>
                      refine Refines.skip (RULE.passes_of_violated rfl) ?_
                      exact Refines.done rfl ⟨_, rfl⟩


theorem DetermineTEMPLAPSE_refines (E : COLLABORATORS) (S : SETTINGS) (V : KEYS → List Char)
    (st : State)
    (h : st.Options.TempLapse = S.CONSTANT ↔
      (¬ Begins "TRUE".toList (V .mm5) ∧ Begins "CONSTANT".toList (V .temp_lapse))) :
    Refines (firstViolated
      [RULE.parsed .temp_lapse_rate (!KeyBegins V .mm5 "TRUE" && KeyBegins V .temp_lapse "CONSTANT")
        (E.CopyFloat (V .temp_lapse_rate) 1)])
      (DetermineTEMPLAPSE E S V st)
      (fun st' => (∃ v1, st' = { st with Constants.TEMPLAPSE := v1 })) := by
  unfold DetermineTEMPLAPSE
  by_cases hc : ¬ Begins "TRUE".toList (V .mm5) ∧ Begins "CONSTANT".toList (V .temp_lapse)
  swap
  · rw [if_neg (fun hh => hc (h.1 hh))]
    exact Refines.skip (RULE.passes_of_applies (notand_eq_false hc))
      (Refines.done rfl ⟨_, rfl⟩)
  rw [if_pos (h.2 hc)]
  have ha :
      (!KeyBegins V .mm5 "TRUE" && KeyBegins V .temp_lapse "CONSTANT") = true := notand_eq_true hc
  cases h1 : E.CopyFloat (V .temp_lapse_rate) 1 with
  | none => exact Refines.hit (RULE.fires ha rfl) rfl
  | some x1 =>
    refine Refines.skip (RULE.passes_of_violated rfl) ?_
    exact Refines.done rfl ⟨_, rfl⟩


theorem DeterminePRECIPLAPSE_refines (E : COLLABORATORS) (S : SETTINGS) (V : KEYS → List Char)
    (st : State)
    (h : st.Options.PrecipLapse = S.CONSTANT ↔
      ((Begins "TRUE".toList (V .mm5) ∧ Begins "TRUE".toList (V .qpf) ∧
        Begins "FALSE".toList (V .prism)) ∨
      (¬ Begins "TRUE".toList (V .mm5) ∧ Begins "CONSTANT".toList (V .precip_lapse)))) :
    Refines (firstViolated
      [RULE.parsed .precip_lapse_rate
          (if KeyBegins V .mm5 "TRUE" then KeyBegins V .qpf "TRUE" && KeyBegins V .prism "FALSE"
        else KeyBegins V .precip_lapse "CONSTANT")
        (E.CopyFloat (V .precip_lapse_rate) 1)])
      (DeterminePRECIPLAPSE E S V st)
      (fun st' => (∃ v1, st' = { st with Constants.PRECIPLAPSE := v1 })) := by
  unfold DeterminePRECIPLAPSE
  by_cases hc : (Begins "TRUE".toList (V .mm5) ∧ Begins "TRUE".toList (V .qpf) ∧
        Begins "FALSE".toList (V .prism)) ∨
      (¬ Begins "TRUE".toList (V .mm5) ∧ Begins "CONSTANT".toList (V .precip_lapse))
  swap
  · rw [if_neg (fun hh => hc (h.1 hh))]
    exact Refines.skip (RULE.passes_of_applies (ite_eq_false hc))
      (Refines.done rfl ⟨_, rfl⟩)
  rw [if_pos (h.2 hc)]
  have ha : (if KeyBegins V .mm5 "TRUE" then KeyBegins V .qpf "TRUE" && KeyBegins V .prism "FALSE"
        else KeyBegins V .precip_lapse "CONSTANT") = true := ite_eq_true hc
  cases h1 : E.CopyFloat (V .precip_lapse_rate) 1 with
  | none => exact Refines.hit (RULE.fires ha rfl) rfl
  | some x1 =>
    refine Refines.skip (RULE.passes_of_violated rfl) ?_
    exact Refines.done rfl ⟨_, rfl⟩


theorem DeterminePRECIPMULTIPLIER_refines (E : COLLABORATORS) (V : KEYS → List Char) (st : State) :
    Refines (firstViolated
      [RULE.parsed .precip_multiplier true
        (E.CopyFloat (V .precip_multiplier) 1)])
      (DeterminePRECIPMULTIPLIER E V st)
      (fun st' => (∃ v1, st' = { st with Constants.PRECIPMULTIPLIER := v1 })) := by
  unfold DeterminePRECIPMULTIPLIER
  cases h1 : E.CopyFloat (V .precip_multiplier) 1 with
  | none => exact Refines.hit (RULE.fires rfl rfl) rfl
  | some x1 =>
    refine Refines.skip (RULE.passes_of_violated rfl) ?_
    exact Refines.done rfl ⟨_, rfl⟩


theorem CheckMM5Prism_refines (S : SETTINGS) (V : KEYS → List Char) (st : State)
    (hM : st.Options.MM5 = S.TRUE ↔ Begins "TRUE".toList (V .mm5))
    (hP : st.Options.Prism = S.TRUE ↔ Begins "TRUE".toList (V .prism))
    (hQ : st.Options.QPF = S.FALSE ↔ Begins "FALSE".toList (V .qpf)) :
    Refines (firstViolated [RULE.combination V]) (CheckMM5Prism S st) (fun st' => st' = st) := by
  unfold CheckMM5Prism
  by_cases hc : Begins "TRUE".toList (V .mm5) ∧ Begins "TRUE".toList (V .prism) ∧
      Begins "FALSE".toList (V .qpf)
  · rw [if_pos ⟨hM.2 hc.1, hP.2 hc.2.1, hQ.2 hc.2.2⟩]
    exact Refines.hit (RULE.fires rfl (and3_eq_true hc)) rfl
  · rw [if_neg (fun h => hc ⟨hM.1 h.1, hP.1 h.2.1, hQ.1 h.2.2⟩)]
    exact Refines.skip (RULE.passes_of_violated (and3_eq_false hc)) (Refines.done rfl rfl)

theorem DetermineCanopyShading_refines (S : SETTINGS) (V : KEYS → List Char) (st : State)
    (hT : st.Options.StreamTemp = S.FALSE ↔ Begins "FALSE".toList (V .stream_temp)) :
    Refines (firstViolated [RULE.literal V .canopy_shading true, RULE.canopy V])
      (DetermineCanopyShading S V st)
      (fun st' => ∃ v1, st' = { st with Options.CanopyShading := v1 }) := by
  by_cases h1 : Begins "TRUE".toList (V .canopy_shading)
  · by_cases hs : Begins "FALSE".toList (V .stream_temp)
    · exact Refines.skip (RULE.passes_of_violated (literal_kept (List.Mem.head _) h1))
        (Refines.hit (RULE.fires rfl (and2_eq_true ⟨h1, hs⟩))
          (DetermineCanopyShading_exit h1 (hT.2 hs)))
    · have hx := DetermineCanopyShading_TRUE (S := S) h1 (fun h => hs (hT.1 h))
      exact Refines.skip (RULE.passes_of_violated (literal_kept (List.Mem.head _) h1))
        (Refines.skip (RULE.passes_of_violated (and2_eq_false fun h => hs h.2))
          (Refines.done hx (DetermineCanopyShading_inv hx)))
  by_cases h2 : Begins "FALSE".toList (V .canopy_shading)
  · have hx := DetermineCanopyShading_FALSE (S := S) h2 st
    exact Refines.skip
      (RULE.passes_of_violated (literal_kept (List.Mem.tail _ (List.Mem.head _)) h2))
      (Refines.skip (RULE.passes_of_violated (and2_eq_false fun h => h1 h.1))
        (Refines.done hx (DetermineCanopyShading_inv hx)))
  have hn : MatchesNoLiteral .canopy_shading (V .canopy_shading) := by
    intro e he
    simp only [Vocabulary, List.mem_cons, List.mem_singleton, List.not_mem_nil,
      or_false] at he
    rcases he with rfl | rfl
    exacts [h1, h2]
  exact Refines.hit (RULE.fires rfl (literal_violated hn))
    (DetermineCanopyShading_error (S := S) h1 h2 st)

/-- With MM5 the forced options: the temperature lapse rate is not applicable, and
the precipitation lapse rate is CONSTANT exactly under QPF without PRISM. -/
theorem ForceMetOptions_lapse (S : SETTINGS) (hD : S.Distinct) (st : State) :
    (ForceMetOptions S st).Options.TempLapse ≠ S.CONSTANT ∧
    ((ForceMetOptions S st).Options.PrecipLapse = S.CONSTANT ↔
      (st.Options.QPF = S.TRUE ∧ st.Options.Prism = S.FALSE)) := by
  obtain ⟨d1, d2, d3, d4, d5, d6, d7⟩ := hD
  by_cases hq : st.Options.QPF = S.TRUE <;> by_cases hp : st.Options.Prism = S.FALSE <;>
    simp [ForceMetOptions, hq, hp, d7]

theorem DetermineMetOptions_refines (S : SETTINGS) (hD : S.Distinct) (V : KEYS → List Char)
    (st : State)
    (hM : st.Options.MM5 = S.TRUE ↔ Begins "TRUE".toList (V .mm5))
    (hQ : st.Options.QPF = S.TRUE ↔ Begins "TRUE".toList (V .qpf))
    (hP : st.Options.Prism = S.FALSE ↔ Begins "FALSE".toList (V .prism)) :
    Refines (firstViolated
      [RULE.literal V .precipitation_source (!KeyBegins V .mm5 "TRUE"),
        RULE.literal V .wind_source (!KeyBegins V .mm5 "TRUE"),
        RULE.literal V .temp_lapse (!KeyBegins V .mm5 "TRUE"),
        RULE.literal V .precip_lapse (!KeyBegins V .mm5 "TRUE")])
      (DetermineMetOptions S V st)
      (fun st' => (∃ v1 v2 v3 v4, st' =
      { st with Options.PrecipType := v1, Options.WindSource := v2,
                Options.PrecipLapse := v3, Options.TempLapse := v4 }) ∧
        (st'.Options.TempLapse = S.CONSTANT ↔
          (¬ Begins "TRUE".toList (V .mm5) ∧ Begins "CONSTANT".toList (V .temp_lapse))) ∧
        (st'.Options.PrecipLapse = S.CONSTANT ↔
          ((Begins "TRUE".toList (V .mm5) ∧ Begins "TRUE".toList (V .qpf) ∧
        Begins "FALSE".toList (V .prism)) ∨
      (¬ Begins "TRUE".toList (V .mm5) ∧ Begins "CONSTANT".toList (V .precip_lapse))))) := by
  by_cases hm : Begins "TRUE".toList (V .mm5)
  · have hx : DetermineMetOptions S V st = .ok (ForceMetOptions S st) := by
      unfold DetermineMetOptions
      rw [if_pos (hM.2 hm)]
    obtain ⟨f1, f2⟩ := ForceMetOptions_lapse S hD st
    refine Refines.skip (RULE.passes_of_applies (not_KeyBegins_eq_false hm))
      (Refines.skip (RULE.passes_of_applies (not_KeyBegins_eq_false hm))
        (Refines.skip (RULE.passes_of_applies (not_KeyBegins_eq_false hm))
          (Refines.skip (RULE.passes_of_applies (not_KeyBegins_eq_false hm))
            (Refines.done hx ⟨DetermineMetOptions_inv hx, ?_, ?_⟩))))
    · exact ⟨fun h => absurd h f1, fun h => absurd hm h.1⟩
    · constructor
      · intro h
        exact Or.inl ⟨hm, hQ.1 (f2.1 h).1, hP.1 (f2.1 h).2⟩
      · rintro (⟨_, h2, h3⟩ | ⟨h1, _⟩)
        · exact f2.2 ⟨hQ.2 h2, hP.2 h3⟩
        · exact absurd hm h1
  · have ha : (!KeyBegins V .mm5 "TRUE") = true := not_KeyBegins_eq_true hm
    have e : DetermineMetOptions S V st =
        (DeterminePrecipType S V st >>= fun st =>
          DetermineWindSource S V st >>= fun st =>
            DetermineTempLapse S V st >>= fun st => DeterminePrecipLapse S V st) := by
      unfold DetermineMetOptions
      rw [if_neg (fun h => hm (hM.1 h))]
    rw [e]
    show Refines (firstViolated
      ([RULE.literal V .precipitation_source (!KeyBegins V .mm5 "TRUE")] ++
        ([RULE.literal V .wind_source (!KeyBegins V .mm5 "TRUE")] ++
          ([RULE.literal V .temp_lapse (!KeyBegins V .mm5 "TRUE")] ++
            [RULE.literal V .precip_lapse (!KeyBegins V .mm5 "TRUE")])))) _ _
    refine Refines.seq (DeterminePrecipType_refines S V st _ ha) fun b1 q1 => ?_
    obtain ⟨_, rfl⟩ := q1
    refine Refines.seq (DetermineWindSource_refines S V _ _ ha) fun b2 q2 => ?_
    obtain ⟨_, rfl⟩ := q2
    refine Refines.seq (DetermineTempLapse_refines S hD V _ _ ha) fun b3 q3 => ?_
    obtain ⟨⟨_, rfl⟩, hTL⟩ := q3
    refine Refines.mono (DeterminePrecipLapse_refines S hD V _ _ ha) fun b4 q4 => ?_
    obtain ⟨⟨_, rfl⟩, hPL⟩ := q4
    refine ⟨⟨_, _, _, _, rfl⟩, ?_, ?_⟩
    · exact ⟨fun h => ⟨hm, hTL.1 h⟩, fun h => hTL.2 h.2⟩
    · constructor
      · intro h
        exact Or.inr ⟨hm, hPL.1 h⟩
      · rintro (⟨h1, _⟩ | ⟨_, h2⟩)
        · exact absurd h1 hm
        · exact hPL.2 h2


/-- The pass over a table of resolved strings fails exactly as the validation steps
say: with the failure of the first step, in the order of `Rules`, that applies
and is violated, and not at all if there is no such step. -/
theorem Decode_refines (E : COLLABORATORS) (S : SETTINGS) (hD : S.Distinct)
    (V : KEYS → List Char) (st : State) :
    failureOf (Decode E S V st) = firstFailure E V := by
  refine Refines.final (Q := fun _ => True) ?_
  unfold Decode DetermineModelOptions DetermineModelConstants
  simp only [bind_assoc]
  show Refines (firstViolated
      ([RULE.literal V .format true] ++
      ([RULE.literal V .extent true] ++
      ([RULE.literal V .gradient (!KeyBegins V .extent "POINT")] ++
      ([RULE.literal V .interpolation true] ++
      ([RULE.parsed .cressman_radius (KeyBegins V .interpolation "VARCRESS")
        (E.CopyInt (V .cressman_radius) 1),
      RULE.parsed .cressman_stations (KeyBegins V .interpolation "VARCRESS")
        (E.CopyInt (V .cressman_stations) 1)] ++
      ([RULE.literal V .flow_routing (!KeyBegins V .extent "POINT")] ++
      ([RULE.literal V .sensible_heat_flux true] ++
      ([RULE.literal V .sediment true] ++
      ([RULE.required V .sed_input_file (KeyBegins V .sediment "TRUE")] ++
      ([RULE.literal V .routing true] ++
      ([RULE.literal V .infiltration true] ++
      ([RULE.literal V .mm5 true] ++
      ([RULE.literal V .qpf true] ++
      ([RULE.literal V .prism true] ++
      ([RULE.literal V .canopy_radatt true] ++
      ([RULE.literal V .shading true] ++
      ([RULE.combination V] ++
      ([RULE.literal V .snotel true] ++
      ([RULE.literal V .stream_temp true] ++
      ([RULE.literal V .canopy_shading true,
      RULE.canopy V] ++
      ([RULE.literal V .outside true] ++
      ([RULE.required V .prism_data_path (KeyBegins V .prism "TRUE"),
      RULE.required V .prism_data_ext (KeyBegins V .prism "TRUE")] ++
      ([RULE.required V .shading_data_path (KeyBegins V .shading "TRUE"),
      RULE.required V .shading_data_ext (KeyBegins V .shading "TRUE"),
      RULE.required V .skyview_data_path (KeyBegins V .shading "TRUE")] ++
      ([RULE.literal V .rhoverride true] ++
      ([RULE.literal V .precipitation_source (!KeyBegins V .mm5 "TRUE"),
      RULE.literal V .wind_source (!KeyBegins V .mm5 "TRUE"),
      RULE.literal V .temp_lapse (!KeyBegins V .mm5 "TRUE"),
      RULE.literal V .precip_lapse (!KeyBegins V .mm5 "TRUE")] ++
      ([RULE.required V .coordinate_system true,
      RULE.parsed .extreme_north true (E.CopyDouble (V .extreme_north) 1),
      RULE.parsed .extreme_west true (E.CopyDouble (V .extreme_west) 1),
      RULE.parsed .center_latitude true (E.CopyFloat (V .center_latitude) 1),
      RULE.parsed .center_longitude true (E.CopyFloat (V .center_longitude) 1),
      RULE.parsed .time_zone_meridian true (E.CopyFloat (V .time_zone_meridian) 1),
      RULE.parsed .number_of_rows true (E.CopyInt (V .number_of_rows) 1),
      RULE.parsed .number_of_columns true (E.CopyInt (V .number_of_columns) 1),
      RULE.parsed .grid_spacing true (E.CopyFloat (V .grid_spacing) 1)] ++
      ([RULE.parsed .point_north (KeyBegins V .extent "POINT")
        (E.CopyDouble (V .point_north) 1),
      RULE.parsed .point_east (KeyBegins V .extent "POINT")
        (E.CopyDouble (V .point_east) 1)] ++
      ([RULE.parsed .time_step true (E.CopyFloat (V .time_step) 1),
      RULE.parsed .model_start true (E.SScanDate (V .model_start)),
      RULE.parsed .model_end true (E.SScanDate (V .model_end))] ++
      ([RULE.parsed .ground_roughness true (E.CopyFloat (V .ground_roughness) 1),
      RULE.parsed .snow_roughness true (E.CopyFloat (V .snow_roughness) 1),
      RULE.parsed .rain_threshold true (E.CopyFloat (V .rain_threshold) 1),
      RULE.parsed .snow_threshold true (E.CopyFloat (V .snow_threshold) 1),
      RULE.parsed .snow_water_capacity true (E.CopyFloat (V .snow_water_capacity) 1),
      RULE.parsed .reference_height true (E.CopyFloat (V .reference_height) 1),
      RULE.parsed .rain_lai_multiplier true (E.CopyFloat (V .rain_lai_multiplier) 1),
      RULE.parsed .snow_lai_multiplier true (E.CopyFloat (V .snow_lai_multiplier) 1),
      RULE.parsed .min_intercepted_snow true (E.CopyFloat (V .min_intercepted_snow) 1),
      RULE.parsed .outside_basin true (E.CopyUChar (V .outside_basin) 1)] ++
      ([RULE.parsed .temp_lapse_rate
        (!KeyBegins V .mm5 "TRUE" && KeyBegins V .temp_lapse "CONSTANT")
        (E.CopyFloat (V .temp_lapse_rate) 1)] ++
      ([RULE.parsed .precip_lapse_rate
        (if KeyBegins V .mm5 "TRUE" then KeyBegins V .qpf "TRUE" && KeyBegins V .prism "FALSE"
        else KeyBegins V .precip_lapse "CONSTANT")
        (E.CopyFloat (V .precip_lapse_rate) 1)] ++
      ([RULE.parsed .precip_multiplier true (E.CopyFloat
          (V .precip_multiplier) 1)]))))))))))))))))))))))))))))))))) _ _
  refine Refines.seq (DetermineFileFormat_refines S V _ true rfl) fun a1 q1 => ?_
  obtain ⟨_, rfl⟩ := q1
  refine Refines.seq (DetermineExtent_refines S hD V _ true rfl) fun a2 q2 => ?_
  obtain ⟨⟨_, _, rfl⟩, hE⟩ := q2
  refine Refines.seq (DetermineFlowGradient_refines S V _ hE) fun a3 q3 => ?_
  obtain ⟨_, rfl⟩ := q3
  refine Refines.seq (DetermineInterpolation_refines S hD V _ true rfl) fun a4 q4 => ?_
  obtain ⟨⟨_, rfl⟩, hI⟩ := q4
  refine Refines.seq (DetermineCressman_refines E S V _ hI) fun a5 q5 => ?_
  obtain ⟨_, _, rfl⟩ := q5
  refine Refines.seq (DetermineHasNetwork_refines S V _ hE) fun a6 q6 => ?_
  obtain ⟨_, rfl⟩ := q6
  refine Refines.seq (DetermineHeatFlux_refines S V _ true rfl) fun a7 q7 => ?_
  obtain ⟨_, rfl⟩ := q7
  refine Refines.seq (DetermineSediment_refines S hD V _ true rfl) fun a8 q8 => ?_
  obtain ⟨⟨_, _, _, _, _, rfl⟩, hS⟩ := q8
  refine Refines.seq (DetermineSedFile_refines S V _ hS) fun a9 q9 => ?_
  obtain ⟨_, rfl⟩ := q9
  refine Refines.seq (DetermineRouting_refines S V _ true rfl) fun a10 q10 => ?_
  obtain ⟨_, rfl⟩ := q10
  refine Refines.seq (DetermineInfiltration_refines S V _ true rfl) fun a11 q11 => ?_
  obtain ⟨_, _, rfl⟩ := q11
  refine Refines.seq (DetermineMM5_refines S hD V _ true rfl) fun a12 q12 => ?_
  obtain ⟨⟨_, rfl⟩, hM⟩ := q12
  refine Refines.seq (DetermineQPF_refines S hD V _ true rfl) fun a13 q13 => ?_
  obtain ⟨⟨_, rfl⟩, hQ1, hQ2⟩ := q13
  refine Refines.seq (DeterminePrism_refines S hD V _ true rfl) fun a14 q14 => ?_
  obtain ⟨⟨_, rfl⟩, hP1, hP2⟩ := q14
  refine Refines.seq (DetermineCanopyRadAtt_refines S V _ true rfl) fun a15 q15 => ?_
  obtain ⟨_, rfl⟩ := q15
  refine Refines.seq (DetermineShading_refines S hD V _ true rfl) fun a16 q16 => ?_
  obtain ⟨⟨_, rfl⟩, hH⟩ := q16
  refine Refines.seq (CheckMM5Prism_refines S V _ hM hP1 hQ2) fun a17 q17 => ?_
  obtain rfl := q17
  refine Refines.seq (DetermineSnotel_refines S V _ true rfl) fun a18 q18 => ?_
  obtain ⟨_, rfl⟩ := q18
  refine Refines.seq (DetermineStreamTemp_refines S hD V _ true rfl) fun a19 q19 => ?_
  obtain ⟨⟨_, rfl⟩, hT⟩ := q19
  refine Refines.seq (DetermineCanopyShading_refines S V _ hT) fun a20 q20 => ?_
  obtain ⟨_, rfl⟩ := q20
  refine Refines.seq (DetermineOutside_refines S V _ true rfl) fun a21 q21 => ?_
  obtain ⟨_, rfl⟩ := q21
  refine Refines.seq (DeterminePrismData_refines S V _ hP1) fun a22 q22 => ?_
  obtain ⟨_, _, rfl⟩ := q22
  refine Refines.seq (DetermineShadingData_refines S V _ hH) fun a23 q23 => ?_
  obtain ⟨_, _, _, rfl⟩ := q23
  refine Refines.seq (DetermineRhoverride_refines S V _ true rfl) fun a24 q24 => ?_
  obtain ⟨_, rfl⟩ := q24
  refine Refines.seq (DetermineMetOptions_refines S hD V _ hM hQ1 hP2) fun a25 q25 => ?_
  obtain ⟨⟨_, _, _, _, rfl⟩, hTL, hPL⟩ := q25
  refine Refines.seq (DetermineArealExtent_refines E S V _) fun a26 q26 => ?_
  obtain ⟨_, _, rfl⟩ := q26
  refine Refines.seq (DeterminePoint_refines E S V _ hE) fun a27 q27 => ?_
  obtain ⟨_, _, rfl⟩ := q27
  refine Refines.seq (DetermineModelPeriod_refines E S V _) fun a28 q28 => ?_
  obtain ⟨_, rfl⟩ := q28
  refine Refines.seq (DetermineFixedConstants_refines E V _) fun a29 q29 => ?_
  obtain ⟨_, rfl⟩ := q29
  refine Refines.seq (DetermineTEMPLAPSE_refines E S V _ hTL) fun a30 q30 => ?_
  obtain ⟨_, rfl⟩ := q30
  refine Refines.seq (DeterminePRECIPLAPSE_refines E S V _ hPL) fun a31 q31 => ?_
  obtain ⟨_, rfl⟩ := q31
  exact Refines.mono (DeterminePRECIPMULTIPLIER_refines E V _) fun _ _ => trivial

/-! ## The first violated step -/

theorem firstViolated_some {rs : List RULE} {r : RULE} (h : firstViolated rs = some r) :
    r ∈ rs ∧ r.applies = true ∧ r.violated = true := by
  unfold firstViolated at h
  have h1 := List.find?_some h
  rw [Bool.and_eq_true] at h1
  exact ⟨List.mem_of_find?_eq_some h, h1.1, h1.2⟩

/-- The first violated step has a position in the list, before which no step
applies and is violated. -/
theorem firstViolated_index : ∀ {rs : List RULE} {r : RULE}, firstViolated rs = some r →
    ∃ i : Nat, rs[i]? = some r ∧
      ∀ (j : Nat) (r' : RULE), j < i → rs[j]? = some r' → (r'.applies && r'.violated) = false
  | [], r, h => by cases h
  | r0 :: rs, r, h => by
    unfold firstViolated at h
    rw [List.find?_cons] at h
    cases h0 : (r0.applies && r0.violated) with
    | true =>
      rw [h0] at h
      cases h
      exact ⟨0, List.getElem?_cons_zero, fun j r' hj _ => absurd hj (Nat.not_lt_zero j)⟩
    | false =>
      rw [h0] at h
      obtain ⟨i, hi, hfirst⟩ := @firstViolated_index rs r h
      refine ⟨i + 1, by rw [List.getElem?_cons_succ]; exact hi, fun j r' hj hr' => ?_⟩
      cases j with
      | zero =>
        rw [List.getElem?_cons_zero] at hr'
        cases hr'
        exact h0
      | succ j =>
        rw [List.getElem?_cons_succ] at hr'
        exact hfirst j r' (Nat.lt_of_succ_lt_succ hj) hr'

/-- A step that applies and is violated, before which no step applies and is
violated, is the first violated step. -/
theorem firstViolated_of_first : ∀ {rs : List RULE} {i : Nat} {r : RULE}, rs[i]? = some r →
    r.applies = true → r.violated = true →
    (∀ (j : Nat) (r' : RULE), j < i → rs[j]? = some r' → (r'.applies && r'.violated) = false) →
    firstViolated rs = some r
  | [], i, r, hi, _, _, _ => by simp at hi
  | r0 :: rs, 0, r, hi, ha, hv, _ => by
    rw [List.getElem?_cons_zero] at hi
    cases hi
    unfold firstViolated
    rw [List.find?_cons, RULE.fires ha hv]
  | r0 :: rs, i + 1, r, hi, ha, hv, hfirst => by
    rw [List.getElem?_cons_succ] at hi
    have h0 := hfirst 0 r0 (Nat.succ_pos i) (List.getElem?_cons_zero)
    have := @firstViolated_of_first rs i r hi ha hv
      (fun j r' hj hr' => hfirst (j + 1) r' (Nat.succ_lt_succ hj)
        (by rw [List.getElem?_cons_succ]; exact hr'))
    unfold firstViolated at this ⊢
    rw [List.find?_cons, h0]
    exact this

/-- Every step reports its own key with the code 51, except the step of canopy
shading without the stream temperature module, which exits with the status -1. -/
theorem Rules_failure (E : COLLABORATORS) (V : KEYS → List Char) :
    ∀ r ∈ Rules E V, r.failure = .ReportError (KeyName r.key) 51 ∨
      (r = RULE.canopy V ∧ r.failure = .Exit CanopyShadingMessage (-1)) := by
  intro r hr
  simp only [Rules, List.mem_cons, List.mem_singleton, List.not_mem_nil, or_false] at hr
  rcases hr with rfl | rfl | rfl | rfl | rfl | rfl | rfl | rfl | rfl | rfl | rfl | rfl | rfl | rfl | rfl | rfl | rfl | rfl | rfl | rfl | rfl | rfl | rfl | rfl | rfl | rfl | rfl | rfl | rfl | rfl | rfl | rfl | rfl | rfl | rfl | rfl | rfl | rfl | rfl | rfl | rfl | rfl | rfl | rfl | rfl | rfl | rfl | rfl | rfl | rfl | rfl | rfl | rfl | rfl | rfl | rfl | rfl | rfl | rfl | rfl
  all_goals first
    | exact Or.inl rfl
    | exact Or.inr ⟨rfl, rfl⟩

/-- The load fails exactly as the validation steps say. -/
theorem InitConstants_refines (E : COLLABORATORS) (S : SETTINGS) (hD : S.Distinct)
    (Input : LISTPTR) (st : State) :
    failureOf (InitConstants E S Input st) = firstFailure E (VarStr E S Input) :=
  Decode_refines E S hD (VarStr E S Input) st

/-- A step that applies and is violated, before which no step applies and is
violated, decides the outcome of the load. -/
theorem InitConstants_first (E : COLLABORATORS) (S : SETTINGS) (hD : S.Distinct)
    (Input : LISTPTR) (st : State) {i : Nat} {r : RULE}
    (hi : (Rules E (VarStr E S Input))[i]? = some r)
    (ha : r.applies = true) (hv : r.violated = true)
    (hfirst : ∀ (j : Nat) (r' : RULE), j < i → (Rules E (VarStr E S Input))[j]? = some r' →
      (r'.applies && r'.violated) = false) :
    InitConstants E S Input st = .error r.failure := by
  apply failureOf_eq
  rw [InitConstants_refines E S hD, firstFailure, firstViolated_of_first hi ha hv hfirst]
  rfl

/-- A failing load has a first violated step, whose failure it reports. -/
theorem InitConstants_error (E : COLLABORATORS) (S : SETTINGS) (hD : S.Distinct)
    (Input : LISTPTR) (st : State) {e : Failure} (h : InitConstants E S Input st = .error e) :
    ∃ (i : Nat) (r : RULE), (Rules E (VarStr E S Input))[i]? = some r ∧ r.applies = true ∧
      r.violated = true ∧
      (∀ (j : Nat) (r' : RULE), j < i → (Rules E (VarStr E S Input))[j]? = some r' →
        (r'.applies && r'.violated) = false) ∧
      e = r.failure := by
  have h1 := InitConstants_refines E S hD Input st
  rw [h] at h1
  unfold firstFailure at h1
  cases hf : firstViolated (Rules E (VarStr E S Input)) with
  | none =>
    rw [hf] at h1
    cases h1
  | some r =>
    rw [hf] at h1
    obtain ⟨i, hi, hfirst⟩ := firstViolated_index hf
    obtain ⟨_, ha, hv⟩ := firstViolated_some hf
    exact ⟨i, r, hi, ha, hv, hfirst, Option.some.inj h1⟩

/-! ## The illegal MM5 / PRISM / QPF combination -/

/-- C1. Whenever MM5 and PRISM decode to TRUE and QPF decodes to FALSE, the load
ends in a fatal failure, whatever the other keys and the starting state are. -/
theorem C1_mm5_prism_without_qpf_is_fatal (E : COLLABORATORS) (S : SETTINGS)
    (Input : LISTPTR) (st : State)
    (hmm5 : Begins "TRUE".toList (VarStr E S Input .mm5))
    (hprism : Begins "TRUE".toList (VarStr E S Input .prism))
    (hqpf : Begins "FALSE".toList (VarStr E S Input .qpf)) :
    ∃ f, InitConstants E S Input st = .error f := by
  unfold InitConstants Decode DetermineModelOptions
  simp only [bind_assoc]
  iterate 11 refine fails_bind fun _ _ => ?_
  rw [DetermineMM5_TRUE hmm5, bind_ok_eq, DetermineQPF_FALSE hqpf, bind_ok_eq,
    DeterminePrism_TRUE hprism, bind_ok_eq]
  refine fails_bind fun s1 h1 => ?_
  obtain ⟨v1, rfl⟩ := DetermineCanopyRadAtt_inv h1
  refine fails_bind fun s2 h2 => ?_
  obtain ⟨v2, rfl⟩ := DetermineShading_inv h2
  have hc : ∀ st : State, st.Options.MM5 = S.TRUE → st.Options.Prism = S.TRUE →
      st.Options.QPF = S.FALSE →
      CheckMM5Prism S st = .error (.ReportError (KeyName .prism) 51) := by
    intro st a b c
    unfold CheckMM5Prism
    rw [if_pos ⟨a, b, c⟩]
  rw [hc _ rfl rfl rfl]
  exact ⟨_, rfl⟩

/-- C1, on a concrete configuration. -/
theorem C1_mm5_prism_without_qpf_is_fatal_witness :
    ∃ f, InitConstants sampleCollaborators sampleSettings
      (("OPTIONS", "MM5", "TRUE".toList) :: ("OPTIONS", "PRISM", "TRUE".toList) ::
        sampleInput) zeroState = .error f :=
  C1_mm5_prism_without_qpf_is_fatal sampleCollaborators sampleSettings _ zeroState
    (by decide) (by decide) (by decide)

/-! ## A string that matches no literal -/

theorem FailsOrIgnores.bind {x : Except Failure State}
    {G : List Char → State → Except Failure State} {b : List Char} {e : Failure}
    (h : ∀ a, FailsOrIgnores (fun s => G s a) b e) :
    FailsOrIgnores (fun s => x >>= G s) b e := by
  cases x with
  | error f => exact Or.inr fun _ => rfl
  | ok a => exact h a

theorem FailsOrIgnores.fail {B : List Char → Except Failure State}
    {R : State → Except Failure State} {b : List Char} {e : Failure} (h : B b = .error e) :
    FailsOrIgnores (fun s => B s >>= R) b e := by
  left
  show (B b >>= R) = _
  rw [h]
  rfl

theorem FailsOrIgnores.last {B : List Char → Except Failure State}
    {b : List Char} {e : Failure} (h : B b = .error e) :
    FailsOrIgnores B b e :=
  Or.inl h

theorem FailsOrIgnores.ignore {B : List Char → Except Failure State}
    {R : State → Except Failure State} {b : List Char} {e : Failure}
    (h : ∀ s, B s = B b) :
    FailsOrIgnores (fun s => B s >>= R) b e := by
  right
  intro s
  show (B s >>= R) = (B b >>= R)
  rw [h s]

/-- Over the table of resolved strings: a value of an enum- or boolean-valued key
that begins with no compared prefix either makes the pass fail on that key, or is
never looked at. -/
theorem Decode_unmatched (E : COLLABORATORS) (S : SETTINGS) (k : KEYS)
    (hk : Vocabulary k ≠ []) (V : KEYS → List Char) (st : State) (b : List Char)
    (hb : MatchesNoLiteral k b) :
    FailsOrIgnores (fun s => Decode E S (Function.update V k s) st) b
      (.ReportError (KeyName k) 51) := by
  cases k
  case format =>
    simp only [MatchesNoLiteral, Vocabulary, List.mem_cons, List.mem_singleton,
      forall_eq_or_imp, forall_eq] at hb
    unfold Decode DetermineModelOptions
    simp only [bind_assoc, DetermineFileFormat_update, DetermineExtent_update, DetermineFlowGradient_update,
      DetermineInterpolation_update, DetermineCressman_update, DetermineHasNetwork_update,
      DetermineHeatFlux_update, DetermineSediment_update, DetermineSedFile_update,
      DetermineRouting_update, DetermineInfiltration_update, DetermineMM5_update,
      DetermineQPF_update, DeterminePrism_update, DetermineCanopyRadAtt_update,
      DetermineShading_update, DetermineSnotel_update, DetermineStreamTemp_update,
      DetermineCanopyShading_update, DetermineOutside_update, DeterminePrismData_update,
      DetermineShadingData_update, DetermineRhoverride_update, DetermineMetOptions_update,
      DetermineArealExtent_update, DeterminePoint_update, DetermineModelPeriod_update,
      DetermineModelConstants_update, DeterminePrecipType_update, DetermineWindSource_update,
      DetermineTempLapse_update, DeterminePrecipLapse_update,
      List.mem_cons, List.mem_singleton, List.not_mem_nil, reduceCtorEq, or_self, or_false,
      not_false_eq_true]
    exact FailsOrIgnores.fail (DetermineFileFormat_error (by rw [Function.update_same]; exact hb.1) (by rw [Function.update_same]; exact hb.2.1) (by rw [Function.update_same]; exact hb.2.2.1) _)
  case extent =>
    simp only [MatchesNoLiteral, Vocabulary, List.mem_cons, List.mem_singleton,
      forall_eq_or_imp, forall_eq] at hb
    unfold Decode DetermineModelOptions
    simp only [bind_assoc, DetermineFileFormat_update, DetermineExtent_update, DetermineFlowGradient_update,
      DetermineInterpolation_update, DetermineCressman_update, DetermineHasNetwork_update,
      DetermineHeatFlux_update, DetermineSediment_update, DetermineSedFile_update,
      DetermineRouting_update, DetermineInfiltration_update, DetermineMM5_update,
      DetermineQPF_update, DeterminePrism_update, DetermineCanopyRadAtt_update,
      DetermineShading_update, DetermineSnotel_update, DetermineStreamTemp_update,
      DetermineCanopyShading_update, DetermineOutside_update, DeterminePrismData_update,
      DetermineShadingData_update, DetermineRhoverride_update, DetermineMetOptions_update,
      DetermineArealExtent_update, DeterminePoint_update, DetermineModelPeriod_update,
      DetermineModelConstants_update, DeterminePrecipType_update, DetermineWindSource_update,
      DetermineTempLapse_update, DeterminePrecipLapse_update,
      List.mem_cons, List.mem_singleton, List.not_mem_nil, reduceCtorEq, or_self, or_false,
      not_false_eq_true]
    repeat refine FailsOrIgnores.bind fun _ => ?_
    exact FailsOrIgnores.fail (DetermineExtent_error (by rw [Function.update_same]; exact hb.1) (by rw [Function.update_same]; exact hb.2.1) _)
  case gradient =>
    simp only [MatchesNoLiteral, Vocabulary, List.mem_cons, List.mem_singleton,
      forall_eq_or_imp, forall_eq] at hb
    unfold Decode DetermineModelOptions
    simp only [bind_assoc, DetermineFileFormat_update, DetermineExtent_update, DetermineFlowGradient_update,
      DetermineInterpolation_update, DetermineCressman_update, DetermineHasNetwork_update,
      DetermineHeatFlux_update, DetermineSediment_update, DetermineSedFile_update,
      DetermineRouting_update, DetermineInfiltration_update, DetermineMM5_update,
      DetermineQPF_update, DeterminePrism_update, DetermineCanopyRadAtt_update,
      DetermineShading_update, DetermineSnotel_update, DetermineStreamTemp_update,
      DetermineCanopyShading_update, DetermineOutside_update, DeterminePrismData_update,
      DetermineShadingData_update, DetermineRhoverride_update, DetermineMetOptions_update,
      DetermineArealExtent_update, DeterminePoint_update, DetermineModelPeriod_update,
      DetermineModelConstants_update, DeterminePrecipType_update, DetermineWindSource_update,
      DetermineTempLapse_update, DeterminePrecipLapse_update,
      List.mem_cons, List.mem_singleton, List.not_mem_nil, reduceCtorEq, or_self, or_false,
      not_false_eq_true]
    repeat refine FailsOrIgnores.bind fun _ => ?_
    rename_i a
    by_cases hg : a.Options.Extent = S.POINT
    · exact FailsOrIgnores.ignore fun s => by rw [DetermineFlowGradient_POINT _ hg, DetermineFlowGradient_POINT _ hg]
    · exact FailsOrIgnores.fail (DetermineFlowGradient_error (by rw [Function.update_same]; exact hb.1) (by rw [Function.update_same]; exact hb.2.1) _ hg)
  case interpolation =>
    simp only [MatchesNoLiteral, Vocabulary, List.mem_cons, List.mem_singleton,
      forall_eq_or_imp, forall_eq] at hb
    unfold Decode DetermineModelOptions
    simp only [bind_assoc, DetermineFileFormat_update, DetermineExtent_update, DetermineFlowGradient_update,
      DetermineInterpolation_update, DetermineCressman_update, DetermineHasNetwork_update,
      DetermineHeatFlux_update, DetermineSediment_update, DetermineSedFile_update,
      DetermineRouting_update, DetermineInfiltration_update, DetermineMM5_update,
      DetermineQPF_update, DeterminePrism_update, DetermineCanopyRadAtt_update,
      DetermineShading_update, DetermineSnotel_update, DetermineStreamTemp_update,
      DetermineCanopyShading_update, DetermineOutside_update, DeterminePrismData_update,
      DetermineShadingData_update, DetermineRhoverride_update, DetermineMetOptions_update,
      DetermineArealExtent_update, DeterminePoint_update, DetermineModelPeriod_update,
      DetermineModelConstants_update, DeterminePrecipType_update, DetermineWindSource_update,
      DetermineTempLapse_update, DeterminePrecipLapse_update,
      List.mem_cons, List.mem_singleton, List.not_mem_nil, reduceCtorEq, or_self, or_false,
      not_false_eq_true]
    repeat refine FailsOrIgnores.bind fun _ => ?_
    exact FailsOrIgnores.fail (DetermineInterpolation_error (by rw [Function.update_same]; exact hb.1) (by rw [Function.update_same]; exact hb.2.1) (by rw [Function.update_same]; exact hb.2.2.1) _)
  case flow_routing =>
    simp only [MatchesNoLiteral, Vocabulary, List.mem_cons, List.mem_singleton,
      forall_eq_or_imp, forall_eq] at hb
    unfold Decode DetermineModelOptions
    simp only [bind_assoc, DetermineFileFormat_update, DetermineExtent_update, DetermineFlowGradient_update,
      DetermineInterpolation_update, DetermineCressman_update, DetermineHasNetwork_update,
      DetermineHeatFlux_update, DetermineSediment_update, DetermineSedFile_update,
      DetermineRouting_update, DetermineInfiltration_update, DetermineMM5_update,
      DetermineQPF_update, DeterminePrism_update, DetermineCanopyRadAtt_update,
      DetermineShading_update, DetermineSnotel_update, DetermineStreamTemp_update,
      DetermineCanopyShading_update, DetermineOutside_update, DeterminePrismData_update,
      DetermineShadingData_update, DetermineRhoverride_update, DetermineMetOptions_update,
      DetermineArealExtent_update, DeterminePoint_update, DetermineModelPeriod_update,
      DetermineModelConstants_update, DeterminePrecipType_update, DetermineWindSource_update,
      DetermineTempLapse_update, DeterminePrecipLapse_update,
      List.mem_cons, List.mem_singleton, List.not_mem_nil, reduceCtorEq, or_self, or_false,
      not_false_eq_true]
    repeat refine FailsOrIgnores.bind fun _ => ?_
    rename_i a
    by_cases hg : a.Options.Extent = S.POINT
    · exact FailsOrIgnores.ignore fun s => by rw [DetermineHasNetwork_POINT _ hg, DetermineHasNetwork_POINT _ hg]
    · exact FailsOrIgnores.fail (DetermineHasNetwork_error (by rw [Function.update_same]; exact hb.1) (by rw [Function.update_same]; exact hb.2.1) _ hg)
  case sensible_heat_flux =>
    simp only [MatchesNoLiteral, Vocabulary, List.mem_cons, List.mem_singleton,
      forall_eq_or_imp, forall_eq] at hb
    unfold Decode DetermineModelOptions
    simp only [bind_assoc, DetermineFileFormat_update, DetermineExtent_update, DetermineFlowGradient_update,
      DetermineInterpolation_update, DetermineCressman_update, DetermineHasNetwork_update,
      DetermineHeatFlux_update, DetermineSediment_update, DetermineSedFile_update,
      DetermineRouting_update, DetermineInfiltration_update, DetermineMM5_update,
      DetermineQPF_update, DeterminePrism_update, DetermineCanopyRadAtt_update,
      DetermineShading_update, DetermineSnotel_update, DetermineStreamTemp_update,
      DetermineCanopyShading_update, DetermineOutside_update, DeterminePrismData_update,
      DetermineShadingData_update, DetermineRhoverride_update, DetermineMetOptions_update,
      DetermineArealExtent_update, DeterminePoint_update, DetermineModelPeriod_update,
      DetermineModelConstants_update, DeterminePrecipType_update, DetermineWindSource_update,
      DetermineTempLapse_update, DeterminePrecipLapse_update,
      List.mem_cons, List.mem_singleton, List.not_mem_nil, reduceCtorEq, or_self, or_false,
      not_false_eq_true]
    repeat refine FailsOrIgnores.bind fun _ => ?_
    exact FailsOrIgnores.fail (DetermineHeatFlux_error (by rw [Function.update_same]; exact hb.1) (by rw [Function.update_same]; exact hb.2.1) _)
  case sediment =>
    simp only [MatchesNoLiteral, Vocabulary, List.mem_cons, List.mem_singleton,
      forall_eq_or_imp, forall_eq] at hb
    unfold Decode DetermineModelOptions
    simp only [bind_assoc, DetermineFileFormat_update, DetermineExtent_update, DetermineFlowGradient_update,
      DetermineInterpolation_update, DetermineCressman_update, DetermineHasNetwork_update,
      DetermineHeatFlux_update, DetermineSediment_update, DetermineSedFile_update,
      DetermineRouting_update, DetermineInfiltration_update, DetermineMM5_update,
      DetermineQPF_update, DeterminePrism_update, DetermineCanopyRadAtt_update,
      DetermineShading_update, DetermineSnotel_update, DetermineStreamTemp_update,
      DetermineCanopyShading_update, DetermineOutside_update, DeterminePrismData_update,
      DetermineShadingData_update, DetermineRhoverride_update, DetermineMetOptions_update,
      DetermineArealExtent_update, DeterminePoint_update, DetermineModelPeriod_update,
      DetermineModelConstants_update, DeterminePrecipType_update, DetermineWindSource_update,
      DetermineTempLapse_update, DeterminePrecipLapse_update,
      List.mem_cons, List.mem_singleton, List.not_mem_nil, reduceCtorEq, or_self, or_false,
      not_false_eq_true]
    repeat refine FailsOrIgnores.bind fun _ => ?_
    exact FailsOrIgnores.fail (DetermineSediment_error (by rw [Function.update_same]; exact hb.1) (by rw [Function.update_same]; exact hb.2.1) _)
  case routing =>
    simp only [MatchesNoLiteral, Vocabulary, List.mem_cons, List.mem_singleton,
      forall_eq_or_imp, forall_eq] at hb
    unfold Decode DetermineModelOptions
    simp only [bind_assoc, DetermineFileFormat_update, DetermineExtent_update, DetermineFlowGradient_update,
      DetermineInterpolation_update, DetermineCressman_update, DetermineHasNetwork_update,
      DetermineHeatFlux_update, DetermineSediment_update, DetermineSedFile_update,
      DetermineRouting_update, DetermineInfiltration_update, DetermineMM5_update,
      DetermineQPF_update, DeterminePrism_update, DetermineCanopyRadAtt_update,
      DetermineShading_update, DetermineSnotel_update, DetermineStreamTemp_update,
      DetermineCanopyShading_update, DetermineOutside_update, DeterminePrismData_update,
      DetermineShadingData_update, DetermineRhoverride_update, DetermineMetOptions_update,
      DetermineArealExtent_update, DeterminePoint_update, DetermineModelPeriod_update,
      DetermineModelConstants_update, DeterminePrecipType_update, DetermineWindSource_update,
      DetermineTempLapse_update, DeterminePrecipLapse_update,
      List.mem_cons, List.mem_singleton, List.not_mem_nil, reduceCtorEq, or_self, or_false,
      not_false_eq_true]
    repeat refine FailsOrIgnores.bind fun _ => ?_
    exact FailsOrIgnores.fail (DetermineRouting_error (by rw [Function.update_same]; exact hb.1) (by rw [Function.update_same]; exact hb.2.1) _)
  case infiltration =>
    simp only [MatchesNoLiteral, Vocabulary, List.mem_cons, List.mem_singleton,
      forall_eq_or_imp, forall_eq] at hb
    unfold Decode DetermineModelOptions
    simp only [bind_assoc, DetermineFileFormat_update, DetermineExtent_update, DetermineFlowGradient_update,
      DetermineInterpolation_update, DetermineCressman_update, DetermineHasNetwork_update,
      DetermineHeatFlux_update, DetermineSediment_update, DetermineSedFile_update,
      DetermineRouting_update, DetermineInfiltration_update, DetermineMM5_update,
      DetermineQPF_update, DeterminePrism_update, DetermineCanopyRadAtt_update,
      DetermineShading_update, DetermineSnotel_update, DetermineStreamTemp_update,
      DetermineCanopyShading_update, DetermineOutside_update, DeterminePrismData_update,
      DetermineShadingData_update, DetermineRhoverride_update, DetermineMetOptions_update,
      DetermineArealExtent_update, DeterminePoint_update, DetermineModelPeriod_update,
      DetermineModelConstants_update, DeterminePrecipType_update, DetermineWindSource_update,
      DetermineTempLapse_update, DeterminePrecipLapse_update,
      List.mem_cons, List.mem_singleton, List.not_mem_nil, reduceCtorEq, or_self, or_false,
      not_false_eq_true]
    repeat refine FailsOrIgnores.bind fun _ => ?_
    exact FailsOrIgnores.fail (DetermineInfiltration_error (by rw [Function.update_same]; exact hb.1) (by rw [Function.update_same]; exact hb.2.1) _)
  case mm5 =>
    simp only [MatchesNoLiteral, Vocabulary, List.mem_cons, List.mem_singleton,
      forall_eq_or_imp, forall_eq] at hb
    unfold Decode DetermineModelOptions
    simp only [bind_assoc, DetermineFileFormat_update, DetermineExtent_update, DetermineFlowGradient_update,
      DetermineInterpolation_update, DetermineCressman_update, DetermineHasNetwork_update,
      DetermineHeatFlux_update, DetermineSediment_update, DetermineSedFile_update,
      DetermineRouting_update, DetermineInfiltration_update, DetermineMM5_update,
      DetermineQPF_update, DeterminePrism_update, DetermineCanopyRadAtt_update,
      DetermineShading_update, DetermineSnotel_update, DetermineStreamTemp_update,
      DetermineCanopyShading_update, DetermineOutside_update, DeterminePrismData_update,
      DetermineShadingData_update, DetermineRhoverride_update, DetermineMetOptions_update,
      DetermineArealExtent_update, DeterminePoint_update, DetermineModelPeriod_update,
      DetermineModelConstants_update, DeterminePrecipType_update, DetermineWindSource_update,
      DetermineTempLapse_update, DeterminePrecipLapse_update,
      List.mem_cons, List.mem_singleton, List.not_mem_nil, reduceCtorEq, or_self, or_false,
      not_false_eq_true]
    repeat refine FailsOrIgnores.bind fun _ => ?_
    exact FailsOrIgnores.fail (DetermineMM5_error (by rw [Function.update_same]; exact hb.1) (by rw [Function.update_same]; exact hb.2.1) _)
  case qpf =>
    simp only [MatchesNoLiteral, Vocabulary, List.mem_cons, List.mem_singleton,
      forall_eq_or_imp, forall_eq] at hb
    unfold Decode DetermineModelOptions
    simp only [bind_assoc, DetermineFileFormat_update, DetermineExtent_update, DetermineFlowGradient_update,
      DetermineInterpolation_update, DetermineCressman_update, DetermineHasNetwork_update,
      DetermineHeatFlux_update, DetermineSediment_update, DetermineSedFile_update,
      DetermineRouting_update, DetermineInfiltration_update, DetermineMM5_update,
      DetermineQPF_update, DeterminePrism_update, DetermineCanopyRadAtt_update,
      DetermineShading_update, DetermineSnotel_update, DetermineStreamTemp_update,
      DetermineCanopyShading_update, DetermineOutside_update, DeterminePrismData_update,
      DetermineShadingData_update, DetermineRhoverride_update, DetermineMetOptions_update,
      DetermineArealExtent_update, DeterminePoint_update, DetermineModelPeriod_update,
      DetermineModelConstants_update, DeterminePrecipType_update, DetermineWindSource_update,
      DetermineTempLapse_update, DeterminePrecipLapse_update,
      List.mem_cons, List.mem_singleton, List.not_mem_nil, reduceCtorEq, or_self, or_false,
      not_false_eq_true]
    repeat refine FailsOrIgnores.bind fun _ => ?_
    exact FailsOrIgnores.fail (DetermineQPF_error (by rw [Function.update_same]; exact hb.1) (by rw [Function.update_same]; exact hb.2.1) _)
  case prism =>
    simp only [MatchesNoLiteral, Vocabulary, List.mem_cons, List.mem_singleton,
      forall_eq_or_imp, forall_eq] at hb
    unfold Decode DetermineModelOptions
    simp only [bind_assoc, DetermineFileFormat_update, DetermineExtent_update, DetermineFlowGradient_update,
      DetermineInterpolation_update, DetermineCressman_update, DetermineHasNetwork_update,
      DetermineHeatFlux_update, DetermineSediment_update, DetermineSedFile_update,
      DetermineRouting_update, DetermineInfiltration_update, DetermineMM5_update,
      DetermineQPF_update, DeterminePrism_update, DetermineCanopyRadAtt_update,
      DetermineShading_update, DetermineSnotel_update, DetermineStreamTemp_update,
      DetermineCanopyShading_update, DetermineOutside_update, DeterminePrismData_update,
      DetermineShadingData_update, DetermineRhoverride_update, DetermineMetOptions_update,
      DetermineArealExtent_update, DeterminePoint_update, DetermineModelPeriod_update,
      DetermineModelConstants_update, DeterminePrecipType_update, DetermineWindSource_update,
      DetermineTempLapse_update, DeterminePrecipLapse_update,
      List.mem_cons, List.mem_singleton, List.not_mem_nil, reduceCtorEq, or_self, or_false,
      not_false_eq_true]
    repeat refine FailsOrIgnores.bind fun _ => ?_
    exact FailsOrIgnores.fail (DeterminePrism_error (by rw [Function.update_same]; exact hb.1) (by rw [Function.update_same]; exact hb.2.1) _)
  case canopy_radatt =>
    simp only [MatchesNoLiteral, Vocabulary, List.mem_cons, List.mem_singleton,
      forall_eq_or_imp, forall_eq] at hb
    unfold Decode DetermineModelOptions
    simp only [bind_assoc, DetermineFileFormat_update, DetermineExtent_update, DetermineFlowGradient_update,
      DetermineInterpolation_update, DetermineCressman_update, DetermineHasNetwork_update,
      DetermineHeatFlux_update, DetermineSediment_update, DetermineSedFile_update,
      DetermineRouting_update, DetermineInfiltration_update, DetermineMM5_update,
      DetermineQPF_update, DeterminePrism_update, DetermineCanopyRadAtt_update,
      DetermineShading_update, DetermineSnotel_update, DetermineStreamTemp_update,
      DetermineCanopyShading_update, DetermineOutside_update, DeterminePrismData_update,
      DetermineShadingData_update, DetermineRhoverride_update, DetermineMetOptions_update,
      DetermineArealExtent_update, DeterminePoint_update, DetermineModelPeriod_update,
      DetermineModelConstants_update, DeterminePrecipType_update, DetermineWindSource_update,
      DetermineTempLapse_update, DeterminePrecipLapse_update,
      List.mem_cons, List.mem_singleton, List.not_mem_nil, reduceCtorEq, or_self, or_false,
      not_false_eq_true]
    repeat refine FailsOrIgnores.bind fun _ => ?_
    exact FailsOrIgnores.fail (DetermineCanopyRadAtt_error (by rw [Function.update_same]; exact hb.1) (by rw [Function.update_same]; exact hb.2.1) _)
  case shading =>
    simp only [MatchesNoLiteral, Vocabulary, List.mem_cons, List.mem_singleton,
      forall_eq_or_imp, forall_eq] at hb
    unfold Decode DetermineModelOptions
    simp only [bind_assoc, DetermineFileFormat_update, DetermineExtent_update, DetermineFlowGradient_update,
      DetermineInterpolation_update, DetermineCressman_update, DetermineHasNetwork_update,
      DetermineHeatFlux_update, DetermineSediment_update, DetermineSedFile_update,
      DetermineRouting_update, DetermineInfiltration_update, DetermineMM5_update,
      DetermineQPF_update, DeterminePrism_update, DetermineCanopyRadAtt_update,
      DetermineShading_update, DetermineSnotel_update, DetermineStreamTemp_update,
      DetermineCanopyShading_update, DetermineOutside_update, DeterminePrismData_update,
      DetermineShadingData_update, DetermineRhoverride_update, DetermineMetOptions_update,
      DetermineArealExtent_update, DeterminePoint_update, DetermineModelPeriod_update,
      DetermineModelConstants_update, DeterminePrecipType_update, DetermineWindSource_update,
      DetermineTempLapse_update, DeterminePrecipLapse_update,
      List.mem_cons, List.mem_singleton, List.not_mem_nil, reduceCtorEq, or_self, or_false,
      not_false_eq_true]
    repeat refine FailsOrIgnores.bind fun _ => ?_
    exact FailsOrIgnores.fail (DetermineShading_error (by rw [Function.update_same]; exact hb.1) (by rw [Function.update_same]; exact hb.2.1) _)
  case snotel =>
    simp only [MatchesNoLiteral, Vocabulary, List.mem_cons, List.mem_singleton,
      forall_eq_or_imp, forall_eq] at hb
    unfold Decode DetermineModelOptions
    simp only [bind_assoc, DetermineFileFormat_update, DetermineExtent_update, DetermineFlowGradient_update,
      DetermineInterpolation_update, DetermineCressman_update, DetermineHasNetwork_update,
      DetermineHeatFlux_update, DetermineSediment_update, DetermineSedFile_update,
      DetermineRouting_update, DetermineInfiltration_update, DetermineMM5_update,
      DetermineQPF_update, DeterminePrism_update, DetermineCanopyRadAtt_update,
      DetermineShading_update, DetermineSnotel_update, DetermineStreamTemp_update,
      DetermineCanopyShading_update, DetermineOutside_update, DeterminePrismData_update,
      DetermineShadingData_update, DetermineRhoverride_update, DetermineMetOptions_update,
      DetermineArealExtent_update, DeterminePoint_update, DetermineModelPeriod_update,
      DetermineModelConstants_update, DeterminePrecipType_update, DetermineWindSource_update,
      DetermineTempLapse_update, DeterminePrecipLapse_update,
      List.mem_cons, List.mem_singleton, List.not_mem_nil, reduceCtorEq, or_self, or_false,
      not_false_eq_true]
    repeat refine FailsOrIgnores.bind fun _ => ?_
    exact FailsOrIgnores.fail (DetermineSnotel_error (by rw [Function.update_same]; exact hb.1) (by rw [Function.update_same]; exact hb.2.1) _)
  case stream_temp =>
    simp only [MatchesNoLiteral, Vocabulary, List.mem_cons, List.mem_singleton,
      forall_eq_or_imp, forall_eq] at hb
    unfold Decode DetermineModelOptions
    simp only [bind_assoc, DetermineFileFormat_update, DetermineExtent_update, DetermineFlowGradient_update,
      DetermineInterpolation_update, DetermineCressman_update, DetermineHasNetwork_update,
      DetermineHeatFlux_update, DetermineSediment_update, DetermineSedFile_update,
      DetermineRouting_update, DetermineInfiltration_update, DetermineMM5_update,
      DetermineQPF_update, DeterminePrism_update, DetermineCanopyRadAtt_update,
      DetermineShading_update, DetermineSnotel_update, DetermineStreamTemp_update,
      DetermineCanopyShading_update, DetermineOutside_update, DeterminePrismData_update,
      DetermineShadingData_update, DetermineRhoverride_update, DetermineMetOptions_update,
      DetermineArealExtent_update, DeterminePoint_update, DetermineModelPeriod_update,
      DetermineModelConstants_update, DeterminePrecipType_update, DetermineWindSource_update,
      DetermineTempLapse_update, DeterminePrecipLapse_update,
      List.mem_cons, List.mem_singleton, List.not_mem_nil, reduceCtorEq, or_self, or_false,
      not_false_eq_true]
    repeat refine FailsOrIgnores.bind fun _ => ?_
    exact FailsOrIgnores.fail (DetermineStreamTemp_error (by rw [Function.update_same]; exact hb.1) (by rw [Function.update_same]; exact hb.2.1) _)
  case outside =>
    simp only [MatchesNoLiteral, Vocabulary, List.mem_cons, List.mem_singleton,
      forall_eq_or_imp, forall_eq] at hb
    unfold Decode DetermineModelOptions
    simp only [bind_assoc, DetermineFileFormat_update, DetermineExtent_update, DetermineFlowGradient_update,
      DetermineInterpolation_update, DetermineCressman_update, DetermineHasNetwork_update,
      DetermineHeatFlux_update, DetermineSediment_update, DetermineSedFile_update,
      DetermineRouting_update, DetermineInfiltration_update, DetermineMM5_update,
      DetermineQPF_update, DeterminePrism_update, DetermineCanopyRadAtt_update,
      DetermineShading_update, DetermineSnotel_update, DetermineStreamTemp_update,
      DetermineCanopyShading_update, DetermineOutside_update, DeterminePrismData_update,
      DetermineShadingData_update, DetermineRhoverride_update, DetermineMetOptions_update,
      DetermineArealExtent_update, DeterminePoint_update, DetermineModelPeriod_update,
      DetermineModelConstants_update, DeterminePrecipType_update, DetermineWindSource_update,
      DetermineTempLapse_update, DeterminePrecipLapse_update,
      List.mem_cons, List.mem_singleton, List.not_mem_nil, reduceCtorEq, or_self, or_false,
      not_false_eq_true]
    repeat refine FailsOrIgnores.bind fun _ => ?_
    exact FailsOrIgnores.fail (DetermineOutside_error (by rw [Function.update_same]; exact hb.1) (by rw [Function.update_same]; exact hb.2.1) _)
  case rhoverride =>
    simp only [MatchesNoLiteral, Vocabulary, List.mem_cons, List.mem_singleton,
      forall_eq_or_imp, forall_eq] at hb
    unfold Decode DetermineModelOptions
    simp only [bind_assoc, DetermineFileFormat_update, DetermineExtent_update, DetermineFlowGradient_update,
      DetermineInterpolation_update, DetermineCressman_update, DetermineHasNetwork_update,
      DetermineHeatFlux_update, DetermineSediment_update, DetermineSedFile_update,
      DetermineRouting_update, DetermineInfiltration_update, DetermineMM5_update,
      DetermineQPF_update, DeterminePrism_update, DetermineCanopyRadAtt_update,
      DetermineShading_update, DetermineSnotel_update, DetermineStreamTemp_update,
      DetermineCanopyShading_update, DetermineOutside_update, DeterminePrismData_update,
      DetermineShadingData_update, DetermineRhoverride_update, DetermineMetOptions_update,
      DetermineArealExtent_update, DeterminePoint_update, DetermineModelPeriod_update,
      DetermineModelConstants_update, DeterminePrecipType_update, DetermineWindSource_update,
      DetermineTempLapse_update, DeterminePrecipLapse_update,
      List.mem_cons, List.mem_singleton, List.not_mem_nil, reduceCtorEq, or_self, or_false,
      not_false_eq_true]
    repeat refine FailsOrIgnores.bind fun _ => ?_
    exact FailsOrIgnores.fail (DetermineRhoverride_error (by rw [Function.update_same]; exact hb.1) (by rw [Function.update_same]; exact hb.2.1) _)
  case precipitation_source =>
    simp only [MatchesNoLiteral, Vocabulary, List.mem_cons, List.mem_singleton,
      forall_eq_or_imp, forall_eq] at hb
    unfold Decode DetermineModelOptions
    simp only [bind_assoc, DetermineFileFormat_update, DetermineExtent_update, DetermineFlowGradient_update,
      DetermineInterpolation_update, DetermineCressman_update, DetermineHasNetwork_update,
      DetermineHeatFlux_update, DetermineSediment_update, DetermineSedFile_update,
      DetermineRouting_update, DetermineInfiltration_update, DetermineMM5_update,
      DetermineQPF_update, DeterminePrism_update, DetermineCanopyRadAtt_update,
      DetermineShading_update, DetermineSnotel_update, DetermineStreamTemp_update,
      DetermineCanopyShading_update, DetermineOutside_update, DeterminePrismData_update,
      DetermineShadingData_update, DetermineRhoverride_update, DetermineMetOptions_update,
      DetermineArealExtent_update, DeterminePoint_update, DetermineModelPeriod_update,
      DetermineModelConstants_update, DeterminePrecipType_update, DetermineWindSource_update,
      DetermineTempLapse_update, DeterminePrecipLapse_update,
      List.mem_cons, List.mem_singleton, List.not_mem_nil, reduceCtorEq, or_self, or_false,
      not_false_eq_true]
    repeat refine FailsOrIgnores.bind fun _ => ?_
    rename_i a
    by_cases hm : a.Options.MM5 = S.TRUE
    · refine FailsOrIgnores.ignore fun s => ?_
      unfold DetermineMetOptions
      rw [if_pos hm, if_pos hm]
    · unfold DetermineMetOptions
      simp only [if_neg hm, bind_assoc, DeterminePrecipType_update, DetermineWindSource_update,
        DetermineTempLapse_update, DeterminePrecipLapse_update,
        List.mem_cons, List.mem_singleton, List.not_mem_nil, reduceCtorEq, or_self, or_false,
        not_false_eq_true]
      exact FailsOrIgnores.fail (DeterminePrecipType_error (by rw [Function.update_same]; exact hb.1) (by rw [Function.update_same]; exact hb.2.1) _)
  case wind_source =>
    simp only [MatchesNoLiteral, Vocabulary, List.mem_cons, List.mem_singleton,
      forall_eq_or_imp, forall_eq] at hb
    unfold Decode DetermineModelOptions
    simp only [bind_assoc, DetermineFileFormat_update, DetermineExtent_update, DetermineFlowGradient_update,
      DetermineInterpolation_update, DetermineCressman_update, DetermineHasNetwork_update,
      DetermineHeatFlux_update, DetermineSediment_update, DetermineSedFile_update,
      DetermineRouting_update, DetermineInfiltration_update, DetermineMM5_update,
      DetermineQPF_update, DeterminePrism_update, DetermineCanopyRadAtt_update,
      DetermineShading_update, DetermineSnotel_update, DetermineStreamTemp_update,
      DetermineCanopyShading_update, DetermineOutside_update, DeterminePrismData_update,
      DetermineShadingData_update, DetermineRhoverride_update, DetermineMetOptions_update,
      DetermineArealExtent_update, DeterminePoint_update, DetermineModelPeriod_update,
      DetermineModelConstants_update, DeterminePrecipType_update, DetermineWindSource_update,
      DetermineTempLapse_update, DeterminePrecipLapse_update,
      List.mem_cons, List.mem_singleton, List.not_mem_nil, reduceCtorEq, or_self, or_false,
      not_false_eq_true]
    repeat refine FailsOrIgnores.bind fun _ => ?_
    rename_i a
    by_cases hm : a.Options.MM5 = S.TRUE
    · refine FailsOrIgnores.ignore fun s => ?_
      unfold DetermineMetOptions
      rw [if_pos hm, if_pos hm]
    · unfold DetermineMetOptions
      simp only [if_neg hm, bind_assoc, DeterminePrecipType_update, DetermineWindSource_update,
        DetermineTempLapse_update, DeterminePrecipLapse_update,
        List.mem_cons, List.mem_singleton, List.not_mem_nil, reduceCtorEq, or_self, or_false,
        not_false_eq_true]
      repeat refine FailsOrIgnores.bind fun _ => ?_
      exact FailsOrIgnores.fail (DetermineWindSource_error (by rw [Function.update_same]; exact hb.1) (by rw [Function.update_same]; exact hb.2.1) _)
  case temp_lapse =>
    simp only [MatchesNoLiteral, Vocabulary, List.mem_cons, List.mem_singleton,
      forall_eq_or_imp, forall_eq] at hb
    unfold Decode DetermineModelOptions
    simp only [bind_assoc, DetermineFileFormat_update, DetermineExtent_update, DetermineFlowGradient_update,
      DetermineInterpolation_update, DetermineCressman_update, DetermineHasNetwork_update,
      DetermineHeatFlux_update, DetermineSediment_update, DetermineSedFile_update,
      DetermineRouting_update, DetermineInfiltration_update, DetermineMM5_update,
      DetermineQPF_update, DeterminePrism_update, DetermineCanopyRadAtt_update,
      DetermineShading_update, DetermineSnotel_update, DetermineStreamTemp_update,
      DetermineCanopyShading_update, DetermineOutside_update, DeterminePrismData_update,
      DetermineShadingData_update, DetermineRhoverride_update, DetermineMetOptions_update,
      DetermineArealExtent_update, DeterminePoint_update, DetermineModelPeriod_update,
      DetermineModelConstants_update, DeterminePrecipType_update, DetermineWindSource_update,
      DetermineTempLapse_update, DeterminePrecipLapse_update,
      List.mem_cons, List.mem_singleton, List.not_mem_nil, reduceCtorEq, or_self, or_false,
      not_false_eq_true]
    repeat refine FailsOrIgnores.bind fun _ => ?_
    rename_i a
    by_cases hm : a.Options.MM5 = S.TRUE
    · refine FailsOrIgnores.ignore fun s => ?_
      unfold DetermineMetOptions
      rw [if_pos hm, if_pos hm]
    · unfold DetermineMetOptions
      simp only [if_neg hm, bind_assoc, DeterminePrecipType_update, DetermineWindSource_update,
        DetermineTempLapse_update, DeterminePrecipLapse_update,
        List.mem_cons, List.mem_singleton, List.not_mem_nil, reduceCtorEq, or_self, or_false,
        not_false_eq_true]
      repeat refine FailsOrIgnores.bind fun _ => ?_
      exact FailsOrIgnores.fail (DetermineTempLapse_error (by rw [Function.update_same]; exact hb.1) (by rw [Function.update_same]; exact hb.2.1) _)
  case precip_lapse =>
    simp only [MatchesNoLiteral, Vocabulary, List.mem_cons, List.mem_singleton,
      forall_eq_or_imp, forall_eq] at hb
    unfold Decode DetermineModelOptions
    simp only [bind_assoc, DetermineFileFormat_update, DetermineExtent_update, DetermineFlowGradient_update,
      DetermineInterpolation_update, DetermineCressman_update, DetermineHasNetwork_update,
      DetermineHeatFlux_update, DetermineSediment_update, DetermineSedFile_update,
      DetermineRouting_update, DetermineInfiltration_update, DetermineMM5_update,
      DetermineQPF_update, DeterminePrism_update, DetermineCanopyRadAtt_update,
      DetermineShading_update, DetermineSnotel_update, DetermineStreamTemp_update,
      DetermineCanopyShading_update, DetermineOutside_update, DeterminePrismData_update,
      DetermineShadingData_update, DetermineRhoverride_update, DetermineMetOptions_update,
      DetermineArealExtent_update, DeterminePoint_update, DetermineModelPeriod_update,
      DetermineModelConstants_update, DeterminePrecipType_update, DetermineWindSource_update,
      DetermineTempLapse_update, DeterminePrecipLapse_update,
      List.mem_cons, List.mem_singleton, List.not_mem_nil, reduceCtorEq, or_self, or_false,
      not_false_eq_true]
    repeat refine FailsOrIgnores.bind fun _ => ?_
    rename_i a
    by_cases hm : a.Options.MM5 = S.TRUE
    · refine FailsOrIgnores.ignore fun s => ?_
      unfold DetermineMetOptions
      rw [if_pos hm, if_pos hm]
    · unfold DetermineMetOptions
      simp only [if_neg hm, bind_assoc, DeterminePrecipType_update, DetermineWindSource_update,
        DetermineTempLapse_update, DeterminePrecipLapse_update,
        List.mem_cons, List.mem_singleton, List.not_mem_nil, reduceCtorEq, or_self, or_false,
        not_false_eq_true]
      repeat refine FailsOrIgnores.bind fun _ => ?_
      exact FailsOrIgnores.fail (DeterminePrecipLapse_error (by rw [Function.update_same]; exact hb.1) (by rw [Function.update_same]; exact hb.2.1) (by rw [Function.update_same]; exact hb.2.2.1) _)
  case canopy_shading =>
    simp only [MatchesNoLiteral, Vocabulary, List.mem_cons, List.mem_singleton,
      forall_eq_or_imp, forall_eq] at hb
    unfold Decode DetermineModelOptions
    simp only [bind_assoc, DetermineFileFormat_update, DetermineExtent_update, DetermineFlowGradient_update,
      DetermineInterpolation_update, DetermineCressman_update, DetermineHasNetwork_update,
      DetermineHeatFlux_update, DetermineSediment_update, DetermineSedFile_update,
      DetermineRouting_update, DetermineInfiltration_update, DetermineMM5_update,
      DetermineQPF_update, DeterminePrism_update, DetermineCanopyRadAtt_update,
      DetermineShading_update, DetermineSnotel_update, DetermineStreamTemp_update,
      DetermineCanopyShading_update, DetermineOutside_update, DeterminePrismData_update,
      DetermineShadingData_update, DetermineRhoverride_update, DetermineMetOptions_update,
      DetermineArealExtent_update, DeterminePoint_update, DetermineModelPeriod_update,
      DetermineModelConstants_update, DeterminePrecipType_update, DetermineWindSource_update,
      DetermineTempLapse_update, DeterminePrecipLapse_update,
      List.mem_cons, List.mem_singleton, List.not_mem_nil, reduceCtorEq, or_self, or_false,
      not_false_eq_true]
    repeat refine FailsOrIgnores.bind fun _ => ?_
    exact FailsOrIgnores.fail (DetermineCanopyShading_error (by rw [Function.update_same]; exact hb.1) (by rw [Function.update_same]; exact hb.2.1) _)
  all_goals exact absurd rfl hk

theorem update_VarStr_of_agree {k : KEYS} {V W : KEYS → List Char}
    (h : AgreeOutside [k] V W) : W = Function.update V k (W k) := by
  funext j
  by_cases hj : j = k
  · subst hj
    rw [Function.update_same]
  · rw [Function.update_noteq hj]
    exact (h j (by simpa using hj)).symm

/-- C2 (as amended). For every enum- or boolean-valued key, a resolved string that
begins with none of the compared prefixes of the key is fatal whenever the key is
decoded: either the load fails with `ReportError` on that key and code 51, or the
pass never looks at the key, so that every input differing in that key alone has
the same outcome. -/
theorem C2_unmatched_string_fails_on_its_key (E : COLLABORATORS) (S : SETTINGS) (k : KEYS)
    (hk : Vocabulary k ≠ []) (Input : LISTPTR) (st : State)
    (hb : MatchesNoLiteral k (VarStr E S Input k)) :
    InitConstants E S Input st = .error (.ReportError (KeyName k) 51) ∨
    ∀ Input', AgreeOutside [k] (VarStr E S Input) (VarStr E S Input') →
      InitConstants E S Input' st = InitConstants E S Input st := by
  have h := Decode_unmatched E S k hk (VarStr E S Input) st _ hb
  unfold FailsOrIgnores at h
  simp only [Function.update_eq_self] at h
  rcases h with h | h
  · exact Or.inl h
  · refine Or.inr fun Input' ha => ?_
    unfold InitConstants
    rw [update_VarStr_of_agree ha]
    exact h _

/-- C2, on a concrete configuration: a lower-case FORMAT fails on the key FORMAT. -/
theorem C2_unmatched_string_fails_on_its_key_witness :
    InitConstants sampleCollaborators sampleSettings
      (("OPTIONS", "FORMAT", "bin".toList) :: sampleInput) zeroState =
      .error (.ReportError "FORMAT" 51) := by
  rcases C2_unmatched_string_fails_on_its_key sampleCollaborators sampleSettings .format
    (List.cons_ne_nil _ _) (("OPTIONS", "FORMAT", "bin".toList) :: sampleInput) zeroState
    (by decide) with h | h
  · exact h
  · have e := h sampleInput (by intro k hk; revert hk; cases k <;> decide)
    have h1 : (InitConstants sampleCollaborators sampleSettings sampleInput
        zeroState).toOption.isSome = true := by decide
    have h2 : (InitConstants sampleCollaborators sampleSettings
        (("OPTIONS", "FORMAT", "bin".toList) :: sampleInput) zeroState).toOption.isSome =
        false := by decide
    rw [e, h2] at h1
    cases h1

/-- C2 as stated fails: FORMAT resolved to `BINARY` is none of the accepted
literals BIN, NETCDF, BYTESWAP, the key is decoded, and yet the load succeeds,
with the file format BIN. -/
theorem C2_counterexample :
    (∀ e ∈ Vocabulary .format, e.1.toList ≠ "BINARY".toList) ∧
    VarStr sampleCollaborators sampleSettings
      (("OPTIONS", "FORMAT", "BINARY".toList) :: sampleInput) .format = "BINARY".toList ∧
    (InitConstants sampleCollaborators sampleSettings
      (("OPTIONS", "FORMAT", "BINARY".toList) :: sampleInput) zeroState).toOption.map
        (fun st => st.Options.FileFormat) = some sampleSettings.BIN := by
  refine ⟨by decide, by decide, by decide⟩

/-! ## Decoding is a prefix match -/

/-- What a decoding block does with a key, relative to a list of vocabulary
entries. -/
theorem decoder_spec {S : SETTINGS} {k : KEYS} {entries : List (String × String × (SETTINGS → Int))}
    {r : Except Failure State} {member : State → Int} {st : State} {s : List Char}
    (hA : ∀ e ∈ entries, Begins e.2.1.toList s →
      (∃ st', r = .ok st' ∧ member st' = e.2.2 S) ∨
      (k = .canopy_shading ∧ e.1 = "TRUE" ∧ st.Options.StreamTemp = S.FALSE ∧
        r = .error (.Exit CanopyShadingMessage (-1))))
    (hB : (∀ e ∈ entries, ¬ Begins e.2.1.toList s) →
      r = .error (.ReportError (KeyName k) 51)) :
    ∀ st', r = .ok st' → ∃ e ∈ entries, Begins e.2.1.toList s ∧ member st' = e.2.2 S := by
  intro st' hr
  by_cases hex : ∃ e ∈ entries, Begins e.2.1.toList s
  · obtain ⟨e, he, hb⟩ := hex
    rcases hA e he hb with ⟨st'', h1, h2⟩ | ⟨_, _, _, h1⟩
    · rw [hr] at h1
      cases h1
      exact ⟨e, he, hb, h2⟩
    · rw [hr] at h1
      cases h1
  · have := hB (fun e he hb => hex ⟨e, he, hb⟩)
    rw [hr] at this
    cases this


/-- The decoding block of a key is a case-sensitive prefix match.  For every key
with a literal vocabulary there is a decoding block such that, in every state in
which the pass compares the key: each accepted literal begins with its compared
prefix, and a resolved string that begins with the compared prefix of a literal
makes the block assign the documented value (canopy shading set to TRUE with the
stream temperature module off exits instead); the block succeeds only on a
string that begins with a compared prefix, assigning the value of that literal; a
string that begins with no compared prefix fails with `ReportError` on the key
and code 51; and no lower-case spelling of a literal begins with a compared
prefix. -/
theorem decoder_block_spec (S : SETTINGS) (k : KEYS) (hk : Vocabulary k ≠ []) :
    ∃ D, k.decoder = some D ∧ ∀ (V : KEYS → List Char) (st : State), D.compared S st →
      (∀ e ∈ Vocabulary k, Begins e.2.1.toList e.1.toList ∧
        (Begins e.2.1.toList (V k) →
          (∃ st', D.block S V st = .ok st' ∧ D.member st' = e.2.2 S) ∨
          (k = .canopy_shading ∧ e.1 = "TRUE" ∧ st.Options.StreamTemp = S.FALSE ∧
            D.block S V st = .error (.Exit CanopyShadingMessage (-1))))) ∧
      (∀ st', D.block S V st = .ok st' →
        ∃ e ∈ Vocabulary k, Begins e.2.1.toList (V k) ∧ D.member st' = e.2.2 S) ∧
      (MatchesNoLiteral k (V k) → D.block S V st = .error (.ReportError (KeyName k) 51)) ∧
      (∀ e ∈ Vocabulary k, MatchesNoLiteral k (e.1.toList.map Char.toLower)) := by
  cases k
  case format =>
    refine ⟨_, rfl, fun V st hc => ?_⟩
    have hA : ∀ e ∈ Vocabulary .format, Begins e.2.1.toList (V .format) →
        (∃ st', DetermineFileFormat S V st = .ok st' ∧ st'.Options.FileFormat = e.2.2 S) ∨
          (KEYS.format = .canopy_shading ∧ e.1 = "TRUE" ∧ st.Options.StreamTemp = S.FALSE ∧
            DetermineFileFormat S V st = .error (.Exit CanopyShadingMessage (-1))) := by
      intro e he h
      simp only [Vocabulary, List.mem_cons, List.mem_singleton, List.not_mem_nil, or_false] at he
      rcases he with rfl | rfl | rfl
      · exact Or.inl ⟨_, DetermineFileFormat_BIN h st, rfl⟩
      · exact Or.inl ⟨_, DetermineFileFormat_NETCDF h st, rfl⟩
      · exact Or.inl ⟨_, DetermineFileFormat_BYTESWAP h st, rfl⟩
    have hB : MatchesNoLiteral .format (V .format) →
        DetermineFileFormat S V st = .error (.ReportError (KeyName .format) 51) := by
      intro hn
      simp only [MatchesNoLiteral, Vocabulary, List.mem_cons, List.mem_singleton,
        forall_eq_or_imp, forall_eq] at hn
      exact DetermineFileFormat_error hn.1 hn.2.1 hn.2.2.1 st
    exact ⟨fun e he => ⟨by revert e he; decide, hA e he⟩, decoder_spec hA hB, hB, by decide⟩
  case extent =>
    refine ⟨_, rfl, fun V st hc => ?_⟩
    have hA : ∀ e ∈ Vocabulary .extent, Begins e.2.1.toList (V .extent) →
        (∃ st', DetermineExtent S V st = .ok st' ∧ st'.Options.Extent = e.2.2 S) ∨
          (KEYS.extent = .canopy_shading ∧ e.1 = "TRUE" ∧ st.Options.StreamTemp = S.FALSE ∧
            DetermineExtent S V st = .error (.Exit CanopyShadingMessage (-1))) := by
      intro e he h
      simp only [Vocabulary, List.mem_cons, List.mem_singleton, List.not_mem_nil, or_false] at he
      rcases he with rfl | rfl
      · exact Or.inl ⟨_, DetermineExtent_POINT h st, rfl⟩
      · exact Or.inl ⟨_, DetermineExtent_BASIN h st, rfl⟩
    have hB : MatchesNoLiteral .extent (V .extent) →
        DetermineExtent S V st = .error (.ReportError (KeyName .extent) 51) := by
      intro hn
      simp only [MatchesNoLiteral, Vocabulary, List.mem_cons, List.mem_singleton,
        forall_eq_or_imp, forall_eq] at hn
      exact DetermineExtent_error hn.1 hn.2.1 st
    exact ⟨fun e he => ⟨by revert e he; decide, hA e he⟩, decoder_spec hA hB, hB, by decide⟩
  case gradient =>
    refine ⟨_, rfl, fun V st hc => ?_⟩
    have hA : ∀ e ∈ Vocabulary .gradient, Begins e.2.1.toList (V .gradient) →
        (∃ st', DetermineFlowGradient S V st = .ok st' ∧ st'.Options.FlowGradient = e.2.2 S) ∨
          (KEYS.gradient = .canopy_shading ∧ e.1 = "TRUE" ∧ st.Options.StreamTemp = S.FALSE ∧
            DetermineFlowGradient S V st = .error (.Exit CanopyShadingMessage (-1))) := by
      intro e he h
      simp only [Vocabulary, List.mem_cons, List.mem_singleton, List.not_mem_nil, or_false] at he
      rcases he with rfl | rfl
      · exact Or.inl ⟨_, DetermineFlowGradient_TOPO h st hc, rfl⟩
      · exact Or.inl ⟨_, DetermineFlowGradient_WATER h st hc, rfl⟩
    have hB : MatchesNoLiteral .gradient (V .gradient) →
        DetermineFlowGradient S V st = .error (.ReportError (KeyName .gradient) 51) := by
      intro hn
      simp only [MatchesNoLiteral, Vocabulary, List.mem_cons, List.mem_singleton,
        forall_eq_or_imp, forall_eq] at hn
      exact DetermineFlowGradient_error hn.1 hn.2.1 st hc
    exact ⟨fun e he => ⟨by revert e he; decide, hA e he⟩, decoder_spec hA hB, hB, by decide⟩
  case interpolation =>
    refine ⟨_, rfl, fun V st hc => ?_⟩
    have hA : ∀ e ∈ Vocabulary .interpolation, Begins e.2.1.toList (V .interpolation) →
        (∃ st', DetermineInterpolation S V st = .ok st' ∧ st'.Options.Interpolation = e.2.2 S) ∨
          (KEYS.interpolation = .canopy_shading ∧ e.1 = "TRUE" ∧ st.Options.StreamTemp = S.FALSE ∧
            DetermineInterpolation S V st = .error (.Exit CanopyShadingMessage (-1))) := by
      intro e he h
      simp only [Vocabulary, List.mem_cons, List.mem_singleton, List.not_mem_nil, or_false] at he
      rcases he with rfl | rfl | rfl
      · exact Or.inl ⟨_, DetermineInterpolation_INVDIST h st, rfl⟩
      · exact Or.inl ⟨_, DetermineInterpolation_NEAREST h st, rfl⟩
      · exact Or.inl ⟨_, DetermineInterpolation_VARCRESS h st, rfl⟩
    have hB : MatchesNoLiteral .interpolation (V .interpolation) →
        DetermineInterpolation S V st = .error (.ReportError (KeyName .interpolation) 51) := by
      intro hn
      simp only [MatchesNoLiteral, Vocabulary, List.mem_cons, List.mem_singleton,
        forall_eq_or_imp, forall_eq] at hn
      exact DetermineInterpolation_error hn.1 hn.2.1 hn.2.2.1 st
    exact ⟨fun e he => ⟨by revert e he; decide, hA e he⟩, decoder_spec hA hB, hB, by decide⟩
  case flow_routing =>
    refine ⟨_, rfl, fun V st hc => ?_⟩
    have hA : ∀ e ∈ Vocabulary .flow_routing, Begins e.2.1.toList (V .flow_routing) →
        (∃ st', DetermineHasNetwork S V st = .ok st' ∧ st'.Options.HasNetwork = e.2.2 S) ∨
          (KEYS.flow_routing = .canopy_shading ∧ e.1 = "TRUE" ∧ st.Options.StreamTemp = S.FALSE ∧
            DetermineHasNetwork S V st = .error (.Exit CanopyShadingMessage (-1))) := by
      intro e he h
      simp only [Vocabulary, List.mem_cons, List.mem_singleton, List.not_mem_nil, or_false] at he
      rcases he with rfl | rfl
      · exact Or.inl ⟨_, DetermineHasNetwork_NETWORK h st hc, rfl⟩
      · exact Or.inl ⟨_, DetermineHasNetwork_UNIT h st hc, rfl⟩
    have hB : MatchesNoLiteral .flow_routing (V .flow_routing) →
        DetermineHasNetwork S V st = .error (.ReportError (KeyName .flow_routing) 51) := by
      intro hn
      simp only [MatchesNoLiteral, Vocabulary, List.mem_cons, List.mem_singleton,
        forall_eq_or_imp, forall_eq] at hn
      exact DetermineHasNetwork_error hn.1 hn.2.1 st hc
    exact ⟨fun e he => ⟨by revert e he; decide, hA e he⟩, decoder_spec hA hB, hB, by decide⟩
  case sensible_heat_flux =>
    refine ⟨_, rfl, fun V st hc => ?_⟩
    have hA : ∀ e ∈ Vocabulary .sensible_heat_flux, Begins e.2.1.toList (V .sensible_heat_flux) →
        (∃ st', DetermineHeatFlux S V st = .ok st' ∧ st'.Options.HeatFlux = e.2.2 S) ∨
          (KEYS.sensible_heat_flux = .canopy_shading ∧ e.1 = "TRUE" ∧ st.Options.StreamTemp = S.FALSE ∧
            DetermineHeatFlux S V st = .error (.Exit CanopyShadingMessage (-1))) := by
      intro e he h
      simp only [Vocabulary, List.mem_cons, List.mem_singleton, List.not_mem_nil, or_false] at he
      rcases he with rfl | rfl
      · exact Or.inl ⟨_, DetermineHeatFlux_TRUE h st, rfl⟩
      · exact Or.inl ⟨_, DetermineHeatFlux_FALSE h st, rfl⟩
    have hB : MatchesNoLiteral .sensible_heat_flux (V .sensible_heat_flux) →
        DetermineHeatFlux S V st = .error (.ReportError (KeyName .sensible_heat_flux) 51) := by
      intro hn
      simp only [MatchesNoLiteral, Vocabulary, List.mem_cons, List.mem_singleton,
        forall_eq_or_imp, forall_eq] at hn
      exact DetermineHeatFlux_error hn.1 hn.2.1 st
    exact ⟨fun e he => ⟨by revert e he; decide, hA e he⟩, decoder_spec hA hB, hB, by decide⟩
  case sediment =>
    refine ⟨_, rfl, fun V st hc => ?_⟩
    have hA : ∀ e ∈ Vocabulary .sediment, Begins e.2.1.toList (V .sediment) →
        (∃ st', DetermineSediment S V st = .ok st' ∧ st'.Options.Sediment = e.2.2 S) ∨
          (KEYS.sediment = .canopy_shading ∧ e.1 = "TRUE" ∧ st.Options.StreamTemp = S.FALSE ∧
            DetermineSediment S V st = .error (.Exit CanopyShadingMessage (-1))) := by
      intro e he h
      simp only [Vocabulary, List.mem_cons, List.mem_singleton, List.not_mem_nil, or_false] at he
      rcases he with rfl | rfl
      · exact Or.inl ⟨_, DetermineSediment_TRUE h st, rfl⟩
      · exact Or.inl ⟨_, DetermineSediment_FALSE h st, rfl⟩
    have hB : MatchesNoLiteral .sediment (V .sediment) →
        DetermineSediment S V st = .error (.ReportError (KeyName .sediment) 51) := by
      intro hn
      simp only [MatchesNoLiteral, Vocabulary, List.mem_cons, List.mem_singleton,
        forall_eq_or_imp, forall_eq] at hn
      exact DetermineSediment_error hn.1 hn.2.1 st
    exact ⟨fun e he => ⟨by revert e he; decide, hA e he⟩, decoder_spec hA hB, hB, by decide⟩
  case routing =>
    refine ⟨_, rfl, fun V st hc => ?_⟩
    have hA : ∀ e ∈ Vocabulary .routing, Begins e.2.1.toList (V .routing) →
        (∃ st', DetermineRouting S V st = .ok st' ∧ st'.Options.Routing = e.2.2 S) ∨
          (KEYS.routing = .canopy_shading ∧ e.1 = "TRUE" ∧ st.Options.StreamTemp = S.FALSE ∧
            DetermineRouting S V st = .error (.Exit CanopyShadingMessage (-1))) := by
      intro e he h
      simp only [Vocabulary, List.mem_cons, List.mem_singleton, List.not_mem_nil, or_false] at he
      rcases he with rfl | rfl
      · exact Or.inl ⟨_, DetermineRouting_KINEMATIC h st, rfl⟩
      · exact Or.inl ⟨_, DetermineRouting_CONVENTIONAL h st, rfl⟩
    have hB : MatchesNoLiteral .routing (V .routing) →
        DetermineRouting S V st = .error (.ReportError (KeyName .routing) 51) := by
      intro hn
      simp only [MatchesNoLiteral, Vocabulary, List.mem_cons, List.mem_singleton,
        forall_eq_or_imp, forall_eq] at hn
      exact DetermineRouting_error hn.1 hn.2.1 st
    exact ⟨fun e he => ⟨by revert e he; decide, hA e he⟩, decoder_spec hA hB, hB, by decide⟩
  case infiltration =>
    refine ⟨_, rfl, fun V st hc => ?_⟩
    have hA : ∀ e ∈ Vocabulary .infiltration, Begins e.2.1.toList (V .infiltration) →
        (∃ st', DetermineInfiltration S V st = .ok st' ∧ st'.Options.Infiltration = e.2.2 S) ∨
          (KEYS.infiltration = .canopy_shading ∧ e.1 = "TRUE" ∧ st.Options.StreamTemp = S.FALSE ∧
            DetermineInfiltration S V st = .error (.Exit CanopyShadingMessage (-1))) := by
      intro e he h
      simp only [Vocabulary, List.mem_cons, List.mem_singleton, List.not_mem_nil, or_false] at he
      rcases he with rfl | rfl
      · exact Or.inl ⟨_, DetermineInfiltration_STATIC h st, rfl⟩
      · exact Or.inl ⟨_, DetermineInfiltration_DYNAMIC h st, rfl⟩
    have hB : MatchesNoLiteral .infiltration (V .infiltration) →
        DetermineInfiltration S V st = .error (.ReportError (KeyName .infiltration) 51) := by
      intro hn
      simp only [MatchesNoLiteral, Vocabulary, List.mem_cons, List.mem_singleton,
        forall_eq_or_imp, forall_eq] at hn
      exact DetermineInfiltration_error hn.1 hn.2.1 st
    exact ⟨fun e he => ⟨by revert e he; decide, hA e he⟩, decoder_spec hA hB, hB, by decide⟩
  case mm5 =>
    refine ⟨_, rfl, fun V st hc => ?_⟩
    have hA : ∀ e ∈ Vocabulary .mm5, Begins e.2.1.toList (V .mm5) →
        (∃ st', DetermineMM5 S V st = .ok st' ∧ st'.Options.MM5 = e.2.2 S) ∨
          (KEYS.mm5 = .canopy_shading ∧ e.1 = "TRUE" ∧ st.Options.StreamTemp = S.FALSE ∧
            DetermineMM5 S V st = .error (.Exit CanopyShadingMessage (-1))) := by
      intro e he h
      simp only [Vocabulary, List.mem_cons, List.mem_singleton, List.not_mem_nil, or_false] at he
      rcases he with rfl | rfl
      · exact Or.inl ⟨_, DetermineMM5_TRUE h st, rfl⟩
      · exact Or.inl ⟨_, DetermineMM5_FALSE h st, rfl⟩
    have hB : MatchesNoLiteral .mm5 (V .mm5) →
        DetermineMM5 S V st = .error (.ReportError (KeyName .mm5) 51) := by
      intro hn
      simp only [MatchesNoLiteral, Vocabulary, List.mem_cons, List.mem_singleton,
        forall_eq_or_imp, forall_eq] at hn
      exact DetermineMM5_error hn.1 hn.2.1 st
    exact ⟨fun e he => ⟨by revert e he; decide, hA e he⟩, decoder_spec hA hB, hB, by decide⟩
  case qpf =>
    refine ⟨_, rfl, fun V st hc => ?_⟩
    have hA : ∀ e ∈ Vocabulary .qpf, Begins e.2.1.toList (V .qpf) →
        (∃ st', DetermineQPF S V st = .ok st' ∧ st'.Options.QPF = e.2.2 S) ∨
          (KEYS.qpf = .canopy_shading ∧ e.1 = "TRUE" ∧ st.Options.StreamTemp = S.FALSE ∧
            DetermineQPF S V st = .error (.Exit CanopyShadingMessage (-1))) := by
      intro e he h
      simp only [Vocabulary, List.mem_cons, List.mem_singleton, List.not_mem_nil, or_false] at he
      rcases he with rfl | rfl
      · exact Or.inl ⟨_, DetermineQPF_TRUE h st, rfl⟩
      · exact Or.inl ⟨_, DetermineQPF_FALSE h st, rfl⟩
    have hB : MatchesNoLiteral .qpf (V .qpf) →
        DetermineQPF S V st = .error (.ReportError (KeyName .qpf) 51) := by
      intro hn
      simp only [MatchesNoLiteral, Vocabulary, List.mem_cons, List.mem_singleton,
        forall_eq_or_imp, forall_eq] at hn
      exact DetermineQPF_error hn.1 hn.2.1 st
    exact ⟨fun e he => ⟨by revert e he; decide, hA e he⟩, decoder_spec hA hB, hB, by decide⟩
  case prism =>
    refine ⟨_, rfl, fun V st hc => ?_⟩
    have hA : ∀ e ∈ Vocabulary .prism, Begins e.2.1.toList (V .prism) →
        (∃ st', DeterminePrism S V st = .ok st' ∧ st'.Options.Prism = e.2.2 S) ∨
          (KEYS.prism = .canopy_shading ∧ e.1 = "TRUE" ∧ st.Options.StreamTemp = S.FALSE ∧
            DeterminePrism S V st = .error (.Exit CanopyShadingMessage (-1))) := by
      intro e he h
      simp only [Vocabulary, List.mem_cons, List.mem_singleton, List.not_mem_nil, or_false] at he
      rcases he with rfl | rfl
      · exact Or.inl ⟨_, DeterminePrism_TRUE h st, rfl⟩
      · exact Or.inl ⟨_, DeterminePrism_FALSE h st, rfl⟩
    have hB : MatchesNoLiteral .prism (V .prism) →
        DeterminePrism S V st = .error (.ReportError (KeyName .prism) 51) := by
      intro hn
      simp only [MatchesNoLiteral, Vocabulary, List.mem_cons, List.mem_singleton,
        forall_eq_or_imp, forall_eq] at hn
      exact DeterminePrism_error hn.1 hn.2.1 st
    exact ⟨fun e he => ⟨by revert e he; decide, hA e he⟩, decoder_spec hA hB, hB, by decide⟩
  case canopy_radatt =>
    refine ⟨_, rfl, fun V st hc => ?_⟩
    have hA : ∀ e ∈ Vocabulary .canopy_radatt, Begins e.2.1.toList (V .canopy_radatt) →
        (∃ st', DetermineCanopyRadAtt S V st = .ok st' ∧ st'.Options.CanopyRadAtt = e.2.2 S) ∨
          (KEYS.canopy_radatt = .canopy_shading ∧ e.1 = "TRUE" ∧ st.Options.StreamTemp = S.FALSE ∧
            DetermineCanopyRadAtt S V st = .error (.Exit CanopyShadingMessage (-1))) := by
      intro e he h
      simp only [Vocabulary, List.mem_cons, List.mem_singleton, List.not_mem_nil, or_false] at he
      rcases he with rfl | rfl
      · exact Or.inl ⟨_, DetermineCanopyRadAtt_FIXED h st, rfl⟩
      · exact Or.inl ⟨_, DetermineCanopyRadAtt_VARIABLE h st, rfl⟩
    have hB : MatchesNoLiteral .canopy_radatt (V .canopy_radatt) →
        DetermineCanopyRadAtt S V st = .error (.ReportError (KeyName .canopy_radatt) 51) := by
      intro hn
      simp only [MatchesNoLiteral, Vocabulary, List.mem_cons, List.mem_singleton,
        forall_eq_or_imp, forall_eq] at hn
      exact DetermineCanopyRadAtt_error hn.1 hn.2.1 st
    exact ⟨fun e he => ⟨by revert e he; decide, hA e he⟩, decoder_spec hA hB, hB, by decide⟩
  case shading =>
    refine ⟨_, rfl, fun V st hc => ?_⟩
    have hA : ∀ e ∈ Vocabulary .shading, Begins e.2.1.toList (V .shading) →
        (∃ st', DetermineShading S V st = .ok st' ∧ st'.Options.Shading = e.2.2 S) ∨
          (KEYS.shading = .canopy_shading ∧ e.1 = "TRUE" ∧ st.Options.StreamTemp = S.FALSE ∧
            DetermineShading S V st = .error (.Exit CanopyShadingMessage (-1))) := by
      intro e he h
      simp only [Vocabulary, List.mem_cons, List.mem_singleton, List.not_mem_nil, or_false] at he
      rcases he with rfl | rfl
      · exact Or.inl ⟨_, DetermineShading_TRUE h st, rfl⟩
      · exact Or.inl ⟨_, DetermineShading_FALSE h st, rfl⟩
    have hB : MatchesNoLiteral .shading (V .shading) →
        DetermineShading S V st = .error (.ReportError (KeyName .shading) 51) := by
      intro hn
      simp only [MatchesNoLiteral, Vocabulary, List.mem_cons, List.mem_singleton,
        forall_eq_or_imp, forall_eq] at hn
      exact DetermineShading_error hn.1 hn.2.1 st
    exact ⟨fun e he => ⟨by revert e he; decide, hA e he⟩, decoder_spec hA hB, hB, by decide⟩
  case snotel =>
    refine ⟨_, rfl, fun V st hc => ?_⟩
    have hA : ∀ e ∈ Vocabulary .snotel, Begins e.2.1.toList (V .snotel) →
        (∃ st', DetermineSnotel S V st = .ok st' ∧ st'.Options.Snotel = e.2.2 S) ∨
          (KEYS.snotel = .canopy_shading ∧ e.1 = "TRUE" ∧ st.Options.StreamTemp = S.FALSE ∧
            DetermineSnotel S V st = .error (.Exit CanopyShadingMessage (-1))) := by
      intro e he h
      simp only [Vocabulary, List.mem_cons, List.mem_singleton, List.not_mem_nil, or_false] at he
      rcases he with rfl | rfl
      · exact Or.inl ⟨_, DetermineSnotel_TRUE h st, rfl⟩
      · exact Or.inl ⟨_, DetermineSnotel_FALSE h st, rfl⟩
    have hB : MatchesNoLiteral .snotel (V .snotel) →
        DetermineSnotel S V st = .error (.ReportError (KeyName .snotel) 51) := by
      intro hn
      simp only [MatchesNoLiteral, Vocabulary, List.mem_cons, List.mem_singleton,
        forall_eq_or_imp, forall_eq] at hn
      exact DetermineSnotel_error hn.1 hn.2.1 st
    exact ⟨fun e he => ⟨by revert e he; decide, hA e he⟩, decoder_spec hA hB, hB, by decide⟩
  case stream_temp =>
    refine ⟨_, rfl, fun V st hc => ?_⟩
    have hA : ∀ e ∈ Vocabulary .stream_temp, Begins e.2.1.toList (V .stream_temp) →
        (∃ st', DetermineStreamTemp S V st = .ok st' ∧ st'.Options.StreamTemp = e.2.2 S) ∨
          (KEYS.stream_temp = .canopy_shading ∧ e.1 = "TRUE" ∧ st.Options.StreamTemp = S.FALSE ∧
            DetermineStreamTemp S V st = .error (.Exit CanopyShadingMessage (-1))) := by
      intro e he h
      simp only [Vocabulary, List.mem_cons, List.mem_singleton, List.not_mem_nil, or_false] at he
      rcases he with rfl | rfl
      · exact Or.inl ⟨_, DetermineStreamTemp_TRUE h st, rfl⟩
      · exact Or.inl ⟨_, DetermineStreamTemp_FALSE h st, rfl⟩
    have hB : MatchesNoLiteral .stream_temp (V .stream_temp) →
        DetermineStreamTemp S V st = .error (.ReportError (KeyName .stream_temp) 51) := by
      intro hn
      simp only [MatchesNoLiteral, Vocabulary, List.mem_cons, List.mem_singleton,
        forall_eq_or_imp, forall_eq] at hn
      exact DetermineStreamTemp_error hn.1 hn.2.1 st
    exact ⟨fun e he => ⟨by revert e he; decide, hA e he⟩, decoder_spec hA hB, hB, by decide⟩
  case outside =>
    refine ⟨_, rfl, fun V st hc => ?_⟩
    have hA : ∀ e ∈ Vocabulary .outside, Begins e.2.1.toList (V .outside) →
        (∃ st', DetermineOutside S V st = .ok st' ∧ st'.Options.Outside = e.2.2 S) ∨
          (KEYS.outside = .canopy_shading ∧ e.1 = "TRUE" ∧ st.Options.StreamTemp = S.FALSE ∧
            DetermineOutside S V st = .error (.Exit CanopyShadingMessage (-1))) := by
      intro e he h
      simp only [Vocabulary, List.mem_cons, List.mem_singleton, List.not_mem_nil, or_false] at he
      rcases he with rfl | rfl
      · exact Or.inl ⟨_, DetermineOutside_TRUE h st, rfl⟩
      · exact Or.inl ⟨_, DetermineOutside_FALSE h st, rfl⟩
    have hB : MatchesNoLiteral .outside (V .outside) →
        DetermineOutside S V st = .error (.ReportError (KeyName .outside) 51) := by
      intro hn
      simp only [MatchesNoLiteral, Vocabulary, List.mem_cons, List.mem_singleton,
        forall_eq_or_imp, forall_eq] at hn
      exact DetermineOutside_error hn.1 hn.2.1 st
    exact ⟨fun e he => ⟨by revert e he; decide, hA e he⟩, decoder_spec hA hB, hB, by decide⟩
  case rhoverride =>
    refine ⟨_, rfl, fun V st hc => ?_⟩
    have hA : ∀ e ∈ Vocabulary .rhoverride, Begins e.2.1.toList (V .rhoverride) →
        (∃ st', DetermineRhoverride S V st = .ok st' ∧ st'.Options.Rhoverride = e.2.2 S) ∨
          (KEYS.rhoverride = .canopy_shading ∧ e.1 = "TRUE" ∧ st.Options.StreamTemp = S.FALSE ∧
            DetermineRhoverride S V st = .error (.Exit CanopyShadingMessage (-1))) := by
      intro e he h
      simp only [Vocabulary, List.mem_cons, List.mem_singleton, List.not_mem_nil, or_false] at he
      rcases he with rfl | rfl
      · exact Or.inl ⟨_, DetermineRhoverride_TRUE h st, rfl⟩
      · exact Or.inl ⟨_, DetermineRhoverride_FALSE h st, rfl⟩
    have hB : MatchesNoLiteral .rhoverride (V .rhoverride) →
        DetermineRhoverride S V st = .error (.ReportError (KeyName .rhoverride) 51) := by
      intro hn
      simp only [MatchesNoLiteral, Vocabulary, List.mem_cons, List.mem_singleton,
        forall_eq_or_imp, forall_eq] at hn
      exact DetermineRhoverride_error hn.1 hn.2.1 st
    exact ⟨fun e he => ⟨by revert e he; decide, hA e he⟩, decoder_spec hA hB, hB, by decide⟩
  case precipitation_source =>
    refine ⟨_, rfl, fun V st hc => ?_⟩
    have hA : ∀ e ∈ Vocabulary .precipitation_source, Begins e.2.1.toList (V .precipitation_source) →
        (∃ st', DeterminePrecipType S V st = .ok st' ∧ st'.Options.PrecipType = e.2.2 S) ∨
          (KEYS.precipitation_source = .canopy_shading ∧ e.1 = "TRUE" ∧ st.Options.StreamTemp = S.FALSE ∧
            DeterminePrecipType S V st = .error (.Exit CanopyShadingMessage (-1))) := by
      intro e he h
      simp only [Vocabulary, List.mem_cons, List.mem_singleton, List.not_mem_nil, or_false] at he
      rcases he with rfl | rfl
      · exact Or.inl ⟨_, DeterminePrecipType_RADAR h st, rfl⟩
      · exact Or.inl ⟨_, DeterminePrecipType_STATION h st, rfl⟩
    have hB : MatchesNoLiteral .precipitation_source (V .precipitation_source) →
        DeterminePrecipType S V st = .error (.ReportError (KeyName .precipitation_source) 51) := by
      intro hn
      simp only [MatchesNoLiteral, Vocabulary, List.mem_cons, List.mem_singleton,
        forall_eq_or_imp, forall_eq] at hn
      exact DeterminePrecipType_error hn.1 hn.2.1 st
    exact ⟨fun e he => ⟨by revert e he; decide, hA e he⟩, decoder_spec hA hB, hB, by decide⟩
  case wind_source =>
    refine ⟨_, rfl, fun V st hc => ?_⟩
    have hA : ∀ e ∈ Vocabulary .wind_source, Begins e.2.1.toList (V .wind_source) →
        (∃ st', DetermineWindSource S V st = .ok st' ∧ st'.Options.WindSource = e.2.2 S) ∨
          (KEYS.wind_source = .canopy_shading ∧ e.1 = "TRUE" ∧ st.Options.StreamTemp = S.FALSE ∧
            DetermineWindSource S V st = .error (.Exit CanopyShadingMessage (-1))) := by
      intro e he h
      simp only [Vocabulary, List.mem_cons, List.mem_singleton, List.not_mem_nil, or_false] at he
      rcases he with rfl | rfl
      · exact Or.inl ⟨_, DetermineWindSource_MODEL h st, rfl⟩
      · exact Or.inl ⟨_, DetermineWindSource_STATION h st, rfl⟩
    have hB : MatchesNoLiteral .wind_source (V .wind_source) →
        DetermineWindSource S V st = .error (.ReportError (KeyName .wind_source) 51) := by
      intro hn
      simp only [MatchesNoLiteral, Vocabulary, List.mem_cons, List.mem_singleton,
        forall_eq_or_imp, forall_eq] at hn
      exact DetermineWindSource_error hn.1 hn.2.1 st
    exact ⟨fun e he => ⟨by revert e he; decide, hA e he⟩, decoder_spec hA hB, hB, by decide⟩
  case temp_lapse =>
    refine ⟨_, rfl, fun V st hc => ?_⟩
    have hA : ∀ e ∈ Vocabulary .temp_lapse, Begins e.2.1.toList (V .temp_lapse) →
        (∃ st', DetermineTempLapse S V st = .ok st' ∧ st'.Options.TempLapse = e.2.2 S) ∨
          (KEYS.temp_lapse = .canopy_shading ∧ e.1 = "TRUE" ∧ st.Options.StreamTemp = S.FALSE ∧
            DetermineTempLapse S V st = .error (.Exit CanopyShadingMessage (-1))) := by
      intro e he h
      simp only [Vocabulary, List.mem_cons, List.mem_singleton, List.not_mem_nil, or_false] at he
      rcases he with rfl | rfl
      · exact Or.inl ⟨_, DetermineTempLapse_CONSTANT h st, rfl⟩
      · exact Or.inl ⟨_, DetermineTempLapse_VARIABLE h st, rfl⟩
    have hB : MatchesNoLiteral .temp_lapse (V .temp_lapse) →
        DetermineTempLapse S V st = .error (.ReportError (KeyName .temp_lapse) 51) := by
      intro hn
      simp only [MatchesNoLiteral, Vocabulary, List.mem_cons, List.mem_singleton,
        forall_eq_or_imp, forall_eq] at hn
      exact DetermineTempLapse_error hn.1 hn.2.1 st
    exact ⟨fun e he => ⟨by revert e he; decide, hA e he⟩, decoder_spec hA hB, hB, by decide⟩
  case precip_lapse =>
    refine ⟨_, rfl, fun V st hc => ?_⟩
    have hA : ∀ e ∈ Vocabulary .precip_lapse, Begins e.2.1.toList (V .precip_lapse) →
        (∃ st', DeterminePrecipLapse S V st = .ok st' ∧ st'.Options.PrecipLapse = e.2.2 S) ∨
          (KEYS.precip_lapse = .canopy_shading ∧ e.1 = "TRUE" ∧ st.Options.StreamTemp = S.FALSE ∧
            DeterminePrecipLapse S V st = .error (.Exit CanopyShadingMessage (-1))) := by
      intro e he h
      simp only [Vocabulary, List.mem_cons, List.mem_singleton, List.not_mem_nil, or_false] at he
      rcases he with rfl | rfl | rfl
      · exact Or.inl ⟨_, DeterminePrecipLapse_CONSTANT h st, rfl⟩
      · exact Or.inl ⟨_, DeterminePrecipLapse_MAP h st, rfl⟩
      · exact Or.inl ⟨_, DeterminePrecipLapse_VARIABLE h st, rfl⟩
    have hB : MatchesNoLiteral .precip_lapse (V .precip_lapse) →
        DeterminePrecipLapse S V st = .error (.ReportError (KeyName .precip_lapse) 51) := by
      intro hn
      simp only [MatchesNoLiteral, Vocabulary, List.mem_cons, List.mem_singleton,
        forall_eq_or_imp, forall_eq] at hn
      exact DeterminePrecipLapse_error hn.1 hn.2.1 hn.2.2.1 st
    exact ⟨fun e he => ⟨by revert e he; decide, hA e he⟩, decoder_spec hA hB, hB, by decide⟩
  case canopy_shading =>
    refine ⟨_, rfl, fun V st hc => ?_⟩
    have hA : ∀ e ∈ Vocabulary .canopy_shading, Begins e.2.1.toList (V .canopy_shading) →
        (∃ st', DetermineCanopyShading S V st = .ok st' ∧ st'.Options.CanopyShading = e.2.2 S) ∨
          (KEYS.canopy_shading = .canopy_shading ∧ e.1 = "TRUE" ∧ st.Options.StreamTemp = S.FALSE ∧
            DetermineCanopyShading S V st = .error (.Exit CanopyShadingMessage (-1))) := by
      intro e he h
      simp only [Vocabulary, List.mem_cons, List.mem_singleton, List.not_mem_nil, or_false] at he
      rcases he with rfl | rfl
      · by_cases hs : st.Options.StreamTemp = S.FALSE
        · exact Or.inr ⟨rfl, rfl, hs, DetermineCanopyShading_exit h hs⟩
        · exact Or.inl ⟨_, DetermineCanopyShading_TRUE h hs, rfl⟩
      · exact Or.inl ⟨_, DetermineCanopyShading_FALSE h st, rfl⟩
    have hB : MatchesNoLiteral .canopy_shading (V .canopy_shading) →
        DetermineCanopyShading S V st = .error (.ReportError (KeyName .canopy_shading) 51) := by
      intro hn
      simp only [MatchesNoLiteral, Vocabulary, List.mem_cons, List.mem_singleton,
        forall_eq_or_imp, forall_eq] at hn
      exact DetermineCanopyShading_error hn.1 hn.2.1 st
    exact ⟨fun e he => ⟨by revert e he; decide, hA e he⟩, decoder_spec hA hB, hB, by decide⟩
  all_goals exact absurd rfl hk


/-- In a successful pass in which a key is compared, the decoding block of the key
has run, in a state in which the key is compared, and the member it assigned is
the one of the final state. -/
theorem Decode_decoded (E : COLLABORATORS) (S : SETTINGS) (k : KEYS) (D : DECODER)
    (hD : k.decoder = some D) (V : KEYS → List Char) (st st' : State)
    (h : Decode E S V st = .ok st') (hc : D.compared S st') :
    ∃ st0 st1, D.block S V st0 = .ok st1 ∧ D.compared S st0 ∧ D.member st' = D.member st1 := by
  unfold Decode DetermineModelOptions at h
  simp only [bind_assoc] at h
  obtain ⟨a1, h1, h⟩ := bind_eq_ok h
  obtain ⟨a2, h2, h⟩ := bind_eq_ok h
  obtain ⟨a3, h3, h⟩ := bind_eq_ok h
  obtain ⟨a4, h4, h⟩ := bind_eq_ok h
  obtain ⟨a5, h5, h⟩ := bind_eq_ok h
  obtain ⟨a6, h6, h⟩ := bind_eq_ok h
  obtain ⟨a7, h7, h⟩ := bind_eq_ok h
  obtain ⟨a8, h8, h⟩ := bind_eq_ok h
  obtain ⟨a9, h9, h⟩ := bind_eq_ok h
  obtain ⟨a10, h10, h⟩ := bind_eq_ok h
  obtain ⟨a11, h11, h⟩ := bind_eq_ok h
  obtain ⟨a12, h12, h⟩ := bind_eq_ok h
  obtain ⟨a13, h13, h⟩ := bind_eq_ok h
  obtain ⟨a14, h14, h⟩ := bind_eq_ok h
  obtain ⟨a15, h15, h⟩ := bind_eq_ok h
  obtain ⟨a16, h16, h⟩ := bind_eq_ok h
  obtain ⟨a17, h17, h⟩ := bind_eq_ok h
  obtain ⟨a18, h18, h⟩ := bind_eq_ok h
  obtain ⟨a19, h19, h⟩ := bind_eq_ok h
  obtain ⟨a20, h20, h⟩ := bind_eq_ok h
  obtain ⟨a21, h21, h⟩ := bind_eq_ok h
  obtain ⟨a22, h22, h⟩ := bind_eq_ok h
  obtain ⟨a23, h23, h⟩ := bind_eq_ok h
  obtain ⟨a24, h24, h⟩ := bind_eq_ok h
  obtain ⟨a25, h25, h⟩ := bind_eq_ok h
  obtain ⟨a26, h26, h⟩ := bind_eq_ok h
  obtain ⟨a27, h27, h⟩ := bind_eq_ok h
  obtain ⟨a28, h28, h29⟩ := bind_eq_ok h
  cases k
  case format =>
    cases hD
    refine ⟨st, a1, h1, ?_, ?_⟩
    · trivial
    · obtain ⟨_, _, rfl⟩ := DetermineExtent_inv h2
      obtain ⟨_, rfl⟩ := DetermineFlowGradient_inv h3
      obtain ⟨_, rfl⟩ := DetermineInterpolation_inv h4
      obtain ⟨_, _, rfl⟩ := DetermineCressman_inv h5
      obtain ⟨_, rfl⟩ := DetermineHasNetwork_inv h6
      obtain ⟨_, rfl⟩ := DetermineHeatFlux_inv h7
      obtain ⟨_, _, _, _, _, rfl⟩ := DetermineSediment_inv h8
      obtain ⟨_, rfl⟩ := DetermineSedFile_inv h9
      obtain ⟨_, rfl⟩ := DetermineRouting_inv h10
      obtain ⟨_, _, rfl⟩ := DetermineInfiltration_inv h11
      obtain ⟨_, rfl⟩ := DetermineMM5_inv h12
      obtain ⟨_, rfl⟩ := DetermineQPF_inv h13
      obtain ⟨_, rfl⟩ := DeterminePrism_inv h14
      obtain ⟨_, rfl⟩ := DetermineCanopyRadAtt_inv h15
      obtain ⟨_, rfl⟩ := DetermineShading_inv h16
      obtain rfl := CheckMM5Prism_inv h17
      obtain ⟨_, rfl⟩ := DetermineSnotel_inv h18
      obtain ⟨_, rfl⟩ := DetermineStreamTemp_inv h19
      obtain ⟨_, rfl⟩ := DetermineCanopyShading_inv h20
      obtain ⟨_, rfl⟩ := DetermineOutside_inv h21
      obtain ⟨_, _, rfl⟩ := DeterminePrismData_inv h22
      obtain ⟨_, _, _, rfl⟩ := DetermineShadingData_inv h23
      obtain ⟨_, rfl⟩ := DetermineRhoverride_inv h24
      obtain ⟨_, _, _, _, rfl⟩ := DetermineMetOptions_inv h25
      obtain ⟨_, _, rfl⟩ := DetermineArealExtent_inv h26
      obtain ⟨_, _, rfl⟩ := DeterminePoint_inv h27
      obtain ⟨_, rfl⟩ := DetermineModelPeriod_inv h28
      obtain ⟨_, rfl⟩ := DetermineModelConstants_inv h29
      rfl
  case extent =>
    cases hD
    refine ⟨a1, a2, h2, ?_, ?_⟩
    · trivial
    · obtain ⟨_, rfl⟩ := DetermineFlowGradient_inv h3
      obtain ⟨_, rfl⟩ := DetermineInterpolation_inv h4
      obtain ⟨_, _, rfl⟩ := DetermineCressman_inv h5
      obtain ⟨_, rfl⟩ := DetermineHasNetwork_inv h6
      obtain ⟨_, rfl⟩ := DetermineHeatFlux_inv h7
      obtain ⟨_, _, _, _, _, rfl⟩ := DetermineSediment_inv h8
      obtain ⟨_, rfl⟩ := DetermineSedFile_inv h9
      obtain ⟨_, rfl⟩ := DetermineRouting_inv h10
      obtain ⟨_, _, rfl⟩ := DetermineInfiltration_inv h11
      obtain ⟨_, rfl⟩ := DetermineMM5_inv h12
      obtain ⟨_, rfl⟩ := DetermineQPF_inv h13
      obtain ⟨_, rfl⟩ := DeterminePrism_inv h14
      obtain ⟨_, rfl⟩ := DetermineCanopyRadAtt_inv h15
      obtain ⟨_, rfl⟩ := DetermineShading_inv h16
      obtain rfl := CheckMM5Prism_inv h17
      obtain ⟨_, rfl⟩ := DetermineSnotel_inv h18
      obtain ⟨_, rfl⟩ := DetermineStreamTemp_inv h19
      obtain ⟨_, rfl⟩ := DetermineCanopyShading_inv h20
      obtain ⟨_, rfl⟩ := DetermineOutside_inv h21
      obtain ⟨_, _, rfl⟩ := DeterminePrismData_inv h22
      obtain ⟨_, _, _, rfl⟩ := DetermineShadingData_inv h23
      obtain ⟨_, rfl⟩ := DetermineRhoverride_inv h24
      obtain ⟨_, _, _, _, rfl⟩ := DetermineMetOptions_inv h25
      obtain ⟨_, _, rfl⟩ := DetermineArealExtent_inv h26
      obtain ⟨_, _, rfl⟩ := DeterminePoint_inv h27
      obtain ⟨_, rfl⟩ := DetermineModelPeriod_inv h28
      obtain ⟨_, rfl⟩ := DetermineModelConstants_inv h29
      rfl
  case gradient =>
    cases hD
    refine ⟨a2, a3, h3, ?_, ?_⟩
    · show a2.Options.Extent ≠ S.POINT
      obtain ⟨_, rfl⟩ := DetermineFlowGradient_inv h3
      obtain ⟨_, rfl⟩ := DetermineInterpolation_inv h4
      obtain ⟨_, _, rfl⟩ := DetermineCressman_inv h5
      obtain ⟨_, rfl⟩ := DetermineHasNetwork_inv h6
      obtain ⟨_, rfl⟩ := DetermineHeatFlux_inv h7
      obtain ⟨_, _, _, _, _, rfl⟩ := DetermineSediment_inv h8
      obtain ⟨_, rfl⟩ := DetermineSedFile_inv h9
      obtain ⟨_, rfl⟩ := DetermineRouting_inv h10
      obtain ⟨_, _, rfl⟩ := DetermineInfiltration_inv h11
      obtain ⟨_, rfl⟩ := DetermineMM5_inv h12
      obtain ⟨_, rfl⟩ := DetermineQPF_inv h13
      obtain ⟨_, rfl⟩ := DeterminePrism_inv h14
      obtain ⟨_, rfl⟩ := DetermineCanopyRadAtt_inv h15
      obtain ⟨_, rfl⟩ := DetermineShading_inv h16
      obtain rfl := CheckMM5Prism_inv h17
      obtain ⟨_, rfl⟩ := DetermineSnotel_inv h18
      obtain ⟨_, rfl⟩ := DetermineStreamTemp_inv h19
      obtain ⟨_, rfl⟩ := DetermineCanopyShading_inv h20
      obtain ⟨_, rfl⟩ := DetermineOutside_inv h21
      obtain ⟨_, _, rfl⟩ := DeterminePrismData_inv h22
      obtain ⟨_, _, _, rfl⟩ := DetermineShadingData_inv h23
      obtain ⟨_, rfl⟩ := DetermineRhoverride_inv h24
      obtain ⟨_, _, _, _, rfl⟩ := DetermineMetOptions_inv h25
      obtain ⟨_, _, rfl⟩ := DetermineArealExtent_inv h26
      obtain ⟨_, _, rfl⟩ := DeterminePoint_inv h27
      obtain ⟨_, rfl⟩ := DetermineModelPeriod_inv h28
      obtain ⟨_, rfl⟩ := DetermineModelConstants_inv h29
      exact hc
    · obtain ⟨_, rfl⟩ := DetermineInterpolation_inv h4
      obtain ⟨_, _, rfl⟩ := DetermineCressman_inv h5
      obtain ⟨_, rfl⟩ := DetermineHasNetwork_inv h6
      obtain ⟨_, rfl⟩ := DetermineHeatFlux_inv h7
      obtain ⟨_, _, _, _, _, rfl⟩ := DetermineSediment_inv h8
      obtain ⟨_, rfl⟩ := DetermineSedFile_inv h9
      obtain ⟨_, rfl⟩ := DetermineRouting_inv h10
      obtain ⟨_, _, rfl⟩ := DetermineInfiltration_inv h11
      obtain ⟨_, rfl⟩ := DetermineMM5_inv h12
      obtain ⟨_, rfl⟩ := DetermineQPF_inv h13
      obtain ⟨_, rfl⟩ := DeterminePrism_inv h14
      obtain ⟨_, rfl⟩ := DetermineCanopyRadAtt_inv h15
      obtain ⟨_, rfl⟩ := DetermineShading_inv h16
      obtain rfl := CheckMM5Prism_inv h17
      obtain ⟨_, rfl⟩ := DetermineSnotel_inv h18
      obtain ⟨_, rfl⟩ := DetermineStreamTemp_inv h19
      obtain ⟨_, rfl⟩ := DetermineCanopyShading_inv h20
      obtain ⟨_, rfl⟩ := DetermineOutside_inv h21
      obtain ⟨_, _, rfl⟩ := DeterminePrismData_inv h22
      obtain ⟨_, _, _, rfl⟩ := DetermineShadingData_inv h23
      obtain ⟨_, rfl⟩ := DetermineRhoverride_inv h24
      obtain ⟨_, _, _, _, rfl⟩ := DetermineMetOptions_inv h25
      obtain ⟨_, _, rfl⟩ := DetermineArealExtent_inv h26
      obtain ⟨_, _, rfl⟩ := DeterminePoint_inv h27
      obtain ⟨_, rfl⟩ := DetermineModelPeriod_inv h28
      obtain ⟨_, rfl⟩ := DetermineModelConstants_inv h29
      rfl
  case interpolation =>
    cases hD
    refine ⟨a3, a4, h4, ?_, ?_⟩
    · trivial
    · obtain ⟨_, _, rfl⟩ := DetermineCressman_inv h5
      obtain ⟨_, rfl⟩ := DetermineHasNetwork_inv h6
      obtain ⟨_, rfl⟩ := DetermineHeatFlux_inv h7
      obtain ⟨_, _, _, _, _, rfl⟩ := DetermineSediment_inv h8
      obtain ⟨_, rfl⟩ := DetermineSedFile_inv h9
      obtain ⟨_, rfl⟩ := DetermineRouting_inv h10
      obtain ⟨_, _, rfl⟩ := DetermineInfiltration_inv h11
      obtain ⟨_, rfl⟩ := DetermineMM5_inv h12
      obtain ⟨_, rfl⟩ := DetermineQPF_inv h13
      obtain ⟨_, rfl⟩ := DeterminePrism_inv h14
      obtain ⟨_, rfl⟩ := DetermineCanopyRadAtt_inv h15
      obtain ⟨_, rfl⟩ := DetermineShading_inv h16
      obtain rfl := CheckMM5Prism_inv h17
      obtain ⟨_, rfl⟩ := DetermineSnotel_inv h18
      obtain ⟨_, rfl⟩ := DetermineStreamTemp_inv h19
      obtain ⟨_, rfl⟩ := DetermineCanopyShading_inv h20
      obtain ⟨_, rfl⟩ := DetermineOutside_inv h21
      obtain ⟨_, _, rfl⟩ := DeterminePrismData_inv h22
      obtain ⟨_, _, _, rfl⟩ := DetermineShadingData_inv h23
      obtain ⟨_, rfl⟩ := DetermineRhoverride_inv h24
      obtain ⟨_, _, _, _, rfl⟩ := DetermineMetOptions_inv h25
      obtain ⟨_, _, rfl⟩ := DetermineArealExtent_inv h26
      obtain ⟨_, _, rfl⟩ := DeterminePoint_inv h27
      obtain ⟨_, rfl⟩ := DetermineModelPeriod_inv h28
      obtain ⟨_, rfl⟩ := DetermineModelConstants_inv h29
      rfl
  case flow_routing =>
    cases hD
    refine ⟨a5, a6, h6, ?_, ?_⟩
    · show a5.Options.Extent ≠ S.POINT
      obtain ⟨_, rfl⟩ := DetermineHasNetwork_inv h6
      obtain ⟨_, rfl⟩ := DetermineHeatFlux_inv h7
      obtain ⟨_, _, _, _, _, rfl⟩ := DetermineSediment_inv h8
      obtain ⟨_, rfl⟩ := DetermineSedFile_inv h9
      obtain ⟨_, rfl⟩ := DetermineRouting_inv h10
      obtain ⟨_, _, rfl⟩ := DetermineInfiltration_inv h11
      obtain ⟨_, rfl⟩ := DetermineMM5_inv h12
      obtain ⟨_, rfl⟩ := DetermineQPF_inv h13
      obtain ⟨_, rfl⟩ := DeterminePrism_inv h14
      obtain ⟨_, rfl⟩ := DetermineCanopyRadAtt_inv h15
      obtain ⟨_, rfl⟩ := DetermineShading_inv h16
      obtain rfl := CheckMM5Prism_inv h17
      obtain ⟨_, rfl⟩ := DetermineSnotel_inv h18
      obtain ⟨_, rfl⟩ := DetermineStreamTemp_inv h19
      obtain ⟨_, rfl⟩ := DetermineCanopyShading_inv h20
      obtain ⟨_, rfl⟩ := DetermineOutside_inv h21
      obtain ⟨_, _, rfl⟩ := DeterminePrismData_inv h22
      obtain ⟨_, _, _, rfl⟩ := DetermineShadingData_inv h23
      obtain ⟨_, rfl⟩ := DetermineRhoverride_inv h24
      obtain ⟨_, _, _, _, rfl⟩ := DetermineMetOptions_inv h25
      obtain ⟨_, _, rfl⟩ := DetermineArealExtent_inv h26
      obtain ⟨_, _, rfl⟩ := DeterminePoint_inv h27
      obtain ⟨_, rfl⟩ := DetermineModelPeriod_inv h28
      obtain ⟨_, rfl⟩ := DetermineModelConstants_inv h29
      exact hc
    · obtain ⟨_, rfl⟩ := DetermineHeatFlux_inv h7
      obtain ⟨_, _, _, _, _, rfl⟩ := DetermineSediment_inv h8
      obtain ⟨_, rfl⟩ := DetermineSedFile_inv h9
      obtain ⟨_, rfl⟩ := DetermineRouting_inv h10
      obtain ⟨_, _, rfl⟩ := DetermineInfiltration_inv h11
      obtain ⟨_, rfl⟩ := DetermineMM5_inv h12
      obtain ⟨_, rfl⟩ := DetermineQPF_inv h13
      obtain ⟨_, rfl⟩ := DeterminePrism_inv h14
      obtain ⟨_, rfl⟩ := DetermineCanopyRadAtt_inv h15
      obtain ⟨_, rfl⟩ := DetermineShading_inv h16
      obtain rfl := CheckMM5Prism_inv h17
      obtain ⟨_, rfl⟩ := DetermineSnotel_inv h18
      obtain ⟨_, rfl⟩ := DetermineStreamTemp_inv h19
      obtain ⟨_, rfl⟩ := DetermineCanopyShading_inv h20
      obtain ⟨_, rfl⟩ := DetermineOutside_inv h21
      obtain ⟨_, _, rfl⟩ := DeterminePrismData_inv h22
      obtain ⟨_, _, _, rfl⟩ := DetermineShadingData_inv h23
      obtain ⟨_, rfl⟩ := DetermineRhoverride_inv h24
      obtain ⟨_, _, _, _, rfl⟩ := DetermineMetOptions_inv h25
      obtain ⟨_, _, rfl⟩ := DetermineArealExtent_inv h26
      obtain ⟨_, _, rfl⟩ := DeterminePoint_inv h27
      obtain ⟨_, rfl⟩ := DetermineModelPeriod_inv h28
      obtain ⟨_, rfl⟩ := DetermineModelConstants_inv h29
      rfl
  case sensible_heat_flux =>
    cases hD
    refine ⟨a6, a7, h7, ?_, ?_⟩
    · trivial
    · obtain ⟨_, _, _, _, _, rfl⟩ := DetermineSediment_inv h8
      obtain ⟨_, rfl⟩ := DetermineSedFile_inv h9
      obtain ⟨_, rfl⟩ := DetermineRouting_inv h10
      obtain ⟨_, _, rfl⟩ := DetermineInfiltration_inv h11
      obtain ⟨_, rfl⟩ := DetermineMM5_inv h12
      obtain ⟨_, rfl⟩ := DetermineQPF_inv h13
      obtain ⟨_, rfl⟩ := DeterminePrism_inv h14
      obtain ⟨_, rfl⟩ := DetermineCanopyRadAtt_inv h15
      obtain ⟨_, rfl⟩ := DetermineShading_inv h16
      obtain rfl := CheckMM5Prism_inv h17
      obtain ⟨_, rfl⟩ := DetermineSnotel_inv h18
      obtain ⟨_, rfl⟩ := DetermineStreamTemp_inv h19
      obtain ⟨_, rfl⟩ := DetermineCanopyShading_inv h20
      obtain ⟨_, rfl⟩ := DetermineOutside_inv h21
      obtain ⟨_, _, rfl⟩ := DeterminePrismData_inv h22
      obtain ⟨_, _, _, rfl⟩ := DetermineShadingData_inv h23
      obtain ⟨_, rfl⟩ := DetermineRhoverride_inv h24
      obtain ⟨_, _, _, _, rfl⟩ := DetermineMetOptions_inv h25
      obtain ⟨_, _, rfl⟩ := DetermineArealExtent_inv h26
      obtain ⟨_, _, rfl⟩ := DeterminePoint_inv h27
      obtain ⟨_, rfl⟩ := DetermineModelPeriod_inv h28
      obtain ⟨_, rfl⟩ := DetermineModelConstants_inv h29
      rfl
  case sediment =>
    cases hD
    refine ⟨a7, a8, h8, ?_, ?_⟩
    · trivial
    · obtain ⟨_, rfl⟩ := DetermineSedFile_inv h9
      obtain ⟨_, rfl⟩ := DetermineRouting_inv h10
      obtain ⟨_, _, rfl⟩ := DetermineInfiltration_inv h11
      obtain ⟨_, rfl⟩ := DetermineMM5_inv h12
      obtain ⟨_, rfl⟩ := DetermineQPF_inv h13
      obtain ⟨_, rfl⟩ := DeterminePrism_inv h14
      obtain ⟨_, rfl⟩ := DetermineCanopyRadAtt_inv h15
      obtain ⟨_, rfl⟩ := DetermineShading_inv h16
      obtain rfl := CheckMM5Prism_inv h17
      obtain ⟨_, rfl⟩ := DetermineSnotel_inv h18
      obtain ⟨_, rfl⟩ := DetermineStreamTemp_inv h19
      obtain ⟨_, rfl⟩ := DetermineCanopyShading_inv h20
      obtain ⟨_, rfl⟩ := DetermineOutside_inv h21
      obtain ⟨_, _, rfl⟩ := DeterminePrismData_inv h22
      obtain ⟨_, _, _, rfl⟩ := DetermineShadingData_inv h23
      obtain ⟨_, rfl⟩ := DetermineRhoverride_inv h24
      obtain ⟨_, _, _, _, rfl⟩ := DetermineMetOptions_inv h25
      obtain ⟨_, _, rfl⟩ := DetermineArealExtent_inv h26
      obtain ⟨_, _, rfl⟩ := DeterminePoint_inv h27
      obtain ⟨_, rfl⟩ := DetermineModelPeriod_inv h28
      obtain ⟨_, rfl⟩ := DetermineModelConstants_inv h29
      rfl
  case routing =>
    cases hD
    refine ⟨a9, a10, h10, ?_, ?_⟩
    · trivial
    · obtain ⟨_, _, rfl⟩ := DetermineInfiltration_inv h11
      obtain ⟨_, rfl⟩ := DetermineMM5_inv h12
      obtain ⟨_, rfl⟩ := DetermineQPF_inv h13
      obtain ⟨_, rfl⟩ := DeterminePrism_inv h14
      obtain ⟨_, rfl⟩ := DetermineCanopyRadAtt_inv h15
      obtain ⟨_, rfl⟩ := DetermineShading_inv h16
      obtain rfl := CheckMM5Prism_inv h17
      obtain ⟨_, rfl⟩ := DetermineSnotel_inv h18
      obtain ⟨_, rfl⟩ := DetermineStreamTemp_inv h19
      obtain ⟨_, rfl⟩ := DetermineCanopyShading_inv h20
      obtain ⟨_, rfl⟩ := DetermineOutside_inv h21
      obtain ⟨_, _, rfl⟩ := DeterminePrismData_inv h22
      obtain ⟨_, _, _, rfl⟩ := DetermineShadingData_inv h23
      obtain ⟨_, rfl⟩ := DetermineRhoverride_inv h24
      obtain ⟨_, _, _, _, rfl⟩ := DetermineMetOptions_inv h25
      obtain ⟨_, _, rfl⟩ := DetermineArealExtent_inv h26
      obtain ⟨_, _, rfl⟩ := DeterminePoint_inv h27
      obtain ⟨_, rfl⟩ := DetermineModelPeriod_inv h28
      obtain ⟨_, rfl⟩ := DetermineModelConstants_inv h29
      rfl
  case infiltration =>
    cases hD
    refine ⟨a10, a11, h11, ?_, ?_⟩
    · trivial
    · obtain ⟨_, rfl⟩ := DetermineMM5_inv h12
      obtain ⟨_, rfl⟩ := DetermineQPF_inv h13
      obtain ⟨_, rfl⟩ := DeterminePrism_inv h14
      obtain ⟨_, rfl⟩ := DetermineCanopyRadAtt_inv h15
      obtain ⟨_, rfl⟩ := DetermineShading_inv h16
      obtain rfl := CheckMM5Prism_inv h17
      obtain ⟨_, rfl⟩ := DetermineSnotel_inv h18
      obtain ⟨_, rfl⟩ := DetermineStreamTemp_inv h19
      obtain ⟨_, rfl⟩ := DetermineCanopyShading_inv h20
      obtain ⟨_, rfl⟩ := DetermineOutside_inv h21
      obtain ⟨_, _, rfl⟩ := DeterminePrismData_inv h22
      obtain ⟨_, _, _, rfl⟩ := DetermineShadingData_inv h23
      obtain ⟨_, rfl⟩ := DetermineRhoverride_inv h24
      obtain ⟨_, _, _, _, rfl⟩ := DetermineMetOptions_inv h25
      obtain ⟨_, _, rfl⟩ := DetermineArealExtent_inv h26
      obtain ⟨_, _, rfl⟩ := DeterminePoint_inv h27
      obtain ⟨_, rfl⟩ := DetermineModelPeriod_inv h28
      obtain ⟨_, rfl⟩ := DetermineModelConstants_inv h29
      rfl
  case mm5 =>
    cases hD
    refine ⟨a11, a12, h12, ?_, ?_⟩
    · trivial
    · obtain ⟨_, rfl⟩ := DetermineQPF_inv h13
      obtain ⟨_, rfl⟩ := DeterminePrism_inv h14
      obtain ⟨_, rfl⟩ := DetermineCanopyRadAtt_inv h15
      obtain ⟨_, rfl⟩ := DetermineShading_inv h16
      obtain rfl := CheckMM5Prism_inv h17
      obtain ⟨_, rfl⟩ := DetermineSnotel_inv h18
      obtain ⟨_, rfl⟩ := DetermineStreamTemp_inv h19
      obtain ⟨_, rfl⟩ := DetermineCanopyShading_inv h20
      obtain ⟨_, rfl⟩ := DetermineOutside_inv h21
      obtain ⟨_, _, rfl⟩ := DeterminePrismData_inv h22
      obtain ⟨_, _, _, rfl⟩ := DetermineShadingData_inv h23
      obtain ⟨_, rfl⟩ := DetermineRhoverride_inv h24
      obtain ⟨_, _, _, _, rfl⟩ := DetermineMetOptions_inv h25
      obtain ⟨_, _, rfl⟩ := DetermineArealExtent_inv h26
      obtain ⟨_, _, rfl⟩ := DeterminePoint_inv h27
      obtain ⟨_, rfl⟩ := DetermineModelPeriod_inv h28
      obtain ⟨_, rfl⟩ := DetermineModelConstants_inv h29
      rfl
  case qpf =>
    cases hD
    refine ⟨a12, a13, h13, ?_, ?_⟩
    · trivial
    · obtain ⟨_, rfl⟩ := DeterminePrism_inv h14
      obtain ⟨_, rfl⟩ := DetermineCanopyRadAtt_inv h15
      obtain ⟨_, rfl⟩ := DetermineShading_inv h16
      obtain rfl := CheckMM5Prism_inv h17
      obtain ⟨_, rfl⟩ := DetermineSnotel_inv h18
      obtain ⟨_, rfl⟩ := DetermineStreamTemp_inv h19
      obtain ⟨_, rfl⟩ := DetermineCanopyShading_inv h20
      obtain ⟨_, rfl⟩ := DetermineOutside_inv h21
      obtain ⟨_, _, rfl⟩ := DeterminePrismData_inv h22
      obtain ⟨_, _, _, rfl⟩ := DetermineShadingData_inv h23
      obtain ⟨_, rfl⟩ := DetermineRhoverride_inv h24
      obtain ⟨_, _, _, _, rfl⟩ := DetermineMetOptions_inv h25
      obtain ⟨_, _, rfl⟩ := DetermineArealExtent_inv h26
      obtain ⟨_, _, rfl⟩ := DeterminePoint_inv h27
      obtain ⟨_, rfl⟩ := DetermineModelPeriod_inv h28
      obtain ⟨_, rfl⟩ := DetermineModelConstants_inv h29
      rfl
  case prism =>
    cases hD
    refine ⟨a13, a14, h14, ?_, ?_⟩
    · trivial
    · obtain ⟨_, rfl⟩ := DetermineCanopyRadAtt_inv h15
      obtain ⟨_, rfl⟩ := DetermineShading_inv h16
      obtain rfl := CheckMM5Prism_inv h17
      obtain ⟨_, rfl⟩ := DetermineSnotel_inv h18
      obtain ⟨_, rfl⟩ := DetermineStreamTemp_inv h19
      obtain ⟨_, rfl⟩ := DetermineCanopyShading_inv h20
      obtain ⟨_, rfl⟩ := DetermineOutside_inv h21
      obtain ⟨_, _, rfl⟩ := DeterminePrismData_inv h22
      obtain ⟨_, _, _, rfl⟩ := DetermineShadingData_inv h23
      obtain ⟨_, rfl⟩ := DetermineRhoverride_inv h24
      obtain ⟨_, _, _, _, rfl⟩ := DetermineMetOptions_inv h25
      obtain ⟨_, _, rfl⟩ := DetermineArealExtent_inv h26
      obtain ⟨_, _, rfl⟩ := DeterminePoint_inv h27
      obtain ⟨_, rfl⟩ := DetermineModelPeriod_inv h28
      obtain ⟨_, rfl⟩ := DetermineModelConstants_inv h29
      rfl
  case canopy_radatt =>
    cases hD
    refine ⟨a14, a15, h15, ?_, ?_⟩
    · trivial
    · obtain ⟨_, rfl⟩ := DetermineShading_inv h16
      obtain rfl := CheckMM5Prism_inv h17
      obtain ⟨_, rfl⟩ := DetermineSnotel_inv h18
      obtain ⟨_, rfl⟩ := DetermineStreamTemp_inv h19
      obtain ⟨_, rfl⟩ := DetermineCanopyShading_inv h20
      obtain ⟨_, rfl⟩ := DetermineOutside_inv h21
      obtain ⟨_, _, rfl⟩ := DeterminePrismData_inv h22
      obtain ⟨_, _, _, rfl⟩ := DetermineShadingData_inv h23
      obtain ⟨_, rfl⟩ := DetermineRhoverride_inv h24
      obtain ⟨_, _, _, _, rfl⟩ := DetermineMetOptions_inv h25
      obtain ⟨_, _, rfl⟩ := DetermineArealExtent_inv h26
      obtain ⟨_, _, rfl⟩ := DeterminePoint_inv h27
      obtain ⟨_, rfl⟩ := DetermineModelPeriod_inv h28
      obtain ⟨_, rfl⟩ := DetermineModelConstants_inv h29
      rfl
  case shading =>
    cases hD
    refine ⟨a15, a16, h16, ?_, ?_⟩
    · trivial
    · obtain rfl := CheckMM5Prism_inv h17
      obtain ⟨_, rfl⟩ := DetermineSnotel_inv h18
      obtain ⟨_, rfl⟩ := DetermineStreamTemp_inv h19
      obtain ⟨_, rfl⟩ := DetermineCanopyShading_inv h20
      obtain ⟨_, rfl⟩ := DetermineOutside_inv h21
      obtain ⟨_, _, rfl⟩ := DeterminePrismData_inv h22
      obtain ⟨_, _, _, rfl⟩ := DetermineShadingData_inv h23
      obtain ⟨_, rfl⟩ := DetermineRhoverride_inv h24
      obtain ⟨_, _, _, _, rfl⟩ := DetermineMetOptions_inv h25
      obtain ⟨_, _, rfl⟩ := DetermineArealExtent_inv h26
      obtain ⟨_, _, rfl⟩ := DeterminePoint_inv h27
      obtain ⟨_, rfl⟩ := DetermineModelPeriod_inv h28
      obtain ⟨_, rfl⟩ := DetermineModelConstants_inv h29
      rfl
  case snotel =>
    cases hD
    refine ⟨a17, a18, h18, ?_, ?_⟩
    · trivial
    · obtain ⟨_, rfl⟩ := DetermineStreamTemp_inv h19
      obtain ⟨_, rfl⟩ := DetermineCanopyShading_inv h20
      obtain ⟨_, rfl⟩ := DetermineOutside_inv h21
      obtain ⟨_, _, rfl⟩ := DeterminePrismData_inv h22
      obtain ⟨_, _, _, rfl⟩ := DetermineShadingData_inv h23
      obtain ⟨_, rfl⟩ := DetermineRhoverride_inv h24
      obtain ⟨_, _, _, _, rfl⟩ := DetermineMetOptions_inv h25
      obtain ⟨_, _, rfl⟩ := DetermineArealExtent_inv h26
      obtain ⟨_, _, rfl⟩ := DeterminePoint_inv h27
      obtain ⟨_, rfl⟩ := DetermineModelPeriod_inv h28
      obtain ⟨_, rfl⟩ := DetermineModelConstants_inv h29
      rfl
  case stream_temp =>
    cases hD
    refine ⟨a18, a19, h19, ?_, ?_⟩
    · trivial
    · obtain ⟨_, rfl⟩ := DetermineCanopyShading_inv h20
      obtain ⟨_, rfl⟩ := DetermineOutside_inv h21
      obtain ⟨_, _, rfl⟩ := DeterminePrismData_inv h22
      obtain ⟨_, _, _, rfl⟩ := DetermineShadingData_inv h23
      obtain ⟨_, rfl⟩ := DetermineRhoverride_inv h24
      obtain ⟨_, _, _, _, rfl⟩ := DetermineMetOptions_inv h25
      obtain ⟨_, _, rfl⟩ := DetermineArealExtent_inv h26
      obtain ⟨_, _, rfl⟩ := DeterminePoint_inv h27
      obtain ⟨_, rfl⟩ := DetermineModelPeriod_inv h28
      obtain ⟨_, rfl⟩ := DetermineModelConstants_inv h29
      rfl
  case canopy_shading =>
    cases hD
    refine ⟨a19, a20, h20, ?_, ?_⟩
    · trivial
    · obtain ⟨_, rfl⟩ := DetermineOutside_inv h21
      obtain ⟨_, _, rfl⟩ := DeterminePrismData_inv h22
      obtain ⟨_, _, _, rfl⟩ := DetermineShadingData_inv h23
      obtain ⟨_, rfl⟩ := DetermineRhoverride_inv h24
      obtain ⟨_, _, _, _, rfl⟩ := DetermineMetOptions_inv h25
      obtain ⟨_, _, rfl⟩ := DetermineArealExtent_inv h26
      obtain ⟨_, _, rfl⟩ := DeterminePoint_inv h27
      obtain ⟨_, rfl⟩ := DetermineModelPeriod_inv h28
      obtain ⟨_, rfl⟩ := DetermineModelConstants_inv h29
      rfl
  case outside =>
    cases hD
    refine ⟨a20, a21, h21, ?_, ?_⟩
    · trivial
    · obtain ⟨_, _, rfl⟩ := DeterminePrismData_inv h22
      obtain ⟨_, _, _, rfl⟩ := DetermineShadingData_inv h23
      obtain ⟨_, rfl⟩ := DetermineRhoverride_inv h24
      obtain ⟨_, _, _, _, rfl⟩ := DetermineMetOptions_inv h25
      obtain ⟨_, _, rfl⟩ := DetermineArealExtent_inv h26
      obtain ⟨_, _, rfl⟩ := DeterminePoint_inv h27
      obtain ⟨_, rfl⟩ := DetermineModelPeriod_inv h28
      obtain ⟨_, rfl⟩ := DetermineModelConstants_inv h29
      rfl
  case rhoverride =>
    cases hD
    refine ⟨a23, a24, h24, ?_, ?_⟩
    · trivial
    · obtain ⟨_, _, _, _, rfl⟩ := DetermineMetOptions_inv h25
      obtain ⟨_, _, rfl⟩ := DetermineArealExtent_inv h26
      obtain ⟨_, _, rfl⟩ := DeterminePoint_inv h27
      obtain ⟨_, rfl⟩ := DetermineModelPeriod_inv h28
      obtain ⟨_, rfl⟩ := DetermineModelConstants_inv h29
      rfl
  case precipitation_source =>
    cases hD
    have hm : a24.Options.MM5 ≠ S.TRUE := by
      obtain ⟨_, _, _, _, rfl⟩ := DetermineMetOptions_inv h25
      obtain ⟨_, _, rfl⟩ := DetermineArealExtent_inv h26
      obtain ⟨_, _, rfl⟩ := DeterminePoint_inv h27
      obtain ⟨_, rfl⟩ := DetermineModelPeriod_inv h28
      obtain ⟨_, rfl⟩ := DetermineModelConstants_inv h29
      exact hc
    unfold DetermineMetOptions at h25
    rw [if_neg hm] at h25
    obtain ⟨b1, g1, h25⟩ := bind_eq_ok h25
    obtain ⟨b2, g2, h25⟩ := bind_eq_ok h25
    obtain ⟨b3, g3, g4⟩ := bind_eq_ok h25
    refine ⟨a24, b1, g1, ?_, ?_⟩
    · show a24.Options.MM5 ≠ S.TRUE
      exact hm
    · obtain ⟨_, rfl⟩ := DetermineWindSource_inv g2
      obtain ⟨_, rfl⟩ := DetermineTempLapse_inv g3
      obtain ⟨_, rfl⟩ := DeterminePrecipLapse_inv g4
      obtain ⟨_, _, rfl⟩ := DetermineArealExtent_inv h26
      obtain ⟨_, _, rfl⟩ := DeterminePoint_inv h27
      obtain ⟨_, rfl⟩ := DetermineModelPeriod_inv h28
      obtain ⟨_, rfl⟩ := DetermineModelConstants_inv h29
      rfl
  case wind_source =>
    cases hD
    have hm : a24.Options.MM5 ≠ S.TRUE := by
      obtain ⟨_, _, _, _, rfl⟩ := DetermineMetOptions_inv h25
      obtain ⟨_, _, rfl⟩ := DetermineArealExtent_inv h26
      obtain ⟨_, _, rfl⟩ := DeterminePoint_inv h27
      obtain ⟨_, rfl⟩ := DetermineModelPeriod_inv h28
      obtain ⟨_, rfl⟩ := DetermineModelConstants_inv h29
      exact hc
    unfold DetermineMetOptions at h25
    rw [if_neg hm] at h25
    obtain ⟨b1, g1, h25⟩ := bind_eq_ok h25
    obtain ⟨b2, g2, h25⟩ := bind_eq_ok h25
    obtain ⟨b3, g3, g4⟩ := bind_eq_ok h25
    refine ⟨b1, b2, g2, ?_, ?_⟩
    · show b1.Options.MM5 ≠ S.TRUE
      obtain ⟨_, rfl⟩ := DeterminePrecipType_inv g1
      exact hm
    · obtain ⟨_, rfl⟩ := DetermineTempLapse_inv g3
      obtain ⟨_, rfl⟩ := DeterminePrecipLapse_inv g4
      obtain ⟨_, _, rfl⟩ := DetermineArealExtent_inv h26
      obtain ⟨_, _, rfl⟩ := DeterminePoint_inv h27
      obtain ⟨_, rfl⟩ := DetermineModelPeriod_inv h28
      obtain ⟨_, rfl⟩ := DetermineModelConstants_inv h29
      rfl
  case temp_lapse =>
    cases hD
    have hm : a24.Options.MM5 ≠ S.TRUE := by
      obtain ⟨_, _, _, _, rfl⟩ := DetermineMetOptions_inv h25
      obtain ⟨_, _, rfl⟩ := DetermineArealExtent_inv h26
      obtain ⟨_, _, rfl⟩ := DeterminePoint_inv h27
      obtain ⟨_, rfl⟩ := DetermineModelPeriod_inv h28
      obtain ⟨_, rfl⟩ := DetermineModelConstants_inv h29
      exact hc
    unfold DetermineMetOptions at h25
    rw [if_neg hm] at h25
    obtain ⟨b1, g1, h25⟩ := bind_eq_ok h25
    obtain ⟨b2, g2, h25⟩ := bind_eq_ok h25
    obtain ⟨b3, g3, g4⟩ := bind_eq_ok h25
    refine ⟨b2, b3, g3, ?_, ?_⟩
    · show b2.Options.MM5 ≠ S.TRUE
      obtain ⟨_, rfl⟩ := DeterminePrecipType_inv g1
      obtain ⟨_, rfl⟩ := DetermineWindSource_inv g2
      exact hm
    · obtain ⟨_, rfl⟩ := DeterminePrecipLapse_inv g4
      obtain ⟨_, _, rfl⟩ := DetermineArealExtent_inv h26
      obtain ⟨_, _, rfl⟩ := DeterminePoint_inv h27
      obtain ⟨_, rfl⟩ := DetermineModelPeriod_inv h28
      obtain ⟨_, rfl⟩ := DetermineModelConstants_inv h29
      rfl
  case precip_lapse =>
    cases hD
    have hm : a24.Options.MM5 ≠ S.TRUE := by
      obtain ⟨_, _, _, _, rfl⟩ := DetermineMetOptions_inv h25
      obtain ⟨_, _, rfl⟩ := DetermineArealExtent_inv h26
      obtain ⟨_, _, rfl⟩ := DeterminePoint_inv h27
      obtain ⟨_, rfl⟩ := DetermineModelPeriod_inv h28
      obtain ⟨_, rfl⟩ := DetermineModelConstants_inv h29
      exact hc
    unfold DetermineMetOptions at h25
    rw [if_neg hm] at h25
    obtain ⟨b1, g1, h25⟩ := bind_eq_ok h25
    obtain ⟨b2, g2, h25⟩ := bind_eq_ok h25
    obtain ⟨b3, g3, g4⟩ := bind_eq_ok h25
    refine ⟨b3, a25, g4, ?_, ?_⟩
    · show b3.Options.MM5 ≠ S.TRUE
      obtain ⟨_, rfl⟩ := DeterminePrecipType_inv g1
      obtain ⟨_, rfl⟩ := DetermineWindSource_inv g2
      obtain ⟨_, rfl⟩ := DetermineTempLapse_inv g3
      exact hm
    · obtain ⟨_, _, rfl⟩ := DetermineArealExtent_inv h26
      obtain ⟨_, _, rfl⟩ := DeterminePoint_inv h27
      obtain ⟨_, rfl⟩ := DetermineModelPeriod_inv h28
      obtain ⟨_, rfl⟩ := DetermineModelConstants_inv h29
      rfl
  all_goals cases hD

/-- Each accepted literal begins with its compared prefix, and no lower-case
spelling of a literal begins with a compared prefix. -/
theorem Vocabulary_literals (k : KEYS) :
    (∀ e ∈ Vocabulary k, Begins e.2.1.toList e.1.toList) ∧
    (∀ e ∈ Vocabulary k, MatchesNoLiteral k (e.1.toList.map Char.toLower)) := by
  cases k <;> exact ⟨by decide, by decide⟩

/-- Two literals of a key whose compared prefixes can begin the same string have
the same value: the compared prefixes of a key exclude each other. -/
theorem Vocabulary_exclusive (S : SETTINGS) (k : KEYS) :
    ∀ a ∈ Vocabulary k, ∀ b ∈ Vocabulary k,
      a.2.1.toList.take b.2.1.toList.length = b.2.1.toList.take a.2.1.toList.length →
      a.2.1 = b.2.1 ∧ a.2.2 S = b.2.2 S := by
  intro a ha b hb h
  cases k <;>
    simp only [Vocabulary, List.mem_cons, List.mem_singleton, List.not_mem_nil,
      or_false] at ha hb <;>
    (casesm* _ ∨ _) <;>
    subst_vars <;>
    first
    | exact ⟨rfl, rfl⟩
    | exact absurd h (by decide)

/-- C3. Decoding is a case-sensitive prefix match.  For every key with a literal
vocabulary, with `D` its decoding block and member: each accepted literal begins
with its compared prefix and no lower-case spelling of a literal begins with a
compared prefix.  After a successful load in whose final state the key is
compared (GRADIENT and FLOW ROUTING outside POINT mode, the four met options
without MM5, the other keys always), the block of the key has run, the resolved
string begins with the compared prefix of a literal whose documented value the
member holds; the member holds the value of every literal with whose compared
prefix the string begins, so of a literal that is the whole string; and where
the values of the literals differ, the member holds the value of a literal
exactly when the string begins with its compared prefix.  A load whose resolved
string begins with no compared prefix fails with `ReportError` on the key and
code 51, or never looks at the key. -/
theorem C3_decoding_is_a_prefix_match (E : COLLABORATORS) (S : SETTINGS) (k : KEYS)
    (hk : Vocabulary k ≠ []) (Input : LISTPTR) (st : State) :
    ∃ D, k.decoder = some D ∧
      (∀ e ∈ Vocabulary k, Begins e.2.1.toList e.1.toList) ∧
      (∀ e ∈ Vocabulary k, MatchesNoLiteral k (e.1.toList.map Char.toLower)) ∧
      (∀ st', InitConstants E S Input st = .ok st' → D.compared S st' →
        (∃ st0 st1, D.block S (VarStr E S Input) st0 = .ok st1 ∧
          D.member st' = D.member st1) ∧
        (∃ e ∈ Vocabulary k, Begins e.2.1.toList (VarStr E S Input k) ∧
          D.member st' = e.2.2 S) ∧
        (∀ e ∈ Vocabulary k, Begins e.2.1.toList (VarStr E S Input k) →
          D.member st' = e.2.2 S) ∧
        (∀ e ∈ Vocabulary k, VarStr E S Input k = e.1.toList → D.member st' = e.2.2 S) ∧
        ((∀ a ∈ Vocabulary k, ∀ b ∈ Vocabulary k, a.2.2 S = b.2.2 S → a.2.1 = b.2.1) →
          ∀ e ∈ Vocabulary k,
            (D.member st' = e.2.2 S ↔ Begins e.2.1.toList (VarStr E S Input k)))) ∧
      (MatchesNoLiteral k (VarStr E S Input k) →
        InitConstants E S Input st = .error (.ReportError (KeyName k) 51) ∨
        ∀ Input', AgreeOutside [k] (VarStr E S Input) (VarStr E S Input') →
          InitConstants E S Input' st = InitConstants E S Input st) := by
  obtain ⟨D, hD, hblock⟩ := decoder_block_spec S k hk
  refine ⟨D, hD, (Vocabulary_literals k).1, (Vocabulary_literals k).2, ?_, ?_⟩
  · intro st' h hc
    obtain ⟨st0, st1, hb, hc0, hm⟩ := Decode_decoded E S k D hD (VarStr E S Input) st st' h hc
    obtain ⟨e, he, hbe, hv⟩ := (hblock (VarStr E S Input) st0 hc0).2.1 st1 hb
    have hall : ∀ e' ∈ Vocabulary k, Begins e'.2.1.toList (VarStr E S Input k) →
        D.member st' = e'.2.2 S := by
      intro e' he' hbe'
      rw [hm, hv]
      exact (Vocabulary_exclusive S k e he e' he' (hbe.agree hbe')).2
    refine ⟨⟨st0, st1, hb, hm⟩, ⟨e, he, hbe, by rw [hm, hv]⟩, hall, ?_, ?_⟩
    · intro e' he' hs
      apply hall e' he'
      rw [hs]
      exact (Vocabulary_literals k).1 e' he'
    · intro hinj e' he'
      constructor
      · intro hv'
        have : e.2.1 = e'.2.1 := hinj e he e' he' (by rw [← hv, ← hm, hv'])
        rw [← this]
        exact hbe
      · exact hall e' he'
  · intro hb
    have h := Decode_unmatched E S k hk (VarStr E S Input) st _ hb
    unfold FailsOrIgnores at h
    simp only [Function.update_eq_self] at h
    rcases h with h | h
    · exact Or.inl h
    · refine Or.inr fun Input' ha => ?_
      unfold InitConstants
      rw [update_VarStr_of_agree ha]
      exact h _

/-- C3, on a concrete configuration: a load with FORMAT resolved to the literal
NETCDF stores the file format NETCDF. -/
theorem C3_decoding_is_a_prefix_match_witness :
    Vocabulary .format ≠ [] ∧
    ((InitConstants sampleCollaborators sampleSettings
      (("OPTIONS", "FORMAT", "NETCDF".toList) :: sampleInput) zeroState).toOption.getD
        zeroState).Options.FileFormat = sampleSettings.NETCDF := by
  refine ⟨List.cons_ne_nil _ _, ?_⟩
  obtain ⟨D, hD, _, _, h, _⟩ :=
    C3_decoding_is_a_prefix_match sampleCollaborators sampleSettings .format
      (List.cons_ne_nil _ _) (("OPTIONS", "FORMAT", "NETCDF".toList) :: sampleInput) zeroState
  cases hD
  exact (h _ (eq_ok_of_isSome (by decide) zeroState) trivial).2.2.2.1
    ("NETCDF", "NET", (·.NETCDF)) (by simp [Vocabulary]) (by decide)

/-! ## Canopy shading without the stream temperature module -/

theorem DetermineCanopyShading_ok {S : SETTINGS} {V : KEYS → List Char} {st st' : State}
    (hS : S.TRUE ≠ S.FALSE) (h : DetermineCanopyShading S V st = .ok st') :
    ¬ (st'.Options.CanopyShading = S.TRUE ∧ st'.Options.StreamTemp = S.FALSE) := by
  unfold DetermineCanopyShading at h
  split_ifs at h with h1 h2 h3
  · cases h
    exact fun hc => h2 hc.2
  · cases h
    exact fun hc => hS hc.1.symm

/-- Over the table of resolved strings: if some value of CANOPY SHADING lets the
pass succeed, then CANOPY SHADING set to TRUE with STREAM TEMPERATURE set to FALSE
ends the pass at lines 316-317. -/
theorem Decode_canopy_shading_exit {E : COLLABORATORS} {S : SETTINGS}
    {V : KEYS → List Char} {st st0 : State} {s : List Char}
    (h : Decode E S (Function.update V .canopy_shading s) st = .ok st0)
    (hcs : Begins "TRUE".toList (V .canopy_shading))
    (hst : Begins "FALSE".toList (V .stream_temp)) :
    Decode E S V st = .error (.Exit CanopyShadingMessage (-1)) := by
  unfold Decode DetermineModelOptions at h ⊢
  simp only [bind_assoc, DetermineFileFormat_update, DetermineExtent_update, DetermineFlowGradient_update,
    DetermineInterpolation_update, DetermineCressman_update, DetermineHasNetwork_update,
    DetermineHeatFlux_update, DetermineSediment_update, DetermineSedFile_update,
    DetermineRouting_update, DetermineInfiltration_update, DetermineMM5_update,
    DetermineQPF_update, DeterminePrism_update, DetermineCanopyRadAtt_update,
    DetermineShading_update, DetermineSnotel_update, DetermineStreamTemp_update,
    DetermineCanopyShading_update, DetermineOutside_update, DeterminePrismData_update,
    DetermineShadingData_update, DetermineRhoverride_update, DetermineMetOptions_update,
    DetermineArealExtent_update, DeterminePoint_update, DetermineModelPeriod_update,
    DetermineModelConstants_update,
    List.mem_cons, List.mem_singleton, List.not_mem_nil, reduceCtorEq, or_self, or_false,
    not_false_eq_true] at h
  simp only [bind_assoc]
  iterate 18 (obtain ⟨a, ha, h⟩ := bind_eq_ok h; rw [ha, bind_ok_eq]; clear ha)
  rw [DetermineStreamTemp_FALSE hst, bind_ok_eq, DetermineCanopyShading_exit hcs rfl]
  rfl

/-- C4. In a configuration that is valid but for CANOPY SHADING (some value of that
key lets the load succeed), CANOPY SHADING decoded to TRUE with STREAM TEMPERATURE
decoded to FALSE ends the load through the message and `exit(-1)` of lines
316-317, not through `ReportError`; and no successful load leaves
`CanopyShading = TRUE` together with `StreamTemp = FALSE`. -/
theorem C4_canopy_shading_needs_stream_temp (E : COLLABORATORS) (S : SETTINGS)
    (hS : S.Distinct) :
    (∀ (Input Input0 : LISTPTR) (st st0 : State),
      AgreeOutside [.canopy_shading] (VarStr E S Input) (VarStr E S Input0) →
      InitConstants E S Input0 st = .ok st0 →
      Begins "TRUE".toList (VarStr E S Input .canopy_shading) →
      Begins "FALSE".toList (VarStr E S Input .stream_temp) →
      InitConstants E S Input st = .error (.Exit CanopyShadingMessage (-1)) ∧
      ∀ key code, InitConstants E S Input st ≠ .error (.ReportError key code)) ∧
    (∀ (Input : LISTPTR) (st st' : State), InitConstants E S Input st = .ok st' →
      ¬ (st'.Options.CanopyShading = S.TRUE ∧ st'.Options.StreamTemp = S.FALSE)) := by
  constructor
  · intro Input Input0 st st0 hagree h0 hcs hst
    unfold InitConstants at h0
    rw [update_VarStr_of_agree hagree] at h0
    have h := Decode_canopy_shading_exit h0 hcs hst
    unfold InitConstants
    rw [h]
    exact ⟨rfl, fun key code hne => by cases hne⟩
  · intro Input st st' h
    unfold InitConstants Decode DetermineModelOptions at h
    simp only [bind_assoc] at h
    obtain ⟨a1, h1, h⟩ := bind_eq_ok h
    obtain ⟨a2, h2, h⟩ := bind_eq_ok h
    obtain ⟨a3, h3, h⟩ := bind_eq_ok h
    obtain ⟨a4, h4, h⟩ := bind_eq_ok h
    obtain ⟨a5, h5, h⟩ := bind_eq_ok h
    obtain ⟨a6, h6, h⟩ := bind_eq_ok h
    obtain ⟨a7, h7, h⟩ := bind_eq_ok h
    obtain ⟨a8, h8, h⟩ := bind_eq_ok h
    obtain ⟨a9, h9, h⟩ := bind_eq_ok h
    obtain ⟨a10, h10, h⟩ := bind_eq_ok h
    obtain ⟨a11, h11, h⟩ := bind_eq_ok h
    obtain ⟨a12, h12, h⟩ := bind_eq_ok h
    obtain ⟨a13, h13, h⟩ := bind_eq_ok h
    obtain ⟨a14, h14, h⟩ := bind_eq_ok h
    obtain ⟨a15, h15, h⟩ := bind_eq_ok h
    obtain ⟨a16, h16, h⟩ := bind_eq_ok h
    obtain ⟨a17, h17, h⟩ := bind_eq_ok h
    obtain ⟨a18, h18, h⟩ := bind_eq_ok h
    obtain ⟨a19, h19, h⟩ := bind_eq_ok h
    obtain ⟨a20, h20, h⟩ := bind_eq_ok h
    obtain ⟨a21, h21, h⟩ := bind_eq_ok h
    obtain ⟨a22, h22, h⟩ := bind_eq_ok h
    obtain ⟨a23, h23, h⟩ := bind_eq_ok h
    obtain ⟨a24, h24, h⟩ := bind_eq_ok h
    obtain ⟨a25, h25, h⟩ := bind_eq_ok h
    obtain ⟨a26, h26, h⟩ := bind_eq_ok h
    obtain ⟨a27, h27, h⟩ := bind_eq_ok h
    obtain ⟨a28, h28, h29⟩ := bind_eq_ok h
    have key := DetermineCanopyShading_ok hS.1 h20
    obtain ⟨_, rfl⟩ := DetermineOutside_inv h21
    obtain ⟨_, _, rfl⟩ := DeterminePrismData_inv h22
    obtain ⟨_, _, _, rfl⟩ := DetermineShadingData_inv h23
    obtain ⟨_, rfl⟩ := DetermineRhoverride_inv h24
    obtain ⟨_, _, _, _, rfl⟩ := DetermineMetOptions_inv h25
    obtain ⟨_, _, rfl⟩ := DetermineArealExtent_inv h26
    obtain ⟨_, _, rfl⟩ := DeterminePoint_inv h27
    obtain ⟨_, rfl⟩ := DetermineModelPeriod_inv h28
    obtain ⟨_, rfl⟩ := DetermineModelConstants_inv h29
    exact key

/-- C4, on a concrete configuration. -/
theorem C4_canopy_shading_needs_stream_temp_witness :
    sampleSettings.Distinct ∧
    InitConstants sampleCollaborators sampleSettings
      (("OPTIONS", "CANOPY SHADING", "TRUE".toList) :: sampleInput) zeroState =
      .error (.Exit CanopyShadingMessage (-1)) :=
  ⟨by decide,
    ((C4_canopy_shading_needs_stream_temp sampleCollaborators sampleSettings (by decide)).1
      (("OPTIONS", "CANOPY SHADING", "TRUE".toList) :: sampleInput) sampleInput
      zeroState _ (by intro k hk; revert hk; cases k <;> decide) (eq_ok_of_isSome (by decide) zeroState)
      (by decide) (by decide)).1⟩

/-! ## The sediment model and its input file -/

theorem DetermineSedFile_skip {S : SETTINGS} (V : KEYS → List Char) {st : State}
    (h : st.Options.Sediment ≠ S.TRUE) : DetermineSedFile S V st = .ok st := by
  unfold DetermineSedFile
  rw [if_neg h]

theorem DetermineSedFile_empty {S : SETTINGS} {V : KEYS → List Char} {st : State}
    (h : st.Options.Sediment = S.TRUE) (he : V .sed_input_file = []) :
    DetermineSedFile S V st = .error (.ReportError (KeyName .sed_input_file) 51) := by
  unfold DetermineSedFile
  rw [if_pos h, he]
  rfl

theorem DetermineSedFile_copy {S : SETTINGS} {V : KEYS → List Char} {st st' : State}
    (h : st.Options.Sediment = S.TRUE) (hok : DetermineSedFile S V st = .ok st') :
    V .sed_input_file ≠ [] ∧ st' = { st with Options.SedFile := V .sed_input_file } := by
  unfold DetermineSedFile at hok
  rw [if_pos h] at hok
  split at hok
  · cases hok
  · rename_i hne
    cases hok
    refine ⟨fun h0 => hne ?_, rfl⟩
    rw [h0]
    rfl

/-- Over the table of resolved strings: with SEDIMENT decoded to FALSE the value
of SEDIMENT INPUT FILE does not matter. -/
theorem Decode_sediment_off {E : COLLABORATORS} {S : SETTINGS} (hS : S.TRUE ≠ S.FALSE)
    {V : KEYS → List Char} (hsed : Begins "FALSE".toList (V .sediment)) (st : State)
    (s : List Char) :
    Decode E S (Function.update V .sed_input_file s) st = Decode E S V st := by
  unfold Decode DetermineModelOptions
  simp only [bind_assoc, DetermineFileFormat_update, DetermineExtent_update, DetermineFlowGradient_update,
    DetermineInterpolation_update, DetermineCressman_update, DetermineHasNetwork_update,
    DetermineHeatFlux_update, DetermineSediment_update, DetermineSedFile_update,
    DetermineRouting_update, DetermineInfiltration_update, DetermineMM5_update,
    DetermineQPF_update, DeterminePrism_update, DetermineCanopyRadAtt_update,
    DetermineShading_update, DetermineSnotel_update, DetermineStreamTemp_update,
    DetermineCanopyShading_update, DetermineOutside_update, DeterminePrismData_update,
    DetermineShadingData_update, DetermineRhoverride_update, DetermineMetOptions_update,
    DetermineArealExtent_update, DeterminePoint_update, DetermineModelPeriod_update,
    DetermineModelConstants_update,
    List.mem_cons, List.mem_singleton, List.not_mem_nil, reduceCtorEq, or_self, or_false,
    not_false_eq_true]
  iterate 7 refine bind_congr_ok fun _ _ => ?_
  rw [DetermineSediment_FALSE hsed, bind_ok_eq, bind_ok_eq,
    DetermineSedFile_skip V (fun h => hS h.symm),
    DetermineSedFile_skip (Function.update V .sed_input_file s) (fun h => hS h.symm)]

/-- C5. When SEDIMENT decodes to FALSE, a successful load leaves `Sediment`,
`MassWaste`, `SurfaceErosion` and `ErosionPeriod` all FALSE, and every input that
differs in SEDIMENT INPUT FILE alone (the empty string included) has the same
outcome, failure or success, with the same state. -/
theorem C5_sediment_off (E : COLLABORATORS) (S : SETTINGS) (hS : S.Distinct)
    (Input : LISTPTR) (st : State)
    (hsed : Begins "FALSE".toList (VarStr E S Input .sediment)) :
    (∀ st', InitConstants E S Input st = .ok st' →
      st'.Options.Sediment = S.FALSE ∧ st'.Options.MassWaste = S.FALSE ∧
      st'.Options.SurfaceErosion = S.FALSE ∧ st'.Options.ErosionPeriod = S.FALSE) ∧
    (∀ Input', AgreeOutside [.sed_input_file] (VarStr E S Input) (VarStr E S Input') →
      InitConstants E S Input' st = InitConstants E S Input st) := by
  constructor
  · intro st' h
    unfold InitConstants Decode DetermineModelOptions at h
    simp only [bind_assoc] at h
    obtain ⟨a1, h1, h⟩ := bind_eq_ok h
    obtain ⟨a2, h2, h⟩ := bind_eq_ok h
    obtain ⟨a3, h3, h⟩ := bind_eq_ok h
    obtain ⟨a4, h4, h⟩ := bind_eq_ok h
    obtain ⟨a5, h5, h⟩ := bind_eq_ok h
    obtain ⟨a6, h6, h⟩ := bind_eq_ok h
    obtain ⟨a7, h7, h⟩ := bind_eq_ok h
    obtain ⟨a8, h8, h⟩ := bind_eq_ok h
    obtain ⟨a9, h9, h⟩ := bind_eq_ok h
    obtain ⟨a10, h10, h⟩ := bind_eq_ok h
    obtain ⟨a11, h11, h⟩ := bind_eq_ok h
    obtain ⟨a12, h12, h⟩ := bind_eq_ok h
    obtain ⟨a13, h13, h⟩ := bind_eq_ok h
    obtain ⟨a14, h14, h⟩ := bind_eq_ok h
    obtain ⟨a15, h15, h⟩ := bind_eq_ok h
    obtain ⟨a16, h16, h⟩ := bind_eq_ok h
    obtain ⟨a17, h17, h⟩ := bind_eq_ok h
    obtain ⟨a18, h18, h⟩ := bind_eq_ok h
    obtain ⟨a19, h19, h⟩ := bind_eq_ok h
    obtain ⟨a20, h20, h⟩ := bind_eq_ok h
    obtain ⟨a21, h21, h⟩ := bind_eq_ok h
    obtain ⟨a22, h22, h⟩ := bind_eq_ok h
    obtain ⟨a23, h23, h⟩ := bind_eq_ok h
    obtain ⟨a24, h24, h⟩ := bind_eq_ok h
    obtain ⟨a25, h25, h⟩ := bind_eq_ok h
    obtain ⟨a26, h26, h⟩ := bind_eq_ok h
    obtain ⟨a27, h27, h⟩ := bind_eq_ok h
    obtain ⟨a28, h28, h29⟩ := bind_eq_ok h
    rw [DetermineSediment_FALSE hsed] at h8
    cases h8
    obtain ⟨_, rfl⟩ := DetermineSedFile_inv h9
    obtain ⟨_, rfl⟩ := DetermineRouting_inv h10
    obtain ⟨_, _, rfl⟩ := DetermineInfiltration_inv h11
    obtain ⟨_, rfl⟩ := DetermineMM5_inv h12
    obtain ⟨_, rfl⟩ := DetermineQPF_inv h13
    obtain ⟨_, rfl⟩ := DeterminePrism_inv h14
    obtain ⟨_, rfl⟩ := DetermineCanopyRadAtt_inv h15
    obtain ⟨_, rfl⟩ := DetermineShading_inv h16
    obtain rfl := CheckMM5Prism_inv h17
    obtain ⟨_, rfl⟩ := DetermineSnotel_inv h18
    obtain ⟨_, rfl⟩ := DetermineStreamTemp_inv h19
    obtain ⟨_, rfl⟩ := DetermineCanopyShading_inv h20
    obtain ⟨_, rfl⟩ := DetermineOutside_inv h21
    obtain ⟨_, _, rfl⟩ := DeterminePrismData_inv h22
    obtain ⟨_, _, _, rfl⟩ := DetermineShadingData_inv h23
    obtain ⟨_, rfl⟩ := DetermineRhoverride_inv h24
    obtain ⟨_, _, _, _, rfl⟩ := DetermineMetOptions_inv h25
    obtain ⟨_, _, rfl⟩ := DetermineArealExtent_inv h26
    obtain ⟨_, _, rfl⟩ := DeterminePoint_inv h27
    obtain ⟨_, rfl⟩ := DetermineModelPeriod_inv h28
    obtain ⟨_, rfl⟩ := DetermineModelConstants_inv h29
    exact ⟨rfl, rfl, rfl, rfl⟩
  · intro Input' hagree
    unfold InitConstants
    rw [update_VarStr_of_agree hagree]
    exact Decode_sediment_off hS.1 hsed st _

/-- C5, on a concrete configuration. -/
theorem C5_sediment_off_witness :
    sampleSettings.Distinct ∧
    Begins "FALSE".toList (VarStr sampleCollaborators sampleSettings sampleInput .sediment) ∧
    InitConstants sampleCollaborators sampleSettings
      (("OPTIONS", "SEDIMENT INPUT FILE", "sed.txt".toList) :: sampleInput) zeroState =
      InitConstants sampleCollaborators sampleSettings sampleInput zeroState :=
  ⟨by decide, by decide,
    (C5_sediment_off sampleCollaborators sampleSettings (by decide) sampleInput zeroState
      (by decide)).2 _ (by intro k hk; revert hk; cases k <;> decide)⟩

/-- Over the table of resolved strings: if some value of SEDIMENT INPUT FILE lets
the pass succeed, then with SEDIMENT decoded to TRUE the empty string fails on
that key. -/
theorem Decode_sediment_file_empty {E : COLLABORATORS} {S : SETTINGS}
    {V : KEYS → List Char} {st st0 : State} {s : List Char}
    (h : Decode E S (Function.update V .sed_input_file s) st = .ok st0)
    (hsed : Begins "TRUE".toList (V .sediment)) (he : V .sed_input_file = []) :
    Decode E S V st = .error (.ReportError "SEDIMENT INPUT FILE" 51) := by
  unfold Decode DetermineModelOptions at h ⊢
  simp only [bind_assoc, DetermineFileFormat_update, DetermineExtent_update, DetermineFlowGradient_update,
    DetermineInterpolation_update, DetermineCressman_update, DetermineHasNetwork_update,
    DetermineHeatFlux_update, DetermineSediment_update, DetermineSedFile_update,
    DetermineRouting_update, DetermineInfiltration_update, DetermineMM5_update,
    DetermineQPF_update, DeterminePrism_update, DetermineCanopyRadAtt_update,
    DetermineShading_update, DetermineSnotel_update, DetermineStreamTemp_update,
    DetermineCanopyShading_update, DetermineOutside_update, DeterminePrismData_update,
    DetermineShadingData_update, DetermineRhoverride_update, DetermineMetOptions_update,
    DetermineArealExtent_update, DeterminePoint_update, DetermineModelPeriod_update,
    DetermineModelConstants_update,
    List.mem_cons, List.mem_singleton, List.not_mem_nil, reduceCtorEq, or_self, or_false,
    not_false_eq_true] at h
  simp only [bind_assoc]
  iterate 7 (obtain ⟨a, ha, h⟩ := bind_eq_ok h; rw [ha, bind_ok_eq]; clear ha)
  rw [DetermineSediment_TRUE hsed, bind_ok_eq, DetermineSedFile_empty rfl he]
  rfl

/-- C6. In a configuration that is valid but for SEDIMENT INPUT FILE (some value
of that key lets the load succeed), SEDIMENT decoded to TRUE with an empty
SEDIMENT INPUT FILE makes the load fail with `ReportError` on the key SEDIMENT
INPUT FILE and code 51; and a successful load with SEDIMENT decoded to TRUE has a
non-empty SEDIMENT INPUT FILE, copied verbatim into `SedFile`. -/
theorem C6_sediment_needs_input_file (E : COLLABORATORS) (S : SETTINGS) :
    (∀ (Input Input0 : LISTPTR) (st st0 : State),
      AgreeOutside [.sed_input_file] (VarStr E S Input) (VarStr E S Input0) →
      InitConstants E S Input0 st = .ok st0 →
      Begins "TRUE".toList (VarStr E S Input .sediment) →
      VarStr E S Input .sed_input_file = [] →
      InitConstants E S Input st = .error (.ReportError "SEDIMENT INPUT FILE" 51)) ∧
    (∀ (Input : LISTPTR) (st st' : State),
      Begins "TRUE".toList (VarStr E S Input .sediment) →
      InitConstants E S Input st = .ok st' →
      VarStr E S Input .sed_input_file ≠ [] ∧
      st'.Options.SedFile = VarStr E S Input .sed_input_file) := by
  constructor
  · intro Input Input0 st st0 hagree h0 hsed he
    unfold InitConstants at h0
    rw [update_VarStr_of_agree hagree] at h0
    exact Decode_sediment_file_empty h0 hsed he
  · intro Input st st' hsed h
    unfold InitConstants Decode DetermineModelOptions at h
    simp only [bind_assoc] at h
    obtain ⟨a1, h1, h⟩ := bind_eq_ok h
    obtain ⟨a2, h2, h⟩ := bind_eq_ok h
    obtain ⟨a3, h3, h⟩ := bind_eq_ok h
    obtain ⟨a4, h4, h⟩ := bind_eq_ok h
    obtain ⟨a5, h5, h⟩ := bind_eq_ok h
    obtain ⟨a6, h6, h⟩ := bind_eq_ok h
    obtain ⟨a7, h7, h⟩ := bind_eq_ok h
    obtain ⟨a8, h8, h⟩ := bind_eq_ok h
    obtain ⟨a9, h9, h⟩ := bind_eq_ok h
    obtain ⟨a10, h10, h⟩ := bind_eq_ok h
    obtain ⟨a11, h11, h⟩ := bind_eq_ok h
    obtain ⟨a12, h12, h⟩ := bind_eq_ok h
    obtain ⟨a13, h13, h⟩ := bind_eq_ok h
    obtain ⟨a14, h14, h⟩ := bind_eq_ok h
    obtain ⟨a15, h15, h⟩ := bind_eq_ok h
    obtain ⟨a16, h16, h⟩ := bind_eq_ok h
    obtain ⟨a17, h17, h⟩ := bind_eq_ok h
    obtain ⟨a18, h18, h⟩ := bind_eq_ok h
    obtain ⟨a19, h19, h⟩ := bind_eq_ok h
    obtain ⟨a20, h20, h⟩ := bind_eq_ok h
    obtain ⟨a21, h21, h⟩ := bind_eq_ok h
    obtain ⟨a22, h22, h⟩ := bind_eq_ok h
    obtain ⟨a23, h23, h⟩ := bind_eq_ok h
    obtain ⟨a24, h24, h⟩ := bind_eq_ok h
    obtain ⟨a25, h25, h⟩ := bind_eq_ok h
    obtain ⟨a26, h26, h⟩ := bind_eq_ok h
    obtain ⟨a27, h27, h⟩ := bind_eq_ok h
    obtain ⟨a28, h28, h29⟩ := bind_eq_ok h
    rw [DetermineSediment_TRUE hsed] at h8
    cases h8
    obtain ⟨hne, rfl⟩ := DetermineSedFile_copy rfl h9
    obtain ⟨_, rfl⟩ := DetermineRouting_inv h10
    obtain ⟨_, _, rfl⟩ := DetermineInfiltration_inv h11
    obtain ⟨_, rfl⟩ := DetermineMM5_inv h12
    obtain ⟨_, rfl⟩ := DetermineQPF_inv h13
    obtain ⟨_, rfl⟩ := DeterminePrism_inv h14
    obtain ⟨_, rfl⟩ := DetermineCanopyRadAtt_inv h15
    obtain ⟨_, rfl⟩ := DetermineShading_inv h16
    obtain rfl := CheckMM5Prism_inv h17
    obtain ⟨_, rfl⟩ := DetermineSnotel_inv h18
    obtain ⟨_, rfl⟩ := DetermineStreamTemp_inv h19
    obtain ⟨_, rfl⟩ := DetermineCanopyShading_inv h20
    obtain ⟨_, rfl⟩ := DetermineOutside_inv h21
    obtain ⟨_, _, rfl⟩ := DeterminePrismData_inv h22
    obtain ⟨_, _, _, rfl⟩ := DetermineShadingData_inv h23
    obtain ⟨_, rfl⟩ := DetermineRhoverride_inv h24
    obtain ⟨_, _, _, _, rfl⟩ := DetermineMetOptions_inv h25
    obtain ⟨_, _, rfl⟩ := DetermineArealExtent_inv h26
    obtain ⟨_, _, rfl⟩ := DeterminePoint_inv h27
    obtain ⟨_, rfl⟩ := DetermineModelPeriod_inv h28
    obtain ⟨_, rfl⟩ := DetermineModelConstants_inv h29
    exact ⟨hne, rfl⟩

/-- C6, on a concrete configuration: SEDIMENT set to TRUE without an input file. -/
theorem C6_sediment_needs_input_file_witness :
    InitConstants sampleCollaborators sampleSettings
      (("OPTIONS", "SEDIMENT", "TRUE".toList) :: sampleInput) zeroState =
      .error (.ReportError "SEDIMENT INPUT FILE" 51) :=
  (C6_sediment_needs_input_file sampleCollaborators sampleSettings).1
    (("OPTIONS", "SEDIMENT", "TRUE".toList) :: sampleInput)
    (("OPTIONS", "SEDIMENT", "TRUE".toList) ::
      ("OPTIONS", "SEDIMENT INPUT FILE", "sed.txt".toList) :: sampleInput)
    zeroState _ (by intro k hk; revert hk; cases k <;> decide)
    (eq_ok_of_isSome (by decide) zeroState) (by decide) (by decide)

/-! ## The met options under MM5 -/

theorem DetermineMetOptions_MM5 {S : SETTINGS} (V : KEYS → List Char) {st : State}
    (h : st.Options.MM5 = S.TRUE) :
    DetermineMetOptions S V st = .ok (ForceMetOptions S st) := by
  unfold DetermineMetOptions
  rw [if_pos h]

theorem ForceMetOptions_members (S : SETTINGS) (st : State) :
    (ForceMetOptions S st).Options.MM5 = st.Options.MM5 ∧
    (ForceMetOptions S st).Options.QPF = st.Options.QPF ∧
    (ForceMetOptions S st).Options.Prism = st.Options.Prism ∧
    (ForceMetOptions S st).Options.WindSource = S.NOT_APPLICABLE ∧
    (ForceMetOptions S st).Options.TempLapse = S.NOT_APPLICABLE ∧
    (ForceMetOptions S st).Options.PrecipType =
      (if st.Options.QPF = S.TRUE then S.STATION else S.NOT_APPLICABLE) ∧
    (ForceMetOptions S st).Options.PrecipLapse =
      (if st.Options.QPF = S.TRUE ∧ st.Options.Prism = S.FALSE then S.CONSTANT
       else S.NOT_APPLICABLE) := by
  unfold ForceMetOptions
  dsimp only
  by_cases hq : st.Options.QPF = S.TRUE
  · by_cases hp : st.Options.Prism = S.FALSE
    · simp only [hq, hp, if_true, and_self]
    · simp only [hq, hp, if_true, and_false, if_false, and_self]
  · simp only [hq, if_false, false_and, and_self]

/-- What a successful met-options block leaves behind when it starts with MM5
TRUE. -/
theorem DetermineMetOptions_forced_of {S : SETTINGS} {V : KEYS → List Char} {st st' : State}
    (h : DetermineMetOptions S V st = .ok st') (hm : st.Options.MM5 = S.TRUE) :
    st'.Options.MM5 = S.TRUE ∧
    st'.Options.QPF = st.Options.QPF ∧
    st'.Options.Prism = st.Options.Prism ∧
    st'.Options.WindSource = S.NOT_APPLICABLE ∧
    st'.Options.TempLapse = S.NOT_APPLICABLE ∧
    st'.Options.PrecipType =
      (if st'.Options.QPF = S.TRUE then S.STATION else S.NOT_APPLICABLE) ∧
    st'.Options.PrecipLapse =
      (if st'.Options.QPF = S.TRUE ∧ st'.Options.Prism = S.FALSE then S.CONSTANT
       else S.NOT_APPLICABLE) := by
  rw [DetermineMetOptions_MM5 V hm] at h
  cases h
  obtain ⟨h1, h2, h3, h4, h5, h6, h7⟩ := ForceMetOptions_members S st
  rw [h2, h3]
  exact ⟨h1.trans hm, rfl, rfl, h4, h5, h6, h7⟩

/-- What a successful met-options block leaves behind when MM5 is TRUE. -/
theorem DetermineMetOptions_forced {S : SETTINGS} {V : KEYS → List Char} {st st' : State}
    (h : DetermineMetOptions S V st = .ok st') (hm : st'.Options.MM5 = S.TRUE) :
    st'.Options.WindSource = S.NOT_APPLICABLE ∧
    st'.Options.TempLapse = S.NOT_APPLICABLE ∧
    st'.Options.PrecipType =
      (if st'.Options.QPF = S.TRUE then S.STATION else S.NOT_APPLICABLE) ∧
    st'.Options.PrecipLapse =
      (if st'.Options.QPF = S.TRUE ∧ st'.Options.Prism = S.FALSE then S.CONSTANT
       else S.NOT_APPLICABLE) := by
  have hm0 : st.Options.MM5 = S.TRUE := by
    obtain ⟨_, _, _, _, rfl⟩ := DetermineMetOptions_inv h
    exact hm
  exact (DetermineMetOptions_forced_of h hm0).2.2.2

theorem update2_VarStr_of_agree {k1 k2 : KEYS} {V W : KEYS → List Char}
    (h : AgreeOutside [k1, k2] V W) :
    W = Function.update (Function.update V k1 (W k1)) k2 (W k2) := by
  funext j
  by_cases hj2 : j = k2
  · subst hj2
    rw [Function.update_same]
  · rw [Function.update_noteq hj2]
    by_cases hj1 : j = k1
    · subst hj1
      rw [Function.update_same]
    · rw [Function.update_noteq hj1]
      exact (h j (by simp [hj1, hj2])).symm

/-- Over the table of resolved strings: with MM5 decoded to TRUE the values of
the OPTIONS keys PRECIPITATION SOURCE and PRECIPITATION LAPSE RATE do not matter. -/
theorem Decode_mm5_ignores_precip {E : COLLABORATORS} {S : SETTINGS}
    {V : KEYS → List Char} (hmm5 : Begins "TRUE".toList (V .mm5)) (st : State)
    (s1 s2 : List Char) :
    Decode E S (Function.update (Function.update V .precipitation_source s1)
      .precip_lapse s2) st = Decode E S V st := by
  unfold Decode DetermineModelOptions
  simp only [bind_assoc, DetermineFileFormat_update, DetermineExtent_update, DetermineFlowGradient_update,
    DetermineInterpolation_update, DetermineCressman_update, DetermineHasNetwork_update,
    DetermineHeatFlux_update, DetermineSediment_update, DetermineSedFile_update,
    DetermineRouting_update, DetermineInfiltration_update, DetermineMM5_update,
    DetermineQPF_update, DeterminePrism_update, DetermineCanopyRadAtt_update,
    DetermineShading_update, DetermineSnotel_update, DetermineStreamTemp_update,
    DetermineCanopyShading_update, DetermineOutside_update, DeterminePrismData_update,
    DetermineShadingData_update, DetermineRhoverride_update, DetermineMetOptions_update,
    DetermineArealExtent_update, DeterminePoint_update, DetermineModelPeriod_update,
    DetermineModelConstants_update,
    List.mem_cons, List.mem_singleton, List.not_mem_nil, reduceCtorEq, or_self, or_false,
    not_false_eq_true]
  iterate 11 refine bind_congr_ok fun _ _ => ?_
  refine bind_congr_ok fun a12 h12 => ?_
  have hm : a12.Options.MM5 = S.TRUE := by
    rw [DetermineMM5_TRUE hmm5] at h12
    cases h12
    rfl
  refine bind_congr_ok fun a13 h13 => ?_
  replace hm : a13.Options.MM5 = S.TRUE := by
    obtain ⟨_, rfl⟩ := DetermineQPF_inv h13
    exact hm
  refine bind_congr_ok fun a14 h14 => ?_
  replace hm : a14.Options.MM5 = S.TRUE := by
    obtain ⟨_, rfl⟩ := DeterminePrism_inv h14
    exact hm
  refine bind_congr_ok fun a15 h15 => ?_
  replace hm : a15.Options.MM5 = S.TRUE := by
    obtain ⟨_, rfl⟩ := DetermineCanopyRadAtt_inv h15
    exact hm
  refine bind_congr_ok fun a16 h16 => ?_
  replace hm : a16.Options.MM5 = S.TRUE := by
    obtain ⟨_, rfl⟩ := DetermineShading_inv h16
    exact hm
  refine bind_congr_ok fun a17 h17 => ?_
  replace hm : a17.Options.MM5 = S.TRUE := by
    obtain rfl := CheckMM5Prism_inv h17
    exact hm
  refine bind_congr_ok fun a18 h18 => ?_
  replace hm : a18.Options.MM5 = S.TRUE := by
    obtain ⟨_, rfl⟩ := DetermineSnotel_inv h18
    exact hm
  refine bind_congr_ok fun a19 h19 => ?_
  replace hm : a19.Options.MM5 = S.TRUE := by
    obtain ⟨_, rfl⟩ := DetermineStreamTemp_inv h19
    exact hm
  refine bind_congr_ok fun a20 h20 => ?_
  replace hm : a20.Options.MM5 = S.TRUE := by
    obtain ⟨_, rfl⟩ := DetermineCanopyShading_inv h20
    exact hm
  refine bind_congr_ok fun a21 h21 => ?_
  replace hm : a21.Options.MM5 = S.TRUE := by
    obtain ⟨_, rfl⟩ := DetermineOutside_inv h21
    exact hm
  refine bind_congr_ok fun a22 h22 => ?_
  replace hm : a22.Options.MM5 = S.TRUE := by
    obtain ⟨_, _, rfl⟩ := DeterminePrismData_inv h22
    exact hm
  refine bind_congr_ok fun a23 h23 => ?_
  replace hm : a23.Options.MM5 = S.TRUE := by
    obtain ⟨_, _, _, rfl⟩ := DetermineShadingData_inv h23
    exact hm
  refine bind_congr_ok fun a24 h24 => ?_
  replace hm : a24.Options.MM5 = S.TRUE := by
    obtain ⟨_, rfl⟩ := DetermineRhoverride_inv h24
    exact hm
  rw [DetermineMetOptions_MM5 V hm, DetermineMetOptions_MM5 _ hm]

/-- C7. When MM5 and QPF decode to TRUE and PRISM decodes to FALSE, a successful
load has `PrecipType = STATION` and `PrecipLapse = CONSTANT`, and every input that
differs in the OPTIONS keys PRECIPITATION SOURCE and PRECIPITATION LAPSE RATE
alone has the same outcome, failure or success, with the same state. -/
theorem C7_mm5_qpf_forces_station_constant (E : COLLABORATORS) (S : SETTINGS)
    (Input : LISTPTR) (st : State)
    (hmm5 : Begins "TRUE".toList (VarStr E S Input .mm5))
    (hqpf : Begins "TRUE".toList (VarStr E S Input .qpf))
    (hprism : Begins "FALSE".toList (VarStr E S Input .prism)) :
    (∀ st', InitConstants E S Input st = .ok st' →
      st'.Options.PrecipType = S.STATION ∧ st'.Options.PrecipLapse = S.CONSTANT) ∧
    (∀ Input', AgreeOutside [.precipitation_source, .precip_lapse]
        (VarStr E S Input) (VarStr E S Input') →
      InitConstants E S Input' st = InitConstants E S Input st) := by
  constructor
  · intro st' h
    unfold InitConstants Decode DetermineModelOptions at h
    simp only [bind_assoc] at h
    obtain ⟨a1, h1, h⟩ := bind_eq_ok h
    obtain ⟨a2, h2, h⟩ := bind_eq_ok h
    obtain ⟨a3, h3, h⟩ := bind_eq_ok h
    obtain ⟨a4, h4, h⟩ := bind_eq_ok h
    obtain ⟨a5, h5, h⟩ := bind_eq_ok h
    obtain ⟨a6, h6, h⟩ := bind_eq_ok h
    obtain ⟨a7, h7, h⟩ := bind_eq_ok h
    obtain ⟨a8, h8, h⟩ := bind_eq_ok h
    obtain ⟨a9, h9, h⟩ := bind_eq_ok h
    obtain ⟨a10, h10, h⟩ := bind_eq_ok h
    obtain ⟨a11, h11, h⟩ := bind_eq_ok h
    obtain ⟨a12, h12, h⟩ := bind_eq_ok h
    obtain ⟨a13, h13, h⟩ := bind_eq_ok h
    obtain ⟨a14, h14, h⟩ := bind_eq_ok h
    obtain ⟨a15, h15, h⟩ := bind_eq_ok h
    obtain ⟨a16, h16, h⟩ := bind_eq_ok h
    obtain ⟨a17, h17, h⟩ := bind_eq_ok h
    obtain ⟨a18, h18, h⟩ := bind_eq_ok h
    obtain ⟨a19, h19, h⟩ := bind_eq_ok h
    obtain ⟨a20, h20, h⟩ := bind_eq_ok h
    obtain ⟨a21, h21, h⟩ := bind_eq_ok h
    obtain ⟨a22, h22, h⟩ := bind_eq_ok h
    obtain ⟨a23, h23, h⟩ := bind_eq_ok h
    obtain ⟨a24, h24, h⟩ := bind_eq_ok h
    obtain ⟨a25, h25, h⟩ := bind_eq_ok h
    obtain ⟨a26, h26, h⟩ := bind_eq_ok h
    obtain ⟨a27, h27, h⟩ := bind_eq_ok h
    obtain ⟨a28, h28, h29⟩ := bind_eq_ok h
    rw [DetermineMM5_TRUE hmm5] at h12
    cases h12
    rw [DetermineQPF_TRUE hqpf] at h13
    cases h13
    rw [DeterminePrism_FALSE hprism] at h14
    cases h14
    obtain ⟨_, rfl⟩ := DetermineCanopyRadAtt_inv h15
    obtain ⟨_, rfl⟩ := DetermineShading_inv h16
    obtain rfl := CheckMM5Prism_inv h17
    obtain ⟨_, rfl⟩ := DetermineSnotel_inv h18
    obtain ⟨_, rfl⟩ := DetermineStreamTemp_inv h19
    obtain ⟨_, rfl⟩ := DetermineCanopyShading_inv h20
    obtain ⟨_, rfl⟩ := DetermineOutside_inv h21
    obtain ⟨_, _, rfl⟩ := DeterminePrismData_inv h22
    obtain ⟨_, _, _, rfl⟩ := DetermineShadingData_inv h23
    obtain ⟨_, rfl⟩ := DetermineRhoverride_inv h24
    obtain ⟨_, hq, hp, _, _, h3, h4⟩ := DetermineMetOptions_forced_of h25 rfl
    have hq' : a25.Options.QPF = S.TRUE := hq
    have hp' : a25.Options.Prism = S.FALSE := hp
    rw [if_pos hq'] at h3
    rw [if_pos ⟨hq', hp'⟩] at h4
    obtain ⟨_, _, rfl⟩ := DetermineArealExtent_inv h26
    obtain ⟨_, _, rfl⟩ := DeterminePoint_inv h27
    obtain ⟨_, rfl⟩ := DetermineModelPeriod_inv h28
    obtain ⟨_, rfl⟩ := DetermineModelConstants_inv h29
    exact ⟨h3, h4⟩
  · intro Input' hagree
    unfold InitConstants
    rw [update2_VarStr_of_agree hagree]
    exact Decode_mm5_ignores_precip hmm5 st _ _

/-- C7, on a concrete configuration: an unknown PRECIPITATION SOURCE under MM5. -/
theorem C7_mm5_qpf_forces_station_constant_witness :
    InitConstants sampleCollaborators sampleSettings
      (("OPTIONS", "PRECIPITATION SOURCE", "none".toList) :: sampleMM5Input) zeroState =
    InitConstants sampleCollaborators sampleSettings sampleMM5Input zeroState :=
  (C7_mm5_qpf_forces_station_constant sampleCollaborators sampleSettings sampleMM5Input
    zeroState (by decide) (by decide) (by decide)).2 _
    (by intro k hk; revert hk; cases k <;> decide)

/-- C8. After every successful load with `MM5 = TRUE`: `WindSource` and `TempLapse`
are NOT_APPLICABLE; `PrecipType` is STATION if `QPF = TRUE` and NOT_APPLICABLE
otherwise; `PrecipLapse` is CONSTANT if `QPF = TRUE` and `Prism = FALSE`, and
NOT_APPLICABLE otherwise. -/
theorem C8_mm5_met_options (E : COLLABORATORS) (S : SETTINGS) (Input : LISTPTR)
    (st st' : State) (h : InitConstants E S Input st = .ok st')
    (hm : st'.Options.MM5 = S.TRUE) :
    st'.Options.WindSource = S.NOT_APPLICABLE ∧
    st'.Options.TempLapse = S.NOT_APPLICABLE ∧
    st'.Options.PrecipType =
      (if st'.Options.QPF = S.TRUE then S.STATION else S.NOT_APPLICABLE) ∧
    st'.Options.PrecipLapse =
      (if st'.Options.QPF = S.TRUE ∧ st'.Options.Prism = S.FALSE then S.CONSTANT
       else S.NOT_APPLICABLE) := by
  unfold InitConstants Decode DetermineModelOptions at h
  simp only [bind_assoc] at h
  obtain ⟨a1, h1, h⟩ := bind_eq_ok h
  obtain ⟨a2, h2, h⟩ := bind_eq_ok h
  obtain ⟨a3, h3, h⟩ := bind_eq_ok h
  obtain ⟨a4, h4, h⟩ := bind_eq_ok h
  obtain ⟨a5, h5, h⟩ := bind_eq_ok h
  obtain ⟨a6, h6, h⟩ := bind_eq_ok h
  obtain ⟨a7, h7, h⟩ := bind_eq_ok h
  obtain ⟨a8, h8, h⟩ := bind_eq_ok h
  obtain ⟨a9, h9, h⟩ := bind_eq_ok h
  obtain ⟨a10, h10, h⟩ := bind_eq_ok h
  obtain ⟨a11, h11, h⟩ := bind_eq_ok h
  obtain ⟨a12, h12, h⟩ := bind_eq_ok h
  obtain ⟨a13, h13, h⟩ := bind_eq_ok h
  obtain ⟨a14, h14, h⟩ := bind_eq_ok h
  obtain ⟨a15, h15, h⟩ := bind_eq_ok h
  obtain ⟨a16, h16, h⟩ := bind_eq_ok h
  obtain ⟨a17, h17, h⟩ := bind_eq_ok h
  obtain ⟨a18, h18, h⟩ := bind_eq_ok h
  obtain ⟨a19, h19, h⟩ := bind_eq_ok h
  obtain ⟨a20, h20, h⟩ := bind_eq_ok h
  obtain ⟨a21, h21, h⟩ := bind_eq_ok h
  obtain ⟨a22, h22, h⟩ := bind_eq_ok h
  obtain ⟨a23, h23, h⟩ := bind_eq_ok h
  obtain ⟨a24, h24, h⟩ := bind_eq_ok h
  obtain ⟨a25, h25, h⟩ := bind_eq_ok h
  obtain ⟨a26, h26, h⟩ := bind_eq_ok h
  obtain ⟨a27, h27, h⟩ := bind_eq_ok h
  obtain ⟨a28, h28, h29⟩ := bind_eq_ok h
  obtain ⟨_, rfl⟩ := DetermineModelConstants_inv h29
  obtain ⟨_, rfl⟩ := DetermineModelPeriod_inv h28
  obtain ⟨_, _, rfl⟩ := DeterminePoint_inv h27
  obtain ⟨_, _, rfl⟩ := DetermineArealExtent_inv h26
  have key := DetermineMetOptions_forced h25 hm
  exact key

/-- C8, on a concrete configuration with MM5 and QPF. -/
theorem C8_mm5_met_options_witness :
    ((InitConstants sampleCollaborators sampleSettings sampleMM5Input
      zeroState).toOption.getD zeroState).Options.PrecipType = sampleSettings.STATION :=
  (C8_mm5_met_options sampleCollaborators sampleSettings sampleMM5Input zeroState _
    (eq_ok_of_isSome (by decide) zeroState) (by decide)).2.2.1.trans (by decide)

/-! ## Flow gradient and flow routing in POINT and BASIN mode -/

theorem bind_congr_heads {α β : Type} {x y : Except Failure α}
    {f g : α → Except Failure β} (hxy : x = y) (h : ∀ a, y = .ok a → f a = g a) :
    (x >>= f) = (y >>= g) := by
  subst hxy
  exact bind_congr_ok h

theorem DetermineExtent_POINT_member {S : SETTINGS} {V : KEYS → List Char} {st st' : State}
    (hext : Begins "POINT".toList (V .extent)) (h : DetermineExtent S V st = .ok st') :
    st'.Options.Extent = S.POINT := by
  rw [DetermineExtent_POINT hext] at h
  cases h
  rfl

theorem DetermineExtent_BASIN_member {S : SETTINGS} {V : KEYS → List Char} {st st' : State}
    (hS : S.POINT ≠ S.BASIN)
    (hext : Begins "BASIN".toList (V .extent)) (h : DetermineExtent S V st = .ok st') :
    st'.Options.Extent ≠ S.POINT := by
  rw [DetermineExtent_BASIN hext] at h
  cases h
  exact fun h => hS h.symm

/-- Over the table of resolved strings: in POINT mode the values of GRADIENT and
FLOW ROUTING do not matter. -/
theorem Decode_point_ignores_flow {E : COLLABORATORS} {S : SETTINGS}
    {V : KEYS → List Char} (hext : Begins "POINT".toList (V .extent)) (st : State)
    (s1 s2 : List Char) :
    Decode E S (Function.update (Function.update V .gradient s1) .flow_routing s2) st =
      Decode E S V st := by
  unfold Decode DetermineModelOptions
  simp only [bind_assoc, DetermineFileFormat_update, DetermineExtent_update, DetermineFlowGradient_update,
    DetermineInterpolation_update, DetermineCressman_update, DetermineHasNetwork_update,
    DetermineHeatFlux_update, DetermineSediment_update, DetermineSedFile_update,
    DetermineRouting_update, DetermineInfiltration_update, DetermineMM5_update,
    DetermineQPF_update, DeterminePrism_update, DetermineCanopyRadAtt_update,
    DetermineShading_update, DetermineSnotel_update, DetermineStreamTemp_update,
    DetermineCanopyShading_update, DetermineOutside_update, DeterminePrismData_update,
    DetermineShadingData_update, DetermineRhoverride_update, DetermineMetOptions_update,
    DetermineArealExtent_update, DeterminePoint_update, DetermineModelPeriod_update,
    DetermineModelConstants_update,
    List.mem_cons, List.mem_singleton, List.not_mem_nil, reduceCtorEq, or_self, or_false,
    not_false_eq_true]
  refine bind_congr_ok fun a1 _ => ?_
  refine bind_congr_ok fun a2 h2 => ?_
  have he := DetermineExtent_POINT_member hext h2
  refine bind_congr_heads
    ((DetermineFlowGradient_POINT _ he).trans (DetermineFlowGradient_POINT V he).symm)
    fun a3 h3 => ?_
  replace he : a3.Options.Extent = S.POINT := by
    obtain ⟨_, rfl⟩ := DetermineFlowGradient_inv h3
    exact he
  refine bind_congr_ok fun a4 h4 => ?_
  replace he : a4.Options.Extent = S.POINT := by
    obtain ⟨_, rfl⟩ := DetermineInterpolation_inv h4
    exact he
  refine bind_congr_ok fun a5 h5 => ?_
  replace he : a5.Options.Extent = S.POINT := by
    obtain ⟨_, _, rfl⟩ := DetermineCressman_inv h5
    exact he
  exact bind_congr_heads
    ((DetermineHasNetwork_POINT _ he).trans (DetermineHasNetwork_POINT V he).symm)
    fun _ _ => rfl

/-- Over the table of resolved strings: if some value of GRADIENT lets the pass
succeed, then in BASIN mode a GRADIENT that matches no literal fails on that key. -/
theorem Decode_basin_gradient {E : COLLABORATORS} {S : SETTINGS} (hS : S.POINT ≠ S.BASIN)
    {V : KEYS → List Char} {st st0 : State} {s : List Char}
    (h : Decode E S (Function.update V .gradient s) st = .ok st0)
    (hext : Begins "BASIN".toList (V .extent))
    (hn : MatchesNoLiteral .gradient (V .gradient)) :
    Decode E S V st = .error (.ReportError "GRADIENT" 51) := by
  simp only [MatchesNoLiteral, Vocabulary, List.mem_cons, List.mem_singleton,
    forall_eq_or_imp, forall_eq] at hn
  unfold Decode DetermineModelOptions at h ⊢
  simp only [bind_assoc, DetermineFileFormat_update, DetermineExtent_update, DetermineFlowGradient_update,
    DetermineInterpolation_update, DetermineCressman_update, DetermineHasNetwork_update,
    DetermineHeatFlux_update, DetermineSediment_update, DetermineSedFile_update,
    DetermineRouting_update, DetermineInfiltration_update, DetermineMM5_update,
    DetermineQPF_update, DeterminePrism_update, DetermineCanopyRadAtt_update,
    DetermineShading_update, DetermineSnotel_update, DetermineStreamTemp_update,
    DetermineCanopyShading_update, DetermineOutside_update, DeterminePrismData_update,
    DetermineShadingData_update, DetermineRhoverride_update, DetermineMetOptions_update,
    DetermineArealExtent_update, DeterminePoint_update, DetermineModelPeriod_update,
    DetermineModelConstants_update,
    List.mem_cons, List.mem_singleton, List.not_mem_nil, reduceCtorEq, or_self, or_false,
    not_false_eq_true] at h
  simp only [bind_assoc]
  obtain ⟨a1, h1, h⟩ := bind_eq_ok h
  rw [h1, bind_ok_eq]
  obtain ⟨a2, h2, h⟩ := bind_eq_ok h
  rw [h2, bind_ok_eq]
  have hg := DetermineExtent_BASIN_member hS hext h2
  rw [DetermineFlowGradient_error hn.1 hn.2.1 a2 hg]
  rfl

/-- Over the table of resolved strings: if some value of FLOW ROUTING lets the
pass succeed, then in BASIN mode a FLOW ROUTING that matches no literal fails on
that key. -/
theorem Decode_basin_flow_routing {E : COLLABORATORS} {S : SETTINGS}
    (hS : S.POINT ≠ S.BASIN) {V : KEYS → List Char} {st st0 : State} {s : List Char}
    (h : Decode E S (Function.update V .flow_routing s) st = .ok st0)
    (hext : Begins "BASIN".toList (V .extent))
    (hn : MatchesNoLiteral .flow_routing (V .flow_routing)) :
    Decode E S V st = .error (.ReportError "FLOW ROUTING" 51) := by
  simp only [MatchesNoLiteral, Vocabulary, List.mem_cons, List.mem_singleton,
    forall_eq_or_imp, forall_eq] at hn
  unfold Decode DetermineModelOptions at h ⊢
  simp only [bind_assoc, DetermineFileFormat_update, DetermineExtent_update, DetermineFlowGradient_update,
    DetermineInterpolation_update, DetermineCressman_update, DetermineHasNetwork_update,
    DetermineHeatFlux_update, DetermineSediment_update, DetermineSedFile_update,
    DetermineRouting_update, DetermineInfiltration_update, DetermineMM5_update,
    DetermineQPF_update, DeterminePrism_update, DetermineCanopyRadAtt_update,
    DetermineShading_update, DetermineSnotel_update, DetermineStreamTemp_update,
    DetermineCanopyShading_update, DetermineOutside_update, DeterminePrismData_update,
    DetermineShadingData_update, DetermineRhoverride_update, DetermineMetOptions_update,
    DetermineArealExtent_update, DeterminePoint_update, DetermineModelPeriod_update,
    DetermineModelConstants_update,
    List.mem_cons, List.mem_singleton, List.not_mem_nil, reduceCtorEq, or_self, or_false,
    not_false_eq_true] at h
  simp only [bind_assoc]
  obtain ⟨a1, h1, h⟩ := bind_eq_ok h
  rw [h1, bind_ok_eq]
  obtain ⟨a2, h2, h⟩ := bind_eq_ok h
  rw [h2, bind_ok_eq]
  have hg := DetermineExtent_BASIN_member hS hext h2
  obtain ⟨a3, h3, h⟩ := bind_eq_ok h
  rw [h3, bind_ok_eq]
  replace hg : a3.Options.Extent ≠ S.POINT := by
    obtain ⟨_, rfl⟩ := DetermineFlowGradient_inv h3
    exact hg
  obtain ⟨a4, h4, h⟩ := bind_eq_ok h
  rw [h4, bind_ok_eq]
  replace hg : a4.Options.Extent ≠ S.POINT := by
    obtain ⟨_, rfl⟩ := DetermineInterpolation_inv h4
    exact hg
  obtain ⟨a5, h5, h⟩ := bind_eq_ok h
  rw [h5, bind_ok_eq]
  replace hg : a5.Options.Extent ≠ S.POINT := by
    obtain ⟨_, _, rfl⟩ := DetermineCressman_inv h5
    exact hg
  rw [DetermineHasNetwork_error hn.1 hn.2.1 a5 hg]
  rfl

/-- C9. When EXTENT decodes to POINT, a successful load has
`FlowGradient = NOT_APPLICABLE` and `HasNetwork = FALSE`, and every input that
differs in GRADIENT and FLOW ROUTING alone (values matching no literal included)
has the same outcome.  When EXTENT decodes to BASIN both keys are decoded: in a
configuration that is valid but for one of them, a value that matches no literal
makes the load fail with `ReportError` on that key and code 51. -/
theorem C9_flow_keys_by_extent (E : COLLABORATORS) (S : SETTINGS) (hS : S.Distinct) :
    (∀ (Input : LISTPTR) (st : State),
      Begins "POINT".toList (VarStr E S Input .extent) →
      (∀ st', InitConstants E S Input st = .ok st' →
        st'.Options.FlowGradient = S.NOT_APPLICABLE ∧ st'.Options.HasNetwork = S.FALSE) ∧
      (∀ Input', AgreeOutside [.gradient, .flow_routing]
          (VarStr E S Input) (VarStr E S Input') →
        InitConstants E S Input' st = InitConstants E S Input st)) ∧
    (∀ (Input Input0 : LISTPTR) (st st0 : State),
      Begins "BASIN".toList (VarStr E S Input .extent) →
      InitConstants E S Input0 st = .ok st0 →
      (AgreeOutside [.gradient] (VarStr E S Input) (VarStr E S Input0) →
        MatchesNoLiteral .gradient (VarStr E S Input .gradient) →
        InitConstants E S Input st = .error (.ReportError "GRADIENT" 51)) ∧
      (AgreeOutside [.flow_routing] (VarStr E S Input) (VarStr E S Input0) →
        MatchesNoLiteral .flow_routing (VarStr E S Input .flow_routing) →
        InitConstants E S Input st = .error (.ReportError "FLOW ROUTING" 51))) := by
  constructor
  · intro Input st hext
    constructor
    · intro st' h
      unfold InitConstants Decode DetermineModelOptions at h
      simp only [bind_assoc] at h
      obtain ⟨a1, h1, h⟩ := bind_eq_ok h
      obtain ⟨a2, h2, h⟩ := bind_eq_ok h
      obtain ⟨a3, h3, h⟩ := bind_eq_ok h
      obtain ⟨a4, h4, h⟩ := bind_eq_ok h
      obtain ⟨a5, h5, h⟩ := bind_eq_ok h
      obtain ⟨a6, h6, h⟩ := bind_eq_ok h
      obtain ⟨a7, h7, h⟩ := bind_eq_ok h
      obtain ⟨a8, h8, h⟩ := bind_eq_ok h
      obtain ⟨a9, h9, h⟩ := bind_eq_ok h
      obtain ⟨a10, h10, h⟩ := bind_eq_ok h
      obtain ⟨a11, h11, h⟩ := bind_eq_ok h
      obtain ⟨a12, h12, h⟩ := bind_eq_ok h
      obtain ⟨a13, h13, h⟩ := bind_eq_ok h
      obtain ⟨a14, h14, h⟩ := bind_eq_ok h
      obtain ⟨a15, h15, h⟩ := bind_eq_ok h
      obtain ⟨a16, h16, h⟩ := bind_eq_ok h
      obtain ⟨a17, h17, h⟩ := bind_eq_ok h
      obtain ⟨a18, h18, h⟩ := bind_eq_ok h
      obtain ⟨a19, h19, h⟩ := bind_eq_ok h
      obtain ⟨a20, h20, h⟩ := bind_eq_ok h
      obtain ⟨a21, h21, h⟩ := bind_eq_ok h
      obtain ⟨a22, h22, h⟩ := bind_eq_ok h
      obtain ⟨a23, h23, h⟩ := bind_eq_ok h
      obtain ⟨a24, h24, h⟩ := bind_eq_ok h
      obtain ⟨a25, h25, h⟩ := bind_eq_ok h
      obtain ⟨a26, h26, h⟩ := bind_eq_ok h
      obtain ⟨a27, h27, h⟩ := bind_eq_ok h
      obtain ⟨a28, h28, h29⟩ := bind_eq_ok h
      have he := DetermineExtent_POINT_member hext h2
      rw [DetermineFlowGradient_POINT _ he] at h3
      cases h3
      replace he : a5.Options.Extent = S.POINT := by
        obtain ⟨_, rfl⟩ := DetermineInterpolation_inv h4
        obtain ⟨_, _, rfl⟩ := DetermineCressman_inv h5
        exact he
      rw [DetermineHasNetwork_POINT _ he] at h6
      cases h6
      obtain ⟨_, rfl⟩ := DetermineInterpolation_inv h4
      obtain ⟨_, _, rfl⟩ := DetermineCressman_inv h5
      obtain ⟨_, rfl⟩ := DetermineHeatFlux_inv h7
      obtain ⟨_, _, _, _, _, rfl⟩ := DetermineSediment_inv h8
      obtain ⟨_, rfl⟩ := DetermineSedFile_inv h9
      obtain ⟨_, rfl⟩ := DetermineRouting_inv h10
      obtain ⟨_, _, rfl⟩ := DetermineInfiltration_inv h11
      obtain ⟨_, rfl⟩ := DetermineMM5_inv h12
      obtain ⟨_, rfl⟩ := DetermineQPF_inv h13
      obtain ⟨_, rfl⟩ := DeterminePrism_inv h14
      obtain ⟨_, rfl⟩ := DetermineCanopyRadAtt_inv h15
      obtain ⟨_, rfl⟩ := DetermineShading_inv h16
      obtain rfl := CheckMM5Prism_inv h17
      obtain ⟨_, rfl⟩ := DetermineSnotel_inv h18
      obtain ⟨_, rfl⟩ := DetermineStreamTemp_inv h19
      obtain ⟨_, rfl⟩ := DetermineCanopyShading_inv h20
      obtain ⟨_, rfl⟩ := DetermineOutside_inv h21
      obtain ⟨_, _, rfl⟩ := DeterminePrismData_inv h22
      obtain ⟨_, _, _, rfl⟩ := DetermineShadingData_inv h23
      obtain ⟨_, rfl⟩ := DetermineRhoverride_inv h24
      obtain ⟨_, _, _, _, rfl⟩ := DetermineMetOptions_inv h25
      obtain ⟨_, _, rfl⟩ := DetermineArealExtent_inv h26
      obtain ⟨_, _, rfl⟩ := DeterminePoint_inv h27
      obtain ⟨_, rfl⟩ := DetermineModelPeriod_inv h28
      obtain ⟨_, rfl⟩ := DetermineModelConstants_inv h29
      exact ⟨rfl, rfl⟩
    · intro Input' hagree
      unfold InitConstants
      rw [update2_VarStr_of_agree hagree]
      exact Decode_point_ignores_flow hext st _ _
  · intro Input Input0 st st0 hext h0
    unfold InitConstants at h0 ⊢
    constructor
    · intro hagree hn
      rw [update_VarStr_of_agree hagree] at h0
      exact Decode_basin_gradient hS.2.1 h0 hext hn
    · intro hagree hn
      rw [update_VarStr_of_agree hagree] at h0
      exact Decode_basin_flow_routing hS.2.1 h0 hext hn

/-- C9, on a concrete configuration: POINT mode with an unknown GRADIENT. -/
theorem C9_flow_keys_by_extent_witness :
    sampleSettings.Distinct ∧
    InitConstants sampleCollaborators sampleSettings
      (("OPTIONS", "GRADIENT", "none".toList) :: samplePointInput) zeroState =
    InitConstants sampleCollaborators sampleSettings samplePointInput zeroState :=
  ⟨by decide,
    ((C9_flow_keys_by_extent sampleCollaborators sampleSettings (by decide)).1
      samplePointInput zeroState (by decide)).2 _
      (by intro k hk; revert hk; cases k <;> decide)⟩

/-! ## The pixel of a POINT run -/

/-- The quotient is that of `double`, not that of the real numbers: with library
routines that read numerals as `strtod` does, EXTREME NORTH 0.1, GRID SPACING 30
and POINT NORTH -59.9 give the `double` quotient 3/2 and the row 2, where the
quotient of the parsed numbers is below 3/2 and nearest to 1.  With GRID SPACING
0 the quotient is no number and the row is what the platform makes of that
conversion. -/
theorem point_row_is_rounded_in_double :
    (InitConstants ieeeCollaborators sampleSettings sampleEdgeInput zeroState).toOption.map
      (fun st => st.Options.PointY) = some 2 ∧
    (InitConstants ieeeCollaborators sampleSettings sampleEdgeInput zeroState).toOption.map
      (fun st => roundAway ((st.Map.Yorig - st.Map.DY / 2 -
        binary64.roundQ (-599 / 10)) / st.Map.DY)) = some 1 ∧
    ieeeCollaborators.CopyDouble "-59.9".toList 1 = some (binary64.roundQ (-599 / 10)) ∧
    binary64.div (binary64.sub (binary64.sub (.fin (binary64.roundQ (1 / 10))) (binary64.mul
      (.fin (1 / 2)) (.fin 30))) (.fin (binary64.roundQ (-599 / 10)))) (.fin 30) = .fin (3 / 2) ∧
    (InitConstants ieeeCollaborators sampleSettings
      (("AREA", "GRID SPACING", "0".toList) :: samplePointInput) zeroState).toOption.map
      (fun st => st.Options.PointY) = some (ieeeCollaborators.IntOutOfRange (.inf false)) := by
  refine ⟨by decide!, by decide!, by decide!, by decide!, by decide!⟩

/-! ## The lapse rates of the CONSTANTS section -/

theorem DetermineTEMPLAPSE_skip {E : COLLABORATORS} {S : SETTINGS} (V : KEYS → List Char)
    {st : State} (h : st.Options.TempLapse ≠ S.CONSTANT) :
    DetermineTEMPLAPSE E S V st =
      .ok { st with Constants.TEMPLAPSE := (S.NOT_APPLICABLE : ℚ) } := by
  unfold DetermineTEMPLAPSE
  rw [if_neg h]

theorem DetermineTEMPLAPSE_none {E : COLLABORATORS} {S : SETTINGS} {V : KEYS → List Char}
    {st : State} (h : st.Options.TempLapse = S.CONSTANT)
    (hx : E.CopyFloat (V .temp_lapse_rate) 1 = none) :
    DetermineTEMPLAPSE E S V st = .error (.ReportError "TEMPERATURE LAPSE RATE" 51) := by
  unfold DetermineTEMPLAPSE
  rw [if_pos h, hx]
  rfl

theorem DetermineTEMPLAPSE_out {E : COLLABORATORS} {S : SETTINGS} {V : KEYS → List Char}
    {st st' : State} (h : DetermineTEMPLAPSE E S V st = .ok st') :
    (st.Options.TempLapse = S.CONSTANT →
      ∃ x, E.CopyFloat (V .temp_lapse_rate) 1 = some x ∧
        st' = { st with Constants.TEMPLAPSE := x }) ∧
    (st.Options.TempLapse ≠ S.CONSTANT →
      st' = { st with Constants.TEMPLAPSE := (S.NOT_APPLICABLE : ℚ) }) := by
  unfold DetermineTEMPLAPSE at h
  constructor
  · intro hc
    rw [if_pos hc] at h
    split at h
    · cases h
    · rename_i x hx
      cases h
      exact ⟨x, hx, rfl⟩
  · intro hc
    rw [if_neg hc] at h
    cases h
    rfl


theorem DeterminePRECIPLAPSE_skip {E : COLLABORATORS} {S : SETTINGS} (V : KEYS → List Char)
    {st : State} (h : st.Options.PrecipLapse ≠ S.CONSTANT) :
    DeterminePRECIPLAPSE E S V st =
      .ok { st with Constants.PRECIPLAPSE := (S.NOT_APPLICABLE : ℚ) } := by
  unfold DeterminePRECIPLAPSE
  rw [if_neg h]

theorem DeterminePRECIPLAPSE_none {E : COLLABORATORS} {S : SETTINGS} {V : KEYS → List Char}
    {st : State} (h : st.Options.PrecipLapse = S.CONSTANT)
    (hx : E.CopyFloat (V .precip_lapse_rate) 1 = none) :
    DeterminePRECIPLAPSE E S V st = .error (.ReportError "PRECIPITATION LAPSE RATE" 51) := by
  unfold DeterminePRECIPLAPSE
  rw [if_pos h, hx]
  rfl

theorem DeterminePRECIPLAPSE_out {E : COLLABORATORS} {S : SETTINGS} {V : KEYS → List Char}
    {st st' : State} (h : DeterminePRECIPLAPSE E S V st = .ok st') :
    (st.Options.PrecipLapse = S.CONSTANT →
      ∃ x, E.CopyFloat (V .precip_lapse_rate) 1 = some x ∧
        st' = { st with Constants.PRECIPLAPSE := x }) ∧
    (st.Options.PrecipLapse ≠ S.CONSTANT →
      st' = { st with Constants.PRECIPLAPSE := (S.NOT_APPLICABLE : ℚ) }) := by
  unfold DeterminePRECIPLAPSE at h
  constructor
  · intro hc
    rw [if_pos hc] at h
    split at h
    · cases h
    · rename_i x hx
      cases h
      exact ⟨x, hx, rfl⟩
  · intro hc
    rw [if_neg hc] at h
    cases h
    rfl

/-- Over the table of resolved strings: a pass that succeeds for some value of
the CONSTANTS key TEMPERATURE LAPSE RATE, with a temperature lapse mode other
than CONSTANT, has the same outcome for every value of it; with the mode CONSTANT
a value that does not parse fails on that key. -/
theorem Decode_temp_lapse_rate {E : COLLABORATORS} {S : SETTINGS}
    {V : KEYS → List Char} {st st0 : State} {s : List Char}
    (h : Decode E S (Function.update V .temp_lapse_rate s) st = .ok st0) :
    (st0.Options.TempLapse = S.CONSTANT → E.CopyFloat (V .temp_lapse_rate) 1 = none →
      Decode E S V st = .error (.ReportError "TEMPERATURE LAPSE RATE" 51)) ∧
    (st0.Options.TempLapse ≠ S.CONSTANT → Decode E S V st = .ok st0) := by
  unfold Decode DetermineModelOptions DetermineModelConstants at h ⊢
  simp only [bind_assoc, DetermineFileFormat_update, DetermineExtent_update, DetermineFlowGradient_update,
    DetermineInterpolation_update, DetermineCressman_update, DetermineHasNetwork_update,
    DetermineHeatFlux_update, DetermineSediment_update, DetermineSedFile_update,
    DetermineRouting_update, DetermineInfiltration_update, DetermineMM5_update,
    DetermineQPF_update, DeterminePrism_update, DetermineCanopyRadAtt_update,
    DetermineShading_update, DetermineSnotel_update, DetermineStreamTemp_update,
    DetermineCanopyShading_update, DetermineOutside_update, DeterminePrismData_update,
    DetermineShadingData_update, DetermineRhoverride_update, DetermineMetOptions_update,
    DetermineArealExtent_update, DeterminePoint_update, DetermineModelPeriod_update,
    DetermineModelConstants_update,
    List.mem_cons, List.mem_singleton, List.not_mem_nil, reduceCtorEq, or_self, or_false,
    not_false_eq_true,
    DetermineFixedConstants_update, DetermineTEMPLAPSE_update, DeterminePRECIPLAPSE_update,
    DeterminePRECIPMULTIPLIER_update] at h
  simp only [bind_assoc]
  obtain ⟨a1, h1, h⟩ := bind_eq_ok h; rw [h1, bind_ok_eq]; clear h1
  obtain ⟨a2, h2, h⟩ := bind_eq_ok h; rw [h2, bind_ok_eq]; clear h2
  obtain ⟨a3, h3, h⟩ := bind_eq_ok h; rw [h3, bind_ok_eq]; clear h3
  obtain ⟨a4, h4, h⟩ := bind_eq_ok h; rw [h4, bind_ok_eq]; clear h4
  obtain ⟨a5, h5, h⟩ := bind_eq_ok h; rw [h5, bind_ok_eq]; clear h5
  obtain ⟨a6, h6, h⟩ := bind_eq_ok h; rw [h6, bind_ok_eq]; clear h6
  obtain ⟨a7, h7, h⟩ := bind_eq_ok h; rw [h7, bind_ok_eq]; clear h7
  obtain ⟨a8, h8, h⟩ := bind_eq_ok h; rw [h8, bind_ok_eq]; clear h8
  obtain ⟨a9, h9, h⟩ := bind_eq_ok h; rw [h9, bind_ok_eq]; clear h9
  obtain ⟨a10, h10, h⟩ := bind_eq_ok h; rw [h10, bind_ok_eq]; clear h10
  obtain ⟨a11, h11, h⟩ := bind_eq_ok h; rw [h11, bind_ok_eq]; clear h11
  obtain ⟨a12, h12, h⟩ := bind_eq_ok h; rw [h12, bind_ok_eq]; clear h12
  obtain ⟨a13, h13, h⟩ := bind_eq_ok h; rw [h13, bind_ok_eq]; clear h13
  obtain ⟨a14, h14, h⟩ := bind_eq_ok h; rw [h14, bind_ok_eq]; clear h14
  obtain ⟨a15, h15, h⟩ := bind_eq_ok h; rw [h15, bind_ok_eq]; clear h15
  obtain ⟨a16, h16, h⟩ := bind_eq_ok h; rw [h16, bind_ok_eq]; clear h16
  obtain ⟨a17, h17, h⟩ := bind_eq_ok h; rw [h17, bind_ok_eq]; clear h17
  obtain ⟨a18, h18, h⟩ := bind_eq_ok h; rw [h18, bind_ok_eq]; clear h18
  obtain ⟨a19, h19, h⟩ := bind_eq_ok h; rw [h19, bind_ok_eq]; clear h19
  obtain ⟨a20, h20, h⟩ := bind_eq_ok h; rw [h20, bind_ok_eq]; clear h20
  obtain ⟨a21, h21, h⟩ := bind_eq_ok h; rw [h21, bind_ok_eq]; clear h21
  obtain ⟨a22, h22, h⟩ := bind_eq_ok h; rw [h22, bind_ok_eq]; clear h22
  obtain ⟨a23, h23, h⟩ := bind_eq_ok h; rw [h23, bind_ok_eq]; clear h23
  obtain ⟨a24, h24, h⟩ := bind_eq_ok h; rw [h24, bind_ok_eq]; clear h24
  obtain ⟨a25, h25, h⟩ := bind_eq_ok h; rw [h25, bind_ok_eq]; clear h25
  obtain ⟨a26, h26, h⟩ := bind_eq_ok h; rw [h26, bind_ok_eq]; clear h26
  obtain ⟨a27, h27, h⟩ := bind_eq_ok h; rw [h27, bind_ok_eq]; clear h27
  obtain ⟨a28, h28, h⟩ := bind_eq_ok h; rw [h28, bind_ok_eq]; clear h28
  obtain ⟨b1, hF, h⟩ := bind_eq_ok h
  rw [hF, bind_ok_eq]
  have h' := h
  obtain ⟨b2, hT, h'⟩ := bind_eq_ok h'
  obtain ⟨b3, hP, hM⟩ := bind_eq_ok h'
  have hmode : st0.Options.TempLapse = b1.Options.TempLapse := by
    obtain ⟨_, rfl⟩ := DeterminePRECIPMULTIPLIER_inv hM
    obtain ⟨_, rfl⟩ := DeterminePRECIPLAPSE_inv hP
    obtain ⟨_, rfl⟩ := DetermineTEMPLAPSE_inv hT
    rfl
  rw [hmode]
  constructor
  · intro hc hx
    rw [DetermineTEMPLAPSE_none hc hx]
    rfl
  · intro hc
    rw [DetermineTEMPLAPSE_skip _ hc] at h
    rw [DetermineTEMPLAPSE_skip _ hc]
    exact h

/-- Over the table of resolved strings: the same for the CONSTANTS key
PRECIPITATION LAPSE RATE and the precipitation lapse mode. -/
theorem Decode_precip_lapse_rate {E : COLLABORATORS} {S : SETTINGS}
    {V : KEYS → List Char} {st st0 : State} {s : List Char}
    (h : Decode E S (Function.update V .precip_lapse_rate s) st = .ok st0) :
    (st0.Options.PrecipLapse = S.CONSTANT → E.CopyFloat (V .precip_lapse_rate) 1 = none →
      Decode E S V st = .error (.ReportError "PRECIPITATION LAPSE RATE" 51)) ∧
    (st0.Options.PrecipLapse ≠ S.CONSTANT → Decode E S V st = .ok st0) := by
  unfold Decode DetermineModelOptions DetermineModelConstants at h ⊢
  simp only [bind_assoc, DetermineFileFormat_update, DetermineExtent_update, DetermineFlowGradient_update,
    DetermineInterpolation_update, DetermineCressman_update, DetermineHasNetwork_update,
    DetermineHeatFlux_update, DetermineSediment_update, DetermineSedFile_update,
    DetermineRouting_update, DetermineInfiltration_update, DetermineMM5_update,
    DetermineQPF_update, DeterminePrism_update, DetermineCanopyRadAtt_update,
    DetermineShading_update, DetermineSnotel_update, DetermineStreamTemp_update,
    DetermineCanopyShading_update, DetermineOutside_update, DeterminePrismData_update,
    DetermineShadingData_update, DetermineRhoverride_update, DetermineMetOptions_update,
    DetermineArealExtent_update, DeterminePoint_update, DetermineModelPeriod_update,
    DetermineModelConstants_update,
    List.mem_cons, List.mem_singleton, List.not_mem_nil, reduceCtorEq, or_self, or_false,
    not_false_eq_true,
    DetermineFixedConstants_update, DetermineTEMPLAPSE_update, DeterminePRECIPLAPSE_update,
    DeterminePRECIPMULTIPLIER_update] at h
  simp only [bind_assoc]
  obtain ⟨a1, h1, h⟩ := bind_eq_ok h; rw [h1, bind_ok_eq]; clear h1
  obtain ⟨a2, h2, h⟩ := bind_eq_ok h; rw [h2, bind_ok_eq]; clear h2
  obtain ⟨a3, h3, h⟩ := bind_eq_ok h; rw [h3, bind_ok_eq]; clear h3
  obtain ⟨a4, h4, h⟩ := bind_eq_ok h; rw [h4, bind_ok_eq]; clear h4
  obtain ⟨a5, h5, h⟩ := bind_eq_ok h; rw [h5, bind_ok_eq]; clear h5
  obtain ⟨a6, h6, h⟩ := bind_eq_ok h; rw [h6, bind_ok_eq]; clear h6
  obtain ⟨a7, h7, h⟩ := bind_eq_ok h; rw [h7, bind_ok_eq]; clear h7
  obtain ⟨a8, h8, h⟩ := bind_eq_ok h; rw [h8, bind_ok_eq]; clear h8
  obtain ⟨a9, h9, h⟩ := bind_eq_ok h; rw [h9, bind_ok_eq]; clear h9
  obtain ⟨a10, h10, h⟩ := bind_eq_ok h; rw [h10, bind_ok_eq]; clear h10
  obtain ⟨a11, h11, h⟩ := bind_eq_ok h; rw [h11, bind_ok_eq]; clear h11
  obtain ⟨a12, h12, h⟩ := bind_eq_ok h; rw [h12, bind_ok_eq]; clear h12
  obtain ⟨a13, h13, h⟩ := bind_eq_ok h; rw [h13, bind_ok_eq]; clear h13
  obtain ⟨a14, h14, h⟩ := bind_eq_ok h; rw [h14, bind_ok_eq]; clear h14
  obtain ⟨a15, h15, h⟩ := bind_eq_ok h; rw [h15, bind_ok_eq]; clear h15
  obtain ⟨a16, h16, h⟩ := bind_eq_ok h; rw [h16, bind_ok_eq]; clear h16
  obtain ⟨a17, h17, h⟩ := bind_eq_ok h; rw [h17, bind_ok_eq]; clear h17
  obtain ⟨a18, h18, h⟩ := bind_eq_ok h; rw [h18, bind_ok_eq]; clear h18
  obtain ⟨a19, h19, h⟩ := bind_eq_ok h; rw [h19, bind_ok_eq]; clear h19
  obtain ⟨a20, h20, h⟩ := bind_eq_ok h; rw [h20, bind_ok_eq]; clear h20
  obtain ⟨a21, h21, h⟩ := bind_eq_ok h; rw [h21, bind_ok_eq]; clear h21
  obtain ⟨a22, h22, h⟩ := bind_eq_ok h; rw [h22, bind_ok_eq]; clear h22
  obtain ⟨a23, h23, h⟩ := bind_eq_ok h; rw [h23, bind_ok_eq]; clear h23
  obtain ⟨a24, h24, h⟩ := bind_eq_ok h; rw [h24, bind_ok_eq]; clear h24
  obtain ⟨a25, h25, h⟩ := bind_eq_ok h; rw [h25, bind_ok_eq]; clear h25
  obtain ⟨a26, h26, h⟩ := bind_eq_ok h; rw [h26, bind_ok_eq]; clear h26
  obtain ⟨a27, h27, h⟩ := bind_eq_ok h; rw [h27, bind_ok_eq]; clear h27
  obtain ⟨a28, h28, h⟩ := bind_eq_ok h; rw [h28, bind_ok_eq]; clear h28
  obtain ⟨b1, hF, h⟩ := bind_eq_ok h
  rw [hF, bind_ok_eq]
  obtain ⟨b2, hT, h⟩ := bind_eq_ok h
  rw [hT, bind_ok_eq]
  have h' := h
  obtain ⟨b3, hP, hM⟩ := bind_eq_ok h'
  have hmode : st0.Options.PrecipLapse = b2.Options.PrecipLapse := by
    obtain ⟨_, rfl⟩ := DeterminePRECIPMULTIPLIER_inv hM
    obtain ⟨_, rfl⟩ := DeterminePRECIPLAPSE_inv hP
    rfl
  rw [hmode]
  constructor
  · intro hc hx
    rw [DeterminePRECIPLAPSE_none hc hx]
    rfl
  · intro hc
    rw [DeterminePRECIPLAPSE_skip _ hc] at h
    rw [DeterminePRECIPLAPSE_skip _ hc]
    exact h

/-- C11. For each of the two lapse rates, with the lapse mode the one the options
hold after the load.  After a successful load in the mode CONSTANT the CONSTANTS
key has been parsed and the constant is the parsed value; in any other mode the
constant is NOT_APPLICABLE.  In a configuration that is valid but for the
CONSTANTS key (some value of it lets the load succeed, which fixes the mode): in
the mode CONSTANT a value that `CopyFloat` rejects makes the load fail with
`ReportError` on that key and code 51, and in any other mode the load has the
same outcome whatever the value of the key. -/
theorem C11_lapse_rate_constants (E : COLLABORATORS) (S : SETTINGS) :
    (∀ (Input : LISTPTR) (st st' : State), InitConstants E S Input st = .ok st' →
      (st'.Options.TempLapse = S.CONSTANT →
        ∃ x, E.CopyFloat (VarStr E S Input .temp_lapse_rate) 1 = some x ∧
          st'.Constants.TEMPLAPSE = x) ∧
      (st'.Options.TempLapse ≠ S.CONSTANT →
        st'.Constants.TEMPLAPSE = (S.NOT_APPLICABLE : ℚ)) ∧
      (st'.Options.PrecipLapse = S.CONSTANT →
        ∃ x, E.CopyFloat (VarStr E S Input .precip_lapse_rate) 1 = some x ∧
          st'.Constants.PRECIPLAPSE = x) ∧
      (st'.Options.PrecipLapse ≠ S.CONSTANT →
        st'.Constants.PRECIPLAPSE = (S.NOT_APPLICABLE : ℚ))) ∧
    (∀ (Input Input0 : LISTPTR) (st st0 : State),
      AgreeOutside [.temp_lapse_rate] (VarStr E S Input) (VarStr E S Input0) →
      InitConstants E S Input0 st = .ok st0 →
      (st0.Options.TempLapse = S.CONSTANT →
        E.CopyFloat (VarStr E S Input .temp_lapse_rate) 1 = none →
        InitConstants E S Input st =
          .error (.ReportError "TEMPERATURE LAPSE RATE" 51)) ∧
      (st0.Options.TempLapse ≠ S.CONSTANT →
        InitConstants E S Input st = InitConstants E S Input0 st)) ∧
    (∀ (Input Input0 : LISTPTR) (st st0 : State),
      AgreeOutside [.precip_lapse_rate] (VarStr E S Input) (VarStr E S Input0) →
      InitConstants E S Input0 st = .ok st0 →
      (st0.Options.PrecipLapse = S.CONSTANT →
        E.CopyFloat (VarStr E S Input .precip_lapse_rate) 1 = none →
        InitConstants E S Input st =
          .error (.ReportError "PRECIPITATION LAPSE RATE" 51)) ∧
      (st0.Options.PrecipLapse ≠ S.CONSTANT →
        InitConstants E S Input st = InitConstants E S Input0 st)) := by
  refine ⟨?_, ?_, ?_⟩
  · intro Input st st' h
    unfold InitConstants Decode DetermineModelOptions at h
    simp only [bind_assoc] at h
    obtain ⟨a1, h1, h⟩ := bind_eq_ok h
    obtain ⟨a2, h2, h⟩ := bind_eq_ok h
    obtain ⟨a3, h3, h⟩ := bind_eq_ok h
    obtain ⟨a4, h4, h⟩ := bind_eq_ok h
    obtain ⟨a5, h5, h⟩ := bind_eq_ok h
    obtain ⟨a6, h6, h⟩ := bind_eq_ok h
    obtain ⟨a7, h7, h⟩ := bind_eq_ok h
    obtain ⟨a8, h8, h⟩ := bind_eq_ok h
    obtain ⟨a9, h9, h⟩ := bind_eq_ok h
    obtain ⟨a10, h10, h⟩ := bind_eq_ok h
    obtain ⟨a11, h11, h⟩ := bind_eq_ok h
    obtain ⟨a12, h12, h⟩ := bind_eq_ok h
    obtain ⟨a13, h13, h⟩ := bind_eq_ok h
    obtain ⟨a14, h14, h⟩ := bind_eq_ok h
    obtain ⟨a15, h15, h⟩ := bind_eq_ok h
    obtain ⟨a16, h16, h⟩ := bind_eq_ok h
    obtain ⟨a17, h17, h⟩ := bind_eq_ok h
    obtain ⟨a18, h18, h⟩ := bind_eq_ok h
    obtain ⟨a19, h19, h⟩ := bind_eq_ok h
    obtain ⟨a20, h20, h⟩ := bind_eq_ok h
    obtain ⟨a21, h21, h⟩ := bind_eq_ok h
    obtain ⟨a22, h22, h⟩ := bind_eq_ok h
    obtain ⟨a23, h23, h⟩ := bind_eq_ok h
    obtain ⟨a24, h24, h⟩ := bind_eq_ok h
    obtain ⟨a25, h25, h⟩ := bind_eq_ok h
    obtain ⟨a26, h26, h⟩ := bind_eq_ok h
    obtain ⟨a27, h27, h⟩ := bind_eq_ok h
    obtain ⟨a28, h28, h29⟩ := bind_eq_ok h
    unfold DetermineModelConstants at h29
    obtain ⟨b1, hF, h29⟩ := bind_eq_ok h29
    obtain ⟨b2, hT, h29⟩ := bind_eq_ok h29
    obtain ⟨b3, hP, hM⟩ := bind_eq_ok h29
    obtain ⟨_, rfl⟩ := DeterminePRECIPMULTIPLIER_inv hM
    obtain ⟨hTc, hTn⟩ := DetermineTEMPLAPSE_out hT
    obtain ⟨hPc, hPn⟩ := DeterminePRECIPLAPSE_out hP
    have e1 : b3.Options.TempLapse = b1.Options.TempLapse ∧
        b3.Constants.TEMPLAPSE = b2.Constants.TEMPLAPSE := by
      obtain ⟨_, rfl⟩ := DeterminePRECIPLAPSE_inv hP
      obtain ⟨_, rfl⟩ := DetermineTEMPLAPSE_inv hT
      exact ⟨rfl, rfl⟩
    have e2 : b3.Options.PrecipLapse = b2.Options.PrecipLapse := by
      obtain ⟨_, rfl⟩ := DeterminePRECIPLAPSE_inv hP
      rfl
    refine ⟨?_, ?_, ?_, ?_⟩
    · intro hc
      change b3.Options.TempLapse = S.CONSTANT at hc
      rw [e1.1] at hc
      obtain ⟨x, hx, e⟩ := hTc hc
      refine ⟨x, hx, ?_⟩
      show b3.Constants.TEMPLAPSE = x
      rw [e1.2, e]
    · intro hc
      change b3.Options.TempLapse ≠ S.CONSTANT at hc
      rw [e1.1] at hc
      show b3.Constants.TEMPLAPSE = _
      rw [e1.2, hTn hc]
    · intro hc
      change b3.Options.PrecipLapse = S.CONSTANT at hc
      rw [e2] at hc
      obtain ⟨x, hx, e⟩ := hPc hc
      refine ⟨x, hx, ?_⟩
      show b3.Constants.PRECIPLAPSE = x
      rw [e]
    · intro hc
      change b3.Options.PrecipLapse ≠ S.CONSTANT at hc
      rw [e2] at hc
      show b3.Constants.PRECIPLAPSE = _
      rw [hPn hc]
  · intro Input Input0 st st0 hagree h0
    unfold InitConstants at h0 ⊢
    rw [update_VarStr_of_agree hagree] at h0
    refine ⟨(Decode_temp_lapse_rate h0).1, fun hc => ?_⟩
    rw [(Decode_temp_lapse_rate h0).2 hc, update_VarStr_of_agree hagree, h0]
  · intro Input Input0 st st0 hagree h0
    unfold InitConstants at h0 ⊢
    rw [update_VarStr_of_agree hagree] at h0
    refine ⟨(Decode_precip_lapse_rate h0).1, fun hc => ?_⟩
    rw [(Decode_precip_lapse_rate h0).2 hc, update_VarStr_of_agree hagree, h0]

/-- C11, on a concrete configuration: the temperature lapse mode is CONSTANT and
the CONSTANTS key TEMPERATURE LAPSE RATE is not a number. -/
theorem C11_lapse_rate_constants_witness :
    InitConstants sampleCollaborators sampleSettings
      (("CONSTANTS", "TEMPERATURE LAPSE RATE", "steep".toList) :: sampleInput) zeroState =
      .error (.ReportError "TEMPERATURE LAPSE RATE" 51) :=
  ((C11_lapse_rate_constants sampleCollaborators sampleSettings).2.1
    (("CONSTANTS", "TEMPERATURE LAPSE RATE", "steep".toList) :: sampleInput)
    sampleInput zeroState _ (by intro k hk; revert hk; cases k <;> decide)
    (eq_ok_of_isSome (by decide) zeroState)).1 (by decide) (by decide)

/-! ## Keys that must not be empty -/

theorem parse_nonempty {α : Type} {f : List Char → Nat → Option α} (hf : f [] 1 = none)
    {s : List Char} {x : α} (h : f s 1 = some x) : s ≠ [] := by
  intro he
  rw [he, hf] at h
  cases h

theorem scan_nonempty {α : Type} {f : List Char → Option α} (hf : f [] = none)
    {s : List Char} {x : α} (h : f s = some x) : s ≠ [] := by
  intro he
  rw [he, hf] at h
  cases h

theorem DetermineFileFormat_nonempty {S : SETTINGS} {V : KEYS → List Char} {st st' : State}
    (h : DetermineFileFormat S V st = .ok st') : V .format ≠ [] := by
  intro he
  rw [DetermineFileFormat_error (by rw [he]; decide) (by rw [he]; decide) (by rw [he]; decide) st] at h
  cases h

theorem DetermineExtent_nonempty {S : SETTINGS} {V : KEYS → List Char} {st st' : State}
    (h : DetermineExtent S V st = .ok st') : V .extent ≠ [] := by
  intro he
  rw [DetermineExtent_error (by rw [he]; decide) (by rw [he]; decide) st] at h
  cases h

theorem DetermineInterpolation_nonempty {S : SETTINGS} {V : KEYS → List Char} {st st' : State}
    (h : DetermineInterpolation S V st = .ok st') : V .interpolation ≠ [] := by
  intro he
  rw [DetermineInterpolation_error (by rw [he]; decide) (by rw [he]; decide) (by rw [he]; decide) st] at h
  cases h

theorem DetermineHeatFlux_nonempty {S : SETTINGS} {V : KEYS → List Char} {st st' : State}
    (h : DetermineHeatFlux S V st = .ok st') : V .sensible_heat_flux ≠ [] := by
  intro he
  rw [DetermineHeatFlux_error (by rw [he]; decide) (by rw [he]; decide) st] at h
  cases h

theorem DetermineSediment_nonempty {S : SETTINGS} {V : KEYS → List Char} {st st' : State}
    (h : DetermineSediment S V st = .ok st') : V .sediment ≠ [] := by
  intro he
  rw [DetermineSediment_error (by rw [he]; decide) (by rw [he]; decide) st] at h
  cases h

theorem DetermineRouting_nonempty {S : SETTINGS} {V : KEYS → List Char} {st st' : State}
    (h : DetermineRouting S V st = .ok st') : V .routing ≠ [] := by
  intro he
  rw [DetermineRouting_error (by rw [he]; decide) (by rw [he]; decide) st] at h
  cases h

theorem DetermineInfiltration_nonempty {S : SETTINGS} {V : KEYS → List Char} {st st' : State}
    (h : DetermineInfiltration S V st = .ok st') : V .infiltration ≠ [] := by
  intro he
  rw [DetermineInfiltration_error (by rw [he]; decide) (by rw [he]; decide) st] at h
  cases h

theorem DetermineMM5_nonempty {S : SETTINGS} {V : KEYS → List Char} {st st' : State}
    (h : DetermineMM5 S V st = .ok st') : V .mm5 ≠ [] := by
  intro he
  rw [DetermineMM5_error (by rw [he]; decide) (by rw [he]; decide) st] at h
  cases h

theorem DetermineQPF_nonempty {S : SETTINGS} {V : KEYS → List Char} {st st' : State}
    (h : DetermineQPF S V st = .ok st') : V .qpf ≠ [] := by
  intro he
  rw [DetermineQPF_error (by rw [he]; decide) (by rw [he]; decide) st] at h
  cases h

theorem DeterminePrism_nonempty {S : SETTINGS} {V : KEYS → List Char} {st st' : State}
    (h : DeterminePrism S V st = .ok st') : V .prism ≠ [] := by
  intro he
  rw [DeterminePrism_error (by rw [he]; decide) (by rw [he]; decide) st] at h
  cases h

theorem DetermineCanopyRadAtt_nonempty {S : SETTINGS} {V : KEYS → List Char} {st st' : State}
    (h : DetermineCanopyRadAtt S V st = .ok st') : V .canopy_radatt ≠ [] := by
  intro he
  rw [DetermineCanopyRadAtt_error (by rw [he]; decide) (by rw [he]; decide) st] at h
  cases h

theorem DetermineShading_nonempty {S : SETTINGS} {V : KEYS → List Char} {st st' : State}
    (h : DetermineShading S V st = .ok st') : V .shading ≠ [] := by
  intro he
  rw [DetermineShading_error (by rw [he]; decide) (by rw [he]; decide) st] at h
  cases h

theorem DetermineSnotel_nonempty {S : SETTINGS} {V : KEYS → List Char} {st st' : State}
    (h : DetermineSnotel S V st = .ok st') : V .snotel ≠ [] := by
  intro he
  rw [DetermineSnotel_error (by rw [he]; decide) (by rw [he]; decide) st] at h
  cases h

theorem DetermineStreamTemp_nonempty {S : SETTINGS} {V : KEYS → List Char} {st st' : State}
    (h : DetermineStreamTemp S V st = .ok st') : V .stream_temp ≠ [] := by
  intro he
  rw [DetermineStreamTemp_error (by rw [he]; decide) (by rw [he]; decide) st] at h
  cases h

theorem DetermineCanopyShading_nonempty {S : SETTINGS} {V : KEYS → List Char} {st st' : State}
    (h : DetermineCanopyShading S V st = .ok st') : V .canopy_shading ≠ [] := by
  intro he
  rw [DetermineCanopyShading_error (by rw [he]; decide) (by rw [he]; decide) st] at h
  cases h

theorem DetermineOutside_nonempty {S : SETTINGS} {V : KEYS → List Char} {st st' : State}
    (h : DetermineOutside S V st = .ok st') : V .outside ≠ [] := by
  intro he
  rw [DetermineOutside_error (by rw [he]; decide) (by rw [he]; decide) st] at h
  cases h

theorem DetermineRhoverride_nonempty {S : SETTINGS} {V : KEYS → List Char} {st st' : State}
    (h : DetermineRhoverride S V st = .ok st') : V .rhoverride ≠ [] := by
  intro he
  rw [DetermineRhoverride_error (by rw [he]; decide) (by rw [he]; decide) st] at h
  cases h

theorem DetermineArealExtent_nonempty {E : COLLABORATORS} {S : SETTINGS} {V : KEYS → List Char}
    {st st' : State} (hE : E.RejectEmpty) (h : DetermineArealExtent E S V st = .ok st') :
    V .coordinate_system ≠ [] ∧ V .extreme_north ≠ [] ∧ V .extreme_west ≠ [] ∧ V .center_latitude ≠ [] ∧ V .center_longitude ≠ [] ∧ V .time_zone_meridian ≠ [] ∧ V .number_of_rows ≠ [] ∧ V .number_of_columns ≠ [] ∧ V .grid_spacing ≠ [] := by
  obtain ⟨hI, hD, hF, hU, hT⟩ := hE
  unfold DetermineArealExtent at h
  split at h
  · cases h
  · rename_i hcs
    split at h
    · cases h
    · rename_i x0 hx0
      split at h
      · cases h
      · rename_i x1 hx1
        split at h
        · cases h
        · rename_i x2 hx2
          split at h
          · cases h
          · rename_i x3 hx3
            split at h
            · cases h
            · rename_i x4 hx4
              split at h
              · cases h
              · rename_i x5 hx5
                split at h
                · cases h
                · rename_i x6 hx6
                  split at h
                  · cases h
                  · rename_i x7 hx7
                    exact ⟨fun he => hcs (by rw [he]; rfl),
                      parse_nonempty hD hx0,
                      parse_nonempty hD hx1,
                      parse_nonempty hF hx2,
                      parse_nonempty hF hx3,
                      parse_nonempty hF hx4,
                      parse_nonempty hI hx5,
                      parse_nonempty hI hx6,
                      parse_nonempty hF hx7⟩

theorem DetermineModelPeriod_nonempty {E : COLLABORATORS} {S : SETTINGS} {V : KEYS → List Char}
    {st st' : State} (hE : E.RejectEmpty) (h : DetermineModelPeriod E S V st = .ok st') :
    V .time_step ≠ [] ∧ V .model_start ≠ [] ∧ V .model_end ≠ [] := by
  obtain ⟨hI, hD, hF, hU, hT⟩ := hE
  unfold DetermineModelPeriod at h
  split at h
  · cases h
  · rename_i x0 hx0
    split at h
    · cases h
    · rename_i x1 hx1
      split at h
      · cases h
      · rename_i x2 hx2
        exact ⟨parse_nonempty hF hx0,
          scan_nonempty hT hx1,
          scan_nonempty hT hx2⟩

theorem DetermineFixedConstants_nonempty {E : COLLABORATORS} {V : KEYS → List Char}
    {st st' : State} (hE : E.RejectEmpty) (h : DetermineFixedConstants E V st = .ok st') :
    V .ground_roughness ≠ [] ∧ V .snow_roughness ≠ [] ∧ V .rain_threshold ≠ [] ∧ V .snow_threshold ≠ [] ∧ V .snow_water_capacity ≠ [] ∧ V .reference_height ≠ [] ∧ V .rain_lai_multiplier ≠ [] ∧ V .snow_lai_multiplier ≠ [] ∧ V .min_intercepted_snow ≠ [] ∧ V .outside_basin ≠ [] := by
  obtain ⟨hI, hD, hF, hU, hT⟩ := hE
  unfold DetermineFixedConstants at h
  split at h
  · cases h
  · rename_i x0 hx0
    split at h
    · cases h
    · rename_i x1 hx1
      split at h
      · cases h
      · rename_i x2 hx2
        split at h
        · cases h
        · rename_i x3 hx3
          split at h
          · cases h
          · rename_i x4 hx4
            split at h
            · cases h
            · rename_i x5 hx5
              split at h
              · cases h
              · rename_i x6 hx6
                split at h
                · cases h
                · rename_i x7 hx7
                  split at h
                  · cases h
                  · rename_i x8 hx8
                    split at h
                    · cases h
                    · rename_i x9 hx9
                      exact ⟨parse_nonempty hF hx0,
                        parse_nonempty hF hx1,
                        parse_nonempty hF hx2,
                        parse_nonempty hF hx3,
                        parse_nonempty hF hx4,
                        parse_nonempty hF hx5,
                        parse_nonempty hF hx6,
                        parse_nonempty hF hx7,
                        parse_nonempty hF hx8,
                        parse_nonempty hU hx9⟩

theorem DeterminePRECIPMULTIPLIER_nonempty {E : COLLABORATORS} {V : KEYS → List Char}
    {st st' : State} (hE : E.RejectEmpty) (h : DeterminePRECIPMULTIPLIER E V st = .ok st') :
    V .precip_multiplier ≠ [] := by
  obtain ⟨hI, hD, hF, hU, hT⟩ := hE
  unfold DeterminePRECIPMULTIPLIER at h
  split at h
  · cases h
  · rename_i x0 hx0
    exact parse_nonempty hF hx0

/-- C12 (as amended). Every declared default is the empty string, and every key
that the pass examines unconditionally must resolve to a non-empty string,
given that the numeric and date routines reject the empty string: a successful
load has all of these keys non-empty, and a table in which one of them is empty
makes the load fail.  Every other key is empty in one of two concrete
configurations that load. -/
theorem C12_always_examined_keys_nonempty (E : COLLABORATORS) (S : SETTINGS)
    (hE : E.RejectEmpty) (Input : LISTPTR) (st : State) :
    (∀ e ∈ StrEnv, e.Default = "") ∧
    (∀ st', InitConstants E S Input st = .ok st' →
      ∀ k ∈ AlwaysExamined, VarStr E S Input k ≠ []) ∧
    ((∃ k ∈ AlwaysExamined, VarStr E S Input k = []) →
      ∃ e, InitConstants E S Input st = .error e) ∧
    (∀ k, k ∉ AlwaysExamined → ∃ Input0 ∈ [sampleSparseInput, sampleNoPointInput],
      VarStr sampleCollaborators sampleSettings Input0 k = [] ∧
      (InitConstants sampleCollaborators sampleSettings Input0
        zeroState).toOption.isSome = true) := by
  have key : ∀ st', InitConstants E S Input st = .ok st' →
      ∀ k ∈ AlwaysExamined, VarStr E S Input k ≠ [] := by
    intro st' h
    unfold InitConstants Decode DetermineModelOptions at h
    simp only [bind_assoc] at h
    obtain ⟨a1, h1, h⟩ := bind_eq_ok h
    obtain ⟨a2, h2, h⟩ := bind_eq_ok h
    obtain ⟨a3, h3, h⟩ := bind_eq_ok h
    obtain ⟨a4, h4, h⟩ := bind_eq_ok h
    obtain ⟨a5, h5, h⟩ := bind_eq_ok h
    obtain ⟨a6, h6, h⟩ := bind_eq_ok h
    obtain ⟨a7, h7, h⟩ := bind_eq_ok h
    obtain ⟨a8, h8, h⟩ := bind_eq_ok h
    obtain ⟨a9, h9, h⟩ := bind_eq_ok h
    obtain ⟨a10, h10, h⟩ := bind_eq_ok h
    obtain ⟨a11, h11, h⟩ := bind_eq_ok h
    obtain ⟨a12, h12, h⟩ := bind_eq_ok h
    obtain ⟨a13, h13, h⟩ := bind_eq_ok h
    obtain ⟨a14, h14, h⟩ := bind_eq_ok h
    obtain ⟨a15, h15, h⟩ := bind_eq_ok h
    obtain ⟨a16, h16, h⟩ := bind_eq_ok h
    obtain ⟨a17, h17, h⟩ := bind_eq_ok h
    obtain ⟨a18, h18, h⟩ := bind_eq_ok h
    obtain ⟨a19, h19, h⟩ := bind_eq_ok h
    obtain ⟨a20, h20, h⟩ := bind_eq_ok h
    obtain ⟨a21, h21, h⟩ := bind_eq_ok h
    obtain ⟨a22, h22, h⟩ := bind_eq_ok h
    obtain ⟨a23, h23, h⟩ := bind_eq_ok h
    obtain ⟨a24, h24, h⟩ := bind_eq_ok h
    obtain ⟨a25, h25, h⟩ := bind_eq_ok h
    obtain ⟨a26, h26, h⟩ := bind_eq_ok h
    obtain ⟨a27, h27, h⟩ := bind_eq_ok h
    obtain ⟨a28, h28, h29⟩ := bind_eq_ok h
    unfold DetermineModelConstants at h29
    obtain ⟨b1, hF, h29⟩ := bind_eq_ok h29
    obtain ⟨b2, hT, h29⟩ := bind_eq_ok h29
    obtain ⟨b3, hL, hM⟩ := bind_eq_ok h29
    have hA := DetermineArealExtent_nonempty hE h26
    have hP := DetermineModelPeriod_nonempty hE h28
    have hC := DetermineFixedConstants_nonempty hE hF
    have hM' := DeterminePRECIPMULTIPLIER_nonempty hE hM
    intro k hk
    simp only [AlwaysExamined, List.mem_cons, List.mem_singleton, List.not_mem_nil,
      or_false] at hk
    rcases hk with rfl | rfl | rfl | rfl | rfl | rfl | rfl | rfl | rfl | rfl | rfl | rfl | rfl | rfl | rfl | rfl | rfl | rfl | rfl | rfl | rfl | rfl | rfl | rfl | rfl | rfl | rfl | rfl | rfl | rfl | rfl | rfl | rfl | rfl | rfl | rfl | rfl | rfl | rfl | rfl
    · exact DetermineFileFormat_nonempty h1
    · exact DetermineExtent_nonempty h2
    · exact DetermineInterpolation_nonempty h4
    · exact DetermineHeatFlux_nonempty h7
    · exact DetermineSediment_nonempty h8
    · exact DetermineRouting_nonempty h10
    · exact DetermineInfiltration_nonempty h11
    · exact DetermineMM5_nonempty h12
    · exact DetermineQPF_nonempty h13
    · exact DeterminePrism_nonempty h14
    · exact DetermineCanopyRadAtt_nonempty h15
    · exact DetermineShading_nonempty h16
    · exact DetermineSnotel_nonempty h18
    · exact DetermineStreamTemp_nonempty h19
    · exact DetermineCanopyShading_nonempty h20
    · exact DetermineOutside_nonempty h21
    · exact DetermineRhoverride_nonempty h24
    · exact hA.1
    · exact hA.2.1
    · exact hA.2.2.1
    · exact hA.2.2.2.1
    · exact hA.2.2.2.2.1
    · exact hA.2.2.2.2.2.1
    · exact hA.2.2.2.2.2.2.1
    · exact hA.2.2.2.2.2.2.2.1
    · exact hA.2.2.2.2.2.2.2.2
    · exact hP.1
    · exact hP.2.1
    · exact hP.2.2
    · exact hC.1
    · exact hC.2.1
    · exact hC.2.2.1
    · exact hC.2.2.2.1
    · exact hC.2.2.2.2.1
    · exact hC.2.2.2.2.2.1
    · exact hC.2.2.2.2.2.2.1
    · exact hC.2.2.2.2.2.2.2.1
    · exact hC.2.2.2.2.2.2.2.2.1
    · exact hC.2.2.2.2.2.2.2.2.2
    · exact hM'
  have hs : (InitConstants sampleCollaborators sampleSettings sampleSparseInput
      zeroState).toOption.isSome = true := by decide
  have hn : (InitConstants sampleCollaborators sampleSettings sampleNoPointInput
      zeroState).toOption.isSome = true := by decide
  refine ⟨by decide, key, ?_, ?_⟩
  · rintro ⟨k, hk, he⟩
    cases hr : InitConstants E S Input st with
    | error e => exact ⟨e, rfl⟩
    | ok st' => exact absurd he (key st' hr k hk)
  · intro k hk
    cases k
    all_goals first
      | exact absurd (by decide) hk
      | exact ⟨sampleSparseInput, by decide, by decide, hs⟩
      | exact ⟨sampleNoPointInput, by decide, by decide, hn⟩

/-- C12 (as amended), on a concrete configuration: without the OPTIONS section the
key FORMAT resolves to the empty string. -/
theorem C12_always_examined_keys_nonempty_witness :
    ∃ e, InitConstants sampleCollaborators sampleSettings sampleNumbers zeroState =
      .error e :=
  (C12_always_examined_keys_nonempty sampleCollaborators sampleSettings (by decide)
    sampleNumbers zeroState).2.2.1 ⟨.format, by decide, by decide⟩

/-- C12 as stated fails: in the valid basin configuration the schema key SEDIMENT
INPUT FILE resolves to the empty string, as do the Cressman, PRISM and shading
data keys and the last five keys of the CONSTANTS section, and the load succeeds. -/
theorem C12_counterexample :
    VarStr sampleCollaborators sampleSettings sampleInput .sed_input_file = [] ∧
    (InitConstants sampleCollaborators sampleSettings sampleInput
      zeroState).toOption.isSome = true ∧
    ([KEYS.sed_input_file, .cressman_radius, .cressman_stations, .prism_data_path,
      .prism_data_ext, .shading_data_path, .shading_data_ext, .skyview_data_path,
      .tree_height, .buffer_width, .overhang_coefficient,
      .monthly_extinction_coefficient, .canopy_bank_distance].all
        fun k => VarStr sampleCollaborators sampleSettings sampleInput k = []) = true := by
  refine ⟨by decide, by decide, by decide⟩

/-! ## What a failure report carries -/

theorem mem_allKeys (k : KEYS) : k ∈ allKeys := by
  cases k <;> decide

/-- Two rows of the table have the same key name only if they are the same row or
the OPTIONS and CONSTANTS rows of one of the two lapse rates. -/
theorem KeyName_eq (k k' : KEYS) (h : KeyName k = KeyName k') :
    k = k' ∨ (k = .temp_lapse ∧ k' = .temp_lapse_rate) ∨
      (k = .temp_lapse_rate ∧ k' = .temp_lapse) ∨
      (k = .precip_lapse ∧ k' = .precip_lapse_rate) ∨
      (k = .precip_lapse_rate ∧ k' = .precip_lapse) := by
  have key : ∀ k ∈ allKeys, ∀ k' ∈ allKeys, KeyName k = KeyName k' →
      k = k' ∨ (k = .temp_lapse ∧ k' = .temp_lapse_rate) ∨
        (k = .temp_lapse_rate ∧ k' = .temp_lapse) ∨
        (k = .precip_lapse ∧ k' = .precip_lapse_rate) ∨
        (k = .precip_lapse_rate ∧ k' = .precip_lapse) := by decide!
  exact key k (mem_allKeys k) k' (mem_allKeys k') h

/-- C13 (as amended). A failing load reports `ReportError` with the key name (not
the section) of a key of the table and the code 51, or it is the exit with
status -1 of the canopy shading block.  With the header constants pairwise
distinct the key is that of the offending entry: the load has a first validation
step, in the order of `Rules`, that applies and is violated, and the report is
the failure of that step, `ReportError` with the key name of its key and the code
51 (the exit with status -1 for the step of canopy shading without the stream
temperature module).  The key names of two rows of the table coincide only for
the same row and for the OPTIONS and CONSTANTS rows of TEMPERATURE LAPSE RATE and
of PRECIPITATION LAPSE RATE, which do coincide; section and key name together
identify the row. -/
theorem C13_failure_reports_name_the_key (E : COLLABORATORS) (S : SETTINGS)
    (Input : LISTPTR) (st : State) (e : Failure)
    (h : InitConstants E S Input st = .error e) :
    ((∃ k : KEYS, e = .ReportError (KeyName k) 51) ∨ e = .Exit CanopyShadingMessage (-1)) ∧
    (S.Distinct →
      ∃ (i : Nat) (r : RULE), (Rules E (VarStr E S Input))[i]? = some r ∧
        r.applies = true ∧ r.violated = true ∧
        (∀ (j : Nat) (r' : RULE), j < i → (Rules E (VarStr E S Input))[j]? = some r' →
          (r'.applies && r'.violated) = false) ∧
        e = r.failure ∧
        (e = .ReportError (KeyName r.key) 51 ∨
          (r = RULE.canopy (VarStr E S Input) ∧ e = .Exit CanopyShadingMessage (-1)))) ∧
    (∀ k k' : KEYS, KeyName k = KeyName k' →
      k = k' ∨ (k = .temp_lapse ∧ k' = .temp_lapse_rate) ∨
        (k = .temp_lapse_rate ∧ k' = .temp_lapse) ∨
        (k = .precip_lapse ∧ k' = .precip_lapse_rate) ∨
        (k = .precip_lapse_rate ∧ k' = .precip_lapse)) ∧
    KeyName .temp_lapse = KeyName .temp_lapse_rate ∧
    KeyName .precip_lapse = KeyName .precip_lapse_rate ∧
    (∀ k k' : KEYS, SectionName k = SectionName k' → KeyName k = KeyName k' → k = k') := by
  refine ⟨?_, ?_, KeyName_eq, by decide, by decide, ?_⟩
  · have h' := h
    unfold InitConstants at h'
    rw [Decode_eq_runChecks] at h'
    obtain ⟨i, c, a, hi, hrun, hfail⟩ := runChecks_error E S _ Pass st e h'
    rcases Pass_fails c (List.getElem?_mem hi) E S _ a e hfail with ⟨k, _, hk⟩ | hx
    · exact Or.inl ⟨k, hk⟩
    · exact Or.inr hx
  · intro hD
    obtain ⟨i, r, hi, ha, hv, hfirst, he⟩ := InitConstants_error E S hD Input st h
    refine ⟨i, r, hi, ha, hv, hfirst, he, ?_⟩
    rcases Rules_failure E _ r (List.getElem?_mem hi) with hr | ⟨hr1, hr2⟩
    · exact Or.inl (he.trans hr)
    · exact Or.inr ⟨hr1, he.trans hr2⟩
  · intro k k' hs hk
    rcases KeyName_eq k k' hk with h | ⟨rfl, rfl⟩ | ⟨rfl, rfl⟩ | ⟨rfl, rfl⟩ | ⟨rfl, rfl⟩
    · exact h
    all_goals exact absurd hs (by decide)

/-- C13 (as amended), on a concrete configuration: an EXTENT that is no literal
is reported by the step of the key EXTENT. -/
theorem C13_failure_reports_name_the_key_witness :
    sampleSettings.Distinct ∧
    ∃ (i : Nat) (r : RULE),
      (Rules sampleCollaborators
        (VarStr sampleCollaborators sampleSettings
          (("OPTIONS", "EXTENT", "REGION".toList) :: sampleInput)))[i]? = some r ∧
      r.applies = true ∧ r.violated = true ∧
      (∀ (j : Nat) (r' : RULE), j < i →
        (Rules sampleCollaborators
          (VarStr sampleCollaborators sampleSettings
          (("OPTIONS", "EXTENT", "REGION".toList) :: sampleInput)))[j]? = some r' →
        (r'.applies && r'.violated) = false) ∧
      Failure.ReportError "EXTENT" 51 = r.failure ∧
      (Failure.ReportError "EXTENT" 51 = .ReportError (KeyName r.key) 51 ∨
        (r = RULE.canopy
          (VarStr sampleCollaborators sampleSettings
          (("OPTIONS", "EXTENT", "REGION".toList) :: sampleInput)) ∧
          Failure.ReportError "EXTENT" 51 = .Exit CanopyShadingMessage (-1))) :=
  ⟨by decide,
    (C13_failure_reports_name_the_key sampleCollaborators sampleSettings
      (("OPTIONS", "EXTENT", "REGION".toList) :: sampleInput) zeroState
      (.ReportError "EXTENT" 51) (failureOf_eq (by decide))).2.1 (by decide)⟩

/-- C13 as stated fails: an invalid OPTIONS / TEMPERATURE LAPSE RATE and an invalid
CONSTANTS / TEMPERATURE LAPSE RATE, each in a configuration that is valid without
it, produce the same report, which carries the key name alone; and the failure
of CANOPY SHADING without STREAM TEMPERATURE carries the status -1, not 51. -/
theorem C13_counterexample :
    SectionName .temp_lapse = "OPTIONS" ∧ SectionName .temp_lapse_rate = "CONSTANTS" ∧
    (InitConstants sampleCollaborators sampleSettings sampleInput
      zeroState).toOption.isSome = true ∧
    InitConstants sampleCollaborators sampleSettings
      (("OPTIONS", "TEMPERATURE LAPSE RATE", "steep".toList) :: sampleInput) zeroState =
      .error (.ReportError "TEMPERATURE LAPSE RATE" 51) ∧
    InitConstants sampleCollaborators sampleSettings
      (("CONSTANTS", "TEMPERATURE LAPSE RATE", "steep".toList) :: sampleInput) zeroState =
      .error (.ReportError "TEMPERATURE LAPSE RATE" 51) ∧
    InitConstants sampleCollaborators sampleSettings
      (("OPTIONS", "CANOPY SHADING", "TRUE".toList) :: sampleInput) zeroState =
      .error (.Exit CanopyShadingMessage (-1)) :=
  ⟨by decide, by decide, by decide, failureOf_eq (by decide), failureOf_eq (by decide),
    failureOf_eq (by decide)⟩

/-! ## The data files of PRISM and of shading -/

theorem DeterminePrismData_skip {S : SETTINGS} (V : KEYS → List Char) {st : State}
    (h : st.Options.Prism ≠ S.TRUE) : DeterminePrismData S V st = .ok st := by
  unfold DeterminePrismData
  rw [if_neg h]

theorem DeterminePrismData_path {S : SETTINGS} {V : KEYS → List Char} {st : State}
    (h : st.Options.Prism = S.TRUE) (he : V .prism_data_path = []) :
    DeterminePrismData S V st = .error (.ReportError "PRISM DATA PATH" 51) := by
  unfold DeterminePrismData
  rw [if_pos h, he]
  rfl

theorem DeterminePrismData_ext {S : SETTINGS} {V : KEYS → List Char} {st : State}
    (h : st.Options.Prism = S.TRUE) (hp : V .prism_data_path ≠ [])
    (he : V .prism_data_ext = []) :
    DeterminePrismData S V st = .error (.ReportError "PRISM DATA EXTENSION" 51) := by
  unfold DeterminePrismData
  rw [if_pos h, he, if_neg (by simpa [IsEmptyStr] using hp)]
  rfl

theorem DeterminePrismData_ok {S : SETTINGS} {V : KEYS → List Char} {st st' : State}
    (h : st.Options.Prism = S.TRUE) (hok : DeterminePrismData S V st = .ok st') :
    V .prism_data_path ≠ [] ∧ V .prism_data_ext ≠ [] ∧
    st' = { st with
      Options.PrismDataPath := V .prism_data_path,
      Options.PrismDataExt := V .prism_data_ext } := by
  unfold DeterminePrismData at hok
  rw [if_pos h] at hok
  split at hok
  · cases hok
  · rename_i h1
    split at hok
    · cases hok
    · rename_i h2
      cases hok
      exact ⟨by simpa [IsEmptyStr] using h1, by simpa [IsEmptyStr] using h2, rfl⟩

theorem DetermineShadingData_skip {S : SETTINGS} (V : KEYS → List Char) {st : State}
    (h : st.Options.Shading ≠ S.TRUE) : DetermineShadingData S V st = .ok st := by
  unfold DetermineShadingData
  rw [if_neg h]

theorem DetermineShadingData_path {S : SETTINGS} {V : KEYS → List Char} {st : State}
    (h : st.Options.Shading = S.TRUE) (he : V .shading_data_path = []) :
    DetermineShadingData S V st = .error (.ReportError "SHADING DATA PATH" 51) := by
  unfold DetermineShadingData
  rw [if_pos h, he]
  rfl

theorem DetermineShadingData_ext {S : SETTINGS} {V : KEYS → List Char} {st : State}
    (h : st.Options.Shading = S.TRUE) (hp : V .shading_data_path ≠ [])
    (he : V .shading_data_ext = []) :
    DetermineShadingData S V st = .error (.ReportError "SHADING DATA EXTENSION" 51) := by
  unfold DetermineShadingData
  rw [if_pos h, he, if_neg (by simpa [IsEmptyStr] using hp)]
  rfl

theorem DetermineShadingData_skyview {S : SETTINGS} {V : KEYS → List Char} {st : State}
    (h : st.Options.Shading = S.TRUE) (hp : V .shading_data_path ≠ [])
    (hx : V .shading_data_ext ≠ []) (he : V .skyview_data_path = []) :
    DetermineShadingData S V st = .error (.ReportError "SKYVIEW DATA PATH" 51) := by
  unfold DetermineShadingData
  rw [if_pos h, he, if_neg (by simpa [IsEmptyStr] using hp),
    if_neg (by simpa [IsEmptyStr] using hx)]
  rfl

theorem DetermineShadingData_ok {S : SETTINGS} {V : KEYS → List Char} {st st' : State}
    (h : st.Options.Shading = S.TRUE) (hok : DetermineShadingData S V st = .ok st') :
    V .shading_data_path ≠ [] ∧ V .shading_data_ext ≠ [] ∧ V .skyview_data_path ≠ [] ∧
    st' = { st with
      Options.ShadingDataPath := V .shading_data_path,
      Options.ShadingDataExt := V .shading_data_ext,
      Options.SkyViewDataPath := V .skyview_data_path } := by
  unfold DetermineShadingData at hok
  rw [if_pos h] at hok
  split at hok
  · cases hok
  · rename_i h1
    split at hok
    · cases hok
    · rename_i h2
      split at hok
      · cases hok
      · rename_i h3
        cases hok
        exact ⟨by simpa [IsEmptyStr] using h1, by simpa [IsEmptyStr] using h2,
          by simpa [IsEmptyStr] using h3, rfl⟩

theorem update3_VarStr_of_agree {k1 k2 k3 : KEYS} {V W : KEYS → List Char}
    (h : AgreeOutside [k1, k2, k3] V W) :
    W = Function.update (Function.update (Function.update V k1 (W k1)) k2 (W k2))
      k3 (W k3) := by
  funext j
  by_cases hj3 : j = k3
  · subst hj3
    rw [Function.update_same]
  · rw [Function.update_noteq hj3]
    by_cases hj2 : j = k2
    · subst hj2
      rw [Function.update_same]
    · rw [Function.update_noteq hj2]
      by_cases hj1 : j = k1
      · subst hj1
        rw [Function.update_same]
      · rw [Function.update_noteq hj1]
        exact (h j (by simp [hj1, hj2, hj3])).symm

/-- Over the table of resolved strings: if some values of the two PRISM data keys
let the pass succeed, then with PRISM decoded to TRUE the pass fails wherever
the PRISM data block does. -/
theorem Decode_prism_data_fails {E : COLLABORATORS} {S : SETTINGS}
    {V : KEYS → List Char} {st st0 : State} {s1 s2 : List Char} {e : Failure}
    (h : Decode E S (Function.update (Function.update V .prism_data_path s1)
      .prism_data_ext s2) st = .ok st0)
    (hp : Begins "TRUE".toList (V .prism))
    (hblk : ∀ a : State, a.Options.Prism = S.TRUE → DeterminePrismData S V a = .error e) :
    Decode E S V st = .error e := by
  unfold Decode DetermineModelOptions at h ⊢
  simp only [bind_assoc, DetermineFileFormat_update, DetermineExtent_update, DetermineFlowGradient_update,
    DetermineInterpolation_update, DetermineCressman_update, DetermineHasNetwork_update,
    DetermineHeatFlux_update, DetermineSediment_update, DetermineSedFile_update,
    DetermineRouting_update, DetermineInfiltration_update, DetermineMM5_update,
    DetermineQPF_update, DeterminePrism_update, DetermineCanopyRadAtt_update,
    DetermineShading_update, DetermineSnotel_update, DetermineStreamTemp_update,
    DetermineCanopyShading_update, DetermineOutside_update, DeterminePrismData_update,
    DetermineShadingData_update, DetermineRhoverride_update, DetermineMetOptions_update,
    DetermineArealExtent_update, DeterminePoint_update, DetermineModelPeriod_update,
    DetermineModelConstants_update,
    List.mem_cons, List.mem_singleton, List.not_mem_nil, reduceCtorEq, or_self, or_false,
    not_false_eq_true] at h
  simp only [bind_assoc]
  iterate 13 (obtain ⟨a, ha, h⟩ := bind_eq_ok h; rw [ha, bind_ok_eq]; clear ha)
  obtain ⟨a14, h14, h⟩ := bind_eq_ok h
  rw [h14, bind_ok_eq]
  have hm : a14.Options.Prism = S.TRUE := by
    rw [DeterminePrism_TRUE hp] at h14
    cases h14
    rfl
  obtain ⟨a15, h15, h⟩ := bind_eq_ok h
  rw [h15, bind_ok_eq]
  replace hm : a15.Options.Prism = S.TRUE := by
    obtain ⟨_, rfl⟩ := DetermineCanopyRadAtt_inv h15
    exact hm
  obtain ⟨a16, h16, h⟩ := bind_eq_ok h
  rw [h16, bind_ok_eq]
  replace hm : a16.Options.Prism = S.TRUE := by
    obtain ⟨_, rfl⟩ := DetermineShading_inv h16
    exact hm
  obtain ⟨a17, h17, h⟩ := bind_eq_ok h
  rw [h17, bind_ok_eq]
  replace hm : a17.Options.Prism = S.TRUE := by
    obtain rfl := CheckMM5Prism_inv h17
    exact hm
  obtain ⟨a18, h18, h⟩ := bind_eq_ok h
  rw [h18, bind_ok_eq]
  replace hm : a18.Options.Prism = S.TRUE := by
    obtain ⟨_, rfl⟩ := DetermineSnotel_inv h18
    exact hm
  obtain ⟨a19, h19, h⟩ := bind_eq_ok h
  rw [h19, bind_ok_eq]
  replace hm : a19.Options.Prism = S.TRUE := by
    obtain ⟨_, rfl⟩ := DetermineStreamTemp_inv h19
    exact hm
  obtain ⟨a20, h20, h⟩ := bind_eq_ok h
  rw [h20, bind_ok_eq]
  replace hm : a20.Options.Prism = S.TRUE := by
    obtain ⟨_, rfl⟩ := DetermineCanopyShading_inv h20
    exact hm
  obtain ⟨a21, h21, h⟩ := bind_eq_ok h
  rw [h21, bind_ok_eq]
  replace hm : a21.Options.Prism = S.TRUE := by
    obtain ⟨_, rfl⟩ := DetermineOutside_inv h21
    exact hm
  rw [hblk _ hm]
  rfl

/-- Over the table of resolved strings: with PRISM decoded to FALSE the values of
the two PRISM data keys do not matter. -/
theorem Decode_prism_data_skip {E : COLLABORATORS} {S : SETTINGS} (hS : S.TRUE ≠ S.FALSE)
    {V : KEYS → List Char} (hp : Begins "FALSE".toList (V .prism)) (st : State)
    (s1 s2 : List Char) :
    Decode E S (Function.update (Function.update V .prism_data_path s1)
      .prism_data_ext s2) st = Decode E S V st := by
  unfold Decode DetermineModelOptions
  simp only [bind_assoc, DetermineFileFormat_update, DetermineExtent_update, DetermineFlowGradient_update,
    DetermineInterpolation_update, DetermineCressman_update, DetermineHasNetwork_update,
    DetermineHeatFlux_update, DetermineSediment_update, DetermineSedFile_update,
    DetermineRouting_update, DetermineInfiltration_update, DetermineMM5_update,
    DetermineQPF_update, DeterminePrism_update, DetermineCanopyRadAtt_update,
    DetermineShading_update, DetermineSnotel_update, DetermineStreamTemp_update,
    DetermineCanopyShading_update, DetermineOutside_update, DeterminePrismData_update,
    DetermineShadingData_update, DetermineRhoverride_update, DetermineMetOptions_update,
    DetermineArealExtent_update, DeterminePoint_update, DetermineModelPeriod_update,
    DetermineModelConstants_update,
    List.mem_cons, List.mem_singleton, List.not_mem_nil, reduceCtorEq, or_self, or_false,
    not_false_eq_true]
  iterate 13 refine bind_congr_ok fun _ _ => ?_
  refine bind_congr_ok fun a14 h14 => ?_
  have hm : a14.Options.Prism = S.FALSE := by
    rw [DeterminePrism_FALSE hp] at h14
    cases h14
    rfl
  refine bind_congr_ok fun a15 h15 => ?_
  replace hm : a15.Options.Prism = S.FALSE := by
    obtain ⟨_, rfl⟩ := DetermineCanopyRadAtt_inv h15
    exact hm
  refine bind_congr_ok fun a16 h16 => ?_
  replace hm : a16.Options.Prism = S.FALSE := by
    obtain ⟨_, rfl⟩ := DetermineShading_inv h16
    exact hm
  refine bind_congr_ok fun a17 h17 => ?_
  replace hm : a17.Options.Prism = S.FALSE := by
    obtain rfl := CheckMM5Prism_inv h17
    exact hm
  refine bind_congr_ok fun a18 h18 => ?_
  replace hm : a18.Options.Prism = S.FALSE := by
    obtain ⟨_, rfl⟩ := DetermineSnotel_inv h18
    exact hm
  refine bind_congr_ok fun a19 h19 => ?_
  replace hm : a19.Options.Prism = S.FALSE := by
    obtain ⟨_, rfl⟩ := DetermineStreamTemp_inv h19
    exact hm
  refine bind_congr_ok fun a20 h20 => ?_
  replace hm : a20.Options.Prism = S.FALSE := by
    obtain ⟨_, rfl⟩ := DetermineCanopyShading_inv h20
    exact hm
  refine bind_congr_ok fun a21 h21 => ?_
  replace hm : a21.Options.Prism = S.FALSE := by
    obtain ⟨_, rfl⟩ := DetermineOutside_inv h21
    exact hm
  rw [DeterminePrismData_skip V (fun h => hS (h.symm.trans hm)),
    DeterminePrismData_skip _ (fun h => hS (h.symm.trans hm))]

/-- Over the table of resolved strings: if some values of the three shading data
keys let the pass succeed, then with SHADING decoded to TRUE the pass fails
wherever the shading data block does. -/
theorem Decode_shading_data_fails {E : COLLABORATORS} {S : SETTINGS}
    {V : KEYS → List Char} {st st0 : State} {s1 s2 s3 : List Char} {e : Failure}
    (h : Decode E S (Function.update (Function.update (Function.update V
      .shading_data_path s1) .shading_data_ext s2) .skyview_data_path s3) st = .ok st0)
    (hp : Begins "TRUE".toList (V .shading))
    (hblk : ∀ a : State, a.Options.Shading = S.TRUE →
      DetermineShadingData S V a = .error e) :
    Decode E S V st = .error e := by
  unfold Decode DetermineModelOptions at h ⊢
  simp only [bind_assoc, DetermineFileFormat_update, DetermineExtent_update, DetermineFlowGradient_update,
    DetermineInterpolation_update, DetermineCressman_update, DetermineHasNetwork_update,
    DetermineHeatFlux_update, DetermineSediment_update, DetermineSedFile_update,
    DetermineRouting_update, DetermineInfiltration_update, DetermineMM5_update,
    DetermineQPF_update, DeterminePrism_update, DetermineCanopyRadAtt_update,
    DetermineShading_update, DetermineSnotel_update, DetermineStreamTemp_update,
    DetermineCanopyShading_update, DetermineOutside_update, DeterminePrismData_update,
    DetermineShadingData_update, DetermineRhoverride_update, DetermineMetOptions_update,
    DetermineArealExtent_update, DeterminePoint_update, DetermineModelPeriod_update,
    DetermineModelConstants_update,
    List.mem_cons, List.mem_singleton, List.not_mem_nil, reduceCtorEq, or_self, or_false,
    not_false_eq_true] at h
  simp only [bind_assoc]
  iterate 15 (obtain ⟨a, ha, h⟩ := bind_eq_ok h; rw [ha, bind_ok_eq]; clear ha)
  obtain ⟨a16, h16, h⟩ := bind_eq_ok h
  rw [h16, bind_ok_eq]
  have hm : a16.Options.Shading = S.TRUE := by
    rw [DetermineShading_TRUE hp] at h16
    cases h16
    rfl
  obtain ⟨a17, h17, h⟩ := bind_eq_ok h
  rw [h17, bind_ok_eq]
  replace hm : a17.Options.Shading = S.TRUE := by
    obtain rfl := CheckMM5Prism_inv h17
    exact hm
  obtain ⟨a18, h18, h⟩ := bind_eq_ok h
  rw [h18, bind_ok_eq]
  replace hm : a18.Options.Shading = S.TRUE := by
    obtain ⟨_, rfl⟩ := DetermineSnotel_inv h18
    exact hm
  obtain ⟨a19, h19, h⟩ := bind_eq_ok h
  rw [h19, bind_ok_eq]
  replace hm : a19.Options.Shading = S.TRUE := by
    obtain ⟨_, rfl⟩ := DetermineStreamTemp_inv h19
    exact hm
  obtain ⟨a20, h20, h⟩ := bind_eq_ok h
  rw [h20, bind_ok_eq]
  replace hm : a20.Options.Shading = S.TRUE := by
    obtain ⟨_, rfl⟩ := DetermineCanopyShading_inv h20
    exact hm
  obtain ⟨a21, h21, h⟩ := bind_eq_ok h
  rw [h21, bind_ok_eq]
  replace hm : a21.Options.Shading = S.TRUE := by
    obtain ⟨_, rfl⟩ := DetermineOutside_inv h21
    exact hm
  obtain ⟨a22, h22, h⟩ := bind_eq_ok h
  rw [h22, bind_ok_eq]
  replace hm : a22.Options.Shading = S.TRUE := by
    obtain ⟨_, _, rfl⟩ := DeterminePrismData_inv h22
    exact hm
  rw [hblk _ hm]
  rfl

/-- Over the table of resolved strings: with SHADING decoded to FALSE the values
of the three shading data keys do not matter. -/
theorem Decode_shading_data_skip {E : COLLABORATORS} {S : SETTINGS}
    (hS : S.TRUE ≠ S.FALSE) {V : KEYS → List Char}
    (hp : Begins "FALSE".toList (V .shading)) (st : State) (s1 s2 s3 : List Char) :
    Decode E S (Function.update (Function.update (Function.update V
      .shading_data_path s1) .shading_data_ext s2) .skyview_data_path s3) st =
      Decode E S V st := by
  unfold Decode DetermineModelOptions
  simp only [bind_assoc, DetermineFileFormat_update, DetermineExtent_update, DetermineFlowGradient_update,
    DetermineInterpolation_update, DetermineCressman_update, DetermineHasNetwork_update,
    DetermineHeatFlux_update, DetermineSediment_update, DetermineSedFile_update,
    DetermineRouting_update, DetermineInfiltration_update, DetermineMM5_update,
    DetermineQPF_update, DeterminePrism_update, DetermineCanopyRadAtt_update,
    DetermineShading_update, DetermineSnotel_update, DetermineStreamTemp_update,
    DetermineCanopyShading_update, DetermineOutside_update, DeterminePrismData_update,
    DetermineShadingData_update, DetermineRhoverride_update, DetermineMetOptions_update,
    DetermineArealExtent_update, DeterminePoint_update, DetermineModelPeriod_update,
    DetermineModelConstants_update,
    List.mem_cons, List.mem_singleton, List.not_mem_nil, reduceCtorEq, or_self, or_false,
    not_false_eq_true]
  iterate 15 refine bind_congr_ok fun _ _ => ?_
  refine bind_congr_ok fun a16 h16 => ?_
  have hm : a16.Options.Shading = S.FALSE := by
    rw [DetermineShading_FALSE hp] at h16
    cases h16
    rfl
  refine bind_congr_ok fun a17 h17 => ?_
  replace hm : a17.Options.Shading = S.FALSE := by
    obtain rfl := CheckMM5Prism_inv h17
    exact hm
  refine bind_congr_ok fun a18 h18 => ?_
  replace hm : a18.Options.Shading = S.FALSE := by
    obtain ⟨_, rfl⟩ := DetermineSnotel_inv h18
    exact hm
  refine bind_congr_ok fun a19 h19 => ?_
  replace hm : a19.Options.Shading = S.FALSE := by
    obtain ⟨_, rfl⟩ := DetermineStreamTemp_inv h19
    exact hm
  refine bind_congr_ok fun a20 h20 => ?_
  replace hm : a20.Options.Shading = S.FALSE := by
    obtain ⟨_, rfl⟩ := DetermineCanopyShading_inv h20
    exact hm
  refine bind_congr_ok fun a21 h21 => ?_
  replace hm : a21.Options.Shading = S.FALSE := by
    obtain ⟨_, rfl⟩ := DetermineOutside_inv h21
    exact hm
  refine bind_congr_ok fun a22 h22 => ?_
  replace hm : a22.Options.Shading = S.FALSE := by
    obtain ⟨_, _, rfl⟩ := DeterminePrismData_inv h22
    exact hm
  rw [DetermineShadingData_skip V (fun h => hS (h.symm.trans hm)),
    DetermineShadingData_skip _ (fun h => hS (h.symm.trans hm))]

/-- C14. In a configuration that is valid but for the dependent keys (some values
of them let the load succeed): with PRISM decoded to TRUE an empty PRISM DATA
PATH makes the load fail with `ReportError` on PRISM DATA PATH and code 51, and
an empty PRISM DATA EXTENSION after a non-empty path makes it fail on PRISM DATA
EXTENSION; with SHADING decoded to TRUE the first empty key among SHADING DATA
PATH, SHADING DATA EXTENSION and SKYVIEW DATA PATH, in that order, is the one
named.  A successful load with the flag TRUE has all the dependent keys
non-empty and copied verbatim into the options.  With the flag decoded to FALSE
every input that differs in the dependent keys alone has the same outcome. -/
theorem C14_prism_and_shading_data (E : COLLABORATORS) (S : SETTINGS) (hS : S.Distinct) :
    (∀ (Input Input0 : LISTPTR) (st st0 : State),
      AgreeOutside [.prism_data_path, .prism_data_ext]
        (VarStr E S Input) (VarStr E S Input0) →
      InitConstants E S Input0 st = .ok st0 →
      Begins "TRUE".toList (VarStr E S Input .prism) →
      (VarStr E S Input .prism_data_path = [] →
        InitConstants E S Input st = .error (.ReportError "PRISM DATA PATH" 51)) ∧
      (VarStr E S Input .prism_data_path ≠ [] →
        VarStr E S Input .prism_data_ext = [] →
        InitConstants E S Input st = .error (.ReportError "PRISM DATA EXTENSION" 51))) ∧
    (∀ (Input Input0 : LISTPTR) (st st0 : State),
      AgreeOutside [.shading_data_path, .shading_data_ext, .skyview_data_path]
        (VarStr E S Input) (VarStr E S Input0) →
      InitConstants E S Input0 st = .ok st0 →
      Begins "TRUE".toList (VarStr E S Input .shading) →
      (VarStr E S Input .shading_data_path = [] →
        InitConstants E S Input st = .error (.ReportError "SHADING DATA PATH" 51)) ∧
      (VarStr E S Input .shading_data_path ≠ [] →
        VarStr E S Input .shading_data_ext = [] →
        InitConstants E S Input st =
          .error (.ReportError "SHADING DATA EXTENSION" 51)) ∧
      (VarStr E S Input .shading_data_path ≠ [] →
        VarStr E S Input .shading_data_ext ≠ [] →
        VarStr E S Input .skyview_data_path = [] →
        InitConstants E S Input st = .error (.ReportError "SKYVIEW DATA PATH" 51))) ∧
    (∀ (Input : LISTPTR) (st st' : State), InitConstants E S Input st = .ok st' →
      (Begins "TRUE".toList (VarStr E S Input .prism) →
        VarStr E S Input .prism_data_path ≠ [] ∧
        VarStr E S Input .prism_data_ext ≠ [] ∧
        st'.Options.PrismDataPath = VarStr E S Input .prism_data_path ∧
        st'.Options.PrismDataExt = VarStr E S Input .prism_data_ext) ∧
      (Begins "TRUE".toList (VarStr E S Input .shading) →
        VarStr E S Input .shading_data_path ≠ [] ∧
        VarStr E S Input .shading_data_ext ≠ [] ∧
        VarStr E S Input .skyview_data_path ≠ [] ∧
        st'.Options.ShadingDataPath = VarStr E S Input .shading_data_path ∧
        st'.Options.ShadingDataExt = VarStr E S Input .shading_data_ext ∧
        st'.Options.SkyViewDataPath = VarStr E S Input .skyview_data_path)) ∧
    (∀ (Input Input' : LISTPTR) (st : State),
      Begins "FALSE".toList (VarStr E S Input .prism) →
      AgreeOutside [.prism_data_path, .prism_data_ext]
        (VarStr E S Input) (VarStr E S Input') →
      InitConstants E S Input' st = InitConstants E S Input st) ∧
    (∀ (Input Input' : LISTPTR) (st : State),
      Begins "FALSE".toList (VarStr E S Input .shading) →
      AgreeOutside [.shading_data_path, .shading_data_ext, .skyview_data_path]
        (VarStr E S Input) (VarStr E S Input') →
      InitConstants E S Input' st = InitConstants E S Input st) := by
  refine ⟨?_, ?_, ?_, ?_, ?_⟩
  · intro Input Input0 st st0 hagree h0 hp
    unfold InitConstants at h0 ⊢
    rw [update2_VarStr_of_agree hagree] at h0
    exact ⟨fun he => Decode_prism_data_fails h0 hp fun a ha => DeterminePrismData_path ha he,
      fun h1 he => Decode_prism_data_fails h0 hp fun a ha =>
        DeterminePrismData_ext ha h1 he⟩
  · intro Input Input0 st st0 hagree h0 hp
    unfold InitConstants at h0 ⊢
    rw [update3_VarStr_of_agree hagree] at h0
    exact ⟨fun he => Decode_shading_data_fails h0 hp fun a ha =>
        DetermineShadingData_path ha he,
      fun h1 he => Decode_shading_data_fails h0 hp fun a ha =>
        DetermineShadingData_ext ha h1 he,
      fun h1 h2 he => Decode_shading_data_fails h0 hp fun a ha =>
        DetermineShadingData_skyview ha h1 h2 he⟩
  · intro Input st st' h
    unfold InitConstants Decode DetermineModelOptions at h
    simp only [bind_assoc] at h
    obtain ⟨a1, h1, h⟩ := bind_eq_ok h
    obtain ⟨a2, h2, h⟩ := bind_eq_ok h
    obtain ⟨a3, h3, h⟩ := bind_eq_ok h
    obtain ⟨a4, h4, h⟩ := bind_eq_ok h
    obtain ⟨a5, h5, h⟩ := bind_eq_ok h
    obtain ⟨a6, h6, h⟩ := bind_eq_ok h
    obtain ⟨a7, h7, h⟩ := bind_eq_ok h
    obtain ⟨a8, h8, h⟩ := bind_eq_ok h
    obtain ⟨a9, h9, h⟩ := bind_eq_ok h
    obtain ⟨a10, h10, h⟩ := bind_eq_ok h
    obtain ⟨a11, h11, h⟩ := bind_eq_ok h
    obtain ⟨a12, h12, h⟩ := bind_eq_ok h
    obtain ⟨a13, h13, h⟩ := bind_eq_ok h
    obtain ⟨a14, h14, h⟩ := bind_eq_ok h
    obtain ⟨a15, h15, h⟩ := bind_eq_ok h
    obtain ⟨a16, h16, h⟩ := bind_eq_ok h
    obtain ⟨a17, h17, h⟩ := bind_eq_ok h
    obtain ⟨a18, h18, h⟩ := bind_eq_ok h
    obtain ⟨a19, h19, h⟩ := bind_eq_ok h
    obtain ⟨a20, h20, h⟩ := bind_eq_ok h
    obtain ⟨a21, h21, h⟩ := bind_eq_ok h
    obtain ⟨a22, h22, h⟩ := bind_eq_ok h
    obtain ⟨a23, h23, h⟩ := bind_eq_ok h
    obtain ⟨a24, h24, h⟩ := bind_eq_ok h
    obtain ⟨a25, h25, h⟩ := bind_eq_ok h
    obtain ⟨a26, h26, h⟩ := bind_eq_ok h
    obtain ⟨a27, h27, h⟩ := bind_eq_ok h
    obtain ⟨a28, h28, h29⟩ := bind_eq_ok h
    constructor
    · intro hp
      have hm : a14.Options.Prism = S.TRUE := by
        rw [DeterminePrism_TRUE hp] at h14
        cases h14
        rfl
      replace hm : a15.Options.Prism = S.TRUE := by
        obtain ⟨_, rfl⟩ := DetermineCanopyRadAtt_inv h15
        exact hm
      replace hm : a16.Options.Prism = S.TRUE := by
        obtain ⟨_, rfl⟩ := DetermineShading_inv h16
        exact hm
      replace hm : a17.Options.Prism = S.TRUE := by
        obtain rfl := CheckMM5Prism_inv h17
        exact hm
      replace hm : a18.Options.Prism = S.TRUE := by
        obtain ⟨_, rfl⟩ := DetermineSnotel_inv h18
        exact hm
      replace hm : a19.Options.Prism = S.TRUE := by
        obtain ⟨_, rfl⟩ := DetermineStreamTemp_inv h19
        exact hm
      replace hm : a20.Options.Prism = S.TRUE := by
        obtain ⟨_, rfl⟩ := DetermineCanopyShading_inv h20
        exact hm
      replace hm : a21.Options.Prism = S.TRUE := by
        obtain ⟨_, rfl⟩ := DetermineOutside_inv h21
        exact hm
      obtain ⟨hn1, hn2, e22⟩ := DeterminePrismData_ok hm h22
      subst e22
      obtain ⟨_, _, _, rfl⟩ := DetermineShadingData_inv h23
      obtain ⟨_, rfl⟩ := DetermineRhoverride_inv h24
      obtain ⟨_, _, _, _, rfl⟩ := DetermineMetOptions_inv h25
      obtain ⟨_, _, rfl⟩ := DetermineArealExtent_inv h26
      obtain ⟨_, _, rfl⟩ := DeterminePoint_inv h27
      obtain ⟨_, rfl⟩ := DetermineModelPeriod_inv h28
      obtain ⟨_, rfl⟩ := DetermineModelConstants_inv h29
      exact ⟨hn1, hn2, rfl, rfl⟩
    · intro hp
      have hm : a16.Options.Shading = S.TRUE := by
        rw [DetermineShading_TRUE hp] at h16
        cases h16
        rfl
      replace hm : a17.Options.Shading = S.TRUE := by
        obtain rfl := CheckMM5Prism_inv h17
        exact hm
      replace hm : a18.Options.Shading = S.TRUE := by
        obtain ⟨_, rfl⟩ := DetermineSnotel_inv h18
        exact hm
      replace hm : a19.Options.Shading = S.TRUE := by
        obtain ⟨_, rfl⟩ := DetermineStreamTemp_inv h19
        exact hm
      replace hm : a20.Options.Shading = S.TRUE := by
        obtain ⟨_, rfl⟩ := DetermineCanopyShading_inv h20
        exact hm
      replace hm : a21.Options.Shading = S.TRUE := by
        obtain ⟨_, rfl⟩ := DetermineOutside_inv h21
        exact hm
      replace hm : a22.Options.Shading = S.TRUE := by
        obtain ⟨_, _, rfl⟩ := DeterminePrismData_inv h22
        exact hm
      obtain ⟨hn1, hn2, hn3, e23⟩ := DetermineShadingData_ok hm h23
      subst e23
      obtain ⟨_, rfl⟩ := DetermineRhoverride_inv h24
      obtain ⟨_, _, _, _, rfl⟩ := DetermineMetOptions_inv h25
      obtain ⟨_, _, rfl⟩ := DetermineArealExtent_inv h26
      obtain ⟨_, _, rfl⟩ := DeterminePoint_inv h27
      obtain ⟨_, rfl⟩ := DetermineModelPeriod_inv h28
      obtain ⟨_, rfl⟩ := DetermineModelConstants_inv h29
      exact ⟨hn1, hn2, hn3, rfl, rfl, rfl⟩
  · intro Input Input' st hp hagree
    unfold InitConstants
    rw [update2_VarStr_of_agree hagree]
    exact Decode_prism_data_skip hS.1 hp st _ _
  · intro Input Input' st hp hagree
    unfold InitConstants
    rw [update3_VarStr_of_agree hagree]
    exact Decode_shading_data_skip hS.1 hp st _ _ _

/-- C14, on a concrete configuration: PRISM with a data path and no extension. -/
theorem C14_prism_and_shading_data_witness :
    sampleSettings.Distinct ∧
    InitConstants sampleCollaborators sampleSettings
      (("OPTIONS", "PRISM", "TRUE".toList) ::
        ("OPTIONS", "PRISM DATA PATH", "prism".toList) :: sampleInput) zeroState =
      .error (.ReportError "PRISM DATA EXTENSION" 51) :=
  ⟨by decide,
    ((C14_prism_and_shading_data sampleCollaborators sampleSettings (by decide)).1
      (("OPTIONS", "PRISM", "TRUE".toList) ::
        ("OPTIONS", "PRISM DATA PATH", "prism".toList) :: sampleInput)
      (("OPTIONS", "PRISM", "TRUE".toList) ::
        ("OPTIONS", "PRISM DATA PATH", "prism".toList) ::
        ("OPTIONS", "PRISM DATA EXTENSION", "bin".toList) :: sampleInput)
      zeroState _ (by intro k hk; revert hk; cases k <;> decide)
      (eq_ok_of_isSome (by decide) zeroState) (by decide)).2 (by decide) (by decide)⟩

/-! ## The parameters of the variable Cressman interpolation -/

theorem DetermineCressman_skip {E : COLLABORATORS} {S : SETTINGS} (V : KEYS → List Char)
    {st : State} (h : st.Options.Interpolation ≠ S.VARCRESS) :
    DetermineCressman E S V st = .ok st := by
  unfold DetermineCressman
  rw [if_neg h]

theorem DetermineCressman_radius {E : COLLABORATORS} {S : SETTINGS} {V : KEYS → List Char}
    {st : State} (h : st.Options.Interpolation = S.VARCRESS)
    (hr : E.CopyInt (V .cressman_radius) 1 = none) :
    DetermineCressman E S V st = .error (.ReportError (KeyName .cressman_radius) 51) := by
  unfold DetermineCressman
  rw [if_pos h, hr]

theorem DetermineCressman_stations {E : COLLABORATORS} {S : SETTINGS} {V : KEYS → List Char}
    {st : State} {r : Int} (h : st.Options.Interpolation = S.VARCRESS)
    (hr : E.CopyInt (V .cressman_radius) 1 = some r)
    (hn : E.CopyInt (V .cressman_stations) 1 = none) :
    DetermineCressman E S V st = .error (.ReportError (KeyName .cressman_stations) 51) := by
  unfold DetermineCressman
  rw [if_pos h, hr, hn]

theorem DetermineCressman_ok {E : COLLABORATORS} {S : SETTINGS} {V : KEYS → List Char}
    {st st' : State} (h : st.Options.Interpolation = S.VARCRESS)
    (hok : DetermineCressman E S V st = .ok st') :
    ∃ r n, E.CopyInt (V .cressman_radius) 1 = some r ∧
      E.CopyInt (V .cressman_stations) 1 = some n ∧
      st' = { st with Options.CressRadius := r, Options.CressStations := n } := by
  unfold DetermineCressman at hok
  rw [if_pos h] at hok
  split at hok
  · cases hok
  · rename_i r hr
    split at hok
    · cases hok
    · rename_i n hn
      cases hok
      exact ⟨r, n, hr, hn, rfl⟩

/-- Over the table of resolved strings: with INTERPOLATION decoded to INVDIST or
NEAREST the values of CRESSMAN RADIUS and CRESSMAN STATIONS do not matter. -/
theorem Decode_cressman_skip {E : COLLABORATORS} {S : SETTINGS}
    (hS1 : S.INVDIST ≠ S.VARCRESS) (hS2 : S.NEAREST ≠ S.VARCRESS)
    {V : KEYS → List Char}
    (hint : Begins "INVDIST".toList (V .interpolation) ∨
      Begins "NEAREST".toList (V .interpolation)) (st : State) (s1 s2 : List Char) :
    Decode E S (Function.update (Function.update V .cressman_radius s1)
      .cressman_stations s2) st = Decode E S V st := by
  unfold Decode DetermineModelOptions
  simp only [bind_assoc, DetermineFileFormat_update, DetermineExtent_update, DetermineFlowGradient_update,
    DetermineInterpolation_update, DetermineCressman_update, DetermineHasNetwork_update,
    DetermineHeatFlux_update, DetermineSediment_update, DetermineSedFile_update,
    DetermineRouting_update, DetermineInfiltration_update, DetermineMM5_update,
    DetermineQPF_update, DeterminePrism_update, DetermineCanopyRadAtt_update,
    DetermineShading_update, DetermineSnotel_update, DetermineStreamTemp_update,
    DetermineCanopyShading_update, DetermineOutside_update, DeterminePrismData_update,
    DetermineShadingData_update, DetermineRhoverride_update, DetermineMetOptions_update,
    DetermineArealExtent_update, DeterminePoint_update, DetermineModelPeriod_update,
    DetermineModelConstants_update,
    List.mem_cons, List.mem_singleton, List.not_mem_nil, reduceCtorEq, or_self, or_false,
    not_false_eq_true]
  iterate 3 refine bind_congr_ok fun _ _ => ?_
  rcases hint with hi | hi
  · rw [DetermineInterpolation_INVDIST hi, bind_ok_eq, bind_ok_eq,
      DetermineCressman_skip V hS1, DetermineCressman_skip _ hS1]
  · rw [DetermineInterpolation_NEAREST hi, bind_ok_eq, bind_ok_eq,
      DetermineCressman_skip V hS2, DetermineCressman_skip _ hS2]

/-- Over the table of resolved strings: if some values of the two Cressman keys
let the pass succeed, then with INTERPOLATION decoded to VARCRESS a CRESSMAN
RADIUS that does not parse fails on that key. -/
theorem Decode_cressman_radius {E : COLLABORATORS} {S : SETTINGS}
    {V : KEYS → List Char} {st st0 : State} {s1 s2 : List Char}
    (h : Decode E S (Function.update (Function.update V .cressman_radius s1)
      .cressman_stations s2) st = .ok st0)
    (hint : Begins "VARCRESS".toList (V .interpolation))
    (hr : E.CopyInt (V .cressman_radius) 1 = none) :
    Decode E S V st = .error (.ReportError "CRESSMAN RADIUS" 51) := by
  unfold Decode DetermineModelOptions at h ⊢
  simp only [bind_assoc, DetermineFileFormat_update, DetermineExtent_update, DetermineFlowGradient_update,
    DetermineInterpolation_update, DetermineCressman_update, DetermineHasNetwork_update,
    DetermineHeatFlux_update, DetermineSediment_update, DetermineSedFile_update,
    DetermineRouting_update, DetermineInfiltration_update, DetermineMM5_update,
    DetermineQPF_update, DeterminePrism_update, DetermineCanopyRadAtt_update,
    DetermineShading_update, DetermineSnotel_update, DetermineStreamTemp_update,
    DetermineCanopyShading_update, DetermineOutside_update, DeterminePrismData_update,
    DetermineShadingData_update, DetermineRhoverride_update, DetermineMetOptions_update,
    DetermineArealExtent_update, DeterminePoint_update, DetermineModelPeriod_update,
    DetermineModelConstants_update,
    List.mem_cons, List.mem_singleton, List.not_mem_nil, reduceCtorEq, or_self, or_false,
    not_false_eq_true] at h
  simp only [bind_assoc]
  iterate 3 (obtain ⟨a, ha, h⟩ := bind_eq_ok h; rw [ha, bind_ok_eq]; clear ha)
  rw [DetermineInterpolation_VARCRESS hint, bind_ok_eq, DetermineCressman_radius rfl hr]
  rfl

/-- Over the table of resolved strings: the same for a CRESSMAN STATIONS that does
not parse, after a CRESSMAN RADIUS that does. -/
theorem Decode_cressman_stations {E : COLLABORATORS} {S : SETTINGS}
    {V : KEYS → List Char} {st st0 : State} {s1 s2 : List Char} {r : Int}
    (h : Decode E S (Function.update (Function.update V .cressman_radius s1)
      .cressman_stations s2) st = .ok st0)
    (hint : Begins "VARCRESS".toList (V .interpolation))
    (hr : E.CopyInt (V .cressman_radius) 1 = some r)
    (hn : E.CopyInt (V .cressman_stations) 1 = none) :
    Decode E S V st = .error (.ReportError "CRESSMAN STATIONS" 51) := by
  unfold Decode DetermineModelOptions at h ⊢
  simp only [bind_assoc, DetermineFileFormat_update, DetermineExtent_update, DetermineFlowGradient_update,
    DetermineInterpolation_update, DetermineCressman_update, DetermineHasNetwork_update,
    DetermineHeatFlux_update, DetermineSediment_update, DetermineSedFile_update,
    DetermineRouting_update, DetermineInfiltration_update, DetermineMM5_update,
    DetermineQPF_update, DeterminePrism_update, DetermineCanopyRadAtt_update,
    DetermineShading_update, DetermineSnotel_update, DetermineStreamTemp_update,
    DetermineCanopyShading_update, DetermineOutside_update, DeterminePrismData_update,
    DetermineShadingData_update, DetermineRhoverride_update, DetermineMetOptions_update,
    DetermineArealExtent_update, DeterminePoint_update, DetermineModelPeriod_update,
    DetermineModelConstants_update,
    List.mem_cons, List.mem_singleton, List.not_mem_nil, reduceCtorEq, or_self, or_false,
    not_false_eq_true] at h
  simp only [bind_assoc]
  iterate 3 (obtain ⟨a, ha, h⟩ := bind_eq_ok h; rw [ha, bind_ok_eq]; clear ha)
  rw [DetermineInterpolation_VARCRESS hint, bind_ok_eq, DetermineCressman_stations rfl hr hn]
  rfl

/-- C15. With INTERPOLATION decoded to VARCRESS, in a configuration that is valid
but for the two Cressman keys (some values of them let the load succeed): a
CRESSMAN RADIUS that `CopyInt` rejects makes the load fail with `ReportError` on
CRESSMAN RADIUS and code 51, whatever CRESSMAN STATIONS is; a CRESSMAN STATIONS
that `CopyInt` rejects, after a radius that parses, makes it fail on CRESSMAN
STATIONS; and a successful load has parsed both and stores the parsed values in
`CressRadius` and `CressStations`.  With INTERPOLATION decoded to INVDIST or
NEAREST every input that differs in the two keys alone has the same outcome, and
a successful load leaves `CressRadius` and `CressStations` as they were. -/
theorem C15_cressman_parameters (E : COLLABORATORS) (S : SETTINGS) (hS : S.Distinct) :
    (∀ (Input Input0 : LISTPTR) (st st0 : State),
      AgreeOutside [.cressman_radius, .cressman_stations]
        (VarStr E S Input) (VarStr E S Input0) →
      InitConstants E S Input0 st = .ok st0 →
      Begins "VARCRESS".toList (VarStr E S Input .interpolation) →
      (E.CopyInt (VarStr E S Input .cressman_radius) 1 = none →
        InitConstants E S Input st = .error (.ReportError "CRESSMAN RADIUS" 51)) ∧
      (∀ r, E.CopyInt (VarStr E S Input .cressman_radius) 1 = some r →
        E.CopyInt (VarStr E S Input .cressman_stations) 1 = none →
        InitConstants E S Input st = .error (.ReportError "CRESSMAN STATIONS" 51))) ∧
    (∀ (Input : LISTPTR) (st st' : State),
      Begins "VARCRESS".toList (VarStr E S Input .interpolation) →
      InitConstants E S Input st = .ok st' →
      ∃ r n, E.CopyInt (VarStr E S Input .cressman_radius) 1 = some r ∧
        E.CopyInt (VarStr E S Input .cressman_stations) 1 = some n ∧
        st'.Options.CressRadius = r ∧ st'.Options.CressStations = n) ∧
    (∀ (Input : LISTPTR) (st : State),
      (Begins "INVDIST".toList (VarStr E S Input .interpolation) ∨
        Begins "NEAREST".toList (VarStr E S Input .interpolation)) →
      (∀ Input', AgreeOutside [.cressman_radius, .cressman_stations]
          (VarStr E S Input) (VarStr E S Input') →
        InitConstants E S Input' st = InitConstants E S Input st) ∧
      (∀ st', InitConstants E S Input st = .ok st' →
        st'.Options.CressRadius = st.Options.CressRadius ∧
        st'.Options.CressStations = st.Options.CressStations)) := by
  obtain ⟨_, _, hS1, hS2, _⟩ := hS
  refine ⟨?_, ?_, ?_⟩
  · intro Input Input0 st st0 hagree h0 hint
    unfold InitConstants at h0 ⊢
    rw [update2_VarStr_of_agree hagree] at h0
    exact ⟨fun hr => Decode_cressman_radius h0 hint hr,
      fun r hr hn => Decode_cressman_stations h0 hint hr hn⟩
  · intro Input st st' hint h
    unfold InitConstants Decode DetermineModelOptions at h
    simp only [bind_assoc] at h
    obtain ⟨a1, h1, h⟩ := bind_eq_ok h
    obtain ⟨a2, h2, h⟩ := bind_eq_ok h
    obtain ⟨a3, h3, h⟩ := bind_eq_ok h
    obtain ⟨a4, h4, h⟩ := bind_eq_ok h
    obtain ⟨a5, h5, h⟩ := bind_eq_ok h
    obtain ⟨a6, h6, h⟩ := bind_eq_ok h
    obtain ⟨a7, h7, h⟩ := bind_eq_ok h
    obtain ⟨a8, h8, h⟩ := bind_eq_ok h
    obtain ⟨a9, h9, h⟩ := bind_eq_ok h
    obtain ⟨a10, h10, h⟩ := bind_eq_ok h
    obtain ⟨a11, h11, h⟩ := bind_eq_ok h
    obtain ⟨a12, h12, h⟩ := bind_eq_ok h
    obtain ⟨a13, h13, h⟩ := bind_eq_ok h
    obtain ⟨a14, h14, h⟩ := bind_eq_ok h
    obtain ⟨a15, h15, h⟩ := bind_eq_ok h
    obtain ⟨a16, h16, h⟩ := bind_eq_ok h
    obtain ⟨a17, h17, h⟩ := bind_eq_ok h
    obtain ⟨a18, h18, h⟩ := bind_eq_ok h
    obtain ⟨a19, h19, h⟩ := bind_eq_ok h
    obtain ⟨a20, h20, h⟩ := bind_eq_ok h
    obtain ⟨a21, h21, h⟩ := bind_eq_ok h
    obtain ⟨a22, h22, h⟩ := bind_eq_ok h
    obtain ⟨a23, h23, h⟩ := bind_eq_ok h
    obtain ⟨a24, h24, h⟩ := bind_eq_ok h
    obtain ⟨a25, h25, h⟩ := bind_eq_ok h
    obtain ⟨a26, h26, h⟩ := bind_eq_ok h
    obtain ⟨a27, h27, h⟩ := bind_eq_ok h
    obtain ⟨a28, h28, h29⟩ := bind_eq_ok h
    obtain ⟨_, rfl⟩ := DetermineFileFormat_inv h1
    obtain ⟨_, _, rfl⟩ := DetermineExtent_inv h2
    obtain ⟨_, rfl⟩ := DetermineFlowGradient_inv h3
    rw [DetermineInterpolation_VARCRESS hint] at h4
    cases h4
    obtain ⟨r, n, hr, hn, rfl⟩ := DetermineCressman_ok rfl h5
    obtain ⟨_, rfl⟩ := DetermineHasNetwork_inv h6
    obtain ⟨_, rfl⟩ := DetermineHeatFlux_inv h7
    obtain ⟨_, _, _, _, _, rfl⟩ := DetermineSediment_inv h8
    obtain ⟨_, rfl⟩ := DetermineSedFile_inv h9
    obtain ⟨_, rfl⟩ := DetermineRouting_inv h10
    obtain ⟨_, _, rfl⟩ := DetermineInfiltration_inv h11
    obtain ⟨_, rfl⟩ := DetermineMM5_inv h12
    obtain ⟨_, rfl⟩ := DetermineQPF_inv h13
    obtain ⟨_, rfl⟩ := DeterminePrism_inv h14
    obtain ⟨_, rfl⟩ := DetermineCanopyRadAtt_inv h15
    obtain ⟨_, rfl⟩ := DetermineShading_inv h16
    obtain rfl := CheckMM5Prism_inv h17
    obtain ⟨_, rfl⟩ := DetermineSnotel_inv h18
    obtain ⟨_, rfl⟩ := DetermineStreamTemp_inv h19
    obtain ⟨_, rfl⟩ := DetermineCanopyShading_inv h20
    obtain ⟨_, rfl⟩ := DetermineOutside_inv h21
    obtain ⟨_, _, rfl⟩ := DeterminePrismData_inv h22
    obtain ⟨_, _, _, rfl⟩ := DetermineShadingData_inv h23
    obtain ⟨_, rfl⟩ := DetermineRhoverride_inv h24
    obtain ⟨_, _, _, _, rfl⟩ := DetermineMetOptions_inv h25
    obtain ⟨_, _, rfl⟩ := DetermineArealExtent_inv h26
    obtain ⟨_, _, rfl⟩ := DeterminePoint_inv h27
    obtain ⟨_, rfl⟩ := DetermineModelPeriod_inv h28
    obtain ⟨_, rfl⟩ := DetermineModelConstants_inv h29
    exact ⟨r, n, hr, hn, rfl, rfl⟩
  · intro Input st hint
    constructor
    · intro Input' hagree
      unfold InitConstants
      rw [update2_VarStr_of_agree hagree]
      exact Decode_cressman_skip hS1 hS2 hint st _ _
    · intro st' h
      unfold InitConstants Decode DetermineModelOptions at h
      simp only [bind_assoc] at h
      obtain ⟨a1, h1, h⟩ := bind_eq_ok h
      obtain ⟨a2, h2, h⟩ := bind_eq_ok h
      obtain ⟨a3, h3, h⟩ := bind_eq_ok h
      obtain ⟨a4, h4, h⟩ := bind_eq_ok h
      obtain ⟨a5, h5, h⟩ := bind_eq_ok h
      obtain ⟨a6, h6, h⟩ := bind_eq_ok h
      obtain ⟨a7, h7, h⟩ := bind_eq_ok h
      obtain ⟨a8, h8, h⟩ := bind_eq_ok h
      obtain ⟨a9, h9, h⟩ := bind_eq_ok h
      obtain ⟨a10, h10, h⟩ := bind_eq_ok h
      obtain ⟨a11, h11, h⟩ := bind_eq_ok h
      obtain ⟨a12, h12, h⟩ := bind_eq_ok h
      obtain ⟨a13, h13, h⟩ := bind_eq_ok h
      obtain ⟨a14, h14, h⟩ := bind_eq_ok h
      obtain ⟨a15, h15, h⟩ := bind_eq_ok h
      obtain ⟨a16, h16, h⟩ := bind_eq_ok h
      obtain ⟨a17, h17, h⟩ := bind_eq_ok h
      obtain ⟨a18, h18, h⟩ := bind_eq_ok h
      obtain ⟨a19, h19, h⟩ := bind_eq_ok h
      obtain ⟨a20, h20, h⟩ := bind_eq_ok h
      obtain ⟨a21, h21, h⟩ := bind_eq_ok h
      obtain ⟨a22, h22, h⟩ := bind_eq_ok h
      obtain ⟨a23, h23, h⟩ := bind_eq_ok h
      obtain ⟨a24, h24, h⟩ := bind_eq_ok h
      obtain ⟨a25, h25, h⟩ := bind_eq_ok h
      obtain ⟨a26, h26, h⟩ := bind_eq_ok h
      obtain ⟨a27, h27, h⟩ := bind_eq_ok h
      obtain ⟨a28, h28, h29⟩ := bind_eq_ok h
      obtain ⟨_, rfl⟩ := DetermineFileFormat_inv h1
      obtain ⟨_, _, rfl⟩ := DetermineExtent_inv h2
      obtain ⟨_, rfl⟩ := DetermineFlowGradient_inv h3
      have h5' : a5 = a4 := by
        rcases hint with hi | hi
        · rw [DetermineInterpolation_INVDIST hi] at h4
          cases h4
          rw [DetermineCressman_skip _ hS1] at h5
          cases h5
          rfl
        · rw [DetermineInterpolation_NEAREST hi] at h4
          cases h4
          rw [DetermineCressman_skip _ hS2] at h5
          cases h5
          rfl
      subst h5'
      obtain ⟨_, rfl⟩ := DetermineInterpolation_inv h4
      obtain ⟨_, rfl⟩ := DetermineHasNetwork_inv h6
      obtain ⟨_, rfl⟩ := DetermineHeatFlux_inv h7
      obtain ⟨_, _, _, _, _, rfl⟩ := DetermineSediment_inv h8
      obtain ⟨_, rfl⟩ := DetermineSedFile_inv h9
      obtain ⟨_, rfl⟩ := DetermineRouting_inv h10
      obtain ⟨_, _, rfl⟩ := DetermineInfiltration_inv h11
      obtain ⟨_, rfl⟩ := DetermineMM5_inv h12
      obtain ⟨_, rfl⟩ := DetermineQPF_inv h13
      obtain ⟨_, rfl⟩ := DeterminePrism_inv h14
      obtain ⟨_, rfl⟩ := DetermineCanopyRadAtt_inv h15
      obtain ⟨_, rfl⟩ := DetermineShading_inv h16
      obtain rfl := CheckMM5Prism_inv h17
      obtain ⟨_, rfl⟩ := DetermineSnotel_inv h18
      obtain ⟨_, rfl⟩ := DetermineStreamTemp_inv h19
      obtain ⟨_, rfl⟩ := DetermineCanopyShading_inv h20
      obtain ⟨_, rfl⟩ := DetermineOutside_inv h21
      obtain ⟨_, _, rfl⟩ := DeterminePrismData_inv h22
      obtain ⟨_, _, _, rfl⟩ := DetermineShadingData_inv h23
      obtain ⟨_, rfl⟩ := DetermineRhoverride_inv h24
      obtain ⟨_, _, _, _, rfl⟩ := DetermineMetOptions_inv h25
      obtain ⟨_, _, rfl⟩ := DetermineArealExtent_inv h26
      obtain ⟨_, _, rfl⟩ := DeterminePoint_inv h27
      obtain ⟨_, rfl⟩ := DetermineModelPeriod_inv h28
      obtain ⟨_, rfl⟩ := DetermineModelConstants_inv h29
      exact ⟨rfl, rfl⟩

/-- C15, on a concrete configuration: VARCRESS without a CRESSMAN RADIUS. -/
theorem C15_cressman_parameters_witness :
    sampleSettings.Distinct ∧
    InitConstants sampleCollaborators sampleSettings
      (("OPTIONS", "INTERPOLATION", "VARCRESS".toList) :: sampleInput) zeroState =
      .error (.ReportError "CRESSMAN RADIUS" 51) :=
  ⟨by decide,
    ((C15_cressman_parameters sampleCollaborators sampleSettings (by decide)).1
      (("OPTIONS", "INTERPOLATION", "VARCRESS".toList) :: sampleInput)
      (("OPTIONS", "INTERPOLATION", "VARCRESS".toList) ::
        ("OPTIONS", "CRESSMAN RADIUS", "10".toList) ::
        ("OPTIONS", "CRESSMAN STATIONS", "4".toList) :: sampleInput)
      zeroState _ (by intro k hk; revert hk; cases k <;> decide)
      (eq_ok_of_isSome (by decide) zeroState) (by decide)).1 (by decide)⟩

/-! ## Each block run again on the outcome of the load -/

theorem DetermineFileFormat_again {S : SETTINGS} {V : KEYS → List Char} {a a' r : State}
    (h : DetermineFileFormat S V a = .ok a')
    (w0 : r.Options.FileFormat = a'.Options.FileFormat)
    (out : List String) :
    ∃ out', DetermineFileFormat S V { r with Stdout := out } = .ok { r with Stdout := out' } := by
  rcases r with ⟨ro, rm, rs, rt, rc, rout⟩
  cases ro
  dsimp only at w0
  subst_vars
  unfold DetermineFileFormat at h ⊢
  try dsimp only at h
  try dsimp only
  repeat' split at h
  all_goals first
    | (cases h; done)
    | (cases h
       try simp only [*, if_true, if_false, ite_true, ite_false, not_true_eq_false,
         not_false_eq_true, reduceIte, ne_eq, Bool.false_eq_true]
       exact ⟨_, rfl⟩)

theorem DetermineFlowGradient_again {S : SETTINGS} {V : KEYS → List Char} {a a' r : State}
    (h : DetermineFlowGradient S V a = .ok a')
    (g0 : r.Options.Extent = a.Options.Extent)
    (w0 : r.Options.FlowGradient = a'.Options.FlowGradient)
    (out : List String) :
    ∃ out', DetermineFlowGradient S V { r with Stdout := out } = .ok { r with Stdout := out' } := by
  rcases r with ⟨ro, rm, rs, rt, rc, rout⟩
  cases ro
  dsimp only at g0 w0
  subst_vars
  unfold DetermineFlowGradient at h ⊢
  try dsimp only at h
  try dsimp only
  repeat' split at h
  all_goals first
    | (cases h; done)
    | (cases h
       try simp only [*, if_true, if_false, ite_true, ite_false, not_true_eq_false,
         not_false_eq_true, reduceIte, ne_eq, Bool.false_eq_true]
       exact ⟨_, rfl⟩)

theorem DetermineInterpolation_again {S : SETTINGS} {V : KEYS → List Char} {a a' r : State}
    (h : DetermineInterpolation S V a = .ok a')
    (w0 : r.Options.Interpolation = a'.Options.Interpolation)
    (out : List String) :
    ∃ out', DetermineInterpolation S V { r with Stdout := out } = .ok { r with Stdout := out' } := by
  rcases r with ⟨ro, rm, rs, rt, rc, rout⟩
  cases ro
  dsimp only at w0
  subst_vars
  unfold DetermineInterpolation at h ⊢
  try dsimp only at h
  try dsimp only
  repeat' split at h
  all_goals first
    | (cases h; done)
    | (cases h
       try simp only [*, if_true, if_false, ite_true, ite_false, not_true_eq_false,
         not_false_eq_true, reduceIte, ne_eq, Bool.false_eq_true]
       exact ⟨_, rfl⟩)

theorem DetermineCressman_again {E : COLLABORATORS} {S : SETTINGS} {V : KEYS → List Char} {a a' r : State}
    (h : DetermineCressman E S V a = .ok a')
    (g0 : r.Options.Interpolation = a.Options.Interpolation)
    (w0 : r.Options.CressRadius = a'.Options.CressRadius)
    (w1 : r.Options.CressStations = a'.Options.CressStations)
    (out : List String) :
    ∃ out', DetermineCressman E S V { r with Stdout := out } = .ok { r with Stdout := out' } := by
  rcases r with ⟨ro, rm, rs, rt, rc, rout⟩
  cases ro
  dsimp only at g0 w0 w1
  subst_vars
  unfold DetermineCressman at h ⊢
  try dsimp only at h
  try dsimp only
  repeat' split at h
  all_goals first
    | (cases h; done)
    | (cases h
       try simp only [*, if_true, if_false, ite_true, ite_false, not_true_eq_false,
         not_false_eq_true, reduceIte, ne_eq, Bool.false_eq_true]
       exact ⟨_, rfl⟩)

theorem DetermineHasNetwork_again {S : SETTINGS} {V : KEYS → List Char} {a a' r : State}
    (h : DetermineHasNetwork S V a = .ok a')
    (g0 : r.Options.Extent = a.Options.Extent)
    (w0 : r.Options.HasNetwork = a'.Options.HasNetwork)
    (out : List String) :
    ∃ out', DetermineHasNetwork S V { r with Stdout := out } = .ok { r with Stdout := out' } := by
  rcases r with ⟨ro, rm, rs, rt, rc, rout⟩
  cases ro
  dsimp only at g0 w0
  subst_vars
  unfold DetermineHasNetwork at h ⊢
  try dsimp only at h
  try dsimp only
  repeat' split at h
  all_goals first
    | (cases h; done)
    | (cases h
       try simp only [*, if_true, if_false, ite_true, ite_false, not_true_eq_false,
         not_false_eq_true, reduceIte, ne_eq, Bool.false_eq_true]
       exact ⟨_, rfl⟩)

theorem DetermineHeatFlux_again {S : SETTINGS} {V : KEYS → List Char} {a a' r : State}
    (h : DetermineHeatFlux S V a = .ok a')
    (w0 : r.Options.HeatFlux = a'.Options.HeatFlux)
    (out : List String) :
    ∃ out', DetermineHeatFlux S V { r with Stdout := out } = .ok { r with Stdout := out' } := by
  rcases r with ⟨ro, rm, rs, rt, rc, rout⟩
  cases ro
  dsimp only at w0
  subst_vars
  unfold DetermineHeatFlux at h ⊢
  try dsimp only at h
  try dsimp only
  repeat' split at h
  all_goals first
    | (cases h; done)
    | (cases h
       try simp only [*, if_true, if_false, ite_true, ite_false, not_true_eq_false,
         not_false_eq_true, reduceIte, ne_eq, Bool.false_eq_true]
       exact ⟨_, rfl⟩)

theorem DetermineSediment_again {S : SETTINGS} {V : KEYS → List Char} {a a' r : State}
    (h : DetermineSediment S V a = .ok a')
    (w0 : r.Options.Sediment = a'.Options.Sediment)
    (w1 : r.Options.MassWaste = a'.Options.MassWaste)
    (w2 : r.Options.SurfaceErosion = a'.Options.SurfaceErosion)
    (w3 : r.Options.ErosionPeriod = a'.Options.ErosionPeriod)
    (out : List String) :
    ∃ out', DetermineSediment S V { r with Stdout := out } = .ok { r with Stdout := out' } := by
  rcases r with ⟨ro, rm, rs, rt, rc, rout⟩
  cases ro
  dsimp only at w0 w1 w2 w3
  subst_vars
  unfold DetermineSediment at h ⊢
  try dsimp only at h
  try dsimp only
  repeat' split at h
  all_goals first
    | (cases h; done)
    | (cases h
       try simp only [*, if_true, if_false, ite_true, ite_false, not_true_eq_false,
         not_false_eq_true, reduceIte, ne_eq, Bool.false_eq_true]
       exact ⟨_, rfl⟩)

theorem DetermineSedFile_again {S : SETTINGS} {V : KEYS → List Char} {a a' r : State}
    (h : DetermineSedFile S V a = .ok a')
    (g0 : r.Options.Sediment = a.Options.Sediment)
    (w0 : r.Options.SedFile = a'.Options.SedFile)
    (out : List String) :
    ∃ out', DetermineSedFile S V { r with Stdout := out } = .ok { r with Stdout := out' } := by
  rcases r with ⟨ro, rm, rs, rt, rc, rout⟩
  cases ro
  dsimp only at g0 w0
  subst_vars
  unfold DetermineSedFile at h ⊢
  try dsimp only at h
  try dsimp only
  repeat' split at h
  all_goals first
    | (cases h; done)
    | (cases h
       try simp only [*, if_true, if_false, ite_true, ite_false, not_true_eq_false,
         not_false_eq_true, reduceIte, ne_eq, Bool.false_eq_true]
       exact ⟨_, rfl⟩)

theorem DetermineRouting_again {S : SETTINGS} {V : KEYS → List Char} {a a' r : State}
    (h : DetermineRouting S V a = .ok a')
    (w0 : r.Options.Routing = a'.Options.Routing)
    (out : List String) :
    ∃ out', DetermineRouting S V { r with Stdout := out } = .ok { r with Stdout := out' } := by
  rcases r with ⟨ro, rm, rs, rt, rc, rout⟩
  cases ro
  dsimp only at w0
  subst_vars
  unfold DetermineRouting at h ⊢
  try dsimp only at h
  try dsimp only
  repeat' split at h
  all_goals first
    | (cases h; done)
    | (cases h
       try simp only [*, if_true, if_false, ite_true, ite_false, not_true_eq_false,
         not_false_eq_true, reduceIte, ne_eq, Bool.false_eq_true]
       exact ⟨_, rfl⟩)

theorem DetermineInfiltration_again {S : SETTINGS} {V : KEYS → List Char} {a a' r : State}
    (h : DetermineInfiltration S V a = .ok a')
    (w0 : r.Options.Infiltration = a'.Options.Infiltration)
    (out : List String) :
    ∃ out', DetermineInfiltration S V { r with Stdout := out } = .ok { r with Stdout := out' } := by
  rcases r with ⟨ro, rm, rs, rt, rc, rout⟩
  cases ro
  dsimp only at w0
  subst_vars
  unfold DetermineInfiltration at h ⊢
  try dsimp only at h
  try dsimp only
  repeat' split at h
  all_goals first
    | (cases h; done)
    | (cases h
       try simp only [*, if_true, if_false, ite_true, ite_false, not_true_eq_false,
         not_false_eq_true, reduceIte, ne_eq, Bool.false_eq_true]
       exact ⟨_, rfl⟩)

theorem DetermineMM5_again {S : SETTINGS} {V : KEYS → List Char} {a a' r : State}
    (h : DetermineMM5 S V a = .ok a')
    (w0 : r.Options.MM5 = a'.Options.MM5)
    (out : List String) :
    ∃ out', DetermineMM5 S V { r with Stdout := out } = .ok { r with Stdout := out' } := by
  rcases r with ⟨ro, rm, rs, rt, rc, rout⟩
  cases ro
  dsimp only at w0
  subst_vars
  unfold DetermineMM5 at h ⊢
  try dsimp only at h
  try dsimp only
  repeat' split at h
  all_goals first
    | (cases h; done)
    | (cases h
       try simp only [*, if_true, if_false, ite_true, ite_false, not_true_eq_false,
         not_false_eq_true, reduceIte, ne_eq, Bool.false_eq_true]
       exact ⟨_, rfl⟩)

theorem DetermineQPF_again {S : SETTINGS} {V : KEYS → List Char} {a a' r : State}
    (h : DetermineQPF S V a = .ok a')
    (w0 : r.Options.QPF = a'.Options.QPF)
    (out : List String) :
    ∃ out', DetermineQPF S V { r with Stdout := out } = .ok { r with Stdout := out' } := by
  rcases r with ⟨ro, rm, rs, rt, rc, rout⟩
  cases ro
  dsimp only at w0
  subst_vars
  unfold DetermineQPF at h ⊢
  try dsimp only at h
  try dsimp only
  repeat' split at h
  all_goals first
    | (cases h; done)
    | (cases h
       try simp only [*, if_true, if_false, ite_true, ite_false, not_true_eq_false,
         not_false_eq_true, reduceIte, ne_eq, Bool.false_eq_true]
       exact ⟨_, rfl⟩)

theorem DeterminePrism_again {S : SETTINGS} {V : KEYS → List Char} {a a' r : State}
    (h : DeterminePrism S V a = .ok a')
    (w0 : r.Options.Prism = a'.Options.Prism)
    (out : List String) :
    ∃ out', DeterminePrism S V { r with Stdout := out } = .ok { r with Stdout := out' } := by
  rcases r with ⟨ro, rm, rs, rt, rc, rout⟩
  cases ro
  dsimp only at w0
  subst_vars
  unfold DeterminePrism at h ⊢
  try dsimp only at h
  try dsimp only
  repeat' split at h
  all_goals first
    | (cases h; done)
    | (cases h
       try simp only [*, if_true, if_false, ite_true, ite_false, not_true_eq_false,
         not_false_eq_true, reduceIte, ne_eq, Bool.false_eq_true]
       exact ⟨_, rfl⟩)

theorem DetermineCanopyRadAtt_again {S : SETTINGS} {V : KEYS → List Char} {a a' r : State}
    (h : DetermineCanopyRadAtt S V a = .ok a')
    (w0 : r.Options.CanopyRadAtt = a'.Options.CanopyRadAtt)
    (out : List String) :
    ∃ out', DetermineCanopyRadAtt S V { r with Stdout := out } = .ok { r with Stdout := out' } := by
  rcases r with ⟨ro, rm, rs, rt, rc, rout⟩
  cases ro
  dsimp only at w0
  subst_vars
  unfold DetermineCanopyRadAtt at h ⊢
  try dsimp only at h
  try dsimp only
  repeat' split at h
  all_goals first
    | (cases h; done)
    | (cases h
       try simp only [*, if_true, if_false, ite_true, ite_false, not_true_eq_false,
         not_false_eq_true, reduceIte, ne_eq, Bool.false_eq_true]
       exact ⟨_, rfl⟩)

theorem DetermineShading_again {S : SETTINGS} {V : KEYS → List Char} {a a' r : State}
    (h : DetermineShading S V a = .ok a')
    (w0 : r.Options.Shading = a'.Options.Shading)
    (out : List String) :
    ∃ out', DetermineShading S V { r with Stdout := out } = .ok { r with Stdout := out' } := by
  rcases r with ⟨ro, rm, rs, rt, rc, rout⟩
  cases ro
  dsimp only at w0
  subst_vars
  unfold DetermineShading at h ⊢
  try dsimp only at h
  try dsimp only
  repeat' split at h
  all_goals first
    | (cases h; done)
    | (cases h
       try simp only [*, if_true, if_false, ite_true, ite_false, not_true_eq_false,
         not_false_eq_true, reduceIte, ne_eq, Bool.false_eq_true]
       exact ⟨_, rfl⟩)

theorem DetermineSnotel_again {S : SETTINGS} {V : KEYS → List Char} {a a' r : State}
    (h : DetermineSnotel S V a = .ok a')
    (w0 : r.Options.Snotel = a'.Options.Snotel)
    (out : List String) :
    ∃ out', DetermineSnotel S V { r with Stdout := out } = .ok { r with Stdout := out' } := by
  rcases r with ⟨ro, rm, rs, rt, rc, rout⟩
  cases ro
  dsimp only at w0
  subst_vars
  unfold DetermineSnotel at h ⊢
  try dsimp only at h
  try dsimp only
  repeat' split at h
  all_goals first
    | (cases h; done)
    | (cases h
       try simp only [*, if_true, if_false, ite_true, ite_false, not_true_eq_false,
         not_false_eq_true, reduceIte, ne_eq, Bool.false_eq_true]
       exact ⟨_, rfl⟩)

theorem DetermineStreamTemp_again {S : SETTINGS} {V : KEYS → List Char} {a a' r : State}
    (h : DetermineStreamTemp S V a = .ok a')
    (w0 : r.Options.StreamTemp = a'.Options.StreamTemp)
    (out : List String) :
    ∃ out', DetermineStreamTemp S V { r with Stdout := out } = .ok { r with Stdout := out' } := by
  rcases r with ⟨ro, rm, rs, rt, rc, rout⟩
  cases ro
  dsimp only at w0
  subst_vars
  unfold DetermineStreamTemp at h ⊢
  try dsimp only at h
  try dsimp only
  repeat' split at h
  all_goals first
    | (cases h; done)
    | (cases h
       try simp only [*, if_true, if_false, ite_true, ite_false, not_true_eq_false,
         not_false_eq_true, reduceIte, ne_eq, Bool.false_eq_true]
       exact ⟨_, rfl⟩)

theorem DetermineCanopyShading_again {S : SETTINGS} {V : KEYS → List Char} {a a' r : State}
    (h : DetermineCanopyShading S V a = .ok a')
    (g0 : r.Options.StreamTemp = a.Options.StreamTemp)
    (w0 : r.Options.CanopyShading = a'.Options.CanopyShading)
    (out : List String) :
    ∃ out', DetermineCanopyShading S V { r with Stdout := out } = .ok { r with Stdout := out' } := by
  rcases r with ⟨ro, rm, rs, rt, rc, rout⟩
  cases ro
  dsimp only at g0 w0
  subst_vars
  unfold DetermineCanopyShading at h ⊢
  try dsimp only at h
  try dsimp only
  repeat' split at h
  all_goals first
    | (cases h; done)
    | (cases h
       try simp only [*, if_true, if_false, ite_true, ite_false, not_true_eq_false,
         not_false_eq_true, reduceIte, ne_eq, Bool.false_eq_true]
       exact ⟨_, rfl⟩)

theorem DetermineOutside_again {S : SETTINGS} {V : KEYS → List Char} {a a' r : State}
    (h : DetermineOutside S V a = .ok a')
    (w0 : r.Options.Outside = a'.Options.Outside)
    (out : List String) :
    ∃ out', DetermineOutside S V { r with Stdout := out } = .ok { r with Stdout := out' } := by
  rcases r with ⟨ro, rm, rs, rt, rc, rout⟩
  cases ro
  dsimp only at w0
  subst_vars
  unfold DetermineOutside at h ⊢
  try dsimp only at h
  try dsimp only
  repeat' split at h
  all_goals first
    | (cases h; done)
    | (cases h
       try simp only [*, if_true, if_false, ite_true, ite_false, not_true_eq_false,
         not_false_eq_true, reduceIte, ne_eq, Bool.false_eq_true]
       exact ⟨_, rfl⟩)

theorem DeterminePrismData_again {S : SETTINGS} {V : KEYS → List Char} {a a' r : State}
    (h : DeterminePrismData S V a = .ok a')
    (g0 : r.Options.Prism = a.Options.Prism)
    (w0 : r.Options.PrismDataPath = a'.Options.PrismDataPath)
    (w1 : r.Options.PrismDataExt = a'.Options.PrismDataExt)
    (out : List String) :
    ∃ out', DeterminePrismData S V { r with Stdout := out } = .ok { r with Stdout := out' } := by
  rcases r with ⟨ro, rm, rs, rt, rc, rout⟩
  cases ro
  dsimp only at g0 w0 w1
  subst_vars
  unfold DeterminePrismData at h ⊢
  try dsimp only at h
  try dsimp only
  repeat' split at h
  all_goals first
    | (cases h; done)
    | (cases h
       try simp only [*, if_true, if_false, ite_true, ite_false, not_true_eq_false,
         not_false_eq_true, reduceIte, ne_eq, Bool.false_eq_true]
       exact ⟨_, rfl⟩)

theorem DetermineShadingData_again {S : SETTINGS} {V : KEYS → List Char} {a a' r : State}
    (h : DetermineShadingData S V a = .ok a')
    (g0 : r.Options.Shading = a.Options.Shading)
    (w0 : r.Options.ShadingDataPath = a'.Options.ShadingDataPath)
    (w1 : r.Options.ShadingDataExt = a'.Options.ShadingDataExt)
    (w2 : r.Options.SkyViewDataPath = a'.Options.SkyViewDataPath)
    (out : List String) :
    ∃ out', DetermineShadingData S V { r with Stdout := out } = .ok { r with Stdout := out' } := by
  rcases r with ⟨ro, rm, rs, rt, rc, rout⟩
  cases ro
  dsimp only at g0 w0 w1 w2
  subst_vars
  unfold DetermineShadingData at h ⊢
  try dsimp only at h
  try dsimp only
  repeat' split at h
  all_goals first
    | (cases h; done)
    | (cases h
       try simp only [*, if_true, if_false, ite_true, ite_false, not_true_eq_false,
         not_false_eq_true, reduceIte, ne_eq, Bool.false_eq_true]
       exact ⟨_, rfl⟩)

theorem DetermineRhoverride_again {S : SETTINGS} {V : KEYS → List Char} {a a' r : State}
    (h : DetermineRhoverride S V a = .ok a')
    (w0 : r.Options.Rhoverride = a'.Options.Rhoverride)
    (out : List String) :
    ∃ out', DetermineRhoverride S V { r with Stdout := out } = .ok { r with Stdout := out' } := by
  rcases r with ⟨ro, rm, rs, rt, rc, rout⟩
  cases ro
  dsimp only at w0
  subst_vars
  unfold DetermineRhoverride at h ⊢
  try dsimp only at h
  try dsimp only
  repeat' split at h
  all_goals first
    | (cases h; done)
    | (cases h
       try simp only [*, if_true, if_false, ite_true, ite_false, not_true_eq_false,
         not_false_eq_true, reduceIte, ne_eq, Bool.false_eq_true]
       exact ⟨_, rfl⟩)

theorem DeterminePrecipType_again {S : SETTINGS} {V : KEYS → List Char} {a a' r : State}
    (h : DeterminePrecipType S V a = .ok a')
    (w0 : r.Options.PrecipType = a'.Options.PrecipType)
    (out : List String) :
    ∃ out', DeterminePrecipType S V { r with Stdout := out } = .ok { r with Stdout := out' } := by
  rcases r with ⟨ro, rm, rs, rt, rc, rout⟩
  cases ro
  dsimp only at w0
  subst_vars
  unfold DeterminePrecipType at h ⊢
  try dsimp only at h
  try dsimp only
  repeat' split at h
  all_goals first
    | (cases h; done)
    | (cases h
       try simp only [*, if_true, if_false, ite_true, ite_false, not_true_eq_false,
         not_false_eq_true, reduceIte, ne_eq, Bool.false_eq_true]
       exact ⟨_, rfl⟩)

theorem DetermineWindSource_again {S : SETTINGS} {V : KEYS → List Char} {a a' r : State}
    (h : DetermineWindSource S V a = .ok a')
    (w0 : r.Options.WindSource = a'.Options.WindSource)
    (out : List String) :
    ∃ out', DetermineWindSource S V { r with Stdout := out } = .ok { r with Stdout := out' } := by
  rcases r with ⟨ro, rm, rs, rt, rc, rout⟩
  cases ro
  dsimp only at w0
  subst_vars
  unfold DetermineWindSource at h ⊢
  try dsimp only at h
  try dsimp only
  repeat' split at h
  all_goals first
    | (cases h; done)
    | (cases h
       try simp only [*, if_true, if_false, ite_true, ite_false, not_true_eq_false,
         not_false_eq_true, reduceIte, ne_eq, Bool.false_eq_true]
       exact ⟨_, rfl⟩)

theorem DetermineTempLapse_again {S : SETTINGS} {V : KEYS → List Char} {a a' r : State}
    (h : DetermineTempLapse S V a = .ok a')
    (w0 : r.Options.TempLapse = a'.Options.TempLapse)
    (out : List String) :
    ∃ out', DetermineTempLapse S V { r with Stdout := out } = .ok { r with Stdout := out' } := by
  rcases r with ⟨ro, rm, rs, rt, rc, rout⟩
  cases ro
  dsimp only at w0
  subst_vars
  unfold DetermineTempLapse at h ⊢
  try dsimp only at h
  try dsimp only
  repeat' split at h
  all_goals first
    | (cases h; done)
    | (cases h
       try simp only [*, if_true, if_false, ite_true, ite_false, not_true_eq_false,
         not_false_eq_true, reduceIte, ne_eq, Bool.false_eq_true]
       exact ⟨_, rfl⟩)

theorem DeterminePrecipLapse_again {S : SETTINGS} {V : KEYS → List Char} {a a' r : State}
    (h : DeterminePrecipLapse S V a = .ok a')
    (w0 : r.Options.PrecipLapse = a'.Options.PrecipLapse)
    (out : List String) :
    ∃ out', DeterminePrecipLapse S V { r with Stdout := out } = .ok { r with Stdout := out' } := by
  rcases r with ⟨ro, rm, rs, rt, rc, rout⟩
  cases ro
  dsimp only at w0
  subst_vars
  unfold DeterminePrecipLapse at h ⊢
  try dsimp only at h
  try dsimp only
  repeat' split at h
  all_goals first
    | (cases h; done)
    | (cases h
       try simp only [*, if_true, if_false, ite_true, ite_false, not_true_eq_false,
         not_false_eq_true, reduceIte, ne_eq, Bool.false_eq_true]
       exact ⟨_, rfl⟩)

theorem DetermineArealExtent_again {E : COLLABORATORS} {S : SETTINGS} {V : KEYS → List Char} {a a' r : State}
    (h : DetermineArealExtent E S V a = .ok a')
    (w0 : r.Map = a'.Map)
    (w1 : r.SolarGeo = a'.SolarGeo)
    (out : List String) :
    ∃ out', DetermineArealExtent E S V { r with Stdout := out } = .ok { r with Stdout := out' } := by
  rcases r with ⟨ro, rm, rs, rt, rc, rout⟩
  dsimp only at w0 w1
  subst_vars
  unfold DetermineArealExtent at h ⊢
  try dsimp only at h
  try dsimp only
  repeat' split at h
  all_goals first
    | (cases h; done)
    | (cases h
       try simp only [*, if_true, if_false, ite_true, ite_false, not_true_eq_false,
         not_false_eq_true, reduceIte, ne_eq, Bool.false_eq_true]
       exact ⟨_, rfl⟩)

theorem DeterminePoint_again {E : COLLABORATORS} {S : SETTINGS} {V : KEYS → List Char} {a a' r : State}
    (h : DeterminePoint E S V a = .ok a')
    (g0 : r.Options.Extent = a.Options.Extent)
    (g1 : r.Map = a.Map)
    (w0 : r.Options.PointY = a'.Options.PointY)
    (w1 : r.Options.PointX = a'.Options.PointX)
    (out : List String) :
    ∃ out', DeterminePoint E S V { r with Stdout := out } = .ok { r with Stdout := out' } := by
  rcases r with ⟨ro, rm, rs, rt, rc, rout⟩
  cases ro
  dsimp only at g0 g1 w0 w1
  subst_vars
  unfold DeterminePoint at h ⊢
  try dsimp only at h
  try dsimp only
  repeat' split at h
  all_goals first
    | (cases h; done)
    | (cases h
       try simp only [*, if_true, if_false, ite_true, ite_false, not_true_eq_false,
         not_false_eq_true, reduceIte, ne_eq, Bool.false_eq_true]
       exact ⟨_, rfl⟩)

theorem DetermineModelPeriod_again {E : COLLABORATORS} {S : SETTINGS} {V : KEYS → List Char} {a a' r : State}
    (h : DetermineModelPeriod E S V a = .ok a')
    (w0 : r.Time = a'.Time)
    (out : List String) :
    ∃ out', DetermineModelPeriod E S V { r with Stdout := out } = .ok { r with Stdout := out' } := by
  rcases r with ⟨ro, rm, rs, rt, rc, rout⟩
  dsimp only at w0
  subst_vars
  unfold DetermineModelPeriod at h ⊢
  try dsimp only at h
  try dsimp only
  repeat' split at h
  all_goals first
    | (cases h; done)
    | (cases h
       try simp only [*, if_true, if_false, ite_true, ite_false, not_true_eq_false,
         not_false_eq_true, reduceIte, ne_eq, Bool.false_eq_true, InitTime]
       exact ⟨_, rfl⟩)

theorem DetermineFixedConstants_again {E : COLLABORATORS} {V : KEYS → List Char} {a a' r : State}
    (h : DetermineFixedConstants E V a = .ok a')
    (w0 : r.Constants.Z0_GROUND = a'.Constants.Z0_GROUND)
    (w1 : r.Constants.Z0_SNOW = a'.Constants.Z0_SNOW)
    (w2 : r.Constants.MIN_RAIN_TEMP = a'.Constants.MIN_RAIN_TEMP)
    (w3 : r.Constants.MAX_SNOW_TEMP = a'.Constants.MAX_SNOW_TEMP)
    (w4 : r.Constants.LIQUID_WATER_CAPACITY = a'.Constants.LIQUID_WATER_CAPACITY)
    (w5 : r.Constants.Zref = a'.Constants.Zref)
    (w6 : r.Constants.LAI_WATER_MULTIPLIER = a'.Constants.LAI_WATER_MULTIPLIER)
    (w7 : r.Constants.LAI_SNOW_MULTIPLIER = a'.Constants.LAI_SNOW_MULTIPLIER)
    (w8 : r.Constants.MIN_INTERCEPTION_STORAGE = a'.Constants.MIN_INTERCEPTION_STORAGE)
    (w9 : r.Constants.OUTSIDEBASIN = a'.Constants.OUTSIDEBASIN)
    (out : List String) :
    ∃ out', DetermineFixedConstants E V { r with Stdout := out } = .ok { r with Stdout := out' } := by
  rcases r with ⟨ro, rm, rs, rt, rc, rout⟩
  cases rc
  dsimp only at w0 w1 w2 w3 w4 w5 w6 w7 w8 w9
  subst_vars
  unfold DetermineFixedConstants at h ⊢
  try dsimp only at h
  try dsimp only
  repeat' split at h
  all_goals first
    | (cases h; done)
    | (cases h
       try simp only [*, if_true, if_false, ite_true, ite_false, not_true_eq_false,
         not_false_eq_true, reduceIte, ne_eq, Bool.false_eq_true]
       exact ⟨_, rfl⟩)

theorem DetermineTEMPLAPSE_again {E : COLLABORATORS} {S : SETTINGS} {V : KEYS → List Char} {a a' r : State}
    (h : DetermineTEMPLAPSE E S V a = .ok a')
    (g0 : r.Options.TempLapse = a.Options.TempLapse)
    (w0 : r.Constants.TEMPLAPSE = a'.Constants.TEMPLAPSE)
    (out : List String) :
    ∃ out', DetermineTEMPLAPSE E S V { r with Stdout := out } = .ok { r with Stdout := out' } := by
  rcases r with ⟨ro, rm, rs, rt, rc, rout⟩
  cases rc
  dsimp only at g0 w0
  subst_vars
  unfold DetermineTEMPLAPSE at h ⊢
  try dsimp only at h
  try dsimp only
  repeat' split at h
  all_goals first
    | (cases h; done)
    | (cases h
       try simp only [*, if_true, if_false, ite_true, ite_false, not_true_eq_false,
         not_false_eq_true, reduceIte, ne_eq, Bool.false_eq_true]
       exact ⟨_, rfl⟩)

theorem DeterminePRECIPLAPSE_again {E : COLLABORATORS} {S : SETTINGS} {V : KEYS → List Char} {a a' r : State}
    (h : DeterminePRECIPLAPSE E S V a = .ok a')
    (g0 : r.Options.PrecipLapse = a.Options.PrecipLapse)
    (w0 : r.Constants.PRECIPLAPSE = a'.Constants.PRECIPLAPSE)
    (out : List String) :
    ∃ out', DeterminePRECIPLAPSE E S V { r with Stdout := out } = .ok { r with Stdout := out' } := by
  rcases r with ⟨ro, rm, rs, rt, rc, rout⟩
  cases rc
  dsimp only at g0 w0
  subst_vars
  unfold DeterminePRECIPLAPSE at h ⊢
  try dsimp only at h
  try dsimp only
  repeat' split at h
  all_goals first
    | (cases h; done)
    | (cases h
       try simp only [*, if_true, if_false, ite_true, ite_false, not_true_eq_false,
         not_false_eq_true, reduceIte, ne_eq, Bool.false_eq_true]
       exact ⟨_, rfl⟩)

theorem DeterminePRECIPMULTIPLIER_again {E : COLLABORATORS} {V : KEYS → List Char} {a a' r : State}
    (h : DeterminePRECIPMULTIPLIER E V a = .ok a')
    (w0 : r.Constants.PRECIPMULTIPLIER = a'.Constants.PRECIPMULTIPLIER)
    (out : List String) :
    ∃ out', DeterminePRECIPMULTIPLIER E V { r with Stdout := out } = .ok { r with Stdout := out' } := by
  rcases r with ⟨ro, rm, rs, rt, rc, rout⟩
  cases rc
  dsimp only at w0
  subst_vars
  unfold DeterminePRECIPMULTIPLIER at h ⊢
  try dsimp only at h
  try dsimp only
  repeat' split at h
  all_goals first
    | (cases h; done)
    | (cases h
       try simp only [*, if_true, if_false, ite_true, ite_false, not_true_eq_false,
         not_false_eq_true, reduceIte, ne_eq, Bool.false_eq_true]
       exact ⟨_, rfl⟩)

theorem DetermineExtent_again {S : SETTINGS} {V : KEYS → List Char} {a a' r : State}
    (h : DetermineExtent S V a = .ok a')
    (w0 : r.Options.Extent = a'.Options.Extent)
    (w1 : strncmp (V .extent) "POINT".toList 5 = 0 → r.Options.HasNetwork = S.FALSE)
    (out : List String) :
    ∃ out', DetermineExtent S V { r with Stdout := out } = .ok { r with Stdout := out' } := by
  rcases r with ⟨ro, rm, rs, rt, rc, rout⟩
  cases ro
  dsimp only at w0 w1
  subst w0
  unfold DetermineExtent at h ⊢
  dsimp only
  split at h
  · rename_i hc
    have w2 := w1 hc
    subst w2
    cases h
    rw [if_pos hc]
    exact ⟨_, rfl⟩
  · rename_i hc
    split at h
    · rename_i hb
      cases h
      rw [if_neg hc, if_pos hb]
      exact ⟨_, rfl⟩
    · cases h

theorem CheckMM5Prism_again {S : SETTINGS} {a a' r : State}
    (h : CheckMM5Prism S a = .ok a')
    (g0 : r.Options.MM5 = a.Options.MM5) (g1 : r.Options.Prism = a.Options.Prism)
    (g2 : r.Options.QPF = a.Options.QPF) (out : List String) :
    ∃ out', CheckMM5Prism S { r with Stdout := out } = .ok { r with Stdout := out' } := by
  unfold CheckMM5Prism at h ⊢
  dsimp only
  rw [g0, g1, g2]
  split at h
  · cases h
  · rename_i hc
    rw [if_neg hc]
    exact ⟨_, rfl⟩

theorem ForceMetOptions_again {S : SETTINGS} {a r : State}
    (g1 : r.Options.QPF = a.Options.QPF) (g2 : r.Options.Prism = a.Options.Prism)
    (w0 : r.Options.PrecipType = (ForceMetOptions S a).Options.PrecipType)
    (w1 : r.Options.WindSource = (ForceMetOptions S a).Options.WindSource)
    (w2 : r.Options.TempLapse = (ForceMetOptions S a).Options.TempLapse)
    (w3 : r.Options.PrecipLapse = (ForceMetOptions S a).Options.PrecipLapse)
    (out : List String) :
    ForceMetOptions S { r with Stdout := out } = { r with Stdout := out } := by
  rcases r with ⟨ro, rm, rs, rt, rc, rout⟩
  cases ro
  dsimp only at g1 g2
  subst g1 g2
  unfold ForceMetOptions at w0 w1 w2 w3 ⊢
  dsimp only at w0 w1 w2 w3 ⊢
  split_ifs at w0 w1 w2 w3 ⊢ <;> dsimp only at w0 w1 w2 w3 ⊢ <;> subst_vars <;> rfl

theorem DetermineMetOptions_again {S : SETTINGS} {V : KEYS → List Char} {a a' r : State}
    (h : DetermineMetOptions S V a = .ok a')
    (g0 : r.Options.MM5 = a.Options.MM5) (g1 : r.Options.QPF = a.Options.QPF)
    (g2 : r.Options.Prism = a.Options.Prism)
    (w0 : r.Options.PrecipType = a'.Options.PrecipType)
    (w1 : r.Options.WindSource = a'.Options.WindSource)
    (w2 : r.Options.TempLapse = a'.Options.TempLapse)
    (w3 : r.Options.PrecipLapse = a'.Options.PrecipLapse) (out : List String) :
    ∃ out', DetermineMetOptions S V { r with Stdout := out } =
      .ok { r with Stdout := out' } := by
  unfold DetermineMetOptions at h ⊢
  dsimp only
  rw [g0]
  split at h
  · rename_i hc
    cases h
    rw [if_pos hc, ForceMetOptions_again g1 g2 w0 w1 w2 w3 out]
    exact ⟨_, rfl⟩
  · rename_i hc
    rw [if_neg hc]
    obtain ⟨c1, h1, h⟩ := bind_eq_ok h
    obtain ⟨c2, h2, h⟩ := bind_eq_ok h
    obtain ⟨c3, h3, h4⟩ := bind_eq_ok h
    obtain ⟨_, e1⟩ := DeterminePrecipType_inv h1
    obtain ⟨_, e2⟩ := DetermineWindSource_inv h2
    obtain ⟨_, e3⟩ := DetermineTempLapse_inv h3
    obtain ⟨_, e4⟩ := DeterminePrecipLapse_inv h4
    obtain ⟨o1, q1⟩ := DeterminePrecipType_again (r := r) h1
      (by rw [w0, e4, e3, e2]) out
    rw [q1, bind_ok_eq]
    obtain ⟨o2, q2⟩ := DetermineWindSource_again (r := r) h2 (by rw [w1, e4, e3]) o1
    rw [q2, bind_ok_eq]
    obtain ⟨o3, q3⟩ := DetermineTempLapse_again (r := r) h3 (by rw [w2, e4]) o2
    rw [q3, bind_ok_eq]
    exact DeterminePrecipLapse_again (r := r) h4 w3 o3

/-- The pass run on the outcome of a successful pass succeeds and changes nothing
but the text written to standard output. -/
theorem Decode_again {E : COLLABORATORS} {S : SETTINGS} {V : KEYS → List Char}
    {st st1 : State} (h : Decode E S V st = .ok st1) (out : List String) :
    ∃ out', Decode E S V { st1 with Stdout := out } = .ok { st1 with Stdout := out' } := by
  unfold Decode DetermineModelOptions DetermineModelConstants at h ⊢
  simp only [bind_assoc] at h ⊢
  obtain ⟨a1, h1, h⟩ := bind_eq_ok h
  obtain ⟨a2, h2, h⟩ := bind_eq_ok h
  obtain ⟨a3, h3, h⟩ := bind_eq_ok h
  obtain ⟨a4, h4, h⟩ := bind_eq_ok h
  obtain ⟨a5, h5, h⟩ := bind_eq_ok h
  obtain ⟨a6, h6, h⟩ := bind_eq_ok h
  obtain ⟨a7, h7, h⟩ := bind_eq_ok h
  obtain ⟨a8, h8, h⟩ := bind_eq_ok h
  obtain ⟨a9, h9, h⟩ := bind_eq_ok h
  obtain ⟨a10, h10, h⟩ := bind_eq_ok h
  obtain ⟨a11, h11, h⟩ := bind_eq_ok h
  obtain ⟨a12, h12, h⟩ := bind_eq_ok h
  obtain ⟨a13, h13, h⟩ := bind_eq_ok h
  obtain ⟨a14, h14, h⟩ := bind_eq_ok h
  obtain ⟨a15, h15, h⟩ := bind_eq_ok h
  obtain ⟨a16, h16, h⟩ := bind_eq_ok h
  obtain ⟨a17, h17, h⟩ := bind_eq_ok h
  obtain ⟨a18, h18, h⟩ := bind_eq_ok h
  obtain ⟨a19, h19, h⟩ := bind_eq_ok h
  obtain ⟨a20, h20, h⟩ := bind_eq_ok h
  obtain ⟨a21, h21, h⟩ := bind_eq_ok h
  obtain ⟨a22, h22, h⟩ := bind_eq_ok h
  obtain ⟨a23, h23, h⟩ := bind_eq_ok h
  obtain ⟨a24, h24, h⟩ := bind_eq_ok h
  obtain ⟨a25, h25, h⟩ := bind_eq_ok h
  obtain ⟨a26, h26, h⟩ := bind_eq_ok h
  obtain ⟨a27, h27, h⟩ := bind_eq_ok h
  obtain ⟨a28, h28, h⟩ := bind_eq_ok h
  obtain ⟨c1, hF, h⟩ := bind_eq_ok h
  obtain ⟨c2, hT, h⟩ := bind_eq_ok h
  obtain ⟨c3, hL, h⟩ := bind_eq_ok h
  have hM := h
  obtain ⟨_, e1⟩ := DetermineFileFormat_inv h1
  obtain ⟨_, _, e2⟩ := DetermineExtent_inv h2
  obtain ⟨_, e3⟩ := DetermineFlowGradient_inv h3
  obtain ⟨_, e4⟩ := DetermineInterpolation_inv h4
  obtain ⟨_, _, e5⟩ := DetermineCressman_inv h5
  obtain ⟨_, e6⟩ := DetermineHasNetwork_inv h6
  obtain ⟨_, e7⟩ := DetermineHeatFlux_inv h7
  obtain ⟨_, _, _, _, _, e8⟩ := DetermineSediment_inv h8
  obtain ⟨_, e9⟩ := DetermineSedFile_inv h9
  obtain ⟨_, e10⟩ := DetermineRouting_inv h10
  obtain ⟨_, _, e11⟩ := DetermineInfiltration_inv h11
  obtain ⟨_, e12⟩ := DetermineMM5_inv h12
  obtain ⟨_, e13⟩ := DetermineQPF_inv h13
  obtain ⟨_, e14⟩ := DeterminePrism_inv h14
  obtain ⟨_, e15⟩ := DetermineCanopyRadAtt_inv h15
  obtain ⟨_, e16⟩ := DetermineShading_inv h16
  have e17 := CheckMM5Prism_inv h17
  obtain ⟨_, e18⟩ := DetermineSnotel_inv h18
  obtain ⟨_, e19⟩ := DetermineStreamTemp_inv h19
  obtain ⟨_, e20⟩ := DetermineCanopyShading_inv h20
  obtain ⟨_, e21⟩ := DetermineOutside_inv h21
  obtain ⟨_, _, e22⟩ := DeterminePrismData_inv h22
  obtain ⟨_, _, _, e23⟩ := DetermineShadingData_inv h23
  obtain ⟨_, e24⟩ := DetermineRhoverride_inv h24
  obtain ⟨_, _, _, _, e25⟩ := DetermineMetOptions_inv h25
  obtain ⟨_, _, e26⟩ := DetermineArealExtent_inv h26
  obtain ⟨_, _, e27⟩ := DeterminePoint_inv h27
  obtain ⟨_, e28⟩ := DetermineModelPeriod_inv h28
  obtain ⟨_, e29⟩ := DetermineFixedConstants_inv hF
  obtain ⟨_, e30⟩ := DetermineTEMPLAPSE_inv hT
  obtain ⟨_, e31⟩ := DeterminePRECIPLAPSE_inv hL
  obtain ⟨_, e32⟩ := DeterminePRECIPMULTIPLIER_inv hM
  have hnet : strncmp (V .extent) "POINT".toList 5 = 0 →
      st1.Options.HasNetwork = S.FALSE := by
    intro hc
    have h2' := h2
    unfold DetermineExtent at h2'
    rw [if_pos hc] at h2'
    have e2' := (Except.ok.inj h2').symm
    have hx : a5.Options.Extent = S.POINT := by simp only [e5, e4, e3, e2']
    have h6' := h6
    rw [DetermineHasNetwork_POINT V hx] at h6'
    have e6' := (Except.ok.inj h6').symm
    simp only [e32, e31, e30, e29, e28, e27, e26, e25, e24, e23, e22, e21, e20, e19, e18, e17, e16, e15, e14, e13, e12, e11, e10, e9, e8, e7, e6']
  obtain ⟨o1, q1⟩ := DetermineFileFormat_again (r := st1) h1
      (by simp only [e32, e31, e30, e29, e28, e27, e26, e25, e24, e23, e22, e21, e20, e19, e18, e17, e16, e15, e14, e13, e12, e11, e10, e9, e8, e7, e6, e5, e4, e3, e2]) out
  rw [q1, bind_ok_eq]
  clear q1
  obtain ⟨o2, q2⟩ := DetermineExtent_again (r := st1) h2
      (by simp only [e32, e31, e30, e29, e28, e27, e26, e25, e24, e23, e22, e21, e20, e19, e18, e17, e16, e15, e14, e13, e12, e11, e10, e9, e8, e7, e6, e5, e4, e3])
      hnet o1
  rw [q2, bind_ok_eq]
  clear q2
  obtain ⟨o3, q3⟩ := DetermineFlowGradient_again (r := st1) h3
      (by simp only [e32, e31, e30, e29, e28, e27, e26, e25, e24, e23, e22, e21, e20, e19, e18, e17, e16, e15, e14, e13, e12, e11, e10, e9, e8, e7, e6, e5, e4, e3])
      (by simp only [e32, e31, e30, e29, e28, e27, e26, e25, e24, e23, e22, e21, e20, e19, e18, e17, e16, e15, e14, e13, e12, e11, e10, e9, e8, e7, e6, e5, e4]) o2
  rw [q3, bind_ok_eq]
  clear q3
  obtain ⟨o4, q4⟩ := DetermineInterpolation_again (r := st1) h4
      (by simp only [e32, e31, e30, e29, e28, e27, e26, e25, e24, e23, e22, e21, e20, e19, e18, e17, e16, e15, e14, e13, e12, e11, e10, e9, e8, e7, e6, e5]) o3
  rw [q4, bind_ok_eq]
  clear q4
  obtain ⟨o5, q5⟩ := DetermineCressman_again (r := st1) h5
      (by simp only [e32, e31, e30, e29, e28, e27, e26, e25, e24, e23, e22, e21, e20, e19, e18, e17, e16, e15, e14, e13, e12, e11, e10, e9, e8, e7, e6, e5])
      (by simp only [e32, e31, e30, e29, e28, e27, e26, e25, e24, e23, e22, e21, e20, e19, e18, e17, e16, e15, e14, e13, e12, e11, e10, e9, e8, e7, e6])
      (by simp only [e32, e31, e30, e29, e28, e27, e26, e25, e24, e23, e22, e21, e20, e19, e18, e17, e16, e15, e14, e13, e12, e11, e10, e9, e8, e7, e6]) o4
  rw [q5, bind_ok_eq]
  clear q5
  obtain ⟨o6, q6⟩ := DetermineHasNetwork_again (r := st1) h6
      (by simp only [e32, e31, e30, e29, e28, e27, e26, e25, e24, e23, e22, e21, e20, e19, e18, e17, e16, e15, e14, e13, e12, e11, e10, e9, e8, e7, e6])
      (by simp only [e32, e31, e30, e29, e28, e27, e26, e25, e24, e23, e22, e21, e20, e19, e18, e17, e16, e15, e14, e13, e12, e11, e10, e9, e8, e7]) o5
  rw [q6, bind_ok_eq]
  clear q6
  obtain ⟨o7, q7⟩ := DetermineHeatFlux_again (r := st1) h7
      (by simp only [e32, e31, e30, e29, e28, e27, e26, e25, e24, e23, e22, e21, e20, e19, e18, e17, e16, e15, e14, e13, e12, e11, e10, e9, e8]) o6
  rw [q7, bind_ok_eq]
  clear q7
  obtain ⟨o8, q8⟩ := DetermineSediment_again (r := st1) h8
      (by simp only [e32, e31, e30, e29, e28, e27, e26, e25, e24, e23, e22, e21, e20, e19, e18, e17, e16, e15, e14, e13, e12, e11, e10, e9])
      (by simp only [e32, e31, e30, e29, e28, e27, e26, e25, e24, e23, e22, e21, e20, e19, e18, e17, e16, e15, e14, e13, e12, e11, e10, e9])
      (by simp only [e32, e31, e30, e29, e28, e27, e26, e25, e24, e23, e22, e21, e20, e19, e18, e17, e16, e15, e14, e13, e12, e11, e10, e9])
      (by simp only [e32, e31, e30, e29, e28, e27, e26, e25, e24, e23, e22, e21, e20, e19, e18, e17, e16, e15, e14, e13, e12, e11, e10, e9]) o7
  rw [q8, bind_ok_eq]
  clear q8
  obtain ⟨o9, q9⟩ := DetermineSedFile_again (r := st1) h9
      (by simp only [e32, e31, e30, e29, e28, e27, e26, e25, e24, e23, e22, e21, e20, e19, e18, e17, e16, e15, e14, e13, e12, e11, e10, e9])
      (by simp only [e32, e31, e30, e29, e28, e27, e26, e25, e24, e23, e22, e21, e20, e19, e18, e17, e16, e15, e14, e13, e12, e11, e10]) o8
  rw [q9, bind_ok_eq]
  clear q9
  obtain ⟨o10, q10⟩ := DetermineRouting_again (r := st1) h10
      (by simp only [e32, e31, e30, e29, e28, e27, e26, e25, e24, e23, e22, e21, e20, e19, e18, e17, e16, e15, e14, e13, e12, e11]) o9
  rw [q10, bind_ok_eq]
  clear q10
  obtain ⟨o11, q11⟩ := DetermineInfiltration_again (r := st1) h11
      (by simp only [e32, e31, e30, e29, e28, e27, e26, e25, e24, e23, e22, e21, e20, e19, e18, e17, e16, e15, e14, e13, e12]) o10
  rw [q11, bind_ok_eq]
  clear q11
  obtain ⟨o12, q12⟩ := DetermineMM5_again (r := st1) h12
      (by simp only [e32, e31, e30, e29, e28, e27, e26, e25, e24, e23, e22, e21, e20, e19, e18, e17, e16, e15, e14, e13]) o11
  rw [q12, bind_ok_eq]
  clear q12
  obtain ⟨o13, q13⟩ := DetermineQPF_again (r := st1) h13
      (by simp only [e32, e31, e30, e29, e28, e27, e26, e25, e24, e23, e22, e21, e20, e19, e18, e17, e16, e15, e14]) o12
  rw [q13, bind_ok_eq]
  clear q13
  obtain ⟨o14, q14⟩ := DeterminePrism_again (r := st1) h14
      (by simp only [e32, e31, e30, e29, e28, e27, e26, e25, e24, e23, e22, e21, e20, e19, e18, e17, e16, e15]) o13
  rw [q14, bind_ok_eq]
  clear q14
  obtain ⟨o15, q15⟩ := DetermineCanopyRadAtt_again (r := st1) h15
      (by simp only [e32, e31, e30, e29, e28, e27, e26, e25, e24, e23, e22, e21, e20, e19, e18, e17, e16]) o14
  rw [q15, bind_ok_eq]
  clear q15
  obtain ⟨o16, q16⟩ := DetermineShading_again (r := st1) h16
      (by simp only [e32, e31, e30, e29, e28, e27, e26, e25, e24, e23, e22, e21, e20, e19, e18, e17]) o15
  rw [q16, bind_ok_eq]
  clear q16
  obtain ⟨o17, q17⟩ := CheckMM5Prism_again (r := st1) h17
      (by simp only [e32, e31, e30, e29, e28, e27, e26, e25, e24, e23, e22, e21, e20, e19, e18, e17])
      (by simp only [e32, e31, e30, e29, e28, e27, e26, e25, e24, e23, e22, e21, e20, e19, e18, e17])
      (by simp only [e32, e31, e30, e29, e28, e27, e26, e25, e24, e23, e22, e21, e20, e19, e18, e17]) o16
  rw [q17, bind_ok_eq]
  clear q17
  obtain ⟨o18, q18⟩ := DetermineSnotel_again (r := st1) h18
      (by simp only [e32, e31, e30, e29, e28, e27, e26, e25, e24, e23, e22, e21, e20, e19]) o17
  rw [q18, bind_ok_eq]
  clear q18
  obtain ⟨o19, q19⟩ := DetermineStreamTemp_again (r := st1) h19
      (by simp only [e32, e31, e30, e29, e28, e27, e26, e25, e24, e23, e22, e21, e20]) o18
  rw [q19, bind_ok_eq]
  clear q19
  obtain ⟨o20, q20⟩ := DetermineCanopyShading_again (r := st1) h20
      (by simp only [e32, e31, e30, e29, e28, e27, e26, e25, e24, e23, e22, e21, e20])
      (by simp only [e32, e31, e30, e29, e28, e27, e26, e25, e24, e23, e22, e21]) o19
  rw [q20, bind_ok_eq]
  clear q20
  obtain ⟨o21, q21⟩ := DetermineOutside_again (r := st1) h21
      (by simp only [e32, e31, e30, e29, e28, e27, e26, e25, e24, e23, e22]) o20
  rw [q21, bind_ok_eq]
  clear q21
  obtain ⟨o22, q22⟩ := DeterminePrismData_again (r := st1) h22
      (by simp only [e32, e31, e30, e29, e28, e27, e26, e25, e24, e23, e22])
      (by simp only [e32, e31, e30, e29, e28, e27, e26, e25, e24, e23])
      (by simp only [e32, e31, e30, e29, e28, e27, e26, e25, e24, e23]) o21
  rw [q22, bind_ok_eq]
  clear q22
  obtain ⟨o23, q23⟩ := DetermineShadingData_again (r := st1) h23
      (by simp only [e32, e31, e30, e29, e28, e27, e26, e25, e24, e23])
      (by simp only [e32, e31, e30, e29, e28, e27, e26, e25, e24])
      (by simp only [e32, e31, e30, e29, e28, e27, e26, e25, e24])
      (by simp only [e32, e31, e30, e29, e28, e27, e26, e25, e24]) o22
  rw [q23, bind_ok_eq]
  clear q23
  obtain ⟨o24, q24⟩ := DetermineRhoverride_again (r := st1) h24
      (by simp only [e32, e31, e30, e29, e28, e27, e26, e25]) o23
  rw [q24, bind_ok_eq]
  clear q24
  obtain ⟨o25, q25⟩ := DetermineMetOptions_again (r := st1) h25
      (by simp only [e32, e31, e30, e29, e28, e27, e26, e25])
      (by simp only [e32, e31, e30, e29, e28, e27, e26, e25])
      (by simp only [e32, e31, e30, e29, e28, e27, e26, e25])
      (by simp only [e32, e31, e30, e29, e28, e27, e26])
      (by simp only [e32, e31, e30, e29, e28, e27, e26])
      (by simp only [e32, e31, e30, e29, e28, e27, e26])
      (by simp only [e32, e31, e30, e29, e28, e27, e26]) o24
  rw [q25, bind_ok_eq]
  clear q25
  obtain ⟨o26, q26⟩ := DetermineArealExtent_again (r := st1) h26
      (by simp only [e32, e31, e30, e29, e28, e27])
      (by simp only [e32, e31, e30, e29, e28, e27]) o25
  rw [q26, bind_ok_eq]
  clear q26
  obtain ⟨o27, q27⟩ := DeterminePoint_again (r := st1) h27
      (by simp only [e32, e31, e30, e29, e28, e27])
      (by simp only [e32, e31, e30, e29, e28, e27])
      (by simp only [e32, e31, e30, e29, e28])
      (by simp only [e32, e31, e30, e29, e28]) o26
  rw [q27, bind_ok_eq]
  clear q27
  obtain ⟨o28, q28⟩ := DetermineModelPeriod_again (r := st1) h28
      (by simp only [e32, e31, e30, e29]) o27
  rw [q28, bind_ok_eq]
  clear q28
  obtain ⟨o29, q29⟩ := DetermineFixedConstants_again (r := st1) hF
      (by simp only [e32, e31, e30])
      (by simp only [e32, e31, e30])
      (by simp only [e32, e31, e30])
      (by simp only [e32, e31, e30])
      (by simp only [e32, e31, e30])
      (by simp only [e32, e31, e30])
      (by simp only [e32, e31, e30])
      (by simp only [e32, e31, e30])
      (by simp only [e32, e31, e30])
      (by simp only [e32, e31, e30]) o28
  rw [q29, bind_ok_eq]
  clear q29
  obtain ⟨o30, q30⟩ := DetermineTEMPLAPSE_again (r := st1) hT
      (by simp only [e32, e31, e30])
      (by simp only [e32, e31]) o29
  rw [q30, bind_ok_eq]
  clear q30
  obtain ⟨o31, q31⟩ := DeterminePRECIPLAPSE_again (r := st1) hL
      (by simp only [e32, e31])
      (by simp only [e32]) o30
  rw [q31, bind_ok_eq]
  clear q31
  exact DeterminePRECIPMULTIPLIER_again (r := st1) hM
      rfl o31

/-- C16. Running `InitConstants` again on the outcome of a successful load, with
the same input, succeeds and yields exactly the same structures and constants:
the second outcome is the first one, except for the text that the second run
adds to standard output.  A load that fails ends the sequence of the two runs
with the same failure. -/
theorem C16_second_load_changes_nothing (E : COLLABORATORS) (S : SETTINGS)
    (Input : LISTPTR) (st : State) :
    (∀ st1, InitConstants E S Input st = .ok st1 →
      ∃ out, InitConstants E S Input st1 = .ok { st1 with Stdout := out } ∧
        (InitConstants E S Input st >>= InitConstants E S Input) =
          .ok { st1 with Stdout := out }) ∧
    (∀ e, InitConstants E S Input st = .error e →
      (InitConstants E S Input st >>= InitConstants E S Input) = .error e) := by
  constructor
  · intro st1 h
    obtain ⟨out, hout⟩ := Decode_again (show Decode E S (VarStr E S Input) st = .ok st1 from h)
      st1.Stdout
    have h2 : InitConstants E S Input st1 = .ok { st1 with Stdout := out } := hout
    refine ⟨out, h2, ?_⟩
    rw [h]
    exact h2
  · intro e h
    rw [h]
    rfl

/-- C16, on a concrete configuration: the second load of the valid basin
configuration repeats the structures and constants of the first. -/
theorem C16_second_load_changes_nothing_witness :
    ∃ out, InitConstants sampleCollaborators sampleSettings sampleInput
        ((InitConstants sampleCollaborators sampleSettings sampleInput
          zeroState).toOption.getD zeroState) =
      .ok { (InitConstants sampleCollaborators sampleSettings sampleInput
          zeroState).toOption.getD zeroState with Stdout := out } :=
  let ⟨out, h, _⟩ := (C16_second_load_changes_nothing sampleCollaborators sampleSettings
    sampleInput zeroState).1 _ (eq_ok_of_isSome (by decide) zeroState)
  ⟨out, h⟩

/-! ## The time step -/

/-- No rational number, and so no floating-point number, is the diagonal of a
square of rational side, unless the side is zero. -/
theorem sq_eq_two_sq_imp_zero (q d : ℚ) (h : q ^ 2 = d ^ 2 + d ^ 2) : d = 0 := by
  by_contra hd
  have h2 : (|q / d|) ^ 2 = 2 := by
    rw [sq_abs, div_pow, div_eq_iff (pow_ne_zero 2 hd)]
    linarith
  have h3 : (((|q / d| : ℚ) : ℝ)) ^ 2 = 2 := by exact_mod_cast h2
  have h4 : Real.sqrt 2 = ((|q / d| : ℚ) : ℝ) := by
    rw [← h3]
    exact Real.sqrt_sq (by exact_mod_cast abs_nonneg (q / d))
  exact irrational_sqrt_two ⟨|q / d|, h4.symm⟩

/-- Four roundings in a row: a sum `s` rounded twice from `T` with relative error
`ε`, a square root `r` of `s` with relative error `η`, and `q` rounded from `r`
with relative error `ε`, leave the square of `q` within `T * δ` of `T`. -/
theorem rounding_chain (T s r q ε η δ : ℚ) (hT : 0 ≤ T) (hr : 0 < r)
    (hε1 : ε ≤ 1) (hη : 0 ≤ η) (hη1 : η < 1)
    (hs1 : T * (1 - ε) ^ 2 ≤ s) (hs2 : s ≤ T * (1 + ε) ^ 2)
    (hr1 : (r * (1 - η)) ^ 2 ≤ s) (hr2 : s ≤ (r * (1 + η)) ^ 2)
    (hq1 : r * (1 - ε) ≤ q) (hq2 : q ≤ r * (1 + ε))
    (hc1 : (1 + ε) ^ 4 ≤ (1 + δ) * (1 - η) ^ 2) (hc2 : (1 - δ) * (1 + η) ^ 2 ≤ (1 - ε) ^ 4) :
    |q ^ 2 - T| ≤ T * δ := by
  have hq0 : 0 ≤ q := le_trans (mul_nonneg hr.le (by linarith)) hq1
  have hm : 0 < (1 - η) ^ 2 := pow_pos (by linarith) 2
  have hp : 0 < (1 + η) ^ 2 := pow_pos (by linarith) 2
  have u1 : q ^ 2 ≤ (r * (1 + ε)) ^ 2 := pow_le_pow_left₀ hq0 hq2 2
  have l1 : (r * (1 - ε)) ^ 2 ≤ q ^ 2 :=
    pow_le_pow_left₀ (mul_nonneg hr.le (by linarith)) hq1 2
  have up : q ^ 2 * (1 - η) ^ 2 ≤ T * (1 + δ) * (1 - η) ^ 2 :=
    calc q ^ 2 * (1 - η) ^ 2 ≤ (r * (1 + ε)) ^ 2 * (1 - η) ^ 2 :=
          mul_le_mul_of_nonneg_right u1 hm.le
      _ = (r * (1 - η)) ^ 2 * (1 + ε) ^ 2 := by ring
      _ ≤ s * (1 + ε) ^ 2 := mul_le_mul_of_nonneg_right hr1 (sq_nonneg _)
      _ ≤ T * (1 + ε) ^ 2 * (1 + ε) ^ 2 := mul_le_mul_of_nonneg_right hs2 (sq_nonneg _)
      _ = T * (1 + ε) ^ 4 := by ring
      _ ≤ T * ((1 + δ) * (1 - η) ^ 2) := mul_le_mul_of_nonneg_left hc1 hT
      _ = T * (1 + δ) * (1 - η) ^ 2 := by ring
  have lo : T * (1 - δ) * (1 + η) ^ 2 ≤ q ^ 2 * (1 + η) ^ 2 :=
    calc T * (1 - δ) * (1 + η) ^ 2 = T * ((1 - δ) * (1 + η) ^ 2) := by ring
      _ ≤ T * (1 - ε) ^ 4 := mul_le_mul_of_nonneg_left hc2 hT
      _ = T * (1 - ε) ^ 2 * (1 - ε) ^ 2 := by ring
      _ ≤ s * (1 - ε) ^ 2 := mul_le_mul_of_nonneg_right hs1 (sq_nonneg _)
      _ ≤ (r * (1 + η)) ^ 2 * (1 - ε) ^ 2 := mul_le_mul_of_nonneg_right hr2 (sq_nonneg _)
      _ = (r * (1 - ε)) ^ 2 * (1 + η) ^ 2 := by ring
      _ ≤ q ^ 2 * (1 + η) ^ 2 := mul_le_mul_of_nonneg_right l1 hp.le
  have up' := le_of_mul_le_mul_right up hm
  have lo' := le_of_mul_le_mul_right lo hp
  rw [abs_le]
  constructor <;> linarith

/-- The diagonal that lines 444-445 store for a spacing `d` is a non-negative
number or the positive infinity, never a NaN. -/
theorem diagonal_nonneg (d : ℚ) :
    (∃ q, binary32.convert (binary64.sqrt (binary32.add (binary32.mul (.fin d) (.fin d))
      (binary32.mul (.fin d) (.fin d)))) = .fin q ∧ 0 ≤ q) ∨
    binary32.convert (binary64.sqrt (binary32.add (binary32.mul (.fin d) (.fin d))
      (binary32.mul (.fin d) (.fin d)))) = .inf false := by
  have e1 : binary32.mul (.fin d) (.fin d) = binary32.round (d * d) := rfl
  rw [e1]
  rcases binary32.round_nonneg (mul_self_nonneg d) with ⟨y, hy, hy0⟩ | hinf
  · rw [hy]
    have e2 : binary32.add (.fin y) (.fin y) = binary32.round (y + y) := rfl
    rw [e2]
    rcases binary32.round_nonneg (add_nonneg hy0 hy0) with ⟨z, hz, hz0⟩ | hinf
    · rw [hz]
      have e3 : binary64.sqrt (.fin z) = .fin (binary64.sqrtQ z) := by
        show (if z < 0 then FVAL.nan else FVAL.fin (binary64.sqrtQ z)) = _
        rw [if_neg (not_lt.2 hz0)]
      rw [e3]
      exact binary32.round_nonneg (binary64.sqrtQ_nonneg z)
    · rw [hinf]
      exact Or.inr rfl
  · rw [hinf]
    exact Or.inr rfl

/-- The diagonal of a spacing between `2 ^ -60` and `2 ^ 60` in magnitude is a
positive number whose square is within `2 ^ -21` of the sum of the squares,
relative to that sum, and is not that sum. -/
theorem diagonal_accurate (d : ℚ) (h1 : 1 / 2 ^ 60 ≤ |d|) (h2 : |d| ≤ 2 ^ 60) :
    ∃ q, binary32.convert (binary64.sqrt (binary32.add (binary32.mul (.fin d) (.fin d))
        (binary32.mul (.fin d) (.fin d)))) = .fin q ∧ 0 < q ∧
      |q ^ 2 - (d ^ 2 + d ^ 2)| ≤ (d ^ 2 + d ^ 2) / 2 ^ 21 ∧ q ^ 2 ≠ d ^ 2 + d ^ 2 := by
  have hd0 : d ≠ 0 := by
    rintro rfl
    rw [abs_zero] at h1
    exact absurd h1 (by norm_num)
  have hA : d * d = |d| * |d| := (abs_mul_abs_self d).symm
  have hA1 : 1 / 2 ^ 120 ≤ d * d := by
    rw [hA]
    calc (1 : ℚ) / 2 ^ 120 = 1 / 2 ^ 60 * (1 / 2 ^ 60) := by norm_num
      _ ≤ |d| * |d| := mul_le_mul h1 h1 (by norm_num) (abs_nonneg d)
  have hA2 : d * d ≤ 2 ^ 120 := by
    rw [hA]
    calc |d| * |d| ≤ 2 ^ 60 * 2 ^ 60 := mul_le_mul h2 h2 (abs_nonneg d) (by norm_num)
      _ = 2 ^ 120 := by norm_num
  have hA0 : 0 < d * d := lt_of_lt_of_le (by norm_num) hA1
  -- the square
  have ha := binary32_roundQ_normal (x := d * d) (by
    rw [abs_of_pos hA0]
    exact le_trans (by norm_num) hA1)
  rw [abs_of_pos hA0, abs_le] at ha
  have ha1 : d * d * (1 - 1 / 2 ^ 24) ≤ binary32.roundQ (d * d) := by linarith
  have ha2 : binary32.roundQ (d * d) ≤ d * d * (1 + 1 / 2 ^ 24) := by linarith
  have ha0 : 0 < binary32.roundQ (d * d) :=
    lt_of_lt_of_le (mul_pos hA0 (by norm_num)) ha1
  have ea : binary32.mul (.fin d) (.fin d) = .fin (binary32.roundQ (d * d)) := by
    show binary32.round (d * d) = _
    apply binary32_round_fin
    rw [abs_of_pos ha0]
    have : d * d * (1 + 1 / 2 ^ 24) ≤ 2 ^ 120 * (1 + 1 / 2 ^ 24) :=
      mul_le_mul_of_nonneg_right hA2 (by norm_num)
    have : (2 : ℚ) ^ 120 * (1 + 1 / 2 ^ 24) < 2 ^ 128 := by norm_num
    linarith
  -- the sum
  have hs0 : 0 < binary32.roundQ (d * d) + binary32.roundQ (d * d) := by linarith
  have hsl : 1 / 2 ^ 120 ≤ binary32.roundQ (d * d) + binary32.roundQ (d * d) := by
    have : (1 : ℚ) / 2 ^ 120 * (1 - 1 / 2 ^ 24) ≤ d * d * (1 - 1 / 2 ^ 24) :=
      mul_le_mul_of_nonneg_right hA1 (by norm_num)
    have : (1 : ℚ) / 2 ^ 120 ≤ 2 * (1 / 2 ^ 120 * (1 - 1 / 2 ^ 24)) := by norm_num
    linarith
  have hs := binary32_roundQ_normal
    (x := binary32.roundQ (d * d) + binary32.roundQ (d * d)) (by
      rw [abs_of_pos hs0]
      exact le_trans (by norm_num) hsl)
  rw [abs_of_pos hs0, abs_le] at hs
  have hs1 : (d ^ 2 + d ^ 2) * (1 - 1 / 2 ^ 24) ^ 2 ≤
      binary32.roundQ (binary32.roundQ (d * d) + binary32.roundQ (d * d)) := by
    have := mul_le_mul_of_nonneg_right ha1 (by norm_num : (0 : ℚ) ≤ 1 - 1 / 2 ^ 24)
    calc (d ^ 2 + d ^ 2) * (1 - 1 / 2 ^ 24) ^ 2
        = 2 * (d * d * (1 - 1 / 2 ^ 24) * (1 - 1 / 2 ^ 24)) := by ring
      _ ≤ 2 * (binary32.roundQ (d * d) * (1 - 1 / 2 ^ 24)) := by linarith
      _ ≤ binary32.roundQ (binary32.roundQ (d * d) + binary32.roundQ (d * d)) := by linarith
  have hs2 : binary32.roundQ (binary32.roundQ (d * d) + binary32.roundQ (d * d)) ≤
      (d ^ 2 + d ^ 2) * (1 + 1 / 2 ^ 24) ^ 2 := by
    have := mul_le_mul_of_nonneg_right ha2 (by norm_num : (0 : ℚ) ≤ 1 + 1 / 2 ^ 24)
    calc binary32.roundQ (binary32.roundQ (d * d) + binary32.roundQ (d * d))
        ≤ 2 * (binary32.roundQ (d * d) * (1 + 1 / 2 ^ 24)) := by linarith
      _ ≤ 2 * (d * d * (1 + 1 / 2 ^ 24) * (1 + 1 / 2 ^ 24)) := by linarith
      _ = (d ^ 2 + d ^ 2) * (1 + 1 / 2 ^ 24) ^ 2 := by ring
  have hT1 : 1 / 2 ^ 119 ≤ d ^ 2 + d ^ 2 := by
    have : (1 : ℚ) / 2 ^ 119 = 1 / 2 ^ 120 + 1 / 2 ^ 120 := by norm_num
    rw [this, sq]
    linarith
  have hT2 : d ^ 2 + d ^ 2 ≤ 2 ^ 121 := by
    have : (2 : ℚ) ^ 121 = 2 ^ 120 + 2 ^ 120 := by norm_num
    rw [this, sq]
    linarith
  have hT0 : 0 < d ^ 2 + d ^ 2 := lt_of_lt_of_le (by norm_num) hT1
  have hsl2 : 1 / 2 ^ 120 ≤
      binary32.roundQ (binary32.roundQ (d * d) + binary32.roundQ (d * d)) := by
    have : (1 : ℚ) / 2 ^ 119 * (1 - 1 / 2 ^ 24) ^ 2 ≤ (d ^ 2 + d ^ 2) * (1 - 1 / 2 ^ 24) ^ 2 :=
      mul_le_mul_of_nonneg_right hT1 (by norm_num)
    have : (1 : ℚ) / 2 ^ 120 ≤ 1 / 2 ^ 119 * (1 - 1 / 2 ^ 24) ^ 2 := by norm_num
    linarith
  have hsu2 : binary32.roundQ (binary32.roundQ (d * d) + binary32.roundQ (d * d)) ≤
      2 ^ 122 := by
    have : (d ^ 2 + d ^ 2) * (1 + 1 / 2 ^ 24) ^ 2 ≤ 2 ^ 121 * (1 + 1 / 2 ^ 24) ^ 2 :=
      mul_le_mul_of_nonneg_right hT2 (by norm_num)
    have : (2 : ℚ) ^ 121 * (1 + 1 / 2 ^ 24) ^ 2 ≤ 2 ^ 122 := by norm_num
    linarith
  have hss0 : 0 < binary32.roundQ (binary32.roundQ (d * d) + binary32.roundQ (d * d)) :=
    lt_of_lt_of_le (by norm_num) hsl2
  have es : binary32.add (.fin (binary32.roundQ (d * d))) (.fin (binary32.roundQ (d * d))) =
      .fin (binary32.roundQ (binary32.roundQ (d * d) + binary32.roundQ (d * d))) := by
    show binary32.round (binary32.roundQ (d * d) + binary32.roundQ (d * d)) = _
    apply binary32_round_fin
    rw [abs_of_pos hss0]
    exact lt_of_le_of_lt hsu2 (by norm_num)
  -- the square root
  obtain ⟨hr0, hr1, hr2⟩ := binary64_sqrtQ_spec
    (x := binary32.roundQ (binary32.roundQ (d * d) + binary32.roundQ (d * d)))
    (le_trans (by norm_num) hsl2)
  have er : binary64.sqrt
      (.fin (binary32.roundQ (binary32.roundQ (d * d) + binary32.roundQ (d * d)))) =
      .fin (binary64.sqrtQ
        (binary32.roundQ (binary32.roundQ (d * d) + binary32.roundQ (d * d)))) := by
    show (if binary32.roundQ (binary32.roundQ (d * d) + binary32.roundQ (d * d)) < 0 then
      FVAL.nan else _) = _
    rw [if_neg (not_lt.2 hss0.le)]
  generalize binary64.sqrtQ
    (binary32.roundQ (binary32.roundQ (d * d) + binary32.roundQ (d * d))) = r at hr0 hr1 hr2 er
  generalize binary32.roundQ (binary32.roundQ (d * d) + binary32.roundQ (d * d)) = s
    at hs1 hs2 hsl2 hsu2 hss0 es hr1 hr2 er
  have hrl : 1 / 2 ^ 126 ≤ r := by
    by_contra hc
    have hc' : r * (1 + 1 / 2 ^ 53) ≤ 1 / 2 ^ 126 * (1 + 1 / 2 ^ 53) :=
      mul_le_mul_of_nonneg_right (not_le.1 hc).le (by norm_num)
    have := pow_le_pow_left₀ (mul_nonneg hr0.le (by norm_num)) hc' 2
    have : ((1 : ℚ) / 2 ^ 126 * (1 + 1 / 2 ^ 53)) ^ 2 < 1 / 2 ^ 120 := by norm_num
    linarith
  have hru : r ≤ 2 ^ 62 := by
    by_contra hc
    have hc' : (2 : ℚ) ^ 62 * (1 - 1 / 2 ^ 53) ≤ r * (1 - 1 / 2 ^ 53) :=
      mul_le_mul_of_nonneg_right (not_le.1 hc).le (by norm_num)
    have := pow_le_pow_left₀ (by norm_num) hc' 2
    have : (2 : ℚ) ^ 122 < ((2 : ℚ) ^ 62 * (1 - 1 / 2 ^ 53)) ^ 2 := by norm_num
    linarith
  -- the conversion to float
  have hq := binary32_roundQ_normal (x := r) (by rw [abs_of_pos hr0]; exact hrl)
  rw [abs_of_pos hr0, abs_le] at hq
  have hq1 : r * (1 - 1 / 2 ^ 24) ≤ binary32.roundQ r := by linarith
  have hq2 : binary32.roundQ r ≤ r * (1 + 1 / 2 ^ 24) := by linarith
  have hq0 : 0 < binary32.roundQ r := lt_of_lt_of_le (mul_pos hr0 (by norm_num)) hq1
  have eq : binary32.convert (.fin r) = .fin (binary32.roundQ r) := by
    show binary32.round r = _
    apply binary32_round_fin
    rw [abs_of_pos hq0]
    have : r * (1 + 1 / 2 ^ 24) ≤ 2 ^ 62 * (1 + 1 / 2 ^ 24) :=
      mul_le_mul_of_nonneg_right hru (by norm_num)
    have : (2 : ℚ) ^ 62 * (1 + 1 / 2 ^ 24) < 2 ^ 128 := by norm_num
    linarith
  refine ⟨binary32.roundQ r, ?_, hq0, ?_, ?_⟩
  · rw [ea, es, er, eq]
  · have := rounding_chain (d ^ 2 + d ^ 2) s r (binary32.roundQ r) (1 / 2 ^ 24) (1 / 2 ^ 53)
      (1 / 2 ^ 21) hT0.le hr0 (by norm_num) (by norm_num) (by norm_num)
      hs1 hs2 hr1 hr2 hq1 hq2 (by norm_num) (by norm_num)
    rw [div_eq_mul_one_div]
    exact this
  · intro hc
    exact hd0 (sq_eq_two_sq_imp_zero _ _ hc)

theorem DetermineArealExtent_grid {E : COLLABORATORS} {S : SETTINGS} {V : KEYS → List Char}
    {st st' : State} (h : DetermineArealExtent E S V st = .ok st') :
    ∃ dy, E.CopyFloat (V .grid_spacing) 1 = some dy ∧
      st'.Map.DY = dy ∧ st'.Map.DX = dy ∧
      st'.Map.DXY = binary32.convert (binary64.sqrt
        (binary32.add (binary32.mul (.fin dy) (.fin dy)) (binary32.mul (.fin dy) (.fin dy)))) ∧
      st'.Map.X = 0 ∧ st'.Map.Y = 0 ∧ st'.Map.OffsetX = 0 ∧ st'.Map.OffsetY = 0 ∧
      st'.Map.NumCells = 0 := by
  unfold DetermineArealExtent at h
  split at h
  · cases h
  · split at h
    · cases h
    · split at h
      · cases h
      · split at h
        · cases h
        · split at h
          · cases h
          · split at h
            · cases h
            · split at h
              · cases h
              · split at h
                · cases h
                · split at h
                  · cases h
                  · rename_i dy hdy
                    cases h
                    exact ⟨dy, hdy, rfl, rfl, rfl, rfl, rfl, rfl, rfl, rfl⟩

/-- C18. After a successful load, with `dy` the parsed GRID SPACING:
`DX = DY = dy`.  `DXY`, the `double` square root of the `float` sum of the
`float` squares, cast to `float`, is a non-negative number or the positive
infinity, never a NaN; it is 0 for a zero spacing; and for a spacing between
`2 ^ -60` and `2 ^ 60` in magnitude it is a positive number whose square is
within `(DX ^ 2 + DY ^ 2) / 2 ^ 21` of `DX ^ 2 + DY ^ 2` and never equal to it.
`X`, `Y`, `OffsetX`, `OffsetY`, `NumCells` are 0 whatever they were before the
load. -/
theorem C18_grid_after_load (E : COLLABORATORS) (S : SETTINGS) (Input : LISTPTR)
    (st st' : State) (h : InitConstants E S Input st = .ok st') :
    (∃ dy, E.CopyFloat (VarStr E S Input .grid_spacing) 1 = some dy ∧
      st'.Map.DX = dy ∧ st'.Map.DY = dy) ∧
    ((∃ q, st'.Map.DXY = .fin q ∧ 0 ≤ q) ∨ st'.Map.DXY = .inf false) ∧
    (st'.Map.DY = 0 → st'.Map.DXY = .fin 0) ∧
    (1 / 2 ^ 60 ≤ |st'.Map.DY| → |st'.Map.DY| ≤ 2 ^ 60 →
      ∃ q, st'.Map.DXY = .fin q ∧ 0 < q ∧
        |q ^ 2 - (st'.Map.DX ^ 2 + st'.Map.DY ^ 2)| ≤
          (st'.Map.DX ^ 2 + st'.Map.DY ^ 2) / 2 ^ 21 ∧
        q ^ 2 ≠ st'.Map.DX ^ 2 + st'.Map.DY ^ 2) ∧
    st'.Map.X = 0 ∧ st'.Map.Y = 0 ∧ st'.Map.OffsetX = 0 ∧ st'.Map.OffsetY = 0 ∧
    st'.Map.NumCells = 0 := by
  unfold InitConstants Decode DetermineModelOptions at h
  simp only [bind_assoc] at h
  obtain ⟨a1, h1, h⟩ := bind_eq_ok h
  obtain ⟨a2, h2, h⟩ := bind_eq_ok h
  obtain ⟨a3, h3, h⟩ := bind_eq_ok h
  obtain ⟨a4, h4, h⟩ := bind_eq_ok h
  obtain ⟨a5, h5, h⟩ := bind_eq_ok h
  obtain ⟨a6, h6, h⟩ := bind_eq_ok h
  obtain ⟨a7, h7, h⟩ := bind_eq_ok h
  obtain ⟨a8, h8, h⟩ := bind_eq_ok h
  obtain ⟨a9, h9, h⟩ := bind_eq_ok h
  obtain ⟨a10, h10, h⟩ := bind_eq_ok h
  obtain ⟨a11, h11, h⟩ := bind_eq_ok h
  obtain ⟨a12, h12, h⟩ := bind_eq_ok h
  obtain ⟨a13, h13, h⟩ := bind_eq_ok h
  obtain ⟨a14, h14, h⟩ := bind_eq_ok h
  obtain ⟨a15, h15, h⟩ := bind_eq_ok h
  obtain ⟨a16, h16, h⟩ := bind_eq_ok h
  obtain ⟨a17, h17, h⟩ := bind_eq_ok h
  obtain ⟨a18, h18, h⟩ := bind_eq_ok h
  obtain ⟨a19, h19, h⟩ := bind_eq_ok h
  obtain ⟨a20, h20, h⟩ := bind_eq_ok h
  obtain ⟨a21, h21, h⟩ := bind_eq_ok h
  obtain ⟨a22, h22, h⟩ := bind_eq_ok h
  obtain ⟨a23, h23, h⟩ := bind_eq_ok h
  obtain ⟨a24, h24, h⟩ := bind_eq_ok h
  obtain ⟨a25, h25, h⟩ := bind_eq_ok h
  obtain ⟨a26, h26, h⟩ := bind_eq_ok h
  obtain ⟨a27, h27, h⟩ := bind_eq_ok h
  obtain ⟨a28, h28, h29⟩ := bind_eq_ok h
  obtain ⟨dy, hdy, e1, e2, e3, e4, e5, e6, e7, e8⟩ := DetermineArealExtent_grid h26
  obtain ⟨_, _, rfl⟩ := DeterminePoint_inv h27
  obtain ⟨_, rfl⟩ := DetermineModelPeriod_inv h28
  obtain ⟨_, rfl⟩ := DetermineModelConstants_inv h29
  refine ⟨⟨dy, hdy, e2, e1⟩, ?_, ?_, ?_, e4, e5, e6, e7, e8⟩
  · show (∃ q, a26.Map.DXY = .fin q ∧ 0 ≤ q) ∨ a26.Map.DXY = .inf false
    rw [e3]
    exact diagonal_nonneg dy
  · intro h0
    change a26.Map.DY = 0 at h0
    show a26.Map.DXY = .fin 0
    rw [e3, ← e1, h0]
    decide!
  · intro h1 h2
    change 1 / 2 ^ 60 ≤ |a26.Map.DY| at h1
    change |a26.Map.DY| ≤ 2 ^ 60 at h2
    show ∃ q, a26.Map.DXY = .fin q ∧ 0 < q ∧
        |q ^ 2 - (a26.Map.DX ^ 2 + a26.Map.DY ^ 2)| ≤
          (a26.Map.DX ^ 2 + a26.Map.DY ^ 2) / 2 ^ 21 ∧
        q ^ 2 ≠ a26.Map.DX ^ 2 + a26.Map.DY ^ 2
    rw [e1] at h1 h2
    rw [e3, e1, e2]
    exact diagonal_accurate dy h1 h2

/-- C18, on a concrete configuration with GRID SPACING 10: the diagonal is a
positive number whose square is within `200 / 2 ^ 21` of 200, and the counters
of a grid that held other values are 0 after the load. -/
theorem C18_grid_after_load_witness :
    (1 / 2 ^ 60 ≤ |((InitConstants sampleCollaborators sampleSettings sampleInput
      { zeroState with Map.NumCells := 5 }).toOption.getD zeroState).Map.DY| ∧
     |((InitConstants sampleCollaborators sampleSettings sampleInput
      { zeroState with Map.NumCells := 5 }).toOption.getD zeroState).Map.DY| ≤ 2 ^ 60) ∧
    (∃ q, ((InitConstants sampleCollaborators sampleSettings sampleInput
        { zeroState with Map.NumCells := 5 }).toOption.getD zeroState).Map.DXY = .fin q ∧
      0 < q ∧
      |q ^ 2 - (((InitConstants sampleCollaborators sampleSettings sampleInput
          { zeroState with Map.NumCells := 5 }).toOption.getD zeroState).Map.DX ^ 2 +
        ((InitConstants sampleCollaborators sampleSettings sampleInput
          { zeroState with Map.NumCells := 5 }).toOption.getD zeroState).Map.DY ^ 2)| ≤
        (((InitConstants sampleCollaborators sampleSettings sampleInput
          { zeroState with Map.NumCells := 5 }).toOption.getD zeroState).Map.DX ^ 2 +
        ((InitConstants sampleCollaborators sampleSettings sampleInput
          { zeroState with Map.NumCells := 5 }).toOption.getD zeroState).Map.DY ^ 2) / 2 ^ 21 ∧
      q ^ 2 ≠ ((InitConstants sampleCollaborators sampleSettings sampleInput
          { zeroState with Map.NumCells := 5 }).toOption.getD zeroState).Map.DX ^ 2 +
        ((InitConstants sampleCollaborators sampleSettings sampleInput
          { zeroState with Map.NumCells := 5 }).toOption.getD zeroState).Map.DY ^ 2) ∧
    ((InitConstants sampleCollaborators sampleSettings sampleInput
      { zeroState with Map.NumCells := 5 }).toOption.getD zeroState).Map.NumCells = 0 :=
  ⟨⟨by decide!, by decide!⟩,
    (C18_grid_after_load sampleCollaborators sampleSettings sampleInput
      { zeroState with Map.NumCells := 5 } _
      (eq_ok_of_isSome (by decide) zeroState)).2.2.2.1 (by decide!) (by decide!),
    (C18_grid_after_load sampleCollaborators sampleSettings sampleInput
      { zeroState with Map.NumCells := 5 } _
      (eq_ok_of_isSome (by decide) zeroState)).2.2.2.2.2.2.2.2⟩

/-- C18 as stated fails: with GRID SPACING 1 the load succeeds with `DX = DY = 1`
and `DXY = 11863283 / 8388608`, the `float` nearest to the square root of 2.
The square of `DXY` is not `DX ^ 2 + DY ^ 2`, whether it is formed exactly or in
`float`, where it is `16777215 / 8388608`; and no rational number, so no value
that `DXY` can hold, has the square 2. -/
theorem C18_counterexample :
    (InitConstants ieeeCollaborators sampleSettings (sampleSpacingInput "1")
      zeroState).toOption.map (fun st => (st.Map.DX, st.Map.DY, st.Map.DXY)) =
        some (1, 1, .fin (11863283 / 8388608)) ∧
    (11863283 / 8388608 : ℚ) ^ 2 ≠ 1 ^ 2 + 1 ^ 2 ∧
    binary32.mul (.fin (11863283 / 8388608)) (.fin (11863283 / 8388608)) =
      .fin (16777215 / 8388608) ∧
    binary32.add (binary32.mul (.fin 1) (.fin 1)) (binary32.mul (.fin 1) (.fin 1)) = .fin 2 ∧
    ∀ q : ℚ, q ^ 2 ≠ 1 ^ 2 + 1 ^ 2 := by
  refine ⟨by decide!, by norm_num, by decide!, by decide!, ?_⟩
  intro q hq
  have := sq_eq_two_sq_imp_zero q 1 hq
  norm_num at this

/-! ## The first failing check wins -/

/-- C19. With the header constants pairwise distinct, the load fails exactly as
the validation steps `Rules` say: its failure is that of the first step, in the
order of the list, that applies and is violated, and it succeeds if there is no
such step; so a step that applies and is violated, with no such step before it,
decides the outcome, and every failing load has such a step.  The keys of the
steps, in order, start FORMAT, EXTENT, GRADIENT, INTERPOLATION, CRESSMAN RADIUS,
CRESSMAN STATIONS, FLOW ROUTING, SENSIBLE HEAT FLUX, SEDIMENT; every step reports
its own key with the code 51, except the exit of canopy shading.  A FORMAT that
matches no literal makes the load fail naming FORMAT whatever the other keys and
the constants are.  The step of the MM5/PRISM/QPF combination is the one after
SHADING and before SNOTEL, and with MM5 and PRISM set to TRUE, QPF to FALSE and
no step violated before it, the load fails with `ReportError` on the key PRISM
and code 51. -/
theorem C19_first_failing_check_wins (E : COLLABORATORS) (S : SETTINGS) (Input : LISTPTR)
    (st : State) :
    (S.Distinct →
      failureOf (InitConstants E S Input st) = firstFailure E (VarStr E S Input) ∧
      (∀ (i : Nat) (r : RULE), (Rules E (VarStr E S Input))[i]? = some r →
        r.applies = true → r.violated = true →
        (∀ (j : Nat) (r' : RULE), j < i → (Rules E (VarStr E S Input))[j]? = some r' →
          (r'.applies && r'.violated) = false) →
        InitConstants E S Input st = .error r.failure) ∧
      (∀ e : Failure, InitConstants E S Input st = .error e →
        ∃ (i : Nat) (r : RULE), (Rules E (VarStr E S Input))[i]? = some r ∧
          r.applies = true ∧ r.violated = true ∧
          (∀ (j : Nat) (r' : RULE), j < i → (Rules E (VarStr E S Input))[j]? = some r' →
            (r'.applies && r'.violated) = false) ∧
          e = r.failure) ∧
      ((∀ (j : Nat) (r' : RULE), j < 17 → (Rules E (VarStr E S Input))[j]? = some r' →
          (r'.applies && r'.violated) = false) →
        Begins "TRUE".toList (VarStr E S Input .mm5) →
        Begins "TRUE".toList (VarStr E S Input .prism) →
        Begins "FALSE".toList (VarStr E S Input .qpf) →
        InitConstants E S Input st = .error (.ReportError "PRISM" 51))) ∧
    (Rules E (VarStr E S Input)).map RULE.key =
      [
        KEYS.format, KEYS.extent, KEYS.gradient, KEYS.interpolation, KEYS.cressman_radius,
        KEYS.cressman_stations, KEYS.flow_routing, KEYS.sensible_heat_flux, KEYS.sediment,
        KEYS.sed_input_file, KEYS.routing, KEYS.infiltration, KEYS.mm5, KEYS.qpf, KEYS.prism,
        KEYS.canopy_radatt, KEYS.shading, KEYS.prism, KEYS.snotel, KEYS.stream_temp,
        KEYS.canopy_shading, KEYS.canopy_shading, KEYS.outside, KEYS.prism_data_path,
        KEYS.prism_data_ext, KEYS.shading_data_path, KEYS.shading_data_ext,
        KEYS.skyview_data_path, KEYS.rhoverride, KEYS.precipitation_source, KEYS.wind_source,
        KEYS.temp_lapse, KEYS.precip_lapse, KEYS.coordinate_system, KEYS.extreme_north,
        KEYS.extreme_west, KEYS.center_latitude, KEYS.center_longitude, KEYS.time_zone_meridian,
        KEYS.number_of_rows, KEYS.number_of_columns, KEYS.grid_spacing, KEYS.point_north,
        KEYS.point_east, KEYS.time_step, KEYS.model_start, KEYS.model_end, KEYS.ground_roughness,
        KEYS.snow_roughness, KEYS.rain_threshold, KEYS.snow_threshold, KEYS.snow_water_capacity,
        KEYS.reference_height, KEYS.rain_lai_multiplier, KEYS.snow_lai_multiplier,
        KEYS.min_intercepted_snow, KEYS.outside_basin, KEYS.temp_lapse_rate,
        KEYS.precip_lapse_rate, KEYS.precip_multiplier ] ∧
    (∀ r ∈ Rules E (VarStr E S Input), r.failure = .ReportError (KeyName r.key) 51 ∨
      (r = RULE.canopy (VarStr E S Input) ∧ r.failure = .Exit CanopyShadingMessage (-1))) ∧
    (MatchesNoLiteral .format (VarStr E S Input .format) →
      InitConstants E S Input st = .error (.ReportError "FORMAT" 51)) ∧
    (Rules E (VarStr E S Input))[16]? = some (RULE.literal (VarStr E S Input) .shading true) ∧
    (Rules E (VarStr E S Input))[17]? = some (RULE.combination (VarStr E S Input)) ∧
    (Rules E (VarStr E S Input))[18]? = some (RULE.literal (VarStr E S Input) .snotel true) := by
  refine ⟨fun hD => ⟨InitConstants_refines E S hD Input st,
    fun i r hi ha hv hfirst => InitConstants_first E S hD Input st hi ha hv hfirst,
    fun e h => InitConstants_error E S hD Input st h, ?_⟩, ?_, Rules_failure E _, ?_, rfl, rfl,
    rfl⟩
  · intro hfirst hmm5 hprism hqpf
    exact InitConstants_first E S hD Input st (i := 17)
      (r := RULE.combination (VarStr E S Input)) rfl rfl
      (and3_eq_true ⟨hmm5, hprism, hqpf⟩) hfirst
  · simp only [Rules, List.map_cons, List.map_nil]
    rfl
  · intro hn
    simp only [MatchesNoLiteral, Vocabulary, List.mem_cons, List.mem_singleton,
      forall_eq_or_imp, forall_eq] at hn
    unfold InitConstants Decode DetermineModelOptions
    simp only [bind_assoc]
    rw [DetermineFileFormat_error hn.1 hn.2.1 hn.2.2.1]
    rfl

/-- C19, on concrete configurations: with FORMAT, EXTENT and SEDIMENT all invalid
FORMAT is the key named, and with TIME STEP and MODEL END both invalid TIME STEP
is. -/
theorem C19_first_failing_check_wins_witness :
    sampleSettings.Distinct ∧
    failureOf (InitConstants sampleCollaborators sampleSettings
      (("OPTIONS", "FORMAT", "TEXT".toList) :: ("OPTIONS", "EXTENT", "REGION".toList) ::
        ("OPTIONS", "SEDIMENT", "MAYBE".toList) :: sampleInput) zeroState) =
      some (.ReportError "FORMAT" 51) ∧
    failureOf (InitConstants sampleCollaborators sampleSettings
      (("TIME", "MODEL END", "never".toList) :: ("TIME", "TIME STEP", "long".toList) ::
        sampleInput) zeroState) =
      some (.ReportError "TIME STEP" 51) :=
  ⟨by decide,
    ((C19_first_failing_check_wins sampleCollaborators sampleSettings
      (("OPTIONS", "FORMAT", "TEXT".toList) :: ("OPTIONS", "EXTENT", "REGION".toList) ::
        ("OPTIONS", "SEDIMENT", "MAYBE".toList) :: sampleInput) zeroState).1
      (by decide)).1.trans (by decide),
    ((C19_first_failing_check_wins sampleCollaborators sampleSettings
      (("TIME", "MODEL END", "never".toList) :: ("TIME", "TIME STEP", "long".toList) ::
        sampleInput) zeroState).1
      (by decide)).1.trans (by decide)⟩

/-! ## The erosion flags when the sediment model runs -/

/-- C20. A successful load with SEDIMENT decoded to TRUE sets `Sediment = TRUE` and
copies SEDIMENT INPUT FILE into `SedFile`, and leaves `MassWaste`, `SurfaceErosion`
and `ErosionPeriod` as they were in the options structure before the load. -/
theorem C20_sediment_on_keeps_erosion_flags (E : COLLABORATORS) (S : SETTINGS)
    (Input : LISTPTR) (st st' : State)
    (hsed : Begins "TRUE".toList (VarStr E S Input .sediment))
    (h : InitConstants E S Input st = .ok st') :
    st'.Options.Sediment = S.TRUE ∧
    st'.Options.SedFile = VarStr E S Input .sed_input_file ∧
    st'.Options.MassWaste = st.Options.MassWaste ∧
    st'.Options.SurfaceErosion = st.Options.SurfaceErosion ∧
    st'.Options.ErosionPeriod = st.Options.ErosionPeriod := by
  unfold InitConstants Decode DetermineModelOptions at h
  simp only [bind_assoc] at h
  obtain ⟨a1, h1, h⟩ := bind_eq_ok h
  obtain ⟨a2, h2, h⟩ := bind_eq_ok h
  obtain ⟨a3, h3, h⟩ := bind_eq_ok h
  obtain ⟨a4, h4, h⟩ := bind_eq_ok h
  obtain ⟨a5, h5, h⟩ := bind_eq_ok h
  obtain ⟨a6, h6, h⟩ := bind_eq_ok h
  obtain ⟨a7, h7, h⟩ := bind_eq_ok h
  obtain ⟨a8, h8, h⟩ := bind_eq_ok h
  obtain ⟨a9, h9, h⟩ := bind_eq_ok h
  obtain ⟨a10, h10, h⟩ := bind_eq_ok h
  obtain ⟨a11, h11, h⟩ := bind_eq_ok h
  obtain ⟨a12, h12, h⟩ := bind_eq_ok h
  obtain ⟨a13, h13, h⟩ := bind_eq_ok h
  obtain ⟨a14, h14, h⟩ := bind_eq_ok h
  obtain ⟨a15, h15, h⟩ := bind_eq_ok h
  obtain ⟨a16, h16, h⟩ := bind_eq_ok h
  obtain ⟨a17, h17, h⟩ := bind_eq_ok h
  obtain ⟨a18, h18, h⟩ := bind_eq_ok h
  obtain ⟨a19, h19, h⟩ := bind_eq_ok h
  obtain ⟨a20, h20, h⟩ := bind_eq_ok h
  obtain ⟨a21, h21, h⟩ := bind_eq_ok h
  obtain ⟨a22, h22, h⟩ := bind_eq_ok h
  obtain ⟨a23, h23, h⟩ := bind_eq_ok h
  obtain ⟨a24, h24, h⟩ := bind_eq_ok h
  obtain ⟨a25, h25, h⟩ := bind_eq_ok h
  obtain ⟨a26, h26, h⟩ := bind_eq_ok h
  obtain ⟨a27, h27, h⟩ := bind_eq_ok h
  obtain ⟨a28, h28, h29⟩ := bind_eq_ok h
  obtain ⟨_, rfl⟩ := DetermineFileFormat_inv h1
  obtain ⟨_, _, rfl⟩ := DetermineExtent_inv h2
  obtain ⟨_, rfl⟩ := DetermineFlowGradient_inv h3
  obtain ⟨_, rfl⟩ := DetermineInterpolation_inv h4
  obtain ⟨_, _, rfl⟩ := DetermineCressman_inv h5
  obtain ⟨_, rfl⟩ := DetermineHasNetwork_inv h6
  obtain ⟨_, rfl⟩ := DetermineHeatFlux_inv h7
  rw [DetermineSediment_TRUE hsed] at h8
  cases h8
  obtain ⟨_, rfl⟩ := DetermineSedFile_copy rfl h9
  obtain ⟨_, rfl⟩ := DetermineRouting_inv h10
  obtain ⟨_, _, rfl⟩ := DetermineInfiltration_inv h11
  obtain ⟨_, rfl⟩ := DetermineMM5_inv h12
  obtain ⟨_, rfl⟩ := DetermineQPF_inv h13
  obtain ⟨_, rfl⟩ := DeterminePrism_inv h14
  obtain ⟨_, rfl⟩ := DetermineCanopyRadAtt_inv h15
  obtain ⟨_, rfl⟩ := DetermineShading_inv h16
  obtain rfl := CheckMM5Prism_inv h17
  obtain ⟨_, rfl⟩ := DetermineSnotel_inv h18
  obtain ⟨_, rfl⟩ := DetermineStreamTemp_inv h19
  obtain ⟨_, rfl⟩ := DetermineCanopyShading_inv h20
  obtain ⟨_, rfl⟩ := DetermineOutside_inv h21
  obtain ⟨_, _, rfl⟩ := DeterminePrismData_inv h22
  obtain ⟨_, _, _, rfl⟩ := DetermineShadingData_inv h23
  obtain ⟨_, rfl⟩ := DetermineRhoverride_inv h24
  obtain ⟨_, _, _, _, rfl⟩ := DetermineMetOptions_inv h25
  obtain ⟨_, _, rfl⟩ := DetermineArealExtent_inv h26
  obtain ⟨_, _, rfl⟩ := DeterminePoint_inv h27
  obtain ⟨_, rfl⟩ := DetermineModelPeriod_inv h28
  obtain ⟨_, rfl⟩ := DetermineModelConstants_inv h29
  exact ⟨rfl, rfl, rfl, rfl, rfl⟩

/-- C20, on a concrete configuration: the erosion flags set before the load
survive it. -/
theorem C20_sediment_on_keeps_erosion_flags_witness :
    ((InitConstants sampleCollaborators sampleSettings sampleSedimentInput
      { zeroState with Options.MassWaste := 7 }).toOption.getD zeroState).Options.MassWaste
      = 7 :=
  (C20_sediment_on_keeps_erosion_flags sampleCollaborators sampleSettings
    sampleSedimentInput { zeroState with Options.MassWaste := 7 } _ (by decide)
    (eq_ok_of_isSome (by decide) zeroState)).2.2.1

/-! ## The coordinates of the point in BASIN and in POINT mode -/

theorem DeterminePoint_skip {E : COLLABORATORS} {S : SETTINGS} (V : KEYS → List Char)
    {st : State} (h : st.Options.Extent ≠ S.POINT) :
    DeterminePoint E S V st = .ok { st with Options.PointY := 0, Options.PointX := 0 } := by
  unfold DeterminePoint
  rw [if_neg h]

theorem DeterminePoint_north {E : COLLABORATORS} {S : SETTINGS} {V : KEYS → List Char}
    {st : State} (h : st.Options.Extent = S.POINT)
    (hn : E.CopyDouble (V .point_north) 1 = none) :
    DeterminePoint E S V st = .error (.ReportError "POINT NORTH" 51) := by
  unfold DeterminePoint
  rw [if_pos h, hn]
  rfl

theorem DeterminePoint_east {E : COLLABORATORS} {S : SETTINGS} {V : KEYS → List Char}
    {st : State} {pn : ℚ} (h : st.Options.Extent = S.POINT)
    (hn : E.CopyDouble (V .point_north) 1 = some pn)
    (he : E.CopyDouble (V .point_east) 1 = none) :
    DeterminePoint E S V st = .error (.ReportError "POINT EAST" 51) := by
  unfold DeterminePoint
  rw [if_pos h, hn, he]
  rfl

/-- Over the table of resolved strings: in BASIN mode the values of POINT NORTH
and POINT EAST do not matter. -/
theorem Decode_basin_ignores_point {E : COLLABORATORS} {S : SETTINGS}
    (hS : S.POINT ≠ S.BASIN) {V : KEYS → List Char}
    (hext : Begins "BASIN".toList (V .extent)) (st : State) (s1 s2 : List Char) :
    Decode E S (Function.update (Function.update V .point_north s1) .point_east s2) st =
      Decode E S V st := by
  unfold Decode DetermineModelOptions
  simp only [bind_assoc, DetermineFileFormat_update, DetermineExtent_update, DetermineFlowGradient_update,
    DetermineInterpolation_update, DetermineCressman_update, DetermineHasNetwork_update,
    DetermineHeatFlux_update, DetermineSediment_update, DetermineSedFile_update,
    DetermineRouting_update, DetermineInfiltration_update, DetermineMM5_update,
    DetermineQPF_update, DeterminePrism_update, DetermineCanopyRadAtt_update,
    DetermineShading_update, DetermineSnotel_update, DetermineStreamTemp_update,
    DetermineCanopyShading_update, DetermineOutside_update, DeterminePrismData_update,
    DetermineShadingData_update, DetermineRhoverride_update, DetermineMetOptions_update,
    DetermineArealExtent_update, DeterminePoint_update, DetermineModelPeriod_update,
    DetermineModelConstants_update,
    List.mem_cons, List.mem_singleton, List.not_mem_nil, reduceCtorEq, or_self, or_false,
    not_false_eq_true]
  refine bind_congr_ok fun a1 h1 => ?_
  refine bind_congr_ok fun a2 h2 => ?_
  have hm := DetermineExtent_BASIN_member hS hext h2
  refine bind_congr_ok fun a3 h3 => ?_
  replace hm : a3.Options.Extent ≠ S.POINT := by
    obtain ⟨_, rfl⟩ := DetermineFlowGradient_inv h3
    exact hm
  refine bind_congr_ok fun a4 h4 => ?_
  replace hm : a4.Options.Extent ≠ S.POINT := by
    obtain ⟨_, rfl⟩ := DetermineInterpolation_inv h4
    exact hm
  refine bind_congr_ok fun a5 h5 => ?_
  replace hm : a5.Options.Extent ≠ S.POINT := by
    obtain ⟨_, _, rfl⟩ := DetermineCressman_inv h5
    exact hm
  refine bind_congr_ok fun a6 h6 => ?_
  replace hm : a6.Options.Extent ≠ S.POINT := by
    obtain ⟨_, rfl⟩ := DetermineHasNetwork_inv h6
    exact hm
  refine bind_congr_ok fun a7 h7 => ?_
  replace hm : a7.Options.Extent ≠ S.POINT := by
    obtain ⟨_, rfl⟩ := DetermineHeatFlux_inv h7
    exact hm
  refine bind_congr_ok fun a8 h8 => ?_
  replace hm : a8.Options.Extent ≠ S.POINT := by
    obtain ⟨_, _, _, _, _, rfl⟩ := DetermineSediment_inv h8
    exact hm
  refine bind_congr_ok fun a9 h9 => ?_
  replace hm : a9.Options.Extent ≠ S.POINT := by
    obtain ⟨_, rfl⟩ := DetermineSedFile_inv h9
    exact hm
  refine bind_congr_ok fun a10 h10 => ?_
  replace hm : a10.Options.Extent ≠ S.POINT := by
    obtain ⟨_, rfl⟩ := DetermineRouting_inv h10
    exact hm
  refine bind_congr_ok fun a11 h11 => ?_
  replace hm : a11.Options.Extent ≠ S.POINT := by
    obtain ⟨_, _, rfl⟩ := DetermineInfiltration_inv h11
    exact hm
  refine bind_congr_ok fun a12 h12 => ?_
  replace hm : a12.Options.Extent ≠ S.POINT := by
    obtain ⟨_, rfl⟩ := DetermineMM5_inv h12
    exact hm
  refine bind_congr_ok fun a13 h13 => ?_
  replace hm : a13.Options.Extent ≠ S.POINT := by
    obtain ⟨_, rfl⟩ := DetermineQPF_inv h13
    exact hm
  refine bind_congr_ok fun a14 h14 => ?_
  replace hm : a14.Options.Extent ≠ S.POINT := by
    obtain ⟨_, rfl⟩ := DeterminePrism_inv h14
    exact hm
  refine bind_congr_ok fun a15 h15 => ?_
  replace hm : a15.Options.Extent ≠ S.POINT := by
    obtain ⟨_, rfl⟩ := DetermineCanopyRadAtt_inv h15
    exact hm
  refine bind_congr_ok fun a16 h16 => ?_
  replace hm : a16.Options.Extent ≠ S.POINT := by
    obtain ⟨_, rfl⟩ := DetermineShading_inv h16
    exact hm
  refine bind_congr_ok fun a17 h17 => ?_
  replace hm : a17.Options.Extent ≠ S.POINT := by
    obtain rfl := CheckMM5Prism_inv h17
    exact hm
  refine bind_congr_ok fun a18 h18 => ?_
  replace hm : a18.Options.Extent ≠ S.POINT := by
    obtain ⟨_, rfl⟩ := DetermineSnotel_inv h18
    exact hm
  refine bind_congr_ok fun a19 h19 => ?_
  replace hm : a19.Options.Extent ≠ S.POINT := by
    obtain ⟨_, rfl⟩ := DetermineStreamTemp_inv h19
    exact hm
  refine bind_congr_ok fun a20 h20 => ?_
  replace hm : a20.Options.Extent ≠ S.POINT := by
    obtain ⟨_, rfl⟩ := DetermineCanopyShading_inv h20
    exact hm
  refine bind_congr_ok fun a21 h21 => ?_
  replace hm : a21.Options.Extent ≠ S.POINT := by
    obtain ⟨_, rfl⟩ := DetermineOutside_inv h21
    exact hm
  refine bind_congr_ok fun a22 h22 => ?_
  replace hm : a22.Options.Extent ≠ S.POINT := by
    obtain ⟨_, _, rfl⟩ := DeterminePrismData_inv h22
    exact hm
  refine bind_congr_ok fun a23 h23 => ?_
  replace hm : a23.Options.Extent ≠ S.POINT := by
    obtain ⟨_, _, _, rfl⟩ := DetermineShadingData_inv h23
    exact hm
  refine bind_congr_ok fun a24 h24 => ?_
  replace hm : a24.Options.Extent ≠ S.POINT := by
    obtain ⟨_, rfl⟩ := DetermineRhoverride_inv h24
    exact hm
  refine bind_congr_ok fun a25 h25 => ?_
  replace hm : a25.Options.Extent ≠ S.POINT := by
    obtain ⟨_, _, _, _, rfl⟩ := DetermineMetOptions_inv h25
    exact hm
  refine bind_congr_ok fun a26 h26 => ?_
  replace hm : a26.Options.Extent ≠ S.POINT := by
    obtain ⟨_, _, rfl⟩ := DetermineArealExtent_inv h26
    exact hm
  rw [DeterminePoint_skip V hm, DeterminePoint_skip _ hm]

/-- Over the table of resolved strings: if some values of POINT NORTH and POINT
EAST let the pass succeed, then in POINT mode the pass fails wherever the block
of the point does. -/
theorem Decode_point_fails {E : COLLABORATORS} {S : SETTINGS}
    {V : KEYS → List Char} {st st0 : State} {s1 s2 : List Char} {e : Failure}
    (h : Decode E S (Function.update (Function.update V .point_north s1)
      .point_east s2) st = .ok st0)
    (hext : Begins "POINT".toList (V .extent))
    (hblk : ∀ a : State, a.Options.Extent = S.POINT → DeterminePoint E S V a = .error e) :
    Decode E S V st = .error e := by
  unfold Decode DetermineModelOptions at h ⊢
  simp only [bind_assoc, DetermineFileFormat_update, DetermineExtent_update, DetermineFlowGradient_update,
    DetermineInterpolation_update, DetermineCressman_update, DetermineHasNetwork_update,
    DetermineHeatFlux_update, DetermineSediment_update, DetermineSedFile_update,
    DetermineRouting_update, DetermineInfiltration_update, DetermineMM5_update,
    DetermineQPF_update, DeterminePrism_update, DetermineCanopyRadAtt_update,
    DetermineShading_update, DetermineSnotel_update, DetermineStreamTemp_update,
    DetermineCanopyShading_update, DetermineOutside_update, DeterminePrismData_update,
    DetermineShadingData_update, DetermineRhoverride_update, DetermineMetOptions_update,
    DetermineArealExtent_update, DeterminePoint_update, DetermineModelPeriod_update,
    DetermineModelConstants_update,
    List.mem_cons, List.mem_singleton, List.not_mem_nil, reduceCtorEq, or_self, or_false,
    not_false_eq_true] at h
  simp only [bind_assoc]
  obtain ⟨a1, h1, h⟩ := bind_eq_ok h
  rw [h1, bind_ok_eq]
  obtain ⟨a2, h2, h⟩ := bind_eq_ok h
  rw [h2, bind_ok_eq]
  have hm := DetermineExtent_POINT_member hext h2
  obtain ⟨a3, h3, h⟩ := bind_eq_ok h
  rw [h3, bind_ok_eq]
  replace hm : a3.Options.Extent = S.POINT := by
    obtain ⟨_, rfl⟩ := DetermineFlowGradient_inv h3
    exact hm
  obtain ⟨a4, h4, h⟩ := bind_eq_ok h
  rw [h4, bind_ok_eq]
  replace hm : a4.Options.Extent = S.POINT := by
    obtain ⟨_, rfl⟩ := DetermineInterpolation_inv h4
    exact hm
  obtain ⟨a5, h5, h⟩ := bind_eq_ok h
  rw [h5, bind_ok_eq]
  replace hm : a5.Options.Extent = S.POINT := by
    obtain ⟨_, _, rfl⟩ := DetermineCressman_inv h5
    exact hm
  obtain ⟨a6, h6, h⟩ := bind_eq_ok h
  rw [h6, bind_ok_eq]
  replace hm : a6.Options.Extent = S.POINT := by
    obtain ⟨_, rfl⟩ := DetermineHasNetwork_inv h6
    exact hm
  obtain ⟨a7, h7, h⟩ := bind_eq_ok h
  rw [h7, bind_ok_eq]
  replace hm : a7.Options.Extent = S.POINT := by
    obtain ⟨_, rfl⟩ := DetermineHeatFlux_inv h7
    exact hm
  obtain ⟨a8, h8, h⟩ := bind_eq_ok h
  rw [h8, bind_ok_eq]
  replace hm : a8.Options.Extent = S.POINT := by
    obtain ⟨_, _, _, _, _, rfl⟩ := DetermineSediment_inv h8
    exact hm
  obtain ⟨a9, h9, h⟩ := bind_eq_ok h
  rw [h9, bind_ok_eq]
  replace hm : a9.Options.Extent = S.POINT := by
    obtain ⟨_, rfl⟩ := DetermineSedFile_inv h9
    exact hm
  obtain ⟨a10, h10, h⟩ := bind_eq_ok h
  rw [h10, bind_ok_eq]
  replace hm : a10.Options.Extent = S.POINT := by
    obtain ⟨_, rfl⟩ := DetermineRouting_inv h10
    exact hm
  obtain ⟨a11, h11, h⟩ := bind_eq_ok h
  rw [h11, bind_ok_eq]
  replace hm : a11.Options.Extent = S.POINT := by
    obtain ⟨_, _, rfl⟩ := DetermineInfiltration_inv h11
    exact hm
  obtain ⟨a12, h12, h⟩ := bind_eq_ok h
  rw [h12, bind_ok_eq]
  replace hm : a12.Options.Extent = S.POINT := by
    obtain ⟨_, rfl⟩ := DetermineMM5_inv h12
    exact hm
  obtain ⟨a13, h13, h⟩ := bind_eq_ok h
  rw [h13, bind_ok_eq]
  replace hm : a13.Options.Extent = S.POINT := by
    obtain ⟨_, rfl⟩ := DetermineQPF_inv h13
    exact hm
  obtain ⟨a14, h14, h⟩ := bind_eq_ok h
  rw [h14, bind_ok_eq]
  replace hm : a14.Options.Extent = S.POINT := by
    obtain ⟨_, rfl⟩ := DeterminePrism_inv h14
    exact hm
  obtain ⟨a15, h15, h⟩ := bind_eq_ok h
  rw [h15, bind_ok_eq]
  replace hm : a15.Options.Extent = S.POINT := by
    obtain ⟨_, rfl⟩ := DetermineCanopyRadAtt_inv h15
    exact hm
  obtain ⟨a16, h16, h⟩ := bind_eq_ok h
  rw [h16, bind_ok_eq]
  replace hm : a16.Options.Extent = S.POINT := by
    obtain ⟨_, rfl⟩ := DetermineShading_inv h16
    exact hm
  obtain ⟨a17, h17, h⟩ := bind_eq_ok h
  rw [h17, bind_ok_eq]
  replace hm : a17.Options.Extent = S.POINT := by
    obtain rfl := CheckMM5Prism_inv h17
    exact hm
  obtain ⟨a18, h18, h⟩ := bind_eq_ok h
  rw [h18, bind_ok_eq]
  replace hm : a18.Options.Extent = S.POINT := by
    obtain ⟨_, rfl⟩ := DetermineSnotel_inv h18
    exact hm
  obtain ⟨a19, h19, h⟩ := bind_eq_ok h
  rw [h19, bind_ok_eq]
  replace hm : a19.Options.Extent = S.POINT := by
    obtain ⟨_, rfl⟩ := DetermineStreamTemp_inv h19
    exact hm
  obtain ⟨a20, h20, h⟩ := bind_eq_ok h
  rw [h20, bind_ok_eq]
  replace hm : a20.Options.Extent = S.POINT := by
    obtain ⟨_, rfl⟩ := DetermineCanopyShading_inv h20
    exact hm
  obtain ⟨a21, h21, h⟩ := bind_eq_ok h
  rw [h21, bind_ok_eq]
  replace hm : a21.Options.Extent = S.POINT := by
    obtain ⟨_, rfl⟩ := DetermineOutside_inv h21
    exact hm
  obtain ⟨a22, h22, h⟩ := bind_eq_ok h
  rw [h22, bind_ok_eq]
  replace hm : a22.Options.Extent = S.POINT := by
    obtain ⟨_, _, rfl⟩ := DeterminePrismData_inv h22
    exact hm
  obtain ⟨a23, h23, h⟩ := bind_eq_ok h
  rw [h23, bind_ok_eq]
  replace hm : a23.Options.Extent = S.POINT := by
    obtain ⟨_, _, _, rfl⟩ := DetermineShadingData_inv h23
    exact hm
  obtain ⟨a24, h24, h⟩ := bind_eq_ok h
  rw [h24, bind_ok_eq]
  replace hm : a24.Options.Extent = S.POINT := by
    obtain ⟨_, rfl⟩ := DetermineRhoverride_inv h24
    exact hm
  obtain ⟨a25, h25, h⟩ := bind_eq_ok h
  rw [h25, bind_ok_eq]
  replace hm : a25.Options.Extent = S.POINT := by
    obtain ⟨_, _, _, _, rfl⟩ := DetermineMetOptions_inv h25
    exact hm
  obtain ⟨a26, h26, h⟩ := bind_eq_ok h
  rw [h26, bind_ok_eq]
  replace hm : a26.Options.Extent = S.POINT := by
    obtain ⟨_, _, rfl⟩ := DetermineArealExtent_inv h26
    exact hm
  rw [hblk _ hm]
  rfl

/-- C21. When EXTENT decodes to BASIN, a successful load has `PointX = 0` and
`PointY = 0`, and every input that differs in POINT NORTH and POINT EAST alone
(empty or non-numeric values included) has the same outcome.  When EXTENT
decodes to POINT, in a configuration that is valid but for these two keys (some
values of them let the load succeed), a POINT NORTH that `CopyDouble` rejects
makes the load fail with `ReportError` on POINT NORTH and code 51, and a POINT
EAST that it rejects, after a POINT NORTH that parses, makes it fail on POINT
EAST. -/
theorem C21_point_keys_by_extent (E : COLLABORATORS) (S : SETTINGS) (hS : S.Distinct) :
    (∀ (Input : LISTPTR) (st : State),
      Begins "BASIN".toList (VarStr E S Input .extent) →
      (∀ st', InitConstants E S Input st = .ok st' →
        st'.Options.PointX = 0 ∧ st'.Options.PointY = 0) ∧
      (∀ Input', AgreeOutside [.point_north, .point_east]
          (VarStr E S Input) (VarStr E S Input') →
        InitConstants E S Input' st = InitConstants E S Input st)) ∧
    (∀ (Input Input0 : LISTPTR) (st st0 : State),
      AgreeOutside [.point_north, .point_east] (VarStr E S Input) (VarStr E S Input0) →
      InitConstants E S Input0 st = .ok st0 →
      Begins "POINT".toList (VarStr E S Input .extent) →
      (E.CopyDouble (VarStr E S Input .point_north) 1 = none →
        InitConstants E S Input st = .error (.ReportError "POINT NORTH" 51)) ∧
      (∀ pn, E.CopyDouble (VarStr E S Input .point_north) 1 = some pn →
        E.CopyDouble (VarStr E S Input .point_east) 1 = none →
        InitConstants E S Input st = .error (.ReportError "POINT EAST" 51))) := by
  constructor
  · intro Input st hext
    constructor
    · intro st' h
      unfold InitConstants Decode DetermineModelOptions at h
      simp only [bind_assoc] at h
      obtain ⟨a1, h1, h⟩ := bind_eq_ok h
      obtain ⟨a2, h2, h⟩ := bind_eq_ok h
      obtain ⟨a3, h3, h⟩ := bind_eq_ok h
      obtain ⟨a4, h4, h⟩ := bind_eq_ok h
      obtain ⟨a5, h5, h⟩ := bind_eq_ok h
      obtain ⟨a6, h6, h⟩ := bind_eq_ok h
      obtain ⟨a7, h7, h⟩ := bind_eq_ok h
      obtain ⟨a8, h8, h⟩ := bind_eq_ok h
      obtain ⟨a9, h9, h⟩ := bind_eq_ok h
      obtain ⟨a10, h10, h⟩ := bind_eq_ok h
      obtain ⟨a11, h11, h⟩ := bind_eq_ok h
      obtain ⟨a12, h12, h⟩ := bind_eq_ok h
      obtain ⟨a13, h13, h⟩ := bind_eq_ok h
      obtain ⟨a14, h14, h⟩ := bind_eq_ok h
      obtain ⟨a15, h15, h⟩ := bind_eq_ok h
      obtain ⟨a16, h16, h⟩ := bind_eq_ok h
      obtain ⟨a17, h17, h⟩ := bind_eq_ok h
      obtain ⟨a18, h18, h⟩ := bind_eq_ok h
      obtain ⟨a19, h19, h⟩ := bind_eq_ok h
      obtain ⟨a20, h20, h⟩ := bind_eq_ok h
      obtain ⟨a21, h21, h⟩ := bind_eq_ok h
      obtain ⟨a22, h22, h⟩ := bind_eq_ok h
      obtain ⟨a23, h23, h⟩ := bind_eq_ok h
      obtain ⟨a24, h24, h⟩ := bind_eq_ok h
      obtain ⟨a25, h25, h⟩ := bind_eq_ok h
      obtain ⟨a26, h26, h⟩ := bind_eq_ok h
      obtain ⟨a27, h27, h⟩ := bind_eq_ok h
      obtain ⟨a28, h28, h29⟩ := bind_eq_ok h
      have hm := DetermineExtent_BASIN_member hS.2.1 hext h2
      replace hm : a3.Options.Extent ≠ S.POINT := by
        obtain ⟨_, rfl⟩ := DetermineFlowGradient_inv h3
        exact hm
      replace hm : a4.Options.Extent ≠ S.POINT := by
        obtain ⟨_, rfl⟩ := DetermineInterpolation_inv h4
        exact hm
      replace hm : a5.Options.Extent ≠ S.POINT := by
        obtain ⟨_, _, rfl⟩ := DetermineCressman_inv h5
        exact hm
      replace hm : a6.Options.Extent ≠ S.POINT := by
        obtain ⟨_, rfl⟩ := DetermineHasNetwork_inv h6
        exact hm
      replace hm : a7.Options.Extent ≠ S.POINT := by
        obtain ⟨_, rfl⟩ := DetermineHeatFlux_inv h7
        exact hm
      replace hm : a8.Options.Extent ≠ S.POINT := by
        obtain ⟨_, _, _, _, _, rfl⟩ := DetermineSediment_inv h8
        exact hm
      replace hm : a9.Options.Extent ≠ S.POINT := by
        obtain ⟨_, rfl⟩ := DetermineSedFile_inv h9
        exact hm
      replace hm : a10.Options.Extent ≠ S.POINT := by
        obtain ⟨_, rfl⟩ := DetermineRouting_inv h10
        exact hm
      replace hm : a11.Options.Extent ≠ S.POINT := by
        obtain ⟨_, _, rfl⟩ := DetermineInfiltration_inv h11
        exact hm
      replace hm : a12.Options.Extent ≠ S.POINT := by
        obtain ⟨_, rfl⟩ := DetermineMM5_inv h12
        exact hm
      replace hm : a13.Options.Extent ≠ S.POINT := by
        obtain ⟨_, rfl⟩ := DetermineQPF_inv h13
        exact hm
      replace hm : a14.Options.Extent ≠ S.POINT := by
        obtain ⟨_, rfl⟩ := DeterminePrism_inv h14
        exact hm
      replace hm : a15.Options.Extent ≠ S.POINT := by
        obtain ⟨_, rfl⟩ := DetermineCanopyRadAtt_inv h15
        exact hm
      replace hm : a16.Options.Extent ≠ S.POINT := by
        obtain ⟨_, rfl⟩ := DetermineShading_inv h16
        exact hm
      replace hm : a17.Options.Extent ≠ S.POINT := by
        obtain rfl := CheckMM5Prism_inv h17
        exact hm
      replace hm : a18.Options.Extent ≠ S.POINT := by
        obtain ⟨_, rfl⟩ := DetermineSnotel_inv h18
        exact hm
      replace hm : a19.Options.Extent ≠ S.POINT := by
        obtain ⟨_, rfl⟩ := DetermineStreamTemp_inv h19
        exact hm
      replace hm : a20.Options.Extent ≠ S.POINT := by
        obtain ⟨_, rfl⟩ := DetermineCanopyShading_inv h20
        exact hm
      replace hm : a21.Options.Extent ≠ S.POINT := by
        obtain ⟨_, rfl⟩ := DetermineOutside_inv h21
        exact hm
      replace hm : a22.Options.Extent ≠ S.POINT := by
        obtain ⟨_, _, rfl⟩ := DeterminePrismData_inv h22
        exact hm
      replace hm : a23.Options.Extent ≠ S.POINT := by
        obtain ⟨_, _, _, rfl⟩ := DetermineShadingData_inv h23
        exact hm
      replace hm : a24.Options.Extent ≠ S.POINT := by
        obtain ⟨_, rfl⟩ := DetermineRhoverride_inv h24
        exact hm
      replace hm : a25.Options.Extent ≠ S.POINT := by
        obtain ⟨_, _, _, _, rfl⟩ := DetermineMetOptions_inv h25
        exact hm
      replace hm : a26.Options.Extent ≠ S.POINT := by
        obtain ⟨_, _, rfl⟩ := DetermineArealExtent_inv h26
        exact hm
      rw [DeterminePoint_skip _ hm] at h27
      cases h27
      obtain ⟨_, rfl⟩ := DetermineModelPeriod_inv h28
      obtain ⟨_, rfl⟩ := DetermineModelConstants_inv h29
      exact ⟨rfl, rfl⟩
    · intro Input' hagree
      unfold InitConstants
      rw [update2_VarStr_of_agree hagree]
      exact Decode_basin_ignores_point hS.2.1 hext st _ _
  · intro Input Input0 st st0 hagree h0 hext
    unfold InitConstants at h0 ⊢
    rw [update2_VarStr_of_agree hagree] at h0
    exact ⟨fun hn => Decode_point_fails h0 hext fun a ha => DeterminePoint_north ha hn,
      fun pn hn he => Decode_point_fails h0 hext fun a ha => DeterminePoint_east ha hn he⟩

/-- C21, on a concrete configuration: a POINT NORTH that is not a number changes
nothing in BASIN mode and is fatal in POINT mode. -/
theorem C21_point_keys_by_extent_witness :
    sampleSettings.Distinct ∧
    InitConstants sampleCollaborators sampleSettings
      (("AREA", "POINT NORTH", "north".toList) :: sampleInput) zeroState =
      InitConstants sampleCollaborators sampleSettings sampleInput zeroState ∧
    InitConstants sampleCollaborators sampleSettings
      (("AREA", "POINT NORTH", "north".toList) :: samplePointInput) zeroState =
      .error (.ReportError "POINT NORTH" 51) :=
  ⟨by decide,
    ((C21_point_keys_by_extent sampleCollaborators sampleSettings (by decide)).1
      sampleInput zeroState (by decide)).2 _
      (by intro k hk; revert hk; cases k <;> decide),
    ((C21_point_keys_by_extent sampleCollaborators sampleSettings (by decide)).2
      (("AREA", "POINT NORTH", "north".toList) :: samplePointInput) samplePointInput
      zeroState _ (by intro k hk; revert hk; cases k <;> decide)
      (eq_ok_of_isSome (by decide) zeroState) (by decide)).1 (by decide)⟩

end DHSVM
